import Mathlib

/-!
# ATTN Protocol event validation

A shallow embedding of the Go validators of `relay/pkg/validation/helpers.go`,
`go-core/validation/validation.go`, `go-core/validation/marketplace.go` and
`relay/pkg/validation/validation.go`, followed by theorems about them.

Modelling conventions
* Go `string` is `String`; every byte-level library function used by the source
  (`strings.HasPrefix`, `strings.Split`, ...) is modelled on the character list
  `String.data`. The separators and prefixes the source passes are ASCII, for which
  the byte view and the character view of a UTF-8 string agree.
* Go `int` is `Int`; `strconv.Atoi` enforces the 64-bit range explicitly.
* Go `error` is `Except String Unit`: `.ok ()` is `nil`, `.error msg` carries `err.Error()`.
* `map[K]V` is an association list read with `List.lookup`.
* A decoded JSON number (`float64`) is the rational number it denotes; JSON decoding
  never yields NaN or an infinity, so `<`, `<=` and `>` agree with the rational order.
* A failed single-result type assertion panics: validators that contain one return
  `Option ValidationResult`, `none` being the panic.
* The `logger.Debug()` calls write a log line and do not influence the result; they
  are left out.
-/

set_option autoImplicit false

namespace Attn

/-! ## Library functions of the Go standard library -/

/-- Model of `strings.HasPrefix(s, pre)`. -/
def HasPrefix (s pre : String) : Bool :=
  pre.data.isPrefixOf s.data

/-- Model of `strings.HasSuffix(s, suf)`. -/
def HasSuffix (s suf : String) : Bool :=
  suf.data.reverse.isPrefixOf s.data.reverse

/-- Model of `strings.TrimPrefix(s, pre)`: `s` without the leading `pre`, or `s` itself. -/
def TrimPrefix (s pre : String) : String :=
  if HasPrefix s pre then ⟨s.data.drop pre.data.length⟩ else s

/-- Whether `sub` occurs as a contiguous block of the character list. -/
def containsChars (sub : List Char) : List Char → Bool
  | [] => sub.isPrefixOf []
  | c :: cs => sub.isPrefixOf (c :: cs) || containsChars sub cs

/-- Model of `strings.Contains(s, sub)`. -/
def Contains (s sub : String) : Bool :=
  containsChars sub.data s.data

/-- Cut a character list at every occurrence of `sep`; the result is never empty. -/
def splitChars (sep : Char) : List Char → List (List Char)
  | [] => [[]]
  | c :: cs =>
    if c = sep then [] :: splitChars sep cs
    else
      match splitChars sep cs with
      | [] => [[c]]
      | seg :: segs => (c :: seg) :: segs

/-- Model of `strings.Split(s, sep)` for a one-byte separator (the source only passes `":"`). -/
def Split (s : String) (sep : Char) : List String :=
  (splitChars sep s.data).map String.mk

/-- Cut a character list at the first occurrence of `sep` only. -/
def splitFirst (sep : Char) : List Char → List (List Char)
  | [] => [[]]
  | c :: cs =>
    if c = sep then [[], cs]
    else
      match splitFirst sep cs with
      | [] => [[c]]
      | seg :: segs => (c :: seg) :: segs

/-- Model of `strings.SplitN(s, sep, 2)` for a one-byte separator: at most two parts. -/
def SplitN2 (s : String) (sep : Char) : List String :=
  (splitFirst sep s.data).map String.mk

/-- Value of a run of decimal digits, most significant first. -/
def parseDigits (cs : List Char) : Nat :=
  cs.foldl (fun n c => n * 10 + (c.toNat - '0'.toNat)) 0

/-- Model of `strconv.Atoi(s)` on a 64-bit platform: an optional sign followed by one or
more decimal digits, whose value fits a signed 64-bit integer; `none` is the error. -/
def Atoi (s : String) : Option Int :=
  match s.data with
  | [] => none
  | c :: cs =>
    let body := if c = '-' ∨ c = '+' then cs else c :: cs
    if body = [] then none
    else if body.all Char.isDigit then
      let n : Int := (parseDigits body : Nat)
      let v : Int := if c = '-' then -n else n
      if -(2 : Int) ^ 63 ≤ v ∧ v ≤ (2 : Int) ^ 63 - 1 then some v else none
    else none

/-- Model of the `%d` verb of `fmt` for an `int`. -/
def fmtInt (k : Int) : String :=
  toString k

/-- Errors are compared by their message. -/
instance instDecidableEqError : DecidableEq (Except String Unit)
  | .ok (), .ok () => isTrue rfl
  | .error a, .error b =>
    if h : a = b then isTrue (by rw [h]) else isFalse (fun h2 => h (Except.error.inj h2))
  | .ok (), .error _ => isFalse (fun h => Except.noConfusion h)
  | .error _, .ok () => isFalse (fun h => Except.noConfusion h)

/-! ## Data model -/

/-- Model of `ValidationResult`. -/
structure ValidationResult where
  Valid : Bool
  Message : String
  deriving DecidableEq, Repr

/-- The fields of `nostr.Event` that the validators read (`ID` is only logged). -/
structure Event where
  Kind : Int
  PubKey : String
  Content : String
  Tags : List (List String)
  deriving DecidableEq, Repr

/-- A decoded JSON value, as `encoding/json` stores it in an `interface{}`. -/
inductive JSONValue where
  | null : JSONValue
  | bool (b : Bool) : JSONValue
  | number (x : Rat) : JSONValue
  | string (s : String) : JSONValue
  | array (xs : List JSONValue) : JSONValue
  | object (kvs : List (String × JSONValue)) : JSONValue

/-- The type `map[string]interface{}` that the payload is decoded into. -/
abbrev JSONObject := List (String × JSONValue)

/-- The two library functions whose definition lies outside the modelled fragment.
`Unmarshal` is `json.Unmarshal([]byte(content), &map)`: `none` is a decoding error,
`some m` the decoded map. `EqualFold` is `strings.EqualFold`. -/
structure GoLib where
  Unmarshal : String → Option JSONObject
  EqualFold : String → String → Bool

/-- The two-result assertion `v.(float64)` on a map read: the number, or `none` for `!ok`. -/
def asFloat : Option JSONValue → Option Rat
  | some (JSONValue.number x) => some x
  | _ => none

/-- The two-result assertion `v.(string)` on a map read. -/
def asString : Option JSONValue → Option String
  | some (JSONValue.string s) => some s
  | _ => none

/-- The two-result assertion `v.([]interface{})`, reduced to its `ok` flag. -/
def isArray : JSONValue → Bool
  | JSONValue.array _ => true
  | _ => false

/-! ## Helper functions of helpers.go -/

/-- The table `eventTypeMap` of `validateDTagFormat`. -/
def eventTypeMap : List (Int × String) :=
  [ (38088, "block"),
    (38188, "marketplace"),
    (38288, "billboard"),
    (38388, "promotion"),
    (38488, "attention"),
    (38588, "billboard-confirmation"),
    (38688, "attention-confirmation"),
    (38788, "marketplace-confirmation"),
    (38888, "match"),
    (38988, "attention-payment-confirmation") ]

/-- Embedding of `validateDTagFormat` (helpers.go). -/
def validateDTagFormat (kind : Int) (dTag : String) : Except String Unit :=
  let expectedPrefix := "org.attnprotocol:"
  if !HasPrefix dTag expectedPrefix then
    .error ("d tag must start with '" ++ expectedPrefix ++ "'")
  else
    match eventTypeMap.lookup kind with
    | none => .error ("unknown event kind: " ++ fmtInt kind)
    | some expectedType =>
      let remaining := TrimPrefix dTag expectedPrefix
      if remaining = dTag then
        .error "d tag must start with 'org.attnprotocol:'"
      else
        match SplitN2 remaining ':' with
        | eventType :: identifier :: _ =>
          if eventType ≠ expectedType then
            .error ("d tag event type mismatch: expected '" ++ expectedType ++ "', got '"
              ++ eventType ++ "'")
          else if identifier = "" then
            .error "d tag identifier is empty"
          else .ok ()
        | _ =>
          .error ("d tag format invalid: expected org.attnprotocol:<event_type>:<identifier>, got '"
            ++ dTag ++ "'")

/-- Embedding of `validateCoordinateFormat` (helpers.go). -/
def validateCoordinateFormat (coordinate : String) (expectedKind : Int) : Except String Unit :=
  let parts := Split coordinate ':'
  if parts.length < 3 then
    .error "coordinate format invalid: expected kind:pubkey:identifier"
  else
    match Atoi (parts.getD 0 "") with
    | none => .error ("coordinate kind must be numeric: " ++ parts.getD 0 "")
    | some coordKind =>
      if coordKind ≠ expectedKind then
        .error ("coordinate kind mismatch: expected " ++ fmtInt expectedKind ++ ", got "
          ++ fmtInt coordKind)
      else if 38088 ≤ coordKind ∧ coordKind ≤ 38988 then
        if parts.length < 4 then
          .error "protocol coordinate format invalid: expected kind:pubkey:org.attnprotocol:event_type:identifier"
        else if parts.getD 2 "" ≠ "org.attnprotocol" then
          .error "protocol coordinate must include 'org.attnprotocol:' prefix"
        else if parts.length < 5 then
          .error "protocol coordinate format invalid: expected kind:pubkey:org.attnprotocol:event_type:identifier"
        else if parts.getD 3 "" = "" then
          .error "protocol coordinate event type is empty"
        else .ok ()
      else .ok ()

/-- Embedding of `validateETagWithMarker` (helpers.go). -/
def validateETagWithMarker (event : Event) (marker : String) : Bool :=
  event.Tags.any (fun tag => decide (tag.length ≥ 4) && tag.getD 0 "" == "e" && tag.getD 3 "" == marker)

/-- Embedding of `getTagValue` (helpers.go), as a loop over the remaining tags. -/
def getTagValueIn (tagName : String) : List (List String) → String
  | [] => ""
  | tag :: rest =>
    if tag.length ≥ 2 ∧ tag.getD 0 "" = tagName then tag.getD 1 ""
    else getTagValueIn tagName rest

/-- Embedding of `getTagValue` (helpers.go). -/
def getTagValue (event : Event) (tagName : String) : String :=
  getTagValueIn tagName event.Tags

/-- Loop of `getTagValueByPrefix` (helpers.go) over the remaining tags. -/
def getTagValueByPrefixIn (tagName pre : String) : List (List String) → String
  | [] => ""
  | tag :: rest =>
    if tag.length ≥ 2 ∧ tag.getD 0 "" = tagName ∧ HasPrefix (tag.getD 1 "") pre = true then
      tag.getD 1 ""
    else getTagValueByPrefixIn tagName pre rest

/-- Embedding of `getTagValueByPrefix` (helpers.go). -/
def getTagValueByPrefix (event : Event) (tagName pre : String) : String :=
  getTagValueByPrefixIn tagName pre event.Tags

/-- Loop of `getTagValues` (helpers.go) over the remaining tags. -/
def getTagValuesIn (tagName : String) : List (List String) → List String
  | [] => []
  | tag :: rest =>
    if tag.length ≥ 2 ∧ tag.getD 0 "" = tagName then tag.getD 1 "" :: getTagValuesIn tagName rest
    else getTagValuesIn tagName rest

/-- Embedding of `getTagValues` (helpers.go). -/
def getTagValues (event : Event) (tagName : String) : List String :=
  getTagValuesIn tagName event.Tags

/-- Embedding of `parseHeight` (helpers.go), reduced to whether it returns an error: the
parsed value is discarded by its only caller. -/
def parseHeight : JSONValue → Except String Unit
  | JSONValue.number _ => .ok ()
  | JSONValue.string v =>
    match Atoi v with
    | some _ => .ok ()
    | none => .error "strconv.ParseInt: parsing error"
  | _ => .error "unsupported height type"

/-- Embedding of `hasListCoordinate` (helpers.go). -/
def hasListCoordinate (event : Event) (suffix : String) : Bool :=
  event.Tags.any (fun tag =>
    decide (tag.length ≥ 2) && tag.getD 0 "" == "a" && HasPrefix (tag.getD 1 "") "30000:"
      && HasSuffix (tag.getD 1 "") suffix)

/-- The table `allowedTags` of `validateOfficialTagsOnly`. -/
def allowedTags : List String :=
  ["d", "t", "a", "e", "p", "r", "k", "u"]

/-- Loop of `validateOfficialTagsOnly` (helpers.go) over the remaining tags. -/
def validateOfficialTagsIn : List (List String) → ValidationResult
  | [] => { Valid := true, Message := "All tags are official Nostr tags" }
  | tag :: rest =>
    match tag with
    | [] => validateOfficialTagsIn rest
    | tagName :: _ =>
      if tagName ∉ allowedTags then
        { Valid := false,
          Message := "Non-standard tag '" ++ tagName
            ++ "' not allowed. Only official Nostr tags are permitted: d, t, a, e, p, r, k, u" }
      else validateOfficialTagsIn rest

/-- Embedding of `validateOfficialTagsOnly` (helpers.go). -/
def validateOfficialTagsOnly (event : Event) : ValidationResult :=
  validateOfficialTagsIn event.Tags

/-- The loop `for _, field := range requiredFields` of the per-kind validators: the first
listed field that the decoded payload lacks, if any. -/
def firstMissingField (contentData : JSONObject) : List String → Option String
  | [] => none
  | field :: rest =>
    if (contentData.lookup field).isNone then some field
    else firstMissingField contentData rest

/-- The condition `!ok || x <= 0` on the outcome of a two-result `float64` assertion. -/
def notPositive : Option Rat → Bool
  | none => true
  | some x => decide (x ≤ 0)

/-- The condition `!ok || x < 0` on the outcome of a two-result `float64` assertion. -/
def isNegative : Option Rat → Bool
  | none => true
  | some x => decide (x < 0)

/-! ## Per-kind validators of helpers.go -/

/-- Embedding of `ValidateAttentionEvent` (helpers.go, kind 38488). -/
def ValidateAttentionEvent (L : GoLib) (event : Event) : Option ValidationResult :=
  let dTag := getTagValue event "d"
  if dTag = "" then
    some { Valid := false, Message := "Missing 'd' tag (attention identifier)" }
  else
  match validateDTagFormat 38488 dTag with
  | .error err => some { Valid := false, Message := "Invalid d tag format: " ++ err }
  | .ok _ =>
  let blockHeight := getTagValue event "t"
  if blockHeight = "" then
    some { Valid := false, Message := "Missing 't' tag (block height)" }
  else
  if (Atoi blockHeight).isNone then
    some { Valid := false, Message := "Invalid block height in 't' tag: must be numeric" }
  else
  let marketplaceCoord := getTagValueByPrefix event "a" "38188:"
  if marketplaceCoord = "" then
    some { Valid := false, Message := "Missing marketplace coordinate 'a' tag (format: 38188:pubkey:org.attnprotocol:marketplace:id)" }
  else
  match validateCoordinateFormat marketplaceCoord 38188 with
  | .error err =>
    some { Valid := false, Message := "Invalid marketplace coordinate format: " ++ err }
  | .ok _ =>
  if !hasListCoordinate event "org.attnprotocol:promotion:blocked" then
    some { Valid := false, Message := "Missing blocked promotions coordinate 'a' tag (format: 30000:<pubkey>:org.attnprotocol:promotion:blocked)" }
  else
  if !hasListCoordinate event "org.attnprotocol:promoter:blocked" then
    some { Valid := false, Message := "Missing blocked promoters coordinate 'a' tag (format: 30000:<pubkey>:org.attnprotocol:promoter:blocked)" }
  else
  let hasTrustedMarketplaces := hasListCoordinate event "org.attnprotocol:marketplace:trusted"
  let hasTrustedBillboards := hasListCoordinate event "org.attnprotocol:billboard:trusted"
  if (getTagValues event "p").length < 2 then
    some { Valid := false, Message := "Missing required 'p' tags (attention_pubkey and marketplace_pubkey)" }
  else
  if (getTagValues event "r").length = 0 then
    some { Valid := false, Message := "Missing required 'r' tags (relay URLs)" }
  else
  if (getTagValues event "k").length = 0 then
    some { Valid := false, Message := "Missing required 'k' tags (event kinds)" }
  else
  match L.Unmarshal event.Content with
  | none => some { Valid := false, Message := "Content must be valid JSON" }
  | some contentData =>
  match firstMissingField contentData
      ["ask", "min_duration", "max_duration", "ref_attention_pubkey", "ref_attention_id",
       "ref_marketplace_pubkey", "ref_marketplace_id", "blocked_promotions_id",
       "blocked_promoters_id"] with
  | some field => some { Valid := false, Message := "Content must include " ++ field }
  | none =>
  if hasTrustedMarketplaces && (contentData.lookup "trusted_marketplaces_id").isNone then
    some { Valid := false, Message := "trusted_marketplaces_id must be present in content if trusted marketplaces coordinate is in tags" }
  else
  if hasTrustedBillboards && (contentData.lookup "trusted_billboards_id").isNone then
    some { Valid := false, Message := "trusted_billboards_id must be present in content if trusted billboards coordinate is in tags" }
  else
  if notPositive (asFloat (contentData.lookup "ask")) then
    some { Valid := false, Message := "ask must be a positive number" }
  else
  if notPositive (asFloat (contentData.lookup "min_duration")) then
    some { Valid := false, Message := "min_duration must be a positive number" }
  else
  if notPositive (asFloat (contentData.lookup "max_duration")) then
    some { Valid := false, Message := "max_duration must be a positive number" }
  else
  match asFloat (contentData.lookup "min_duration"), asFloat (contentData.lookup "max_duration") with
  | some minDur, some maxDur =>
    if minDur > maxDur then
      some { Valid := false, Message := "min_duration must be <= max_duration" }
    else some { Valid := true, Message := "Valid attention event" }
  | _, _ => none

/-- Embedding of `ValidateMarketplaceEvent` (helpers.go, kind 38188). -/
def ValidateMarketplaceEvent (L : GoLib) (event : Event) : Option ValidationResult :=
  let dTag := getTagValue event "d"
  if dTag = "" then
    some { Valid := false, Message := "Missing 'd' tag (marketplace identifier)" }
  else
  match validateDTagFormat 38188 dTag with
  | .error err => some { Valid := false, Message := "Invalid d tag format: " ++ err }
  | .ok _ =>
  let blockHeight := getTagValue event "t"
  if blockHeight = "" then
    some { Valid := false, Message := "Missing 't' tag (block height)" }
  else
  if (Atoi blockHeight).isNone then
    some { Valid := false, Message := "Invalid block height in 't' tag: must be numeric" }
  else
  let blockCoord := getTagValueByPrefix event "a" "38088:"
  if blockCoord = "" then
    some { Valid := false, Message := "Missing block coordinate 'a' tag (format: 38088:node_pubkey:org.attnprotocol:block:<height>:<hash>)" }
  else
  match validateCoordinateFormat blockCoord 38088 with
  | .error err => some { Valid := false, Message := "Invalid block coordinate format: " ++ err }
  | .ok _ =>
  if (getTagValues event "k").length = 0 then
    some { Valid := false, Message := "Missing required 'k' tags (event kinds)" }
  else
  if (getTagValues event "p").length < 2 then
    some { Valid := false, Message := "Missing required 'p' tags (marketplace_pubkey and node_pubkey)" }
  else
  if (getTagValues event "r").length = 0 then
    some { Valid := false, Message := "Missing required 'r' tags (relay URLs)" }
  else
  match L.Unmarshal event.Content with
  | none => some { Valid := false, Message := "Content must be valid JSON" }
  | some contentData =>
  match firstMissingField contentData
      ["name", "description", "admin_pubkey", "min_duration", "max_duration", "match_fee_sats",
       "confirmation_fee_sats", "ref_marketplace_pubkey", "ref_marketplace_id",
       "ref_node_pubkey", "ref_block_id"] with
  | some field => some { Valid := false, Message := "Content must include " ++ field }
  | none =>
  if notPositive (asFloat (contentData.lookup "min_duration")) then
    some { Valid := false, Message := "min_duration must be a positive number" }
  else
  if notPositive (asFloat (contentData.lookup "max_duration")) then
    some { Valid := false, Message := "max_duration must be a positive number" }
  else
  match asFloat (contentData.lookup "min_duration"), asFloat (contentData.lookup "max_duration") with
  | some minDur, some maxDur =>
    if minDur > maxDur then
      some { Valid := false, Message := "min_duration must be <= max_duration" }
    else
    if isNegative (asFloat (contentData.lookup "match_fee_sats")) then
      some { Valid := false, Message := "match_fee_sats must be a non-negative number" }
    else
    if isNegative (asFloat (contentData.lookup "confirmation_fee_sats")) then
      some { Valid := false, Message := "confirmation_fee_sats must be a non-negative number" }
    else some { Valid := true, Message := "Valid marketplace event" }
  | _, _ => none

/-- Embedding of `ValidateBillboardEvent` (helpers.go, kind 38288). -/
def ValidateBillboardEvent (L : GoLib) (event : Event) : ValidationResult :=
  let dTag := getTagValue event "d"
  if dTag = "" then
    { Valid := false, Message := "Missing 'd' tag (billboard identifier)" }
  else
  match validateDTagFormat 38288 dTag with
  | .error err => { Valid := false, Message := "Invalid d tag format: " ++ err }
  | .ok _ =>
  let blockHeight := getTagValue event "t"
  if blockHeight = "" then
    { Valid := false, Message := "Missing 't' tag (block height)" }
  else
  if (Atoi blockHeight).isNone then
    { Valid := false, Message := "Invalid block height in 't' tag: must be numeric" }
  else
  let marketplaceRef := getTagValueByPrefix event "a" "38188:"
  if marketplaceRef = "" then
    { Valid := false, Message := "Must reference a Marketplace via 'a' tag (format: 38188:pubkey:org.attnprotocol:marketplace:id)" }
  else
  match validateCoordinateFormat marketplaceRef 38188 with
  | .error err => { Valid := false, Message := "Invalid marketplace coordinate format: " ++ err }
  | .ok _ =>
  if (getTagValues event "p").length < 2 then
    { Valid := false, Message := "Missing required 'p' tags (billboard_pubkey and marketplace_pubkey)" }
  else
  if (getTagValues event "r").length = 0 then
    { Valid := false, Message := "Missing required 'r' tags (relay URLs)" }
  else
  if getTagValue event "k" = "" then
    { Valid := false, Message := "Missing required 'k' tag (event kind)" }
  else
  if getTagValue event "u" = "" then
    { Valid := false, Message := "Missing required 'u' tag (URL)" }
  else
  match L.Unmarshal event.Content with
  | none => { Valid := false, Message := "Content must be valid JSON" }
  | some contentData =>
  match firstMissingField contentData
      ["name", "confirmation_fee_sats", "ref_billboard_pubkey", "ref_billboard_id",
       "ref_marketplace_pubkey", "ref_marketplace_id"] with
  | some field => { Valid := false, Message := "Content must include " ++ field }
  | none =>
  if isNegative (asFloat (contentData.lookup "confirmation_fee_sats")) then
    { Valid := false, Message := "confirmation_fee_sats must be a non-negative number" }
  else { Valid := true, Message := "Valid billboard event" }

/-- Embedding of `ValidatePromotionEvent` (helpers.go, kind 38388). -/
def ValidatePromotionEvent (L : GoLib) (event : Event) : ValidationResult :=
  let dTag := getTagValue event "d"
  if dTag = "" then
    { Valid := false, Message := "Missing 'd' tag (promotion identifier)" }
  else
  match validateDTagFormat 38388 dTag with
  | .error err => { Valid := false, Message := "Invalid d tag format: " ++ err }
  | .ok _ =>
  let blockHeight := getTagValue event "t"
  if blockHeight = "" then
    { Valid := false, Message := "Missing 't' tag (block height)" }
  else
  if (Atoi blockHeight).isNone then
    { Valid := false, Message := "Invalid block height in 't' tag: must be numeric" }
  else
  let marketplaceRef := getTagValueByPrefix event "a" "38188:"
  if marketplaceRef = "" then
    { Valid := false, Message := "Must reference a Marketplace via 'a' tag (format: 38188:pubkey:org.attnprotocol:marketplace:id)" }
  else
  match validateCoordinateFormat marketplaceRef 38188 with
  | .error err => { Valid := false, Message := "Invalid marketplace coordinate format: " ++ err }
  | .ok _ =>
  let videoRef := getTagValueByPrefix event "a" "34236:"
  if videoRef = "" then
    { Valid := false, Message := "Must reference a Video via 'a' tag (format: 34236:pubkey:d_tag)" }
  else
  if Contains videoRef "org.attnprotocol:" then
    { Valid := false, Message := "Video coordinate should not include 'org.attnprotocol:' prefix (format: 34236:pubkey:d_tag)" }
  else
  let billboardRef := getTagValueByPrefix event "a" "38288:"
  if billboardRef = "" then
    { Valid := false, Message := "Must reference a Billboard via 'a' tag (format: 38288:pubkey:org.attnprotocol:billboard:id)" }
  else
  match validateCoordinateFormat billboardRef 38288 with
  | .error err => { Valid := false, Message := "Invalid billboard coordinate format: " ++ err }
  | .ok _ =>
  if (getTagValues event "p").length < 3 then
    { Valid := false, Message := "Missing required 'p' tags (marketplace_pubkey, billboard_pubkey, and promotion_pubkey)" }
  else
  if (getTagValues event "r").length = 0 then
    { Valid := false, Message := "Missing required 'r' tags (relay URLs)" }
  else
  if getTagValue event "k" = "" then
    { Valid := false, Message := "Missing required 'k' tag (event kind)" }
  else
  if getTagValue event "u" = "" then
    { Valid := false, Message := "Missing required 'u' tag (URL)" }
  else
  match L.Unmarshal event.Content with
  | none => { Valid := false, Message := "Content must be valid JSON" }
  | some contentData =>
  match firstMissingField contentData
      ["duration", "bid", "event_id", "call_to_action", "call_to_action_url", "escrow_id_list",
       "ref_promotion_pubkey", "ref_promotion_id", "ref_marketplace_pubkey",
       "ref_marketplace_id", "ref_billboard_pubkey", "ref_billboard_id"] with
  | some field => { Valid := false, Message := "Content must include " ++ field }
  | none =>
  match contentData.lookup "escrow_id_list" with
  | none => { Valid := false, Message := "escrow_id_list must be an array" }
  | some escrowList =>
  if !isArray escrowList then
    { Valid := false, Message := "escrow_id_list must be an array" }
  else
  if notPositive (asFloat (contentData.lookup "bid")) then
    { Valid := false, Message := "bid must be a positive number" }
  else
  if notPositive (asFloat (contentData.lookup "duration")) then
    { Valid := false, Message := "duration must be a positive number" }
  else { Valid := true, Message := "Valid promotion event" }

/-- Embedding of `ValidateMatchEvent` (helpers.go, kind 38888). -/
def ValidateMatchEvent (L : GoLib) (event : Event) : ValidationResult :=
  let dTag := getTagValue event "d"
  if dTag = "" then
    { Valid := false, Message := "Missing 'd' tag (match identifier)" }
  else
  match validateDTagFormat 38888 dTag with
  | .error err => { Valid := false, Message := "Invalid d tag format: " ++ err }
  | .ok _ =>
  let blockHeight := getTagValue event "t"
  if blockHeight = "" then
    { Valid := false, Message := "Missing 't' tag (block height)" }
  else
  if (Atoi blockHeight).isNone then
    { Valid := false, Message := "Invalid block height in 't' tag: must be numeric" }
  else
  let marketplaceRef := getTagValueByPrefix event "a" "38188:"
  if marketplaceRef = "" then
    { Valid := false, Message := "Must reference a Marketplace via 'a' tag (format: 38188:pubkey:org.attnprotocol:marketplace:id)" }
  else
  match validateCoordinateFormat marketplaceRef 38188 with
  | .error err => { Valid := false, Message := "Invalid marketplace coordinate format: " ++ err }
  | .ok _ =>
  let billboardRef := getTagValueByPrefix event "a" "38288:"
  if billboardRef = "" then
    { Valid := false, Message := "Must reference a Billboard via 'a' tag (format: 38288:pubkey:org.attnprotocol:billboard:id)" }
  else
  match validateCoordinateFormat billboardRef 38288 with
  | .error err => { Valid := false, Message := "Invalid billboard coordinate format: " ++ err }
  | .ok _ =>
  let promotionRef := getTagValueByPrefix event "a" "38388:"
  if promotionRef = "" then
    { Valid := false, Message := "Must reference a Promotion via 'a' tag (format: 38388:pubkey:org.attnprotocol:promotion:id)" }
  else
  match validateCoordinateFormat promotionRef 38388 with
  | .error err => { Valid := false, Message := "Invalid promotion coordinate format: " ++ err }
  | .ok _ =>
  let attentionRef := getTagValueByPrefix event "a" "38488:"
  if attentionRef = "" then
    { Valid := false, Message := "Must reference an Attention via 'a' tag (format: 38488:pubkey:org.attnprotocol:attention:id)" }
  else
  match validateCoordinateFormat attentionRef 38488 with
  | .error err => { Valid := false, Message := "Invalid attention coordinate format: " ++ err }
  | .ok _ =>
  if (getTagValues event "p").length < 4 then
    { Valid := false, Message := "Missing required 'p' tags (marketplace_pubkey, promotion_pubkey, attention_pubkey, billboard_pubkey)" }
  else
  if (getTagValues event "r").length = 0 then
    { Valid := false, Message := "Missing required 'r' tags (relay URLs)" }
  else
  if (getTagValues event "k").length = 0 then
    { Valid := false, Message := "Missing required 'k' tags (event kinds)" }
  else
  match L.Unmarshal event.Content with
  | none => { Valid := false, Message := "Content must be valid JSON" }
  | some contentData =>
  match firstMissingField contentData
      ["ref_match_id", "ref_promotion_id", "ref_attention_id", "ref_billboard_id",
       "ref_marketplace_id", "ref_marketplace_pubkey", "ref_promotion_pubkey",
       "ref_attention_pubkey", "ref_billboard_pubkey"] with
  | some field => { Valid := false, Message := "Content must include " ++ field }
  | none => { Valid := true, Message := "Valid match event" }

/-- Embedding of `ValidateBillboardConfirmationEvent` (helpers.go, kind 38588). -/
def ValidateBillboardConfirmationEvent (L : GoLib) (event : Event) : ValidationResult :=
  let dTag := getTagValue event "d"
  if dTag = "" then
    { Valid := false, Message := "Missing 'd' tag (confirmation identifier)" }
  else
  match validateDTagFormat 38588 dTag with
  | .error err => { Valid := false, Message := "Invalid d tag format: " ++ err }
  | .ok _ =>
  let blockHeight := getTagValue event "t"
  if blockHeight = "" then
    { Valid := false, Message := "Missing 't' tag (block height)" }
  else
  if (Atoi blockHeight).isNone then
    { Valid := false, Message := "Invalid block height in 't' tag: must be numeric" }
  else
  let marketplaceCoord := getTagValueByPrefix event "a" "38188:"
  if marketplaceCoord = "" then
    { Valid := false, Message := "Missing marketplace coordinate 'a' tag (format: 38188:pubkey:org.attnprotocol:marketplace:id)" }
  else
  match validateCoordinateFormat marketplaceCoord 38188 with
  | .error err => { Valid := false, Message := "Invalid marketplace coordinate format: " ++ err }
  | .ok _ =>
  let billboardCoord := getTagValueByPrefix event "a" "38288:"
  if billboardCoord = "" then
    { Valid := false, Message := "Missing billboard coordinate 'a' tag (format: 38288:pubkey:org.attnprotocol:billboard:id)" }
  else
  match validateCoordinateFormat billboardCoord 38288 with
  | .error err => { Valid := false, Message := "Invalid billboard coordinate format: " ++ err }
  | .ok _ =>
  let promotionCoord := getTagValueByPrefix event "a" "38388:"
  if promotionCoord = "" then
    { Valid := false, Message := "Missing promotion coordinate 'a' tag (format: 38388:pubkey:org.attnprotocol:promotion:id)" }
  else
  match validateCoordinateFormat promotionCoord 38388 with
  | .error err => { Valid := false, Message := "Invalid promotion coordinate format: " ++ err }
  | .ok _ =>
  let attentionCoord := getTagValueByPrefix event "a" "38488:"
  if attentionCoord = "" then
    { Valid := false, Message := "Missing attention coordinate 'a' tag (format: 38488:pubkey:org.attnprotocol:attention:id)" }
  else
  match validateCoordinateFormat attentionCoord 38488 with
  | .error err => { Valid := false, Message := "Invalid attention coordinate format: " ++ err }
  | .ok _ =>
  let matchCoord := getTagValueByPrefix event "a" "38888:"
  if matchCoord = "" then
    { Valid := false, Message := "Missing match coordinate 'a' tag (format: 38888:pubkey:org.attnprotocol:match:id)" }
  else
  match validateCoordinateFormat matchCoord 38888 with
  | .error err => { Valid := false, Message := "Invalid match coordinate format: " ++ err }
  | .ok _ =>
  if !validateETagWithMarker event "match" then
    { Valid := false, Message := "Missing 'e' tag with 'match' marker" }
  else
  if (getTagValues event "e").length < 5 then
    { Valid := false, Message := "Missing required 'e' tags (must reference marketplace, billboard, promotion, attention, and match events)" }
  else
  if (getTagValues event "p").length < 4 then
    { Valid := false, Message := "Missing required 'p' tags (marketplace_pubkey, promotion_pubkey, attention_pubkey, billboard_pubkey)" }
  else
  if (getTagValues event "r").length = 0 then
    { Valid := false, Message := "Missing required 'r' tags (relay URLs)" }
  else
  match L.Unmarshal event.Content with
  | none => { Valid := false, Message := "Content must be valid JSON" }
  | some contentData =>
  match firstMissingField contentData
      ["ref_match_event_id", "ref_match_id", "ref_marketplace_pubkey", "ref_billboard_pubkey",
       "ref_promotion_pubkey", "ref_attention_pubkey", "ref_marketplace_id",
       "ref_billboard_id", "ref_promotion_id", "ref_attention_id"] with
  | some field => { Valid := false, Message := "Content must include " ++ field }
  | none => { Valid := true, Message := "Valid billboard confirmation event" }

/-- Embedding of `ValidateAttentionConfirmationEvent` (helpers.go, kind 38688). -/
def ValidateAttentionConfirmationEvent (L : GoLib) (event : Event) : ValidationResult :=
  let dTag := getTagValue event "d"
  if dTag = "" then
    { Valid := false, Message := "Missing 'd' tag (confirmation identifier)" }
  else
  match validateDTagFormat 38688 dTag with
  | .error err => { Valid := false, Message := "Invalid d tag format: " ++ err }
  | .ok _ =>
  let blockHeight := getTagValue event "t"
  if blockHeight = "" then
    { Valid := false, Message := "Missing 't' tag (block height)" }
  else
  if (Atoi blockHeight).isNone then
    { Valid := false, Message := "Invalid block height in 't' tag: must be numeric" }
  else
  let marketplaceCoord := getTagValueByPrefix event "a" "38188:"
  if marketplaceCoord = "" then
    { Valid := false, Message := "Missing marketplace coordinate 'a' tag (format: 38188:pubkey:org.attnprotocol:marketplace:id)" }
  else
  match validateCoordinateFormat marketplaceCoord 38188 with
  | .error err => { Valid := false, Message := "Invalid marketplace coordinate format: " ++ err }
  | .ok _ =>
  let billboardCoord := getTagValueByPrefix event "a" "38288:"
  if billboardCoord = "" then
    { Valid := false, Message := "Missing billboard coordinate 'a' tag (format: 38288:pubkey:org.attnprotocol:billboard:id)" }
  else
  match validateCoordinateFormat billboardCoord 38288 with
  | .error err => { Valid := false, Message := "Invalid billboard coordinate format: " ++ err }
  | .ok _ =>
  let promotionCoord := getTagValueByPrefix event "a" "38388:"
  if promotionCoord = "" then
    { Valid := false, Message := "Missing promotion coordinate 'a' tag (format: 38388:pubkey:org.attnprotocol:promotion:id)" }
  else
  match validateCoordinateFormat promotionCoord 38388 with
  | .error err => { Valid := false, Message := "Invalid promotion coordinate format: " ++ err }
  | .ok _ =>
  let attentionCoord := getTagValueByPrefix event "a" "38488:"
  if attentionCoord = "" then
    { Valid := false, Message := "Missing attention coordinate 'a' tag (format: 38488:pubkey:org.attnprotocol:attention:id)" }
  else
  match validateCoordinateFormat attentionCoord 38488 with
  | .error err => { Valid := false, Message := "Invalid attention coordinate format: " ++ err }
  | .ok _ =>
  let matchCoord := getTagValueByPrefix event "a" "38888:"
  if matchCoord = "" then
    { Valid := false, Message := "Missing match coordinate 'a' tag (format: 38888:pubkey:org.attnprotocol:match:id)" }
  else
  match validateCoordinateFormat matchCoord 38888 with
  | .error err => { Valid := false, Message := "Invalid match coordinate format: " ++ err }
  | .ok _ =>
  if !validateETagWithMarker event "match" then
    { Valid := false, Message := "Missing 'e' tag with 'match' marker" }
  else
  if (getTagValues event "e").length < 5 then
    { Valid := false, Message := "Missing required 'e' tags (must reference marketplace, billboard, promotion, attention, and match events)" }
  else
  if (getTagValues event "p").length < 4 then
    { Valid := false, Message := "Missing required 'p' tags (marketplace_pubkey, promotion_pubkey, attention_pubkey, billboard_pubkey)" }
  else
  if (getTagValues event "r").length = 0 then
    { Valid := false, Message := "Missing required 'r' tags (relay URLs)" }
  else
  match L.Unmarshal event.Content with
  | none => { Valid := false, Message := "Content must be valid JSON" }
  | some contentData =>
  match firstMissingField contentData
      ["ref_match_event_id", "ref_match_id", "ref_marketplace_pubkey", "ref_billboard_pubkey",
       "ref_promotion_pubkey", "ref_attention_pubkey", "ref_marketplace_id",
       "ref_billboard_id", "ref_promotion_id", "ref_attention_id"] with
  | some field => { Valid := false, Message := "Content must include " ++ field }
  | none => { Valid := true, Message := "Valid attention confirmation event" }

/-- Embedding of `ValidateMarketplaceConfirmationEvent` (helpers.go, kind 38788). -/
def ValidateMarketplaceConfirmationEvent (L : GoLib) (event : Event) : ValidationResult :=
  let dTag := getTagValue event "d"
  if dTag = "" then
    { Valid := false, Message := "Missing 'd' tag (confirmation identifier)" }
  else
  match validateDTagFormat 38788 dTag with
  | .error err => { Valid := false, Message := "Invalid d tag format: " ++ err }
  | .ok _ =>
  let blockHeight := getTagValue event "t"
  if blockHeight = "" then
    { Valid := false, Message := "Missing 't' tag (block height)" }
  else
  if (Atoi blockHeight).isNone then
    { Valid := false, Message := "Invalid block height in 't' tag: must be numeric" }
  else
  let marketplaceCoord := getTagValueByPrefix event "a" "38188:"
  if marketplaceCoord = "" then
    { Valid := false, Message := "Missing marketplace coordinate 'a' tag (format: 38188:pubkey:org.attnprotocol:marketplace:id)" }
  else
  match validateCoordinateFormat marketplaceCoord 38188 with
  | .error err => { Valid := false, Message := "Invalid marketplace coordinate format: " ++ err }
  | .ok _ =>
  let billboardCoord := getTagValueByPrefix event "a" "38288:"
  if billboardCoord = "" then
    { Valid := false, Message := "Missing billboard coordinate 'a' tag (format: 38288:pubkey:org.attnprotocol:billboard:id)" }
  else
  match validateCoordinateFormat billboardCoord 38288 with
  | .error err => { Valid := false, Message := "Invalid billboard coordinate format: " ++ err }
  | .ok _ =>
  let promotionCoord := getTagValueByPrefix event "a" "38388:"
  if promotionCoord = "" then
    { Valid := false, Message := "Missing promotion coordinate 'a' tag (format: 38388:pubkey:org.attnprotocol:promotion:id)" }
  else
  match validateCoordinateFormat promotionCoord 38388 with
  | .error err => { Valid := false, Message := "Invalid promotion coordinate format: " ++ err }
  | .ok _ =>
  let attentionCoord := getTagValueByPrefix event "a" "38488:"
  if attentionCoord = "" then
    { Valid := false, Message := "Missing attention coordinate 'a' tag (format: 38488:pubkey:org.attnprotocol:attention:id)" }
  else
  match validateCoordinateFormat attentionCoord 38488 with
  | .error err => { Valid := false, Message := "Invalid attention coordinate format: " ++ err }
  | .ok _ =>
  let matchCoord := getTagValueByPrefix event "a" "38888:"
  if matchCoord = "" then
    { Valid := false, Message := "Missing match coordinate 'a' tag (format: 38888:pubkey:org.attnprotocol:match:id)" }
  else
  match validateCoordinateFormat matchCoord 38888 with
  | .error err => { Valid := false, Message := "Invalid match coordinate format: " ++ err }
  | .ok _ =>
  if !validateETagWithMarker event "match" then
    { Valid := false, Message := "Missing 'e' tag with 'match' marker" }
  else
  if !validateETagWithMarker event "billboard_confirmation" then
    { Valid := false, Message := "Missing 'e' tag with 'billboard_confirmation' marker" }
  else
  if !validateETagWithMarker event "attention_confirmation" then
    { Valid := false, Message := "Missing 'e' tag with 'attention_confirmation' marker" }
  else
  if (getTagValues event "e").length < 7 then
    { Valid := false, Message := "Missing required 'e' tags (must reference marketplace, billboard, promotion, attention, match, billboard_confirmation, and attention_confirmation events)" }
  else
  if (getTagValues event "p").length < 4 then
    { Valid := false, Message := "Missing required 'p' tags (marketplace_pubkey, promotion_pubkey, attention_pubkey, billboard_pubkey)" }
  else
  if (getTagValues event "r").length = 0 then
    { Valid := false, Message := "Missing required 'r' tags (relay URLs)" }
  else
  match L.Unmarshal event.Content with
  | none => { Valid := false, Message := "Content must be valid JSON" }
  | some contentData =>
  match firstMissingField contentData
      ["ref_match_event_id", "ref_match_id", "ref_billboard_confirmation_event_id",
       "ref_attention_confirmation_event_id", "ref_marketplace_pubkey", "ref_billboard_pubkey",
       "ref_promotion_pubkey", "ref_attention_pubkey", "ref_marketplace_id",
       "ref_billboard_id", "ref_promotion_id", "ref_attention_id"] with
  | some field => { Valid := false, Message := "Content must include " ++ field }
  | none => { Valid := true, Message := "Valid marketplace confirmation event" }

/-- Embedding of `ValidateAttentionPaymentConfirmationEvent` (helpers.go, kind 38988). -/
def ValidateAttentionPaymentConfirmationEvent (L : GoLib) (event : Event) : ValidationResult :=
  let dTag := getTagValue event "d"
  if dTag = "" then
    { Valid := false, Message := "Missing 'd' tag (confirmation identifier)" }
  else
  match validateDTagFormat 38988 dTag with
  | .error err => { Valid := false, Message := "Invalid d tag format: " ++ err }
  | .ok _ =>
  let blockHeight := getTagValue event "t"
  if blockHeight = "" then
    { Valid := false, Message := "Missing 't' tag (block height)" }
  else
  if (Atoi blockHeight).isNone then
    { Valid := false, Message := "Invalid block height in 't' tag: must be numeric" }
  else
  if !validateETagWithMarker event "marketplace_confirmation" then
    { Valid := false, Message := "Missing 'e' tag with 'marketplace_confirmation' marker" }
  else
  let marketplaceCoord := getTagValueByPrefix event "a" "38188:"
  if marketplaceCoord = "" then
    { Valid := false, Message := "Missing marketplace coordinate 'a' tag (format: 38188:pubkey:org.attnprotocol:marketplace:id)" }
  else
  match validateCoordinateFormat marketplaceCoord 38188 with
  | .error err => { Valid := false, Message := "Invalid marketplace coordinate format: " ++ err }
  | .ok _ =>
  let billboardCoord := getTagValueByPrefix event "a" "38288:"
  if billboardCoord = "" then
    { Valid := false, Message := "Missing billboard coordinate 'a' tag (format: 38288:pubkey:org.attnprotocol:billboard:id)" }
  else
  match validateCoordinateFormat billboardCoord 38288 with
  | .error err => { Valid := false, Message := "Invalid billboard coordinate format: " ++ err }
  | .ok _ =>
  let promotionCoord := getTagValueByPrefix event "a" "38388:"
  if promotionCoord = "" then
    { Valid := false, Message := "Missing promotion coordinate 'a' tag (format: 38388:pubkey:org.attnprotocol:promotion:id)" }
  else
  match validateCoordinateFormat promotionCoord 38388 with
  | .error err => { Valid := false, Message := "Invalid promotion coordinate format: " ++ err }
  | .ok _ =>
  let attentionCoord := getTagValueByPrefix event "a" "38488:"
  if attentionCoord = "" then
    { Valid := false, Message := "Missing attention coordinate 'a' tag (format: 38488:pubkey:org.attnprotocol:attention:id)" }
  else
  match validateCoordinateFormat attentionCoord 38488 with
  | .error err => { Valid := false, Message := "Invalid attention coordinate format: " ++ err }
  | .ok _ =>
  let matchCoord := getTagValueByPrefix event "a" "38888:"
  if matchCoord = "" then
    { Valid := false, Message := "Missing match coordinate 'a' tag (format: 38888:pubkey:org.attnprotocol:match:id)" }
  else
  match validateCoordinateFormat matchCoord 38888 with
  | .error err => { Valid := false, Message := "Invalid match coordinate format: " ++ err }
  | .ok _ =>
  if (getTagValues event "p").length < 4 then
    { Valid := false, Message := "Missing required 'p' tags (marketplace_pubkey, promotion_pubkey, attention_pubkey, billboard_pubkey)" }
  else
  if (getTagValues event "r").length = 0 then
    { Valid := false, Message := "Missing required 'r' tags (relay URLs)" }
  else
  match L.Unmarshal event.Content with
  | none => { Valid := false, Message := "Content must be valid JSON" }
  | some contentData =>
  match firstMissingField contentData
      ["sats_received", "ref_match_event_id", "ref_match_id",
       "ref_marketplace_confirmation_event_id", "ref_marketplace_pubkey",
       "ref_billboard_pubkey", "ref_promotion_pubkey", "ref_attention_pubkey",
       "ref_marketplace_id", "ref_billboard_id", "ref_promotion_id", "ref_attention_id"] with
  | some field => { Valid := false, Message := "Content must include " ++ field }
  | none =>
  if notPositive (asFloat (contentData.lookup "sats_received")) then
    { Valid := false, Message := "sats_received must be a positive number" }
  else { Valid := true, Message := "Valid attention payment confirmation event" }

/-- Embedding of `ValidateBlockUpdateEvent` (helpers.go, kind 38088). -/
def ValidateBlockUpdateEvent (L : GoLib) (event : Event) : ValidationResult :=
  let dTag := getTagValue event "d"
  if dTag = "" then
    { Valid := false, Message := "Missing 'd' tag (block identifier)" }
  else
  match validateDTagFormat 38088 dTag with
  | .error err => { Valid := false, Message := "Invalid d tag format: " ++ err }
  | .ok _ =>
  let blockHeight := getTagValue event "t"
  if blockHeight = "" then
    { Valid := false, Message := "Missing 't' tag (block height)" }
  else
  if (Atoi blockHeight).isNone then
    { Valid := false, Message := "Invalid block height in 't' tag: must be numeric" }
  else
  if (getTagValues event "p").length = 0 then
    { Valid := false, Message := "Missing required 'p' tag (node_pubkey)" }
  else
  if (getTagValues event "r").length = 0 then
    { Valid := false, Message := "Missing required 'r' tags (relay URLs)" }
  else
  match L.Unmarshal event.Content with
  | none => { Valid := false, Message := "Content must be valid JSON" }
  | some contentData =>
  match contentData.lookup "height" with
  | none => { Valid := false, Message := "Block content missing 'height' field" }
  | some heightValue =>
  match parseHeight heightValue with
  | .error _ => { Valid := false, Message := "Block content 'height' must be numeric" }
  | .ok _ =>
  if (asString (contentData.lookup "hash")).isNone then
    { Valid := false, Message := "Block content missing 'hash' field" }
  else
  if (asString (contentData.lookup "ref_node_pubkey")).isNone then
    { Valid := false, Message := "Block content missing 'ref_node_pubkey' field" }
  else
  if (asString (contentData.lookup "ref_block_id")).isNone then
    { Valid := false, Message := "Block content missing 'ref_block_id' field" }
  else
  match asString (contentData.lookup "ref_node_pubkey") with
  | none => { Valid := false, Message := "ref_node_pubkey must match event pubkey" }
  | some refNodePubkey =>
  if !L.EqualFold refNodePubkey event.PubKey then
    { Valid := false, Message := "ref_node_pubkey must match event pubkey" }
  else
  match asString (contentData.lookup "ref_block_id") with
  | none => { Valid := false, Message := "ref_block_id must match d tag" }
  | some refBlockID =>
  if refBlockID ≠ dTag then
    { Valid := false, Message := "ref_block_id must match d tag" }
  else { Valid := true, Message := "Valid block event" }

/-! ## Entry point of helpers.go -/

/-- The table `AllowedEventKinds` of helpers.go, one pair per line of the map literal. -/
def AllowedEventKinds : List (Int × Bool) :=
  [ (38088, true), (38188, true), (38288, true), (38388, true), (38488, true),
    (38588, true), (38688, true), (38788, true), (38888, true), (38988, true),
    (0, true), (3, true), (5, true), (10002, true), (10003, true), (22242, true),
    (27235, true), (30000, true), (30001, true), (31989, true), (31990, true),
    (1063, true), (30023, true), (30311, true), (34236, true),
    (1, true), (6, true), (16, true), (1111, true), (9734, true), (9735, true),
    (1984, true), (1985, true) ]

/-- Reading a `map[int]bool`: the stored flag, or `false` (the zero value) for an absent key. -/
def mapGet (m : List (Int × Bool)) (k : Int) : Bool :=
  (m.lookup k).getD false

/-- The local table `attnProtocolKinds` of `ValidateEvent` (helpers.go). -/
def attnProtocolKinds : List (Int × Bool) :=
  [ (38088, true), (38188, true), (38288, true), (38388, true), (38488, true),
    (38588, true), (38688, true), (38788, true), (38888, true), (38988, true) ]

/-- Embedding of `ValidateEvent` (helpers.go). -/
def ValidateEvent (L : GoLib) (event : Event) : Option ValidationResult :=
  if !mapGet AllowedEventKinds event.Kind then
    some { Valid := false,
           Message := "Event kind " ++ fmtInt event.Kind ++ " is not supported by this relay. Only ATTN Protocol kinds (38088-38988) and supporting kinds are accepted. See relay documentation for full list." }
  else
  if mapGet attnProtocolKinds event.Kind && !(validateOfficialTagsOnly event).Valid then
    some (validateOfficialTagsOnly event)
  else
  if event.Kind = 38188 then ValidateMarketplaceEvent L event
  else if event.Kind = 38288 then some (ValidateBillboardEvent L event)
  else if event.Kind = 38388 then some (ValidatePromotionEvent L event)
  else if event.Kind = 38488 then ValidateAttentionEvent L event
  else if event.Kind = 38588 then some (ValidateBillboardConfirmationEvent L event)
  else if event.Kind = 38688 then some (ValidateAttentionConfirmationEvent L event)
  else if event.Kind = 38788 then some (ValidateMarketplaceConfirmationEvent L event)
  else if event.Kind = 38888 then some (ValidateMatchEvent L event)
  else if event.Kind = 38088 then some (ValidateBlockUpdateEvent L event)
  else if event.Kind = 38988 then some (ValidateAttentionPaymentConfirmationEvent L event)
  else some { Valid := true, Message := "Valid supporting event kind" }

/-! ## Package go-core/validation

Only `validation.go` and `marketplace.go` of this package are among the sources. The
helpers they call (`getTagValue`, `getTagValueByPrefix`, `getTagValues`,
`validateDTagFormat`, `validateCoordinateFormat`) are read as the functions of the same
name of helpers.go, the only definitions of them in the sources. -/

namespace GoCore

/-- The table `ATTNProtocolKinds` of go-core/validation/validation.go. -/
def ATTNProtocolKinds : List (Int × Bool) :=
  [ (38188, true), (38288, true), (38388, true), (38488, true), (38588, true),
    (38688, true), (38788, true), (38888, true), (38988, true) ]

/-- Embedding of `IsATTNProtocolKind` (go-core). -/
def IsATTNProtocolKind (kind : Int) : Bool :=
  mapGet ATTNProtocolKinds kind

/-- Modelled from the spec: the `validateOfficialTagsOnly` of package go-core is not among
the sources. Section 4.5 describes a single Tag Vocabulary Guard (closed set
d, t, a, e, p, r, k, u; the first disallowed name short-circuits with a message naming it),
which is the function of that name of helpers.go. -/
def validateOfficialTagsOnly (event : Event) : ValidationResult :=
  Attn.validateOfficialTagsOnly event

/-- The eight per-kind validators of package go-core that `ValidateATTNEvent` dispatches to
and whose files are not among the sources; `none` stands for a run that panics. -/
structure Siblings where
  ValidateBillboardEvent : Event → Option ValidationResult
  ValidatePromotionEvent : Event → Option ValidationResult
  ValidateAttentionEvent : Event → Option ValidationResult
  ValidateBillboardConfirmationEvent : Event → Option ValidationResult
  ValidateAttentionConfirmationEvent : Event → Option ValidationResult
  ValidateMarketplaceConfirmationEvent : Event → Option ValidationResult
  ValidateMatchEvent : Event → Option ValidationResult
  ValidateAttentionPaymentConfirmationEvent : Event → Option ValidationResult

/-- Embedding of `ValidateMarketplaceEvent` (go-core/validation/marketplace.go). -/
def ValidateMarketplaceEvent (L : GoLib) (event : Event) : Option ValidationResult :=
  let d_tag := getTagValue event "d"
  if d_tag = "" then
    some { Valid := false, Message := "Missing 'd' tag (marketplace identifier)" }
  else
  match validateDTagFormat 38188 d_tag with
  | .error err => some { Valid := false, Message := "Invalid d tag format: " ++ err }
  | .ok _ =>
  let block_height := getTagValue event "t"
  if block_height = "" then
    some { Valid := false, Message := "Missing 't' tag (block height)" }
  else
  if (Atoi block_height).isNone then
    some { Valid := false, Message := "Invalid block height in 't' tag: must be numeric" }
  else
  let block_coord := getTagValueByPrefix event "a" "38808:"
  if block_coord = "" then
    some { Valid := false, Message := "Missing block coordinate 'a' tag (format: 38808:clock_pubkey:org.cityprotocol:block:<height>:<hash>)" }
  else
  match validateCoordinateFormat block_coord 38808 with
  | .error err => some { Valid := false, Message := "Invalid block coordinate format: " ++ err }
  | .ok _ =>
  if (getTagValues event "k").length = 0 then
    some { Valid := false, Message := "Missing required 'k' tags (event kinds)" }
  else
  if (getTagValues event "p").length < 2 then
    some { Valid := false, Message := "Missing required 'p' tags (marketplace_pubkey and clock_pubkey)" }
  else
  if (getTagValues event "r").length = 0 then
    some { Valid := false, Message := "Missing required 'r' tags (relay URLs)" }
  else
  match L.Unmarshal event.Content with
  | none => some { Valid := false, Message := "Content must be valid JSON" }
  | some content_data =>
  match firstMissingField content_data
      ["name", "description", "admin_pubkey", "min_duration", "max_duration", "match_fee_sats",
       "confirmation_fee_sats", "ref_marketplace_pubkey", "ref_marketplace_id",
       "ref_clock_pubkey", "ref_block_id"] with
  | some field => some { Valid := false, Message := "Content must include " ++ field }
  | none =>
  match firstMissingField content_data
      ["billboard_count", "promotion_count", "attention_count", "match_count"] with
  | some field => some { Valid := false, Message := "Content must include " ++ field }
  | none =>
  if notPositive (asFloat (content_data.lookup "min_duration")) then
    some { Valid := false, Message := "min_duration must be a positive number" }
  else
  if notPositive (asFloat (content_data.lookup "max_duration")) then
    some { Valid := false, Message := "max_duration must be a positive number" }
  else
  match asFloat (content_data.lookup "min_duration"),
      asFloat (content_data.lookup "max_duration") with
  | some min_dur, some max_dur =>
    if min_dur > max_dur then
      some { Valid := false, Message := "min_duration must be <= max_duration" }
    else
    if isNegative (asFloat (content_data.lookup "match_fee_sats")) then
      some { Valid := false, Message := "match_fee_sats must be a non-negative number" }
    else
    if isNegative (asFloat (content_data.lookup "confirmation_fee_sats")) then
      some { Valid := false, Message := "confirmation_fee_sats must be a non-negative number" }
    else some { Valid := true, Message := "Valid marketplace event" }
  | _, _ => none

/-- Embedding of `ValidateATTNEvent` (go-core/validation/validation.go). -/
def ValidateATTNEvent (S : Siblings) (L : GoLib) (event : Event) : Option ValidationResult :=
  if mapGet ATTNProtocolKinds event.Kind && !(validateOfficialTagsOnly event).Valid then
    some (validateOfficialTagsOnly event)
  else
  if event.Kind = 38188 then ValidateMarketplaceEvent L event
  else if event.Kind = 38288 then S.ValidateBillboardEvent event
  else if event.Kind = 38388 then S.ValidatePromotionEvent event
  else if event.Kind = 38488 then S.ValidateAttentionEvent event
  else if event.Kind = 38588 then S.ValidateBillboardConfirmationEvent event
  else if event.Kind = 38688 then S.ValidateAttentionConfirmationEvent event
  else if event.Kind = 38788 then S.ValidateMarketplaceConfirmationEvent event
  else if event.Kind = 38888 then S.ValidateMatchEvent event
  else if event.Kind = 38988 then S.ValidateAttentionPaymentConfirmationEvent event
  else some { Valid := false, Message := "Not an ATTN Protocol event kind" }

end GoCore

/-! ## Package relay/pkg/validation, file validation.go

The sibling package city-protocol/relay/pkg/validation is not part of this repository; the
two items of it that validation.go uses are parameters. -/

namespace Relay

/-- The allowed-kind table and the entry point of the sibling (City Protocol) validation
package; `none` stands for a run that panics. -/
structure City where
  AllowedEventKinds : List (Int × Bool)
  ValidateEvent : Event → Option ValidationResult

/-- The table `AllowedEventKinds` of validation.go: the sibling's entries overwritten by the
entries of `ATTNProtocolKinds`. Read with `mapGet`, which returns the first entry of a key,
the ATTN entries therefore come first. -/
def AllowedEventKinds (C : City) : List (Int × Bool) :=
  GoCore.ATTNProtocolKinds ++ C.AllowedEventKinds

/-- Embedding of `ValidateEvent` (relay/pkg/validation/validation.go). -/
def ValidateEvent (C : City) (S : GoCore.Siblings) (L : GoLib) (event : Event) :
    Option ValidationResult :=
  if !mapGet (AllowedEventKinds C) event.Kind then
    some { Valid := false,
           Message := "Event kind " ++ fmtInt event.Kind ++ " is not supported by this relay. Only ATTN Protocol kinds (38188-38988), City Protocol kinds (388X8), and supporting Nostr kinds are accepted." }
  else
  if GoCore.IsATTNProtocolKind event.Kind then
    match GoCore.ValidateATTNEvent S L event with
    | none => none
    | some result => some { Valid := result.Valid, Message := result.Message }
  else C.ValidateEvent event

end Relay

/-! ## Instances used to evaluate the validators on concrete events -/

/-- Case-insensitive comparison of two ASCII strings, which is what `strings.EqualFold`
computes on ASCII input. -/
def asciiEqualFold (a b : String) : Bool :=
  a.data.map Char.toLower == b.data.map Char.toLower

/-- A decoder that knows two payloads: `{}` decodes to the empty map, anything else is
reported as malformed. It only serves to run the validators on events whose payload is
never read or is `{}`. -/
def emptyObjectDecoder (content : String) : Option JSONObject :=
  if content = "{}" then some [] else none

/-- A library instance for evaluating the validators on concrete events. -/
def sampleLib : GoLib :=
  { Unmarshal := emptyObjectDecoder, EqualFold := asciiEqualFold }

/-- Sibling validators that reject every event, for evaluating `ValidateATTNEvent`. -/
def sampleSiblings : GoCore.Siblings :=
  { ValidateBillboardEvent := fun _ => some { Valid := false, Message := "billboard" },
    ValidatePromotionEvent := fun _ => some { Valid := false, Message := "promotion" },
    ValidateAttentionEvent := fun _ => some { Valid := false, Message := "attention" },
    ValidateBillboardConfirmationEvent := fun _ => some { Valid := false, Message := "bc" },
    ValidateAttentionConfirmationEvent := fun _ => some { Valid := false, Message := "ac" },
    ValidateMarketplaceConfirmationEvent := fun _ => some { Valid := false, Message := "mc" },
    ValidateMatchEvent := fun _ => some { Valid := false, Message := "match" },
    ValidateAttentionPaymentConfirmationEvent := fun _ => some { Valid := false, Message := "apc" } }

/-- Payload of a go-core Marketplace event with durations 10 and 20 and both fees 0 (JSON text). -/
def coreMarketplaceText : String :=
  "\x7b\"name\":\"m\",\"description\":\"d\",\"admin_pubkey\":\"ab\",\"min_duration\":10,\"max_duration\":20," ++
    "\"match_fee_sats\":0,\"confirmation_fee_sats\":0,\"ref_marketplace_pubkey\":\"ab\"," ++
    "\"ref_marketplace_id\":\"org.attnprotocol:marketplace:abc123\",\"ref_clock_pubkey\":\"cd\"," ++
    "\"ref_block_id\":\"org.attnprotocol:block:870500:00ab\",\"billboard_count\":0," ++
    "\"promotion_count\":0,\"attention_count\":0,\"match_count\":0\x7d"

/-- Payload of a go-core Marketplace event with durations 10 and 20 and both fees 0, as `json.Unmarshal` decodes it. -/
def coreMarketplaceMap : JSONObject :=
  [ ("name", .string "m"),
    ("description", .string "d"),
    ("admin_pubkey", .string "ab"),
    ("min_duration", .number 10),
    ("max_duration", .number 20),
    ("match_fee_sats", .number 0),
    ("confirmation_fee_sats", .number 0),
    ("ref_marketplace_pubkey", .string "ab"),
    ("ref_marketplace_id", .string "org.attnprotocol:marketplace:abc123"),
    ("ref_clock_pubkey", .string "cd"),
    ("ref_block_id", .string "org.attnprotocol:block:870500:00ab"),
    ("billboard_count", .number 0),
    ("promotion_count", .number 0),
    ("attention_count", .number 0),
    ("match_count", .number 0) ]

/-- Payload of a Marketplace event whose min_duration 30 exceeds its max_duration 20 (JSON text). -/
def swappedDurationsText : String :=
  "\x7b\"name\":\"m\",\"description\":\"d\",\"admin_pubkey\":\"ab\",\"min_duration\":30,\"max_duration\":20," ++
    "\"match_fee_sats\":0,\"confirmation_fee_sats\":0,\"ref_marketplace_pubkey\":\"ab\"," ++
    "\"ref_marketplace_id\":\"org.attnprotocol:marketplace:abc123\",\"ref_node_pubkey\":\"cd\"," ++
    "\"ref_block_id\":\"org.attnprotocol:block:870500:00ab\"\x7d"

/-- Payload of a Marketplace event whose min_duration 30 exceeds its max_duration 20, as `json.Unmarshal` decodes it. -/
def swappedDurationsMap : JSONObject :=
  [ ("name", .string "m"),
    ("description", .string "d"),
    ("admin_pubkey", .string "ab"),
    ("min_duration", .number 30),
    ("max_duration", .number 20),
    ("match_fee_sats", .number 0),
    ("confirmation_fee_sats", .number 0),
    ("ref_marketplace_pubkey", .string "ab"),
    ("ref_marketplace_id", .string "org.attnprotocol:marketplace:abc123"),
    ("ref_node_pubkey", .string "cd"),
    ("ref_block_id", .string "org.attnprotocol:block:870500:00ab") ]

/-- Payload of a Block event for height 870500 with ref_node_pubkey in lower case (JSON text). -/
def blockText : String :=
  "\x7b\"height\":870500,\"hash\":\"00ab\",\"ref_node_pubkey\":\"ab12\",\"ref_block_id\":\"org.attnprotocol:block:870500:00ab\"\x7d"

/-- Payload of a Block event for height 870500 with ref_node_pubkey in lower case, as `json.Unmarshal` decodes it. -/
def blockMap : JSONObject :=
  [ ("height", .number 870500),
    ("hash", .string "00ab"),
    ("ref_node_pubkey", .string "ab12"),
    ("ref_block_id", .string "org.attnprotocol:block:870500:00ab") ]

/-- Payload of a Block event whose height 2 and hash ffff differ from the d tag (JSON text). -/
def driftedBlockText : String :=
  "\x7b\"height\":2,\"hash\":\"ffff\",\"ref_node_pubkey\":\"ab12\",\"ref_block_id\":\"org.attnprotocol:block:870500:00ab\"\x7d"

/-- Payload of a Block event whose height 2 and hash ffff differ from the d tag, as `json.Unmarshal` decodes it. -/
def driftedBlockMap : JSONObject :=
  [ ("height", .number 2),
    ("hash", .string "ffff"),
    ("ref_node_pubkey", .string "ab12"),
    ("ref_block_id", .string "org.attnprotocol:block:870500:00ab") ]

/-- Payload of a Billboard event with a confirmation fee of exactly 0 (JSON text). -/
def freeBillboardText : String :=
  "\x7b\"name\":\"b\",\"confirmation_fee_sats\":0,\"ref_billboard_pubkey\":\"ab\",\"ref_billboard_id\":\"org.attnprotocol:billboard:b1\"," ++
    "\"ref_marketplace_pubkey\":\"cd\",\"ref_marketplace_id\":\"org.attnprotocol:marketplace:abc123\"\x7d"

/-- Payload of a Billboard event with a confirmation fee of exactly 0, as `json.Unmarshal` decodes it. -/
def freeBillboardMap : JSONObject :=
  [ ("name", .string "b"),
    ("confirmation_fee_sats", .number 0),
    ("ref_billboard_pubkey", .string "ab"),
    ("ref_billboard_id", .string "org.attnprotocol:billboard:b1"),
    ("ref_marketplace_pubkey", .string "cd"),
    ("ref_marketplace_id", .string "org.attnprotocol:marketplace:abc123") ]

/-- Payload of a Promotion event whose bid is the string 10 instead of a number (JSON text). -/
def stringBidText : String :=
  "\x7b\"duration\":30,\"bid\":\"10\",\"event_id\":\"e1\",\"call_to_action\":\"go\",\"call_to_action_url\":\"https://example.com\"," ++
    "\"escrow_id_list\":[],\"ref_promotion_pubkey\":\"ab\",\"ref_promotion_id\":\"org.attnprotocol:promotion:p1\"," ++
    "\"ref_marketplace_pubkey\":\"cd\",\"ref_marketplace_id\":\"org.attnprotocol:marketplace:abc123\"," ++
    "\"ref_billboard_pubkey\":\"ef\",\"ref_billboard_id\":\"org.attnprotocol:billboard:b1\"\x7d"

/-- Payload of a Promotion event whose bid is the string 10 instead of a number, as `json.Unmarshal` decodes it. -/
def stringBidMap : JSONObject :=
  [ ("duration", .number 30),
    ("bid", .string "10"),
    ("event_id", .string "e1"),
    ("call_to_action", .string "go"),
    ("call_to_action_url", .string "https://example.com"),
    ("escrow_id_list", .array []),
    ("ref_promotion_pubkey", .string "ab"),
    ("ref_promotion_id", .string "org.attnprotocol:promotion:p1"),
    ("ref_marketplace_pubkey", .string "cd"),
    ("ref_marketplace_id", .string "org.attnprotocol:marketplace:abc123"),
    ("ref_billboard_pubkey", .string "ef"),
    ("ref_billboard_id", .string "org.attnprotocol:billboard:b1") ]

/-- A decoder given by a finite table: a payload listed in the table decodes to the map
written next to it, any other payload is reported as malformed. -/
def tableDecoder (table : List (String × JSONObject)) (content : String) : Option JSONObject :=
  table.lookup content

/-- The payloads used in the examples, each with the map `json.Unmarshal` yields for it. -/
def samplePayloads : List (String × JSONObject) :=
  [ (coreMarketplaceText, coreMarketplaceMap),
    (swappedDurationsText, swappedDurationsMap),
    (blockText, blockMap),
    (driftedBlockText, driftedBlockMap),
    (freeBillboardText, freeBillboardMap),
    (stringBidText, stringBidMap) ]

/-- A library instance that decodes the sample payloads. -/
def payloadLib : GoLib :=
  { Unmarshal := tableDecoder samplePayloads, EqualFold := asciiEqualFold }

/-- A Marketplace event as in Scenario A, with a block coordinate that carries the ATTN namespace. -/
def coreMarketplaceEvent : Event :=
  { Kind := 38188, PubKey := "ab", Content := coreMarketplaceText,
    Tags :=
    [ ["d", "org.attnprotocol:marketplace:abc123"],
      ["t", "870500"],
      ["a", "38808:cd:org.attnprotocol:block:870500:00ab"],
      ["k", "38388"],
      ["p", "ab"],
      ["p", "cd"],
      ["r", "wss://relay.example.com"] ] }

/-- A Marketplace event (helpers.go flavour) that is well-formed except for min_duration > max_duration. -/
def swappedDurationsEvent : Event :=
  { Kind := 38188, PubKey := "ab", Content := swappedDurationsText,
    Tags :=
    [ ["d", "org.attnprotocol:marketplace:abc123"],
      ["t", "870500"],
      ["a", "38088:cd:org.attnprotocol:block:870500:00ab"],
      ["k", "38388"],
      ["p", "ab"],
      ["p", "cd"],
      ["r", "wss://relay.example.com"] ] }

/-- A Block event whose issuer pubkey is written in upper case and whose payload repeats it in lower case. -/
def blockEvent : Event :=
  { Kind := 38088, PubKey := "AB12", Content := blockText,
    Tags :=
    [ ["d", "org.attnprotocol:block:870500:00ab"],
      ["t", "870500"],
      ["p", "ab12"],
      ["r", "wss://relay.example.com"] ] }

/-- A Block event whose t tag says height 1, whose payload says height 2 and hash ffff, and whose d tag says height 870500 and hash 00ab. -/
def driftedBlockEvent : Event :=
  { Kind := 38088, PubKey := "ab12", Content := driftedBlockText,
    Tags :=
    [ ["d", "org.attnprotocol:block:870500:00ab"],
      ["t", "1"],
      ["p", "ab12"],
      ["r", "wss://relay.example.com"] ] }

/-- A Billboard event with a confirmation fee of 0. -/
def freeBillboardEvent : Event :=
  { Kind := 38288, PubKey := "ab", Content := freeBillboardText,
    Tags :=
    [ ["d", "org.attnprotocol:billboard:b1"],
      ["t", "870500"],
      ["a", "38188:cd:org.attnprotocol:marketplace:abc123"],
      ["p", "ab"],
      ["p", "cd"],
      ["r", "wss://relay.example.com"],
      ["k", "34236"],
      ["u", "https://example.com"] ] }

/-- A Promotion event that is well-formed except that its bid is a string. -/
def stringBidEvent : Event :=
  { Kind := 38388, PubKey := "ab", Content := stringBidText,
    Tags :=
    [ ["d", "org.attnprotocol:promotion:p1"],
      ["t", "870500"],
      ["a", "38188:cd:org.attnprotocol:marketplace:abc123"],
      ["a", "34236:ab:video1"],
      ["a", "38288:ef:org.attnprotocol:billboard:b1"],
      ["p", "ab"],
      ["p", "cd"],
      ["p", "ef"],
      ["r", "wss://relay.example.com"],
      ["k", "34236"],
      ["u", "https://example.com"] ] }

/-- A stand-in for the sibling (City Protocol) package: it allows kinds 38808, 0 and 1 and
answers every event with the same verdict. -/
def sampleCity : Relay.City :=
  { AllowedEventKinds := [(38808, true), (0, true), (1, true)],
    ValidateEvent := fun _ => some { Valid := true, Message := "city verdict" } }

/-- Payload of a well-formed Promotion event (JSON text). -/
def promotionText : String :=
  "\x7b\"duration\":30,\"bid\":10,\"event_id\":\"e1\",\"call_to_action\":\"go\",\"call_to_action_url\":\"https://example.com\"," ++
    "\"escrow_id_list\":[],\"ref_promotion_pubkey\":\"ab\",\"ref_promotion_id\":\"org.attnprotocol:promotion:p1\"," ++
    "\"ref_marketplace_pubkey\":\"cd\",\"ref_marketplace_id\":\"org.attnprotocol:marketplace:abc123\"," ++
    "\"ref_billboard_pubkey\":\"ef\",\"ref_billboard_id\":\"org.attnprotocol:billboard:b1\"\x7d"

/-- Payload of a well-formed Promotion event, as `json.Unmarshal` decodes it. -/
def promotionMap : JSONObject :=
  [ ("duration", .number 30),
    ("bid", .number 10),
    ("event_id", .string "e1"),
    ("call_to_action", .string "go"),
    ("call_to_action_url", .string "https://example.com"),
    ("escrow_id_list", .array []),
    ("ref_promotion_pubkey", .string "ab"),
    ("ref_promotion_id", .string "org.attnprotocol:promotion:p1"),
    ("ref_marketplace_pubkey", .string "cd"),
    ("ref_marketplace_id", .string "org.attnprotocol:marketplace:abc123"),
    ("ref_billboard_pubkey", .string "ef"),
    ("ref_billboard_id", .string "org.attnprotocol:billboard:b1") ]

/-- Payload of a Promotion event that lacks bid and whose duration is 0 (JSON text). -/
def promotionNoBidText : String :=
  "\x7b\"duration\":0,\"event_id\":\"e1\",\"call_to_action\":\"go\",\"call_to_action_url\":\"https://example.com\"," ++
    "\"escrow_id_list\":[],\"ref_promotion_pubkey\":\"ab\",\"ref_promotion_id\":\"org.attnprotocol:promotion:p1\"," ++
    "\"ref_marketplace_pubkey\":\"cd\",\"ref_marketplace_id\":\"org.attnprotocol:marketplace:abc123\"," ++
    "\"ref_billboard_pubkey\":\"ef\",\"ref_billboard_id\":\"org.attnprotocol:billboard:b1\"\x7d"

/-- Payload of a Promotion event that lacks bid and whose duration is 0, as `json.Unmarshal` decodes it. -/
def promotionNoBidMap : JSONObject :=
  [ ("duration", .number 0),
    ("event_id", .string "e1"),
    ("call_to_action", .string "go"),
    ("call_to_action_url", .string "https://example.com"),
    ("escrow_id_list", .array []),
    ("ref_promotion_pubkey", .string "ab"),
    ("ref_promotion_id", .string "org.attnprotocol:promotion:p1"),
    ("ref_marketplace_pubkey", .string "cd"),
    ("ref_marketplace_id", .string "org.attnprotocol:marketplace:abc123"),
    ("ref_billboard_pubkey", .string "ef"),
    ("ref_billboard_id", .string "org.attnprotocol:billboard:b1") ]

/-- Payload of an Attention event without trusted-list identifiers (JSON text). -/
def attentionText : String :=
  "\x7b\"ask\":5,\"min_duration\":10,\"max_duration\":20,\"ref_attention_pubkey\":\"ab\"," ++
    "\"ref_attention_id\":\"org.attnprotocol:attention:a1\",\"ref_marketplace_pubkey\":\"cd\"," ++
    "\"ref_marketplace_id\":\"org.attnprotocol:marketplace:abc123\",\"blocked_promotions_id\":\"org.attnprotocol:promotion:blocked\"," ++
    "\"blocked_promoters_id\":\"org.attnprotocol:promoter:blocked\"\x7d"

/-- Payload of an Attention event without trusted-list identifiers, as `json.Unmarshal` decodes it. -/
def attentionMap : JSONObject :=
  [ ("ask", .number 5),
    ("min_duration", .number 10),
    ("max_duration", .number 20),
    ("ref_attention_pubkey", .string "ab"),
    ("ref_attention_id", .string "org.attnprotocol:attention:a1"),
    ("ref_marketplace_pubkey", .string "cd"),
    ("ref_marketplace_id", .string "org.attnprotocol:marketplace:abc123"),
    ("blocked_promotions_id", .string "org.attnprotocol:promotion:blocked"),
    ("blocked_promoters_id", .string "org.attnprotocol:promoter:blocked") ]

/-- Payload of an Attention event that also carries trusted_marketplaces_id (JSON text). -/
def attentionTrustedText : String :=
  "\x7b\"ask\":5,\"min_duration\":10,\"max_duration\":20,\"ref_attention_pubkey\":\"ab\"," ++
    "\"ref_attention_id\":\"org.attnprotocol:attention:a1\",\"ref_marketplace_pubkey\":\"cd\"," ++
    "\"ref_marketplace_id\":\"org.attnprotocol:marketplace:abc123\",\"blocked_promotions_id\":\"org.attnprotocol:promotion:blocked\"," ++
    "\"blocked_promoters_id\":\"org.attnprotocol:promoter:blocked\",\"trusted_marketplaces_id\":\"org.attnprotocol:marketplace:trusted\"\x7d"

/-- Payload of an Attention event that also carries trusted_marketplaces_id, as `json.Unmarshal` decodes it. -/
def attentionTrustedMap : JSONObject :=
  [ ("ask", .number 5),
    ("min_duration", .number 10),
    ("max_duration", .number 20),
    ("ref_attention_pubkey", .string "ab"),
    ("ref_attention_id", .string "org.attnprotocol:attention:a1"),
    ("ref_marketplace_pubkey", .string "cd"),
    ("ref_marketplace_id", .string "org.attnprotocol:marketplace:abc123"),
    ("blocked_promotions_id", .string "org.attnprotocol:promotion:blocked"),
    ("blocked_promoters_id", .string "org.attnprotocol:promoter:blocked"),
    ("trusted_marketplaces_id", .string "org.attnprotocol:marketplace:trusted") ]

/-- Payload of a Match event with its nine ref fields (JSON text). -/
def matchRefsText : String :=
  "\x7b\"ref_match_id\":\"org.attnprotocol:match:m1\",\"ref_promotion_id\":\"org.attnprotocol:promotion:p1\"," ++
    "\"ref_attention_id\":\"org.attnprotocol:attention:a1\",\"ref_billboard_id\":\"org.attnprotocol:billboard:b1\"," ++
    "\"ref_marketplace_id\":\"org.attnprotocol:marketplace:abc123\",\"ref_marketplace_pubkey\":\"cd\"," ++
    "\"ref_promotion_pubkey\":\"ab\",\"ref_attention_pubkey\":\"ab\",\"ref_billboard_pubkey\":\"ef\"\x7d"

/-- Payload of a Match event with its nine ref fields, as `json.Unmarshal` decodes it. -/
def matchRefsMap : JSONObject :=
  [ ("ref_match_id", .string "org.attnprotocol:match:m1"),
    ("ref_promotion_id", .string "org.attnprotocol:promotion:p1"),
    ("ref_attention_id", .string "org.attnprotocol:attention:a1"),
    ("ref_billboard_id", .string "org.attnprotocol:billboard:b1"),
    ("ref_marketplace_id", .string "org.attnprotocol:marketplace:abc123"),
    ("ref_marketplace_pubkey", .string "cd"),
    ("ref_promotion_pubkey", .string "ab"),
    ("ref_attention_pubkey", .string "ab"),
    ("ref_billboard_pubkey", .string "ef") ]

/-- Payload of a Billboard or Attention Confirmation event with its ten ref fields (JSON text). -/
def confirmationText : String :=
  "\x7b\"ref_match_event_id\":\"e5\",\"ref_match_id\":\"org.attnprotocol:match:m1\"," ++
    "\"ref_marketplace_pubkey\":\"cd\",\"ref_billboard_pubkey\":\"ef\",\"ref_promotion_pubkey\":\"ab\"," ++
    "\"ref_attention_pubkey\":\"ab\",\"ref_marketplace_id\":\"org.attnprotocol:marketplace:abc123\"," ++
    "\"ref_billboard_id\":\"org.attnprotocol:billboard:b1\",\"ref_promotion_id\":\"org.attnprotocol:promotion:p1\"," ++
    "\"ref_attention_id\":\"org.attnprotocol:attention:a1\"\x7d"

/-- Payload of a Billboard or Attention Confirmation event with its ten ref fields, as `json.Unmarshal` decodes it. -/
def confirmationMap : JSONObject :=
  [ ("ref_match_event_id", .string "e5"),
    ("ref_match_id", .string "org.attnprotocol:match:m1"),
    ("ref_marketplace_pubkey", .string "cd"),
    ("ref_billboard_pubkey", .string "ef"),
    ("ref_promotion_pubkey", .string "ab"),
    ("ref_attention_pubkey", .string "ab"),
    ("ref_marketplace_id", .string "org.attnprotocol:marketplace:abc123"),
    ("ref_billboard_id", .string "org.attnprotocol:billboard:b1"),
    ("ref_promotion_id", .string "org.attnprotocol:promotion:p1"),
    ("ref_attention_id", .string "org.attnprotocol:attention:a1") ]

/-- Payload of a Marketplace Confirmation event with its twelve ref fields (JSON text). -/
def marketplaceConfirmationText : String :=
  "\x7b\"ref_match_event_id\":\"e5\",\"ref_match_id\":\"org.attnprotocol:match:m1\"," ++
    "\"ref_billboard_confirmation_event_id\":\"e6\",\"ref_attention_confirmation_event_id\":\"e7\"," ++
    "\"ref_marketplace_pubkey\":\"cd\",\"ref_billboard_pubkey\":\"ef\",\"ref_promotion_pubkey\":\"ab\"," ++
    "\"ref_attention_pubkey\":\"ab\",\"ref_marketplace_id\":\"org.attnprotocol:marketplace:abc123\"," ++
    "\"ref_billboard_id\":\"org.attnprotocol:billboard:b1\",\"ref_promotion_id\":\"org.attnprotocol:promotion:p1\"," ++
    "\"ref_attention_id\":\"org.attnprotocol:attention:a1\"\x7d"

/-- Payload of a Marketplace Confirmation event with its twelve ref fields, as `json.Unmarshal` decodes it. -/
def marketplaceConfirmationMap : JSONObject :=
  [ ("ref_match_event_id", .string "e5"),
    ("ref_match_id", .string "org.attnprotocol:match:m1"),
    ("ref_billboard_confirmation_event_id", .string "e6"),
    ("ref_attention_confirmation_event_id", .string "e7"),
    ("ref_marketplace_pubkey", .string "cd"),
    ("ref_billboard_pubkey", .string "ef"),
    ("ref_promotion_pubkey", .string "ab"),
    ("ref_attention_pubkey", .string "ab"),
    ("ref_marketplace_id", .string "org.attnprotocol:marketplace:abc123"),
    ("ref_billboard_id", .string "org.attnprotocol:billboard:b1"),
    ("ref_promotion_id", .string "org.attnprotocol:promotion:p1"),
    ("ref_attention_id", .string "org.attnprotocol:attention:a1") ]

/-- Payload of an Attention Payment Confirmation event with sats_received 100 (JSON text). -/
def paymentText : String :=
  "\x7b\"sats_received\":100,\"ref_match_event_id\":\"e5\",\"ref_match_id\":\"org.attnprotocol:match:m1\"," ++
    "\"ref_marketplace_confirmation_event_id\":\"e8\",\"ref_marketplace_pubkey\":\"cd\"," ++
    "\"ref_billboard_pubkey\":\"ef\",\"ref_promotion_pubkey\":\"ab\",\"ref_attention_pubkey\":\"ab\"," ++
    "\"ref_marketplace_id\":\"org.attnprotocol:marketplace:abc123\",\"ref_billboard_id\":\"org.attnprotocol:billboard:b1\"," ++
    "\"ref_promotion_id\":\"org.attnprotocol:promotion:p1\",\"ref_attention_id\":\"org.attnprotocol:attention:a1\"\x7d"

/-- Payload of an Attention Payment Confirmation event with sats_received 100, as `json.Unmarshal` decodes it. -/
def paymentMap : JSONObject :=
  [ ("sats_received", .number 100),
    ("ref_match_event_id", .string "e5"),
    ("ref_match_id", .string "org.attnprotocol:match:m1"),
    ("ref_marketplace_confirmation_event_id", .string "e8"),
    ("ref_marketplace_pubkey", .string "cd"),
    ("ref_billboard_pubkey", .string "ef"),
    ("ref_promotion_pubkey", .string "ab"),
    ("ref_attention_pubkey", .string "ab"),
    ("ref_marketplace_id", .string "org.attnprotocol:marketplace:abc123"),
    ("ref_billboard_id", .string "org.attnprotocol:billboard:b1"),
    ("ref_promotion_id", .string "org.attnprotocol:promotion:p1"),
    ("ref_attention_id", .string "org.attnprotocol:attention:a1") ]

/-- The payloads of the second group of examples, each with the map `json.Unmarshal` yields
for it. -/
def chainPayloads : List (String × JSONObject) :=
  [ (promotionText, promotionMap),
    (promotionNoBidText, promotionNoBidMap),
    (attentionText, attentionMap),
    (attentionTrustedText, attentionTrustedMap),
    (matchRefsText, matchRefsMap),
    (confirmationText, confirmationMap),
    (marketplaceConfirmationText, marketplaceConfirmationMap),
    (paymentText, paymentMap) ]

/-- A library instance that decodes the payloads of `chainPayloads`. -/
def chainLib : GoLib :=
  { Unmarshal := tableDecoder chainPayloads, EqualFold := asciiEqualFold }

/-- A well-formed Promotion event. -/
def promotionEvent : Event :=
  { Kind := 38388, PubKey := "ab", Content := promotionText,
    Tags :=
    [ ["d", "org.attnprotocol:promotion:p1"],
      ["t", "870500"],
      ["a", "38188:cd:org.attnprotocol:marketplace:abc123"],
      ["a", "34236:ab:video1"],
      ["a", "38288:ef:org.attnprotocol:billboard:b1"],
      ["p", "ab"],
      ["p", "cd"],
      ["p", "ef"],
      ["r", "wss://relay.example.com"],
      ["k", "34236"],
      ["u", "https://example.com"] ] }

/-- A Promotion event with well-formed tags whose payload lacks bid and has duration 0. -/
def promotionNoBidEvent : Event :=
  { Kind := 38388, PubKey := "ab", Content := promotionNoBidText,
    Tags :=
    [ ["d", "org.attnprotocol:promotion:p1"],
      ["t", "870500"],
      ["a", "38188:cd:org.attnprotocol:marketplace:abc123"],
      ["a", "34236:ab:video1"],
      ["a", "38288:ef:org.attnprotocol:billboard:b1"],
      ["p", "ab"],
      ["p", "cd"],
      ["p", "ef"],
      ["r", "wss://relay.example.com"],
      ["k", "34236"],
      ["u", "https://example.com"] ] }

/-- A Promotion event with well-formed tags whose content is not JSON. -/
def promotionBadJsonEvent : Event :=
  { Kind := 38388, PubKey := "ab", Content := "invalid json",
    Tags :=
    [ ["d", "org.attnprotocol:promotion:p1"],
      ["t", "870500"],
      ["a", "38188:cd:org.attnprotocol:marketplace:abc123"],
      ["a", "34236:ab:video1"],
      ["a", "38288:ef:org.attnprotocol:billboard:b1"],
      ["p", "ab"],
      ["p", "cd"],
      ["p", "ef"],
      ["r", "wss://relay.example.com"],
      ["k", "34236"],
      ["u", "https://example.com"] ] }

/-- A well-formed Attention event without trusted-list coordinates. -/
def attentionEvent : Event :=
  { Kind := 38488, PubKey := "ab", Content := attentionText,
    Tags :=
    [ ["d", "org.attnprotocol:attention:a1"],
      ["t", "870500"],
      ["a", "38188:cd:org.attnprotocol:marketplace:abc123"],
      ["a", "30000:ab:org.attnprotocol:promotion:blocked"],
      ["a", "30000:ab:org.attnprotocol:promoter:blocked"],
      ["p", "ab"],
      ["p", "cd"],
      ["r", "wss://relay.example.com"],
      ["k", "34236"] ] }

/-- The Attention event `attentionEvent` with trusted_marketplaces_id added to its payload. -/
def attentionExtraFieldEvent : Event :=
  { Kind := 38488, PubKey := "ab", Content := attentionTrustedText,
    Tags :=
    [ ["d", "org.attnprotocol:attention:a1"],
      ["t", "870500"],
      ["a", "38188:cd:org.attnprotocol:marketplace:abc123"],
      ["a", "30000:ab:org.attnprotocol:promotion:blocked"],
      ["a", "30000:ab:org.attnprotocol:promoter:blocked"],
      ["p", "ab"],
      ["p", "cd"],
      ["r", "wss://relay.example.com"],
      ["k", "34236"] ] }

/-- An Attention event that carries a trusted-marketplaces list coordinate and whose payload lacks trusted_marketplaces_id. -/
def attentionTrustedTagEvent : Event :=
  { Kind := 38488, PubKey := "ab", Content := attentionText,
    Tags :=
    [ ["d", "org.attnprotocol:attention:a1"],
      ["t", "870500"],
      ["a", "38188:cd:org.attnprotocol:marketplace:abc123"],
      ["a", "30000:ab:org.attnprotocol:promotion:blocked"],
      ["a", "30000:ab:org.attnprotocol:promoter:blocked"],
      ["p", "ab"],
      ["p", "cd"],
      ["r", "wss://relay.example.com"],
      ["k", "34236"],
      ["a", "30000:ab:org.attnprotocol:marketplace:trusted"] ] }

/-- A well-formed Match event; it has no e tag. -/
def matchEvent : Event :=
  { Kind := 38888, PubKey := "cd", Content := matchRefsText,
    Tags :=
    [ ["d", "org.attnprotocol:match:m1"],
      ["t", "870500"],
      ["a", "38188:cd:org.attnprotocol:marketplace:abc123"],
      ["a", "38288:ef:org.attnprotocol:billboard:b1"],
      ["a", "38388:ab:org.attnprotocol:promotion:p1"],
      ["a", "38488:ab:org.attnprotocol:attention:a1"],
      ["p", "ab"],
      ["p", "cd"],
      ["p", "ef"],
      ["p", "0a"],
      ["r", "wss://relay.example.com"],
      ["k", "34236"] ] }

/-- A well-formed Billboard Confirmation event with five e tags, one marked match. -/
def billboardConfirmationEvent : Event :=
  { Kind := 38588, PubKey := "ef", Content := confirmationText,
    Tags :=
    [ ["d", "org.attnprotocol:billboard-confirmation:c1"],
      ["t", "870500"],
      ["a", "38188:cd:org.attnprotocol:marketplace:abc123"],
      ["a", "38288:ef:org.attnprotocol:billboard:b1"],
      ["a", "38388:ab:org.attnprotocol:promotion:p1"],
      ["a", "38488:ab:org.attnprotocol:attention:a1"],
      ["a", "38888:cd:org.attnprotocol:match:m1"],
      ["e", "e1"],
      ["e", "e2"],
      ["e", "e3"],
      ["e", "e4"],
      ["e", "e5", "wss://relay.example.com", "match"],
      ["p", "ab"],
      ["p", "cd"],
      ["p", "ef"],
      ["p", "0a"],
      ["r", "wss://relay.example.com"] ] }

/-- A well-formed Marketplace Confirmation event with seven e tags and the three markers. -/
def marketplaceConfirmationEvent : Event :=
  { Kind := 38788, PubKey := "cd", Content := marketplaceConfirmationText,
    Tags :=
    [ ["d", "org.attnprotocol:marketplace-confirmation:c2"],
      ["t", "870500"],
      ["a", "38188:cd:org.attnprotocol:marketplace:abc123"],
      ["a", "38288:ef:org.attnprotocol:billboard:b1"],
      ["a", "38388:ab:org.attnprotocol:promotion:p1"],
      ["a", "38488:ab:org.attnprotocol:attention:a1"],
      ["a", "38888:cd:org.attnprotocol:match:m1"],
      ["e", "e1"],
      ["e", "e2"],
      ["e", "e3"],
      ["e", "e4"],
      ["e", "e5", "wss://relay.example.com", "match"],
      ["e", "e6", "wss://relay.example.com", "billboard_confirmation"],
      ["e", "e7", "wss://relay.example.com", "attention_confirmation"],
      ["p", "ab"],
      ["p", "cd"],
      ["p", "ef"],
      ["p", "0a"],
      ["r", "wss://relay.example.com"] ] }

/-- A well-formed Attention Payment Confirmation event whose only e tag carries the marker. -/
def paymentEvent : Event :=
  { Kind := 38988, PubKey := "ab", Content := paymentText,
    Tags :=
    [ ["d", "org.attnprotocol:attention-payment-confirmation:c3"],
      ["t", "870500"],
      ["e", "e8", "wss://relay.example.com", "marketplace_confirmation"],
      ["a", "38188:cd:org.attnprotocol:marketplace:abc123"],
      ["a", "38288:ef:org.attnprotocol:billboard:b1"],
      ["a", "38388:ab:org.attnprotocol:promotion:p1"],
      ["a", "38488:ab:org.attnprotocol:attention:a1"],
      ["a", "38888:cd:org.attnprotocol:match:m1"],
      ["p", "ab"],
      ["p", "cd"],
      ["p", "ef"],
      ["p", "0a"],
      ["r", "wss://relay.example.com"] ] }

/-- A Billboard Confirmation event with valid identifier, height and coordinates, three p tags and no e tag. -/
def unmarkedFewPEvent : Event :=
  { Kind := 38588, PubKey := "ef", Content := confirmationText,
    Tags :=
    [ ["d", "org.attnprotocol:billboard-confirmation:c1"],
      ["t", "870500"],
      ["a", "38188:cd:org.attnprotocol:marketplace:abc123"],
      ["a", "38288:ef:org.attnprotocol:billboard:b1"],
      ["a", "38388:ab:org.attnprotocol:promotion:p1"],
      ["a", "38488:ab:org.attnprotocol:attention:a1"],
      ["a", "38888:cd:org.attnprotocol:match:m1"],
      ["p", "ab"],
      ["p", "cd"],
      ["p", "ef"],
      ["r", "wss://relay.example.com"] ] }

/-- A Billboard Confirmation event with valid identifier, height and coordinates, five e tags of which one is marked match, and three p tags. -/
def markedFewPEvent : Event :=
  { Kind := 38588, PubKey := "ef", Content := confirmationText,
    Tags :=
    [ ["d", "org.attnprotocol:billboard-confirmation:c1"],
      ["t", "870500"],
      ["a", "38188:cd:org.attnprotocol:marketplace:abc123"],
      ["a", "38288:ef:org.attnprotocol:billboard:b1"],
      ["a", "38388:ab:org.attnprotocol:promotion:p1"],
      ["a", "38488:ab:org.attnprotocol:attention:a1"],
      ["a", "38888:cd:org.attnprotocol:match:m1"],
      ["e", "e1"],
      ["e", "e2"],
      ["e", "e3"],
      ["e", "e4"],
      ["e", "e5", "wss://relay.example.com", "match"],
      ["p", "ab"],
      ["p", "cd"],
      ["p", "ef"],
      ["r", "wss://relay.example.com"] ] }

/-- An Attention Payment Confirmation event that carries the marker and has no a tag. -/
def paymentNoCoordinateEvent : Event :=
  { Kind := 38988, PubKey := "ab", Content := paymentText,
    Tags :=
    [ ["d", "org.attnprotocol:attention-payment-confirmation:c3"],
      ["t", "870500"],
      ["e", "e8", "wss://relay.example.com", "marketplace_confirmation"],
      ["p", "ab"],
      ["p", "cd"],
      ["p", "ef"],
      ["p", "0a"],
      ["r", "wss://relay.example.com"] ] }

/-- An Attention Payment Confirmation event with neither an a tag nor an e tag. -/
def paymentBareEvent : Event :=
  { Kind := 38988, PubKey := "ab", Content := paymentText,
    Tags :=
    [ ["d", "org.attnprotocol:attention-payment-confirmation:c3"],
      ["t", "870500"],
      ["p", "ab"],
      ["p", "cd"],
      ["p", "ef"],
      ["p", "0a"],
      ["r", "wss://relay.example.com"] ] }

/-- Payload of a Marketplace event that names the block issuer ref_node_pubkey and has no count fields (JSON text). -/
def nodeMarketplaceText : String :=
  "\x7b\"name\":\"m\",\"description\":\"d\",\"admin_pubkey\":\"ab\",\"min_duration\":10,\"max_duration\":20," ++
    "\"match_fee_sats\":0,\"confirmation_fee_sats\":0,\"ref_marketplace_pubkey\":\"ab\"," ++
    "\"ref_marketplace_id\":\"org.attnprotocol:marketplace:abc123\",\"ref_node_pubkey\":\"cd\"," ++
    "\"ref_block_id\":\"org.attnprotocol:block:870500:00ab\"\x7d"

/-- Payload of a Marketplace event that names the block issuer ref_node_pubkey and has no count fields, as `json.Unmarshal` decodes it. -/
def nodeMarketplaceMap : JSONObject :=
  [ ("name", .string "m"),
    ("description", .string "d"),
    ("admin_pubkey", .string "ab"),
    ("min_duration", .number 10),
    ("max_duration", .number 20),
    ("match_fee_sats", .number 0),
    ("confirmation_fee_sats", .number 0),
    ("ref_marketplace_pubkey", .string "ab"),
    ("ref_marketplace_id", .string "org.attnprotocol:marketplace:abc123"),
    ("ref_node_pubkey", .string "cd"),
    ("ref_block_id", .string "org.attnprotocol:block:870500:00ab") ]

/-- Payload of a Block event whose height is the boolean true (JSON text). -/
def boolHeightText : String :=
  "\x7b\"height\":true,\"hash\":\"00ab\",\"ref_node_pubkey\":\"ab12\",\"ref_block_id\":\"org.attnprotocol:block:870500:00ab\"\x7d"

/-- Payload of a Block event whose height is the boolean true, as `json.Unmarshal` decodes it. -/
def boolHeightMap : JSONObject :=
  [ ("height", .bool true),
    ("hash", .string "00ab"),
    ("ref_node_pubkey", .string "ab12"),
    ("ref_block_id", .string "org.attnprotocol:block:870500:00ab") ]

/-- Payload of a Block event whose height is the string 870500 (JSON text). -/
def stringHeightText : String :=
  "\x7b\"height\":\"870500\",\"hash\":\"00ab\",\"ref_node_pubkey\":\"ab12\",\"ref_block_id\":\"org.attnprotocol:block:870500:00ab\"\x7d"

/-- Payload of a Block event whose height is the string 870500, as `json.Unmarshal` decodes it. -/
def stringHeightMap : JSONObject :=
  [ ("height", .string "870500"),
    ("hash", .string "00ab"),
    ("ref_node_pubkey", .string "ab12"),
    ("ref_block_id", .string "org.attnprotocol:block:870500:00ab") ]

/-- The payloads of the third group of examples, each with the map `json.Unmarshal` yields
for it. -/
def driftPayloads : List (String × JSONObject) :=
  [ (coreMarketplaceText, coreMarketplaceMap),
    (nodeMarketplaceText, nodeMarketplaceMap),
    (boolHeightText, boolHeightMap),
    (stringHeightText, stringHeightMap) ]

/-- A library instance that decodes the payloads of `driftPayloads`. -/
def driftLib : GoLib :=
  { Unmarshal := tableDecoder driftPayloads, EqualFold := asciiEqualFold }

/-- The Promotion event `promotionEvent` with the video coordinate replaced by "34236:", which has two colon-separated segments. -/
def bareVideoEvent : Event :=
  { Kind := 38388, PubKey := "ab", Content := promotionText,
    Tags :=
    [ ["d", "org.attnprotocol:promotion:p1"],
      ["t", "870500"],
      ["a", "38188:cd:org.attnprotocol:marketplace:abc123"],
      ["a", "34236:"],
      ["a", "38288:ef:org.attnprotocol:billboard:b1"],
      ["p", "ab"],
      ["p", "cd"],
      ["p", "ef"],
      ["r", "wss://relay.example.com"],
      ["k", "34236"],
      ["u", "https://example.com"] ] }

/-- A Marketplace event that carries both block coordinates (38088 and 38808) and whose payload has ref_node_pubkey, no ref_clock_pubkey and no count fields. -/
def nodeFieldEvent : Event :=
  { Kind := 38188, PubKey := "ab", Content := nodeMarketplaceText,
    Tags :=
    [ ["d", "org.attnprotocol:marketplace:abc123"],
      ["t", "870500"],
      ["a", "38088:cd:org.attnprotocol:block:870500:00ab"],
      ["a", "38808:cd:org.attnprotocol:block:870500:00ab"],
      ["k", "38388"],
      ["p", "ab"],
      ["p", "cd"],
      ["r", "wss://relay.example.com"] ] }

/-- A Marketplace event with the tags of `nodeFieldEvent` whose payload has ref_clock_pubkey and the four count fields, and no ref_node_pubkey. -/
def clockFieldEvent : Event :=
  { Kind := 38188, PubKey := "ab", Content := coreMarketplaceText,
    Tags :=
    [ ["d", "org.attnprotocol:marketplace:abc123"],
      ["t", "870500"],
      ["a", "38088:cd:org.attnprotocol:block:870500:00ab"],
      ["a", "38808:cd:org.attnprotocol:block:870500:00ab"],
      ["k", "38388"],
      ["p", "ab"],
      ["p", "cd"],
      ["r", "wss://relay.example.com"] ] }

/-- A Block event with well-formed tags whose payload height is a boolean. -/
def boolHeightEvent : Event :=
  { Kind := 38088, PubKey := "ab12", Content := boolHeightText,
    Tags :=
    [ ["d", "org.attnprotocol:block:870500:00ab"],
      ["t", "870500"],
      ["p", "ab12"],
      ["r", "wss://relay.example.com"] ] }

/-- A Block event with well-formed tags whose payload height is a numeric string. -/
def stringHeightEvent : Event :=
  { Kind := 38088, PubKey := "ab12", Content := stringHeightText,
    Tags :=
    [ ["d", "org.attnprotocol:block:870500:00ab"],
      ["t", "870500"],
      ["p", "ab12"],
      ["r", "wss://relay.example.com"] ] }

/-- The Promotion event `promotionEvent` with a d tag of empty value placed before its well-formed d tag. -/
def emptyFirstDEvent : Event :=
  { Kind := 38388, PubKey := "ab", Content := promotionText,
    Tags :=
    [ ["d", ""],
      ["d", "org.attnprotocol:promotion:p1"],
      ["t", "870500"],
      ["a", "38188:cd:org.attnprotocol:marketplace:abc123"],
      ["a", "34236:ab:video1"],
      ["a", "38288:ef:org.attnprotocol:billboard:b1"],
      ["p", "ab"],
      ["p", "cd"],
      ["p", "ef"],
      ["r", "wss://relay.example.com"],
      ["k", "34236"],
      ["u", "https://example.com"] ] }

/-- A decoder that treats the JSON text `null` as `json.Unmarshal` does for a map target:
no error is returned and the map stays nil, which has no key and reads as the empty map.
Every other content is looked up in `chainPayloads`. -/
def nullAwareDecoder (content : String) : Option JSONObject :=
  if content = "null" then some [] else tableDecoder chainPayloads content

/-- A library instance that decodes `null` and the payloads of `chainPayloads`. -/
def nullLib : GoLib :=
  { Unmarshal := nullAwareDecoder, EqualFold := asciiEqualFold }

/-- The Promotion event `promotionEvent` with the content `null`, which is JSON and not a
JSON object. -/
def promotionNullEvent : Event :=
  { Kind := 38388, PubKey := "ab", Content := "null",
    Tags :=
    [ ["d", "org.attnprotocol:promotion:p1"],
      ["t", "870500"],
      ["a", "38188:cd:org.attnprotocol:marketplace:abc123"],
      ["a", "34236:ab:video1"],
      ["a", "38288:ef:org.attnprotocol:billboard:b1"],
      ["p", "ab"],
      ["p", "cd"],
      ["p", "ef"],
      ["r", "wss://relay.example.com"],
      ["k", "34236"],
      ["u", "https://example.com"] ] }

/-! ## Facts about the library functions -/

theorem string_eq_iff_data (a b : String) : a = b ↔ a.data = b.data := by
  constructor
  · intro h; rw [h]
  · intro h; cases a; cases b; simp_all

theorem HasPrefix_iff (s pre : String) :
    HasPrefix s pre = true ↔ ∃ t : String, s = pre ++ t := by
  unfold HasPrefix
  rw [List.isPrefixOf_iff_prefix]
  constructor
  · rintro ⟨t, ht⟩
    exact ⟨⟨t⟩, by rw [string_eq_iff_data]; simp [ht]⟩
  · rintro ⟨t, rfl⟩
    exact ⟨t.data, by simp⟩

theorem TrimPrefix_append (pre t : String) : TrimPrefix (pre ++ t) pre = t := by
  have h : HasPrefix (pre ++ t) pre = true := (HasPrefix_iff _ _).2 ⟨t, rfl⟩
  unfold TrimPrefix
  rw [if_pos h, string_eq_iff_data]
  simp

theorem splitFirst_ne_nil (sep : Char) (cs : List Char) : splitFirst sep cs ≠ [] := by
  cases cs with
  | nil => simp [splitFirst]
  | cons c cs =>
    simp only [splitFirst]
    split
    · simp
    · split <;> simp

theorem splitFirst_append_sep (sep : Char) (a b : List Char) (ha : sep ∉ a) :
    splitFirst sep (a ++ sep :: b) = [a, b] := by
  induction a with
  | nil => simp [splitFirst]
  | cons c a ih =>
    have hc : c ≠ sep := fun h => ha (by simp [h])
    have ha2 : sep ∉ a := fun h => ha (by simp [h])
    simp [splitFirst, hc, ih ha2]

theorem splitFirst_pair (sep : Char) (cs x y : List Char) (r : List (List Char))
    (h : splitFirst sep cs = x :: y :: r) : r = [] ∧ sep ∉ x ∧ cs = x ++ sep :: y := by
  induction cs generalizing x with
  | nil => simp [splitFirst] at h
  | cons c cs ih =>
    simp only [splitFirst] at h
    split at h
    · rename_i hc
      simp only [List.cons.injEq] at h
      obtain ⟨rfl, rfl, rfl⟩ := h
      simp [hc]
    · rename_i hc
      split at h
      · simp at h
      · rename_i seg segs hs
        simp only [List.cons.injEq] at h
        obtain ⟨rfl, rfl⟩ := h
        obtain ⟨h1, h2, h3⟩ := ih seg hs
        refine ⟨h1, ?_, by simp [h3]⟩
        simp only [List.mem_cons, not_or]
        exact ⟨fun e => hc e.symm, h2⟩

theorem eventTypeMap_no_colon (kind : Int) (name : String)
    (h : eventTypeMap.lookup kind = some name) : ':' ∉ name.data := by
  have hall : ∀ p ∈ eventTypeMap, ':' ∉ p.2.data := by decide
  have hmem : ∃ k, (k, name) ∈ eventTypeMap := by
    clear hall
    revert h
    generalize eventTypeMap = m
    induction m with
    | nil => simp [List.lookup]
    | cons p m ih =>
      obtain ⟨k, v⟩ := p
      simp only [List.lookup]
      split
      · intro h
        simp only [Option.some.injEq] at h
        exact ⟨k, by simp [h]⟩
      · intro h
        obtain ⟨k2, hk⟩ := ih h
        exact ⟨k2, by simp [hk]⟩
  obtain ⟨k, hk⟩ := hmem
  exact hall _ hk

theorem SplitN2_append (a b : String) (h : ':' ∉ a.data) :
    SplitN2 (a ++ ":" ++ b) ':' = [a, b] := by
  unfold SplitN2
  have hd : (a ++ ":" ++ b).data = a.data ++ ':' :: b.data := by simp
  rw [hd, splitFirst_append_sep ':' a.data b.data h]
  rfl

theorem SplitN2_pair (s a b : String) (r : List String)
    (h : SplitN2 s ':' = a :: b :: r) : r = [] ∧ ':' ∉ a.data ∧ s = a ++ ":" ++ b := by
  unfold SplitN2 at h
  match hs : splitFirst ':' s.data, h with
  | [], h => simp at h
  | [_], h => simp at h
  | x :: y :: r2, h =>
    simp only [List.map_cons, List.cons.injEq] at h
    obtain ⟨rfl, rfl, hr⟩ := h
    obtain ⟨h1, h2, h3⟩ := splitFirst_pair ':' s.data x y r2 hs
    subst h1
    refine ⟨by simpa using hr.symm, h2, ?_⟩
    rw [string_eq_iff_data]
    simp [h3]

theorem prefixed_ne_self (pre t : String) (hp : pre ≠ "") : t ≠ pre ++ t := by
  intro h
  have hl : t.data.length = (pre ++ t).data.length := by rw [← h]
  simp only [String.data_append, List.length_append] at hl
  have hz : pre.data.length = 0 := by omega
  apply hp
  rw [string_eq_iff_data]
  exact List.length_eq_zero.mp hz

/-- The tag-name guard, unfolded along the tag list: it accepts exactly the lists in which
every non-empty tag has an allowed name, and otherwise reports the first offending name. -/
theorem validateOfficialTagsIn_spec (tags : List (List String)) :
    ((validateOfficialTagsIn tags).Valid = true ↔
      ∀ tag ∈ tags, ∀ name rest, tag = name :: rest → name ∈ allowedTags) ∧
    ((validateOfficialTagsIn tags).Valid = false →
      ∃ before name rest after, tags = before ++ (name :: rest) :: after ∧
        (∀ tag ∈ before, ∀ n r, tag = n :: r → n ∈ allowedTags) ∧
        name ∉ allowedTags ∧
        (validateOfficialTagsIn tags).Message = "Non-standard tag '" ++ name
          ++ "' not allowed. Only official Nostr tags are permitted: d, t, a, e, p, r, k, u") := by
  induction tags with
  | nil => simp [validateOfficialTagsIn]
  | cons tag tags ih =>
    obtain ⟨ih1, ih2⟩ := ih
    cases tag with
    | nil =>
      simp only [validateOfficialTagsIn]
      constructor
      · rw [ih1]
        constructor
        · intro h tag htag name rest he
          rcases List.mem_cons.1 htag with rfl | hm
          · simp at he
          · exact h tag hm name rest he
        · intro h tag htag
          exact h tag (List.mem_cons_of_mem _ htag)
      · intro hv
        obtain ⟨before, name, rest, after, h1, h2, h3, h4⟩ := ih2 hv
        refine ⟨[] :: before, name, rest, after, by simp [h1], ?_, h3, h4⟩
        intro tag htag n r he
        rcases List.mem_cons.1 htag with rfl | hm
        · simp at he
        · exact h2 tag hm n r he
    | cons tagName more =>
      simp only [validateOfficialTagsIn]
      split
      · rename_i hbad
        constructor
        · simp only [Bool.false_eq_true, false_iff, not_forall]
          exact ⟨tagName :: more, by simp, tagName, more, rfl, hbad⟩
        · intro _
          exact ⟨[], tagName, more, tags, by simp, by simp, hbad, rfl⟩
      · rename_i hgood
        simp only [Decidable.not_not] at hgood
        constructor
        · rw [ih1]
          constructor
          · intro h tag htag name rest he
            rcases List.mem_cons.1 htag with rfl | hm
            · simp only [List.cons.injEq] at he
              rw [← he.1]; exact hgood
            · exact h tag hm name rest he
          · intro h tag htag
            exact h tag (List.mem_cons_of_mem _ htag)
        · intro hv
          obtain ⟨before, name, rest, after, h1, h2, h3, h4⟩ := ih2 hv
          refine ⟨(tagName :: more) :: before, name, rest, after, by simp [h1], ?_, h3, h4⟩
          intro tag htag n r he
          rcases List.mem_cons.1 htag with rfl | hm
          · simp only [List.cons.injEq] at he
            rw [← he.1]; exact hgood
          · exact h2 tag hm n r he

theorem containsChars_append (sub a b : List Char) :
    containsChars sub (a ++ sub ++ b) = true := by
  induction a with
  | nil =>
    have hp : sub.isPrefixOf (sub ++ b) = true :=
      List.isPrefixOf_iff_prefix.2 (List.prefix_append sub b)
    simp only [List.nil_append]
    generalize sub ++ b = l at hp
    cases l with
    | nil => simpa only [containsChars] using hp
    | cons c cs => simp only [containsChars, hp, Bool.true_or]
  | cons c a ih =>
    simp only [List.cons_append, containsChars, Bool.or_eq_true]
    right
    simpa using ih

theorem Contains_append (a sub b : String) : Contains (a ++ sub ++ b) sub = true := by
  unfold Contains
  have h : (a ++ sub ++ b).data = a.data ++ sub.data ++ b.data := by simp
  rw [h]
  exact containsChars_append _ _ _

theorem mapGet_false_of_not_mem (m : List (Int × Bool)) (k : Int)
    (h : k ∉ m.map Prod.fst) : mapGet m k = false := by
  unfold mapGet
  induction m with
  | nil => simp [List.lookup]
  | cons p m ih =>
    obtain ⟨a, b⟩ := p
    simp only [List.map_cons, List.mem_cons, not_or] at h
    have hne : (k == a) = false := by simpa using h.1
    simp only [List.lookup, hne]
    exact ih h.2

theorem lookup_none_of_not_mem (m : List (Int × Bool)) (k : Int)
    (h : k ∉ m.map Prod.fst) : m.lookup k = none := by
  induction m with
  | nil => simp [List.lookup]
  | cons p m ih =>
    obtain ⟨a, b⟩ := p
    simp only [List.map_cons, List.mem_cons, not_or] at h
    have hne : (k == a) = false := by simpa using h.1
    simp only [List.lookup, hne]
    exact ih h.2

theorem not_mem_of_lookup_none (m : List (Int × Bool)) (k : Int)
    (h : m.lookup k = none) : k ∉ m.map Prod.fst := by
  induction m with
  | nil => simp
  | cons p m ih =>
    obtain ⟨a, b⟩ := p
    simp only [List.lookup] at h
    split at h
    · simp at h
    · rename_i hne
      simp only [List.map_cons, List.mem_cons, not_or]
      exact ⟨by simpa using hne, ih h⟩

theorem mapGet_AllowedEventKinds_protocol (k : Int)
    (h : k ∈ [(38088 : Int), 38188, 38288, 38388, 38488, 38588, 38688, 38788, 38888, 38988]) :
    mapGet AllowedEventKinds k = true ∧ mapGet attnProtocolKinds k = true := by
  simp only [List.mem_cons, List.mem_singleton, List.not_mem_nil, or_false] at h
  rcases h with rfl | rfl | rfl | rfl | rfl | rfl | rfl | rfl | rfl | rfl <;> decide

theorem mapGet_ATTNProtocolKinds (k : Int)
    (h : k ∈ [(38188 : Int), 38288, 38388, 38488, 38588, 38688, 38788, 38888, 38988]) :
    mapGet GoCore.ATTNProtocolKinds k = true := by
  simp only [List.mem_cons, List.mem_singleton, List.not_mem_nil, or_false] at h
  rcases h with rfl | rfl | rfl | rfl | rfl | rfl | rfl | rfl | rfl <;> decide

/-- A tag with a name outside the closed set makes the tag-name guard fail. -/
theorem guard_fails_of_bad_tag (event : Event)
    (hbad : ∃ tag ∈ event.Tags, ∃ name rest, tag = name :: rest ∧ name ∉ allowedTags) :
    (validateOfficialTagsOnly event).Valid = false := by
  cases hv : (validateOfficialTagsOnly event).Valid with
  | false => rfl
  | true =>
    obtain ⟨tag, hmem, name, rest, he, hn⟩ := hbad
    exact absurd ((validateOfficialTagsIn_spec event.Tags).1.1 hv tag hmem name rest he) hn

/-- The helpers.go entry point returns the guard's verdict when the guard fails on a
protocol kind. -/
theorem ValidateEvent_of_guard_fails (L : GoLib) (event : Event)
    (hk : event.Kind ∈
      [(38088 : Int), 38188, 38288, 38388, 38488, 38588, 38688, 38788, 38888, 38988])
    (hv : (validateOfficialTagsOnly event).Valid = false) :
    ValidateEvent L event = some (validateOfficialTagsOnly event) := by
  obtain ⟨h1, h2⟩ := mapGet_AllowedEventKinds_protocol event.Kind hk
  unfold ValidateEvent
  simp [h1, h2, hv]

/-- The go-core entry point returns the guard's verdict when the guard fails on an ATTN
kind. -/
theorem ValidateATTNEvent_of_guard_fails (S : GoCore.Siblings) (L : GoLib) (event : Event)
    (hk : event.Kind ∈
      [(38188 : Int), 38288, 38388, 38488, 38588, 38688, 38788, 38888, 38988])
    (hv : (validateOfficialTagsOnly event).Valid = false) :
    GoCore.ValidateATTNEvent S L event = some (GoCore.validateOfficialTagsOnly event) := by
  have h1 := mapGet_ATTNProtocolKinds event.Kind hk
  unfold GoCore.ValidateATTNEvent GoCore.validateOfficialTagsOnly
  simp [h1, hv]

/-! ## Case analysis and payload conditions -/

theorem except_cases (x : Except String Unit) : x = .ok () ∨ ∃ err, x = .error err := by
  cases x with
  | error err => exact Or.inr ⟨err, rfl⟩
  | ok u => exact Or.inl rfl

theorem option_cases {α : Type} (x : Option α) : x = none ∨ ∃ v, x = some v := by
  cases x with
  | none => exact Or.inl rfl
  | some v => exact Or.inr ⟨v, rfl⟩

theorem firstMissingField_eq_none_iff (content : JSONObject) (fields : List String) :
    firstMissingField content fields = none ↔ ∀ f ∈ fields, ∃ v, content.lookup f = some v := by
  induction fields with
  | nil => simp [firstMissingField]
  | cons f fs ih =>
    simp only [firstMissingField]
    split
    · rename_i h
      simp only [reduceCtorEq, false_iff, not_forall]
      refine ⟨f, by simp, ?_⟩
      simp only [Option.isNone_iff_eq_none] at h
      simp [h]
    · rename_i h
      rw [ih]
      have hv : ∃ v, content.lookup f = some v := by
        cases hl : content.lookup f with
        | none => simp [hl] at h
        | some v => exact ⟨v, rfl⟩
      constructor
      · intro hall g hg
        rcases List.mem_cons.1 hg with rfl | hg
        · exact hv
        · exact hall g hg
      · intro hall g hg
        exact hall g (List.mem_cons_of_mem _ hg)

theorem notPositive_eq_false_iff (v : Option JSONValue) :
    notPositive (asFloat v) = false ↔ ∃ x : Rat, v = some (JSONValue.number x) ∧ 0 < x := by
  cases v with
  | none => simp [asFloat, notPositive]
  | some j => cases j <;> simp [asFloat, notPositive]

theorem isNegative_eq_false_iff (v : Option JSONValue) :
    isNegative (asFloat v) = false ↔ ∃ x : Rat, v = some (JSONValue.number x) ∧ 0 ≤ x := by
  cases v with
  | none => simp [asFloat, isNegative]
  | some j => cases j <;> simp [asFloat, isNegative]

/-! ## The per-kind validators, check by check

For every validator: the checks an accepted event has passed (`_checks`), the converse
(`_accepts`), and its two block-height rejections (`_height`). -/

/-- Every check that an event accepted by `ValidateBillboardEvent` has passed, in source order. -/
theorem ValidateBillboardEvent_checks (L : GoLib) (event : Event)
    (h : (ValidateBillboardEvent L event).Valid = true) :
      ¬ (getTagValue event "d" = "") ∧
      validateDTagFormat 38288 (getTagValue event "d") = .ok () ∧
      ¬ (getTagValue event "t" = "") ∧
      ¬ ((Atoi (getTagValue event "t")).isNone = true) ∧
      ¬ (getTagValueByPrefix event "a" "38188:" = "") ∧
      validateCoordinateFormat (getTagValueByPrefix event "a" "38188:") 38188 = .ok () ∧
      ¬ ((getTagValues event "p").length < 2) ∧
      ¬ ((getTagValues event "r").length = 0) ∧
      ¬ (getTagValue event "k" = "") ∧
      ¬ (getTagValue event "u" = "") ∧
      ∃ contentData, L.Unmarshal event.Content = some contentData ∧
      firstMissingField contentData
          ["name", "confirmation_fee_sats", "ref_billboard_pubkey", "ref_billboard_id", "ref_marketplace_pubkey", "ref_marketplace_id"] = none ∧
      ¬ (isNegative (asFloat (contentData.lookup "confirmation_fee_sats")) = true) := by
  unfold ValidateBillboardEvent at h
  simp only [] at h
  by_cases h1 : getTagValue event "d" = ""
  · rw [if_pos h1] at h; simp at h
  rw [if_neg h1] at h
  rcases except_cases (validateDTagFormat 38288 (getTagValue event "d")) with h2 | ⟨err, h2⟩
  swap
  · rw [h2] at h; simp at h
  rw [h2] at h; try simp only [] at h
  by_cases h3 : getTagValue event "t" = ""
  · rw [if_pos h3] at h; simp at h
  rw [if_neg h3] at h
  by_cases h4 : (Atoi (getTagValue event "t")).isNone = true
  · rw [if_pos h4] at h; simp at h
  rw [if_neg h4] at h
  by_cases h5 : getTagValueByPrefix event "a" "38188:" = ""
  · rw [if_pos h5] at h; simp at h
  rw [if_neg h5] at h
  rcases except_cases (validateCoordinateFormat (getTagValueByPrefix event "a" "38188:") 38188) with h6 | ⟨err, h6⟩
  swap
  · rw [h6] at h; simp at h
  rw [h6] at h; try simp only [] at h
  by_cases h7 : (getTagValues event "p").length < 2
  · rw [if_pos h7] at h; simp at h
  rw [if_neg h7] at h
  by_cases h8 : (getTagValues event "r").length = 0
  · rw [if_pos h8] at h; simp at h
  rw [if_neg h8] at h
  by_cases h9 : getTagValue event "k" = ""
  · rw [if_pos h9] at h; simp at h
  rw [if_neg h9] at h
  by_cases h10 : getTagValue event "u" = ""
  · rw [if_pos h10] at h; simp at h
  rw [if_neg h10] at h
  rcases option_cases (L.Unmarshal event.Content) with h11 | ⟨contentData, h11⟩
  · rw [h11] at h; simp at h
  rw [h11] at h; try simp only [] at h
  rcases option_cases (firstMissingField contentData
          ["name", "confirmation_fee_sats", "ref_billboard_pubkey", "ref_billboard_id", "ref_marketplace_pubkey", "ref_marketplace_id"]) with h12 | ⟨field, h12⟩
  swap
  · rw [h12] at h; simp at h
  rw [h12] at h; try simp only [] at h
  by_cases h13 : isNegative (asFloat (contentData.lookup "confirmation_fee_sats")) = true
  · rw [if_pos h13] at h; simp at h
  rw [if_neg h13] at h
  exact ⟨h1, h2, h3, h4, h5, h6, h7, h8, h9, h10, contentData, h11, h12, h13⟩

/-- An event that passes every check of `ValidateBillboardEvent` is accepted with the fixed message. -/
theorem ValidateBillboardEvent_accepts (L : GoLib) (event : Event)
    (h1 : ¬ (getTagValue event "d" = ""))
    (h2 : validateDTagFormat 38288 (getTagValue event "d") = .ok ())
    (h3 : ¬ (getTagValue event "t" = ""))
    (h4 : ¬ ((Atoi (getTagValue event "t")).isNone = true))
    (h5 : ¬ (getTagValueByPrefix event "a" "38188:" = ""))
    (h6 : validateCoordinateFormat (getTagValueByPrefix event "a" "38188:") 38188 = .ok ())
    (h7 : ¬ ((getTagValues event "p").length < 2))
    (h8 : ¬ ((getTagValues event "r").length = 0))
    (h9 : ¬ (getTagValue event "k" = ""))
    (h10 : ¬ (getTagValue event "u" = ""))
    (contentData : JSONObject)
    (h11 : L.Unmarshal event.Content = some contentData)
    (h12 : firstMissingField contentData
          ["name", "confirmation_fee_sats", "ref_billboard_pubkey", "ref_billboard_id", "ref_marketplace_pubkey", "ref_marketplace_id"] = none)
    (h13 : ¬ (isNegative (asFloat (contentData.lookup "confirmation_fee_sats")) = true)) :
    ValidateBillboardEvent L event = { Valid := true, Message := "Valid billboard event" } := by
  unfold ValidateBillboardEvent
  simp only []
  rw [if_neg h1]
  rw [h2]; try simp only []
  rw [if_neg h3]
  rw [if_neg h4]
  rw [if_neg h5]
  rw [h6]; try simp only []
  rw [if_neg h7]
  rw [if_neg h8]
  rw [if_neg h9]
  rw [if_neg h10]
  rw [h11]; try simp only []
  rw [h12]; try simp only []
  rw [if_neg h13]

/-- The two block-height rejections of `ValidateBillboardEvent`, reached once the d tag is well-formed. -/
theorem ValidateBillboardEvent_height (L : GoLib) (event : Event)
    (hd : ¬ (getTagValue event "d" = ""))
    (hf : validateDTagFormat 38288 (getTagValue event "d") = .ok ()) :
    (getTagValue event "t" = "" →
      ValidateBillboardEvent L event = { Valid := false, Message := "Missing 't' tag (block height)" }) ∧
    (¬ (getTagValue event "t" = "") → Atoi (getTagValue event "t") = none →
      ValidateBillboardEvent L event = { Valid := false, Message := "Invalid block height in 't' tag: must be numeric" }) := by
  constructor
  · intro ht
    unfold ValidateBillboardEvent
    simp only []
    rw [if_neg hd, hf]; simp only []
    rw [if_pos ht]
  · intro ht hn
    unfold ValidateBillboardEvent
    simp only []
    rw [if_neg hd, hf]; simp only []
    rw [if_neg ht, if_pos (by rw [hn]; rfl)]

/-- Every check that an event accepted by `ValidatePromotionEvent` has passed, in source order. -/
theorem ValidatePromotionEvent_checks (L : GoLib) (event : Event)
    (h : (ValidatePromotionEvent L event).Valid = true) :
      ¬ (getTagValue event "d" = "") ∧
      validateDTagFormat 38388 (getTagValue event "d") = .ok () ∧
      ¬ (getTagValue event "t" = "") ∧
      ¬ ((Atoi (getTagValue event "t")).isNone = true) ∧
      ¬ (getTagValueByPrefix event "a" "38188:" = "") ∧
      validateCoordinateFormat (getTagValueByPrefix event "a" "38188:") 38188 = .ok () ∧
      ¬ (getTagValueByPrefix event "a" "34236:" = "") ∧
      ¬ (Contains (getTagValueByPrefix event "a" "34236:") "org.attnprotocol:" = true) ∧
      ¬ (getTagValueByPrefix event "a" "38288:" = "") ∧
      validateCoordinateFormat (getTagValueByPrefix event "a" "38288:") 38288 = .ok () ∧
      ¬ ((getTagValues event "p").length < 3) ∧
      ¬ ((getTagValues event "r").length = 0) ∧
      ¬ (getTagValue event "k" = "") ∧
      ¬ (getTagValue event "u" = "") ∧
      ∃ contentData, L.Unmarshal event.Content = some contentData ∧
      firstMissingField contentData
          ["duration", "bid", "event_id", "call_to_action", "call_to_action_url", "escrow_id_list", "ref_promotion_pubkey", "ref_promotion_id", "ref_marketplace_pubkey", "ref_marketplace_id", "ref_billboard_pubkey", "ref_billboard_id"] = none ∧
      ∃ escrowList, contentData.lookup "escrow_id_list" = some escrowList ∧
      ¬ ((!isArray escrowList) = true) ∧
      ¬ (notPositive (asFloat (contentData.lookup "bid")) = true) ∧
      ¬ (notPositive (asFloat (contentData.lookup "duration")) = true) := by
  unfold ValidatePromotionEvent at h
  simp only [] at h
  by_cases h1 : getTagValue event "d" = ""
  · rw [if_pos h1] at h; simp at h
  rw [if_neg h1] at h
  rcases except_cases (validateDTagFormat 38388 (getTagValue event "d")) with h2 | ⟨err, h2⟩
  swap
  · rw [h2] at h; simp at h
  rw [h2] at h; try simp only [] at h
  by_cases h3 : getTagValue event "t" = ""
  · rw [if_pos h3] at h; simp at h
  rw [if_neg h3] at h
  by_cases h4 : (Atoi (getTagValue event "t")).isNone = true
  · rw [if_pos h4] at h; simp at h
  rw [if_neg h4] at h
  by_cases h5 : getTagValueByPrefix event "a" "38188:" = ""
  · rw [if_pos h5] at h; simp at h
  rw [if_neg h5] at h
  rcases except_cases (validateCoordinateFormat (getTagValueByPrefix event "a" "38188:") 38188) with h6 | ⟨err, h6⟩
  swap
  · rw [h6] at h; simp at h
  rw [h6] at h; try simp only [] at h
  by_cases h7 : getTagValueByPrefix event "a" "34236:" = ""
  · rw [if_pos h7] at h; simp at h
  rw [if_neg h7] at h
  by_cases h8 : Contains (getTagValueByPrefix event "a" "34236:") "org.attnprotocol:" = true
  · rw [if_pos h8] at h; simp at h
  rw [if_neg h8] at h
  by_cases h9 : getTagValueByPrefix event "a" "38288:" = ""
  · rw [if_pos h9] at h; simp at h
  rw [if_neg h9] at h
  rcases except_cases (validateCoordinateFormat (getTagValueByPrefix event "a" "38288:") 38288) with h10 | ⟨err, h10⟩
  swap
  · rw [h10] at h; simp at h
  rw [h10] at h; try simp only [] at h
  by_cases h11 : (getTagValues event "p").length < 3
  · rw [if_pos h11] at h; simp at h
  rw [if_neg h11] at h
  by_cases h12 : (getTagValues event "r").length = 0
  · rw [if_pos h12] at h; simp at h
  rw [if_neg h12] at h
  by_cases h13 : getTagValue event "k" = ""
  · rw [if_pos h13] at h; simp at h
  rw [if_neg h13] at h
  by_cases h14 : getTagValue event "u" = ""
  · rw [if_pos h14] at h; simp at h
  rw [if_neg h14] at h
  rcases option_cases (L.Unmarshal event.Content) with h15 | ⟨contentData, h15⟩
  · rw [h15] at h; simp at h
  rw [h15] at h; try simp only [] at h
  rcases option_cases (firstMissingField contentData
          ["duration", "bid", "event_id", "call_to_action", "call_to_action_url", "escrow_id_list", "ref_promotion_pubkey", "ref_promotion_id", "ref_marketplace_pubkey", "ref_marketplace_id", "ref_billboard_pubkey", "ref_billboard_id"]) with h16 | ⟨field, h16⟩
  swap
  · rw [h16] at h; simp at h
  rw [h16] at h; try simp only [] at h
  rcases option_cases (contentData.lookup "escrow_id_list") with h17 | ⟨escrowList, h17⟩
  · rw [h17] at h; simp at h
  rw [h17] at h; try simp only [] at h
  by_cases h18 : (!isArray escrowList) = true
  · rw [if_pos h18] at h; simp at h
  rw [if_neg h18] at h
  by_cases h19 : notPositive (asFloat (contentData.lookup "bid")) = true
  · rw [if_pos h19] at h; simp at h
  rw [if_neg h19] at h
  by_cases h20 : notPositive (asFloat (contentData.lookup "duration")) = true
  · rw [if_pos h20] at h; simp at h
  rw [if_neg h20] at h
  exact ⟨h1, h2, h3, h4, h5, h6, h7, h8, h9, h10, h11, h12, h13, h14, contentData, h15, h16, escrowList, h17, h18, h19, h20⟩

/-- An event that passes every check of `ValidatePromotionEvent` is accepted with the fixed message. -/
theorem ValidatePromotionEvent_accepts (L : GoLib) (event : Event)
    (h1 : ¬ (getTagValue event "d" = ""))
    (h2 : validateDTagFormat 38388 (getTagValue event "d") = .ok ())
    (h3 : ¬ (getTagValue event "t" = ""))
    (h4 : ¬ ((Atoi (getTagValue event "t")).isNone = true))
    (h5 : ¬ (getTagValueByPrefix event "a" "38188:" = ""))
    (h6 : validateCoordinateFormat (getTagValueByPrefix event "a" "38188:") 38188 = .ok ())
    (h7 : ¬ (getTagValueByPrefix event "a" "34236:" = ""))
    (h8 : ¬ (Contains (getTagValueByPrefix event "a" "34236:") "org.attnprotocol:" = true))
    (h9 : ¬ (getTagValueByPrefix event "a" "38288:" = ""))
    (h10 : validateCoordinateFormat (getTagValueByPrefix event "a" "38288:") 38288 = .ok ())
    (h11 : ¬ ((getTagValues event "p").length < 3))
    (h12 : ¬ ((getTagValues event "r").length = 0))
    (h13 : ¬ (getTagValue event "k" = ""))
    (h14 : ¬ (getTagValue event "u" = ""))
    (contentData : JSONObject)
    (h15 : L.Unmarshal event.Content = some contentData)
    (h16 : firstMissingField contentData
          ["duration", "bid", "event_id", "call_to_action", "call_to_action_url", "escrow_id_list", "ref_promotion_pubkey", "ref_promotion_id", "ref_marketplace_pubkey", "ref_marketplace_id", "ref_billboard_pubkey", "ref_billboard_id"] = none)
    (escrowList : JSONValue)
    (h17 : contentData.lookup "escrow_id_list" = some escrowList)
    (h18 : ¬ ((!isArray escrowList) = true))
    (h19 : ¬ (notPositive (asFloat (contentData.lookup "bid")) = true))
    (h20 : ¬ (notPositive (asFloat (contentData.lookup "duration")) = true)) :
    ValidatePromotionEvent L event = { Valid := true, Message := "Valid promotion event" } := by
  unfold ValidatePromotionEvent
  simp only []
  rw [if_neg h1]
  rw [h2]; try simp only []
  rw [if_neg h3]
  rw [if_neg h4]
  rw [if_neg h5]
  rw [h6]; try simp only []
  rw [if_neg h7]
  rw [if_neg h8]
  rw [if_neg h9]
  rw [h10]; try simp only []
  rw [if_neg h11]
  rw [if_neg h12]
  rw [if_neg h13]
  rw [if_neg h14]
  rw [h15]; try simp only []
  rw [h16]; try simp only []
  rw [h17]; try simp only []
  rw [if_neg h18]
  rw [if_neg h19]
  rw [if_neg h20]

/-- The two block-height rejections of `ValidatePromotionEvent`, reached once the d tag is well-formed. -/
theorem ValidatePromotionEvent_height (L : GoLib) (event : Event)
    (hd : ¬ (getTagValue event "d" = ""))
    (hf : validateDTagFormat 38388 (getTagValue event "d") = .ok ()) :
    (getTagValue event "t" = "" →
      ValidatePromotionEvent L event = { Valid := false, Message := "Missing 't' tag (block height)" }) ∧
    (¬ (getTagValue event "t" = "") → Atoi (getTagValue event "t") = none →
      ValidatePromotionEvent L event = { Valid := false, Message := "Invalid block height in 't' tag: must be numeric" }) := by
  constructor
  · intro ht
    unfold ValidatePromotionEvent
    simp only []
    rw [if_neg hd, hf]; simp only []
    rw [if_pos ht]
  · intro ht hn
    unfold ValidatePromotionEvent
    simp only []
    rw [if_neg hd, hf]; simp only []
    rw [if_neg ht, if_pos (by rw [hn]; rfl)]

/-- Every check that an event accepted by `ValidateMatchEvent` has passed, in source order. -/
theorem ValidateMatchEvent_checks (L : GoLib) (event : Event)
    (h : (ValidateMatchEvent L event).Valid = true) :
      ¬ (getTagValue event "d" = "") ∧
      validateDTagFormat 38888 (getTagValue event "d") = .ok () ∧
      ¬ (getTagValue event "t" = "") ∧
      ¬ ((Atoi (getTagValue event "t")).isNone = true) ∧
      ¬ (getTagValueByPrefix event "a" "38188:" = "") ∧
      validateCoordinateFormat (getTagValueByPrefix event "a" "38188:") 38188 = .ok () ∧
      ¬ (getTagValueByPrefix event "a" "38288:" = "") ∧
      validateCoordinateFormat (getTagValueByPrefix event "a" "38288:") 38288 = .ok () ∧
      ¬ (getTagValueByPrefix event "a" "38388:" = "") ∧
      validateCoordinateFormat (getTagValueByPrefix event "a" "38388:") 38388 = .ok () ∧
      ¬ (getTagValueByPrefix event "a" "38488:" = "") ∧
      validateCoordinateFormat (getTagValueByPrefix event "a" "38488:") 38488 = .ok () ∧
      ¬ ((getTagValues event "p").length < 4) ∧
      ¬ ((getTagValues event "r").length = 0) ∧
      ¬ ((getTagValues event "k").length = 0) ∧
      ∃ contentData, L.Unmarshal event.Content = some contentData ∧
      firstMissingField contentData
          ["ref_match_id", "ref_promotion_id", "ref_attention_id", "ref_billboard_id", "ref_marketplace_id", "ref_marketplace_pubkey", "ref_promotion_pubkey", "ref_attention_pubkey", "ref_billboard_pubkey"] = none := by
  unfold ValidateMatchEvent at h
  simp only [] at h
  by_cases h1 : getTagValue event "d" = ""
  · rw [if_pos h1] at h; simp at h
  rw [if_neg h1] at h
  rcases except_cases (validateDTagFormat 38888 (getTagValue event "d")) with h2 | ⟨err, h2⟩
  swap
  · rw [h2] at h; simp at h
  rw [h2] at h; try simp only [] at h
  by_cases h3 : getTagValue event "t" = ""
  · rw [if_pos h3] at h; simp at h
  rw [if_neg h3] at h
  by_cases h4 : (Atoi (getTagValue event "t")).isNone = true
  · rw [if_pos h4] at h; simp at h
  rw [if_neg h4] at h
  by_cases h5 : getTagValueByPrefix event "a" "38188:" = ""
  · rw [if_pos h5] at h; simp at h
  rw [if_neg h5] at h
  rcases except_cases (validateCoordinateFormat (getTagValueByPrefix event "a" "38188:") 38188) with h6 | ⟨err, h6⟩
  swap
  · rw [h6] at h; simp at h
  rw [h6] at h; try simp only [] at h
  by_cases h7 : getTagValueByPrefix event "a" "38288:" = ""
  · rw [if_pos h7] at h; simp at h
  rw [if_neg h7] at h
  rcases except_cases (validateCoordinateFormat (getTagValueByPrefix event "a" "38288:") 38288) with h8 | ⟨err, h8⟩
  swap
  · rw [h8] at h; simp at h
  rw [h8] at h; try simp only [] at h
  by_cases h9 : getTagValueByPrefix event "a" "38388:" = ""
  · rw [if_pos h9] at h; simp at h
  rw [if_neg h9] at h
  rcases except_cases (validateCoordinateFormat (getTagValueByPrefix event "a" "38388:") 38388) with h10 | ⟨err, h10⟩
  swap
  · rw [h10] at h; simp at h
  rw [h10] at h; try simp only [] at h
  by_cases h11 : getTagValueByPrefix event "a" "38488:" = ""
  · rw [if_pos h11] at h; simp at h
  rw [if_neg h11] at h
  rcases except_cases (validateCoordinateFormat (getTagValueByPrefix event "a" "38488:") 38488) with h12 | ⟨err, h12⟩
  swap
  · rw [h12] at h; simp at h
  rw [h12] at h; try simp only [] at h
  by_cases h13 : (getTagValues event "p").length < 4
  · rw [if_pos h13] at h; simp at h
  rw [if_neg h13] at h
  by_cases h14 : (getTagValues event "r").length = 0
  · rw [if_pos h14] at h; simp at h
  rw [if_neg h14] at h
  by_cases h15 : (getTagValues event "k").length = 0
  · rw [if_pos h15] at h; simp at h
  rw [if_neg h15] at h
  rcases option_cases (L.Unmarshal event.Content) with h16 | ⟨contentData, h16⟩
  · rw [h16] at h; simp at h
  rw [h16] at h; try simp only [] at h
  rcases option_cases (firstMissingField contentData
          ["ref_match_id", "ref_promotion_id", "ref_attention_id", "ref_billboard_id", "ref_marketplace_id", "ref_marketplace_pubkey", "ref_promotion_pubkey", "ref_attention_pubkey", "ref_billboard_pubkey"]) with h17 | ⟨field, h17⟩
  swap
  · rw [h17] at h; simp at h
  rw [h17] at h; try simp only [] at h
  exact ⟨h1, h2, h3, h4, h5, h6, h7, h8, h9, h10, h11, h12, h13, h14, h15, contentData, h16, h17⟩

/-- An event that passes every check of `ValidateMatchEvent` is accepted with the fixed message. -/
theorem ValidateMatchEvent_accepts (L : GoLib) (event : Event)
    (h1 : ¬ (getTagValue event "d" = ""))
    (h2 : validateDTagFormat 38888 (getTagValue event "d") = .ok ())
    (h3 : ¬ (getTagValue event "t" = ""))
    (h4 : ¬ ((Atoi (getTagValue event "t")).isNone = true))
    (h5 : ¬ (getTagValueByPrefix event "a" "38188:" = ""))
    (h6 : validateCoordinateFormat (getTagValueByPrefix event "a" "38188:") 38188 = .ok ())
    (h7 : ¬ (getTagValueByPrefix event "a" "38288:" = ""))
    (h8 : validateCoordinateFormat (getTagValueByPrefix event "a" "38288:") 38288 = .ok ())
    (h9 : ¬ (getTagValueByPrefix event "a" "38388:" = ""))
    (h10 : validateCoordinateFormat (getTagValueByPrefix event "a" "38388:") 38388 = .ok ())
    (h11 : ¬ (getTagValueByPrefix event "a" "38488:" = ""))
    (h12 : validateCoordinateFormat (getTagValueByPrefix event "a" "38488:") 38488 = .ok ())
    (h13 : ¬ ((getTagValues event "p").length < 4))
    (h14 : ¬ ((getTagValues event "r").length = 0))
    (h15 : ¬ ((getTagValues event "k").length = 0))
    (contentData : JSONObject)
    (h16 : L.Unmarshal event.Content = some contentData)
    (h17 : firstMissingField contentData
          ["ref_match_id", "ref_promotion_id", "ref_attention_id", "ref_billboard_id", "ref_marketplace_id", "ref_marketplace_pubkey", "ref_promotion_pubkey", "ref_attention_pubkey", "ref_billboard_pubkey"] = none) :
    ValidateMatchEvent L event = { Valid := true, Message := "Valid match event" } := by
  unfold ValidateMatchEvent
  simp only []
  rw [if_neg h1]
  rw [h2]; try simp only []
  rw [if_neg h3]
  rw [if_neg h4]
  rw [if_neg h5]
  rw [h6]; try simp only []
  rw [if_neg h7]
  rw [h8]; try simp only []
  rw [if_neg h9]
  rw [h10]; try simp only []
  rw [if_neg h11]
  rw [h12]; try simp only []
  rw [if_neg h13]
  rw [if_neg h14]
  rw [if_neg h15]
  rw [h16]; try simp only []
  rw [h17]; try simp only []

/-- The two block-height rejections of `ValidateMatchEvent`, reached once the d tag is well-formed. -/
theorem ValidateMatchEvent_height (L : GoLib) (event : Event)
    (hd : ¬ (getTagValue event "d" = ""))
    (hf : validateDTagFormat 38888 (getTagValue event "d") = .ok ()) :
    (getTagValue event "t" = "" →
      ValidateMatchEvent L event = { Valid := false, Message := "Missing 't' tag (block height)" }) ∧
    (¬ (getTagValue event "t" = "") → Atoi (getTagValue event "t") = none →
      ValidateMatchEvent L event = { Valid := false, Message := "Invalid block height in 't' tag: must be numeric" }) := by
  constructor
  · intro ht
    unfold ValidateMatchEvent
    simp only []
    rw [if_neg hd, hf]; simp only []
    rw [if_pos ht]
  · intro ht hn
    unfold ValidateMatchEvent
    simp only []
    rw [if_neg hd, hf]; simp only []
    rw [if_neg ht, if_pos (by rw [hn]; rfl)]

/-- Every check that an event accepted by `ValidateBillboardConfirmationEvent` has passed, in source order. -/
theorem ValidateBillboardConfirmationEvent_checks (L : GoLib) (event : Event)
    (h : (ValidateBillboardConfirmationEvent L event).Valid = true) :
      ¬ (getTagValue event "d" = "") ∧
      validateDTagFormat 38588 (getTagValue event "d") = .ok () ∧
      ¬ (getTagValue event "t" = "") ∧
      ¬ ((Atoi (getTagValue event "t")).isNone = true) ∧
      ¬ (getTagValueByPrefix event "a" "38188:" = "") ∧
      validateCoordinateFormat (getTagValueByPrefix event "a" "38188:") 38188 = .ok () ∧
      ¬ (getTagValueByPrefix event "a" "38288:" = "") ∧
      validateCoordinateFormat (getTagValueByPrefix event "a" "38288:") 38288 = .ok () ∧
      ¬ (getTagValueByPrefix event "a" "38388:" = "") ∧
      validateCoordinateFormat (getTagValueByPrefix event "a" "38388:") 38388 = .ok () ∧
      ¬ (getTagValueByPrefix event "a" "38488:" = "") ∧
      validateCoordinateFormat (getTagValueByPrefix event "a" "38488:") 38488 = .ok () ∧
      ¬ (getTagValueByPrefix event "a" "38888:" = "") ∧
      validateCoordinateFormat (getTagValueByPrefix event "a" "38888:") 38888 = .ok () ∧
      ¬ ((!validateETagWithMarker event "match") = true) ∧
      ¬ ((getTagValues event "e").length < 5) ∧
      ¬ ((getTagValues event "p").length < 4) ∧
      ¬ ((getTagValues event "r").length = 0) ∧
      ∃ contentData, L.Unmarshal event.Content = some contentData ∧
      firstMissingField contentData
          ["ref_match_event_id", "ref_match_id", "ref_marketplace_pubkey", "ref_billboard_pubkey", "ref_promotion_pubkey", "ref_attention_pubkey", "ref_marketplace_id", "ref_billboard_id", "ref_promotion_id", "ref_attention_id"] = none := by
  unfold ValidateBillboardConfirmationEvent at h
  simp only [] at h
  by_cases h1 : getTagValue event "d" = ""
  · rw [if_pos h1] at h; simp at h
  rw [if_neg h1] at h
  rcases except_cases (validateDTagFormat 38588 (getTagValue event "d")) with h2 | ⟨err, h2⟩
  swap
  · rw [h2] at h; simp at h
  rw [h2] at h; try simp only [] at h
  by_cases h3 : getTagValue event "t" = ""
  · rw [if_pos h3] at h; simp at h
  rw [if_neg h3] at h
  by_cases h4 : (Atoi (getTagValue event "t")).isNone = true
  · rw [if_pos h4] at h; simp at h
  rw [if_neg h4] at h
  by_cases h5 : getTagValueByPrefix event "a" "38188:" = ""
  · rw [if_pos h5] at h; simp at h
  rw [if_neg h5] at h
  rcases except_cases (validateCoordinateFormat (getTagValueByPrefix event "a" "38188:") 38188) with h6 | ⟨err, h6⟩
  swap
  · rw [h6] at h; simp at h
  rw [h6] at h; try simp only [] at h
  by_cases h7 : getTagValueByPrefix event "a" "38288:" = ""
  · rw [if_pos h7] at h; simp at h
  rw [if_neg h7] at h
  rcases except_cases (validateCoordinateFormat (getTagValueByPrefix event "a" "38288:") 38288) with h8 | ⟨err, h8⟩
  swap
  · rw [h8] at h; simp at h
  rw [h8] at h; try simp only [] at h
  by_cases h9 : getTagValueByPrefix event "a" "38388:" = ""
  · rw [if_pos h9] at h; simp at h
  rw [if_neg h9] at h
  rcases except_cases (validateCoordinateFormat (getTagValueByPrefix event "a" "38388:") 38388) with h10 | ⟨err, h10⟩
  swap
  · rw [h10] at h; simp at h
  rw [h10] at h; try simp only [] at h
  by_cases h11 : getTagValueByPrefix event "a" "38488:" = ""
  · rw [if_pos h11] at h; simp at h
  rw [if_neg h11] at h
  rcases except_cases (validateCoordinateFormat (getTagValueByPrefix event "a" "38488:") 38488) with h12 | ⟨err, h12⟩
  swap
  · rw [h12] at h; simp at h
  rw [h12] at h; try simp only [] at h
  by_cases h13 : getTagValueByPrefix event "a" "38888:" = ""
  · rw [if_pos h13] at h; simp at h
  rw [if_neg h13] at h
  rcases except_cases (validateCoordinateFormat (getTagValueByPrefix event "a" "38888:") 38888) with h14 | ⟨err, h14⟩
  swap
  · rw [h14] at h; simp at h
  rw [h14] at h; try simp only [] at h
  by_cases h15 : (!validateETagWithMarker event "match") = true
  · rw [if_pos h15] at h; simp at h
  rw [if_neg h15] at h
  by_cases h16 : (getTagValues event "e").length < 5
  · rw [if_pos h16] at h; simp at h
  rw [if_neg h16] at h
  by_cases h17 : (getTagValues event "p").length < 4
  · rw [if_pos h17] at h; simp at h
  rw [if_neg h17] at h
  by_cases h18 : (getTagValues event "r").length = 0
  · rw [if_pos h18] at h; simp at h
  rw [if_neg h18] at h
  rcases option_cases (L.Unmarshal event.Content) with h19 | ⟨contentData, h19⟩
  · rw [h19] at h; simp at h
  rw [h19] at h; try simp only [] at h
  rcases option_cases (firstMissingField contentData
          ["ref_match_event_id", "ref_match_id", "ref_marketplace_pubkey", "ref_billboard_pubkey", "ref_promotion_pubkey", "ref_attention_pubkey", "ref_marketplace_id", "ref_billboard_id", "ref_promotion_id", "ref_attention_id"]) with h20 | ⟨field, h20⟩
  swap
  · rw [h20] at h; simp at h
  rw [h20] at h; try simp only [] at h
  exact ⟨h1, h2, h3, h4, h5, h6, h7, h8, h9, h10, h11, h12, h13, h14, h15, h16, h17, h18, contentData, h19, h20⟩

/-- An event that passes every check of `ValidateBillboardConfirmationEvent` is accepted with the fixed message. -/
theorem ValidateBillboardConfirmationEvent_accepts (L : GoLib) (event : Event)
    (h1 : ¬ (getTagValue event "d" = ""))
    (h2 : validateDTagFormat 38588 (getTagValue event "d") = .ok ())
    (h3 : ¬ (getTagValue event "t" = ""))
    (h4 : ¬ ((Atoi (getTagValue event "t")).isNone = true))
    (h5 : ¬ (getTagValueByPrefix event "a" "38188:" = ""))
    (h6 : validateCoordinateFormat (getTagValueByPrefix event "a" "38188:") 38188 = .ok ())
    (h7 : ¬ (getTagValueByPrefix event "a" "38288:" = ""))
    (h8 : validateCoordinateFormat (getTagValueByPrefix event "a" "38288:") 38288 = .ok ())
    (h9 : ¬ (getTagValueByPrefix event "a" "38388:" = ""))
    (h10 : validateCoordinateFormat (getTagValueByPrefix event "a" "38388:") 38388 = .ok ())
    (h11 : ¬ (getTagValueByPrefix event "a" "38488:" = ""))
    (h12 : validateCoordinateFormat (getTagValueByPrefix event "a" "38488:") 38488 = .ok ())
    (h13 : ¬ (getTagValueByPrefix event "a" "38888:" = ""))
    (h14 : validateCoordinateFormat (getTagValueByPrefix event "a" "38888:") 38888 = .ok ())
    (h15 : ¬ ((!validateETagWithMarker event "match") = true))
    (h16 : ¬ ((getTagValues event "e").length < 5))
    (h17 : ¬ ((getTagValues event "p").length < 4))
    (h18 : ¬ ((getTagValues event "r").length = 0))
    (contentData : JSONObject)
    (h19 : L.Unmarshal event.Content = some contentData)
    (h20 : firstMissingField contentData
          ["ref_match_event_id", "ref_match_id", "ref_marketplace_pubkey", "ref_billboard_pubkey", "ref_promotion_pubkey", "ref_attention_pubkey", "ref_marketplace_id", "ref_billboard_id", "ref_promotion_id", "ref_attention_id"] = none) :
    ValidateBillboardConfirmationEvent L event = { Valid := true, Message := "Valid billboard confirmation event" } := by
  unfold ValidateBillboardConfirmationEvent
  simp only []
  rw [if_neg h1]
  rw [h2]; try simp only []
  rw [if_neg h3]
  rw [if_neg h4]
  rw [if_neg h5]
  rw [h6]; try simp only []
  rw [if_neg h7]
  rw [h8]; try simp only []
  rw [if_neg h9]
  rw [h10]; try simp only []
  rw [if_neg h11]
  rw [h12]; try simp only []
  rw [if_neg h13]
  rw [h14]; try simp only []
  rw [if_neg h15]
  rw [if_neg h16]
  rw [if_neg h17]
  rw [if_neg h18]
  rw [h19]; try simp only []
  rw [h20]; try simp only []

/-- The two block-height rejections of `ValidateBillboardConfirmationEvent`, reached once the d tag is well-formed. -/
theorem ValidateBillboardConfirmationEvent_height (L : GoLib) (event : Event)
    (hd : ¬ (getTagValue event "d" = ""))
    (hf : validateDTagFormat 38588 (getTagValue event "d") = .ok ()) :
    (getTagValue event "t" = "" →
      ValidateBillboardConfirmationEvent L event = { Valid := false, Message := "Missing 't' tag (block height)" }) ∧
    (¬ (getTagValue event "t" = "") → Atoi (getTagValue event "t") = none →
      ValidateBillboardConfirmationEvent L event = { Valid := false, Message := "Invalid block height in 't' tag: must be numeric" }) := by
  constructor
  · intro ht
    unfold ValidateBillboardConfirmationEvent
    simp only []
    rw [if_neg hd, hf]; simp only []
    rw [if_pos ht]
  · intro ht hn
    unfold ValidateBillboardConfirmationEvent
    simp only []
    rw [if_neg hd, hf]; simp only []
    rw [if_neg ht, if_pos (by rw [hn]; rfl)]

/-- Every check that an event accepted by `ValidateAttentionConfirmationEvent` has passed, in source order. -/
theorem ValidateAttentionConfirmationEvent_checks (L : GoLib) (event : Event)
    (h : (ValidateAttentionConfirmationEvent L event).Valid = true) :
      ¬ (getTagValue event "d" = "") ∧
      validateDTagFormat 38688 (getTagValue event "d") = .ok () ∧
      ¬ (getTagValue event "t" = "") ∧
      ¬ ((Atoi (getTagValue event "t")).isNone = true) ∧
      ¬ (getTagValueByPrefix event "a" "38188:" = "") ∧
      validateCoordinateFormat (getTagValueByPrefix event "a" "38188:") 38188 = .ok () ∧
      ¬ (getTagValueByPrefix event "a" "38288:" = "") ∧
      validateCoordinateFormat (getTagValueByPrefix event "a" "38288:") 38288 = .ok () ∧
      ¬ (getTagValueByPrefix event "a" "38388:" = "") ∧
      validateCoordinateFormat (getTagValueByPrefix event "a" "38388:") 38388 = .ok () ∧
      ¬ (getTagValueByPrefix event "a" "38488:" = "") ∧
      validateCoordinateFormat (getTagValueByPrefix event "a" "38488:") 38488 = .ok () ∧
      ¬ (getTagValueByPrefix event "a" "38888:" = "") ∧
      validateCoordinateFormat (getTagValueByPrefix event "a" "38888:") 38888 = .ok () ∧
      ¬ ((!validateETagWithMarker event "match") = true) ∧
      ¬ ((getTagValues event "e").length < 5) ∧
      ¬ ((getTagValues event "p").length < 4) ∧
      ¬ ((getTagValues event "r").length = 0) ∧
      ∃ contentData, L.Unmarshal event.Content = some contentData ∧
      firstMissingField contentData
          ["ref_match_event_id", "ref_match_id", "ref_marketplace_pubkey", "ref_billboard_pubkey", "ref_promotion_pubkey", "ref_attention_pubkey", "ref_marketplace_id", "ref_billboard_id", "ref_promotion_id", "ref_attention_id"] = none := by
  unfold ValidateAttentionConfirmationEvent at h
  simp only [] at h
  by_cases h1 : getTagValue event "d" = ""
  · rw [if_pos h1] at h; simp at h
  rw [if_neg h1] at h
  rcases except_cases (validateDTagFormat 38688 (getTagValue event "d")) with h2 | ⟨err, h2⟩
  swap
  · rw [h2] at h; simp at h
  rw [h2] at h; try simp only [] at h
  by_cases h3 : getTagValue event "t" = ""
  · rw [if_pos h3] at h; simp at h
  rw [if_neg h3] at h
  by_cases h4 : (Atoi (getTagValue event "t")).isNone = true
  · rw [if_pos h4] at h; simp at h
  rw [if_neg h4] at h
  by_cases h5 : getTagValueByPrefix event "a" "38188:" = ""
  · rw [if_pos h5] at h; simp at h
  rw [if_neg h5] at h
  rcases except_cases (validateCoordinateFormat (getTagValueByPrefix event "a" "38188:") 38188) with h6 | ⟨err, h6⟩
  swap
  · rw [h6] at h; simp at h
  rw [h6] at h; try simp only [] at h
  by_cases h7 : getTagValueByPrefix event "a" "38288:" = ""
  · rw [if_pos h7] at h; simp at h
  rw [if_neg h7] at h
  rcases except_cases (validateCoordinateFormat (getTagValueByPrefix event "a" "38288:") 38288) with h8 | ⟨err, h8⟩
  swap
  · rw [h8] at h; simp at h
  rw [h8] at h; try simp only [] at h
  by_cases h9 : getTagValueByPrefix event "a" "38388:" = ""
  · rw [if_pos h9] at h; simp at h
  rw [if_neg h9] at h
  rcases except_cases (validateCoordinateFormat (getTagValueByPrefix event "a" "38388:") 38388) with h10 | ⟨err, h10⟩
  swap
  · rw [h10] at h; simp at h
  rw [h10] at h; try simp only [] at h
  by_cases h11 : getTagValueByPrefix event "a" "38488:" = ""
  · rw [if_pos h11] at h; simp at h
  rw [if_neg h11] at h
  rcases except_cases (validateCoordinateFormat (getTagValueByPrefix event "a" "38488:") 38488) with h12 | ⟨err, h12⟩
  swap
  · rw [h12] at h; simp at h
  rw [h12] at h; try simp only [] at h
  by_cases h13 : getTagValueByPrefix event "a" "38888:" = ""
  · rw [if_pos h13] at h; simp at h
  rw [if_neg h13] at h
  rcases except_cases (validateCoordinateFormat (getTagValueByPrefix event "a" "38888:") 38888) with h14 | ⟨err, h14⟩
  swap
  · rw [h14] at h; simp at h
  rw [h14] at h; try simp only [] at h
  by_cases h15 : (!validateETagWithMarker event "match") = true
  · rw [if_pos h15] at h; simp at h
  rw [if_neg h15] at h
  by_cases h16 : (getTagValues event "e").length < 5
  · rw [if_pos h16] at h; simp at h
  rw [if_neg h16] at h
  by_cases h17 : (getTagValues event "p").length < 4
  · rw [if_pos h17] at h; simp at h
  rw [if_neg h17] at h
  by_cases h18 : (getTagValues event "r").length = 0
  · rw [if_pos h18] at h; simp at h
  rw [if_neg h18] at h
  rcases option_cases (L.Unmarshal event.Content) with h19 | ⟨contentData, h19⟩
  · rw [h19] at h; simp at h
  rw [h19] at h; try simp only [] at h
  rcases option_cases (firstMissingField contentData
          ["ref_match_event_id", "ref_match_id", "ref_marketplace_pubkey", "ref_billboard_pubkey", "ref_promotion_pubkey", "ref_attention_pubkey", "ref_marketplace_id", "ref_billboard_id", "ref_promotion_id", "ref_attention_id"]) with h20 | ⟨field, h20⟩
  swap
  · rw [h20] at h; simp at h
  rw [h20] at h; try simp only [] at h
  exact ⟨h1, h2, h3, h4, h5, h6, h7, h8, h9, h10, h11, h12, h13, h14, h15, h16, h17, h18, contentData, h19, h20⟩

/-- An event that passes every check of `ValidateAttentionConfirmationEvent` is accepted with the fixed message. -/
theorem ValidateAttentionConfirmationEvent_accepts (L : GoLib) (event : Event)
    (h1 : ¬ (getTagValue event "d" = ""))
    (h2 : validateDTagFormat 38688 (getTagValue event "d") = .ok ())
    (h3 : ¬ (getTagValue event "t" = ""))
    (h4 : ¬ ((Atoi (getTagValue event "t")).isNone = true))
    (h5 : ¬ (getTagValueByPrefix event "a" "38188:" = ""))
    (h6 : validateCoordinateFormat (getTagValueByPrefix event "a" "38188:") 38188 = .ok ())
    (h7 : ¬ (getTagValueByPrefix event "a" "38288:" = ""))
    (h8 : validateCoordinateFormat (getTagValueByPrefix event "a" "38288:") 38288 = .ok ())
    (h9 : ¬ (getTagValueByPrefix event "a" "38388:" = ""))
    (h10 : validateCoordinateFormat (getTagValueByPrefix event "a" "38388:") 38388 = .ok ())
    (h11 : ¬ (getTagValueByPrefix event "a" "38488:" = ""))
    (h12 : validateCoordinateFormat (getTagValueByPrefix event "a" "38488:") 38488 = .ok ())
    (h13 : ¬ (getTagValueByPrefix event "a" "38888:" = ""))
    (h14 : validateCoordinateFormat (getTagValueByPrefix event "a" "38888:") 38888 = .ok ())
    (h15 : ¬ ((!validateETagWithMarker event "match") = true))
    (h16 : ¬ ((getTagValues event "e").length < 5))
    (h17 : ¬ ((getTagValues event "p").length < 4))
    (h18 : ¬ ((getTagValues event "r").length = 0))
    (contentData : JSONObject)
    (h19 : L.Unmarshal event.Content = some contentData)
    (h20 : firstMissingField contentData
          ["ref_match_event_id", "ref_match_id", "ref_marketplace_pubkey", "ref_billboard_pubkey", "ref_promotion_pubkey", "ref_attention_pubkey", "ref_marketplace_id", "ref_billboard_id", "ref_promotion_id", "ref_attention_id"] = none) :
    ValidateAttentionConfirmationEvent L event = { Valid := true, Message := "Valid attention confirmation event" } := by
  unfold ValidateAttentionConfirmationEvent
  simp only []
  rw [if_neg h1]
  rw [h2]; try simp only []
  rw [if_neg h3]
  rw [if_neg h4]
  rw [if_neg h5]
  rw [h6]; try simp only []
  rw [if_neg h7]
  rw [h8]; try simp only []
  rw [if_neg h9]
  rw [h10]; try simp only []
  rw [if_neg h11]
  rw [h12]; try simp only []
  rw [if_neg h13]
  rw [h14]; try simp only []
  rw [if_neg h15]
  rw [if_neg h16]
  rw [if_neg h17]
  rw [if_neg h18]
  rw [h19]; try simp only []
  rw [h20]; try simp only []

/-- The two block-height rejections of `ValidateAttentionConfirmationEvent`, reached once the d tag is well-formed. -/
theorem ValidateAttentionConfirmationEvent_height (L : GoLib) (event : Event)
    (hd : ¬ (getTagValue event "d" = ""))
    (hf : validateDTagFormat 38688 (getTagValue event "d") = .ok ()) :
    (getTagValue event "t" = "" →
      ValidateAttentionConfirmationEvent L event = { Valid := false, Message := "Missing 't' tag (block height)" }) ∧
    (¬ (getTagValue event "t" = "") → Atoi (getTagValue event "t") = none →
      ValidateAttentionConfirmationEvent L event = { Valid := false, Message := "Invalid block height in 't' tag: must be numeric" }) := by
  constructor
  · intro ht
    unfold ValidateAttentionConfirmationEvent
    simp only []
    rw [if_neg hd, hf]; simp only []
    rw [if_pos ht]
  · intro ht hn
    unfold ValidateAttentionConfirmationEvent
    simp only []
    rw [if_neg hd, hf]; simp only []
    rw [if_neg ht, if_pos (by rw [hn]; rfl)]

/-- Every check that an event accepted by `ValidateMarketplaceConfirmationEvent` has passed, in source order. -/
theorem ValidateMarketplaceConfirmationEvent_checks (L : GoLib) (event : Event)
    (h : (ValidateMarketplaceConfirmationEvent L event).Valid = true) :
      ¬ (getTagValue event "d" = "") ∧
      validateDTagFormat 38788 (getTagValue event "d") = .ok () ∧
      ¬ (getTagValue event "t" = "") ∧
      ¬ ((Atoi (getTagValue event "t")).isNone = true) ∧
      ¬ (getTagValueByPrefix event "a" "38188:" = "") ∧
      validateCoordinateFormat (getTagValueByPrefix event "a" "38188:") 38188 = .ok () ∧
      ¬ (getTagValueByPrefix event "a" "38288:" = "") ∧
      validateCoordinateFormat (getTagValueByPrefix event "a" "38288:") 38288 = .ok () ∧
      ¬ (getTagValueByPrefix event "a" "38388:" = "") ∧
      validateCoordinateFormat (getTagValueByPrefix event "a" "38388:") 38388 = .ok () ∧
      ¬ (getTagValueByPrefix event "a" "38488:" = "") ∧
      validateCoordinateFormat (getTagValueByPrefix event "a" "38488:") 38488 = .ok () ∧
      ¬ (getTagValueByPrefix event "a" "38888:" = "") ∧
      validateCoordinateFormat (getTagValueByPrefix event "a" "38888:") 38888 = .ok () ∧
      ¬ ((!validateETagWithMarker event "match") = true) ∧
      ¬ ((!validateETagWithMarker event "billboard_confirmation") = true) ∧
      ¬ ((!validateETagWithMarker event "attention_confirmation") = true) ∧
      ¬ ((getTagValues event "e").length < 7) ∧
      ¬ ((getTagValues event "p").length < 4) ∧
      ¬ ((getTagValues event "r").length = 0) ∧
      ∃ contentData, L.Unmarshal event.Content = some contentData ∧
      firstMissingField contentData
          ["ref_match_event_id", "ref_match_id", "ref_billboard_confirmation_event_id", "ref_attention_confirmation_event_id", "ref_marketplace_pubkey", "ref_billboard_pubkey", "ref_promotion_pubkey", "ref_attention_pubkey", "ref_marketplace_id", "ref_billboard_id", "ref_promotion_id", "ref_attention_id"] = none := by
  unfold ValidateMarketplaceConfirmationEvent at h
  simp only [] at h
  by_cases h1 : getTagValue event "d" = ""
  · rw [if_pos h1] at h; simp at h
  rw [if_neg h1] at h
  rcases except_cases (validateDTagFormat 38788 (getTagValue event "d")) with h2 | ⟨err, h2⟩
  swap
  · rw [h2] at h; simp at h
  rw [h2] at h; try simp only [] at h
  by_cases h3 : getTagValue event "t" = ""
  · rw [if_pos h3] at h; simp at h
  rw [if_neg h3] at h
  by_cases h4 : (Atoi (getTagValue event "t")).isNone = true
  · rw [if_pos h4] at h; simp at h
  rw [if_neg h4] at h
  by_cases h5 : getTagValueByPrefix event "a" "38188:" = ""
  · rw [if_pos h5] at h; simp at h
  rw [if_neg h5] at h
  rcases except_cases (validateCoordinateFormat (getTagValueByPrefix event "a" "38188:") 38188) with h6 | ⟨err, h6⟩
  swap
  · rw [h6] at h; simp at h
  rw [h6] at h; try simp only [] at h
  by_cases h7 : getTagValueByPrefix event "a" "38288:" = ""
  · rw [if_pos h7] at h; simp at h
  rw [if_neg h7] at h
  rcases except_cases (validateCoordinateFormat (getTagValueByPrefix event "a" "38288:") 38288) with h8 | ⟨err, h8⟩
  swap
  · rw [h8] at h; simp at h
  rw [h8] at h; try simp only [] at h
  by_cases h9 : getTagValueByPrefix event "a" "38388:" = ""
  · rw [if_pos h9] at h; simp at h
  rw [if_neg h9] at h
  rcases except_cases (validateCoordinateFormat (getTagValueByPrefix event "a" "38388:") 38388) with h10 | ⟨err, h10⟩
  swap
  · rw [h10] at h; simp at h
  rw [h10] at h; try simp only [] at h
  by_cases h11 : getTagValueByPrefix event "a" "38488:" = ""
  · rw [if_pos h11] at h; simp at h
  rw [if_neg h11] at h
  rcases except_cases (validateCoordinateFormat (getTagValueByPrefix event "a" "38488:") 38488) with h12 | ⟨err, h12⟩
  swap
  · rw [h12] at h; simp at h
  rw [h12] at h; try simp only [] at h
  by_cases h13 : getTagValueByPrefix event "a" "38888:" = ""
  · rw [if_pos h13] at h; simp at h
  rw [if_neg h13] at h
  rcases except_cases (validateCoordinateFormat (getTagValueByPrefix event "a" "38888:") 38888) with h14 | ⟨err, h14⟩
  swap
  · rw [h14] at h; simp at h
  rw [h14] at h; try simp only [] at h
  by_cases h15 : (!validateETagWithMarker event "match") = true
  · rw [if_pos h15] at h; simp at h
  rw [if_neg h15] at h
  by_cases h16 : (!validateETagWithMarker event "billboard_confirmation") = true
  · rw [if_pos h16] at h; simp at h
  rw [if_neg h16] at h
  by_cases h17 : (!validateETagWithMarker event "attention_confirmation") = true
  · rw [if_pos h17] at h; simp at h
  rw [if_neg h17] at h
  by_cases h18 : (getTagValues event "e").length < 7
  · rw [if_pos h18] at h; simp at h
  rw [if_neg h18] at h
  by_cases h19 : (getTagValues event "p").length < 4
  · rw [if_pos h19] at h; simp at h
  rw [if_neg h19] at h
  by_cases h20 : (getTagValues event "r").length = 0
  · rw [if_pos h20] at h; simp at h
  rw [if_neg h20] at h
  rcases option_cases (L.Unmarshal event.Content) with h21 | ⟨contentData, h21⟩
  · rw [h21] at h; simp at h
  rw [h21] at h; try simp only [] at h
  rcases option_cases (firstMissingField contentData
          ["ref_match_event_id", "ref_match_id", "ref_billboard_confirmation_event_id", "ref_attention_confirmation_event_id", "ref_marketplace_pubkey", "ref_billboard_pubkey", "ref_promotion_pubkey", "ref_attention_pubkey", "ref_marketplace_id", "ref_billboard_id", "ref_promotion_id", "ref_attention_id"]) with h22 | ⟨field, h22⟩
  swap
  · rw [h22] at h; simp at h
  rw [h22] at h; try simp only [] at h
  exact ⟨h1, h2, h3, h4, h5, h6, h7, h8, h9, h10, h11, h12, h13, h14, h15, h16, h17, h18, h19, h20, contentData, h21, h22⟩

/-- An event that passes every check of `ValidateMarketplaceConfirmationEvent` is accepted with the fixed message. -/
theorem ValidateMarketplaceConfirmationEvent_accepts (L : GoLib) (event : Event)
    (h1 : ¬ (getTagValue event "d" = ""))
    (h2 : validateDTagFormat 38788 (getTagValue event "d") = .ok ())
    (h3 : ¬ (getTagValue event "t" = ""))
    (h4 : ¬ ((Atoi (getTagValue event "t")).isNone = true))
    (h5 : ¬ (getTagValueByPrefix event "a" "38188:" = ""))
    (h6 : validateCoordinateFormat (getTagValueByPrefix event "a" "38188:") 38188 = .ok ())
    (h7 : ¬ (getTagValueByPrefix event "a" "38288:" = ""))
    (h8 : validateCoordinateFormat (getTagValueByPrefix event "a" "38288:") 38288 = .ok ())
    (h9 : ¬ (getTagValueByPrefix event "a" "38388:" = ""))
    (h10 : validateCoordinateFormat (getTagValueByPrefix event "a" "38388:") 38388 = .ok ())
    (h11 : ¬ (getTagValueByPrefix event "a" "38488:" = ""))
    (h12 : validateCoordinateFormat (getTagValueByPrefix event "a" "38488:") 38488 = .ok ())
    (h13 : ¬ (getTagValueByPrefix event "a" "38888:" = ""))
    (h14 : validateCoordinateFormat (getTagValueByPrefix event "a" "38888:") 38888 = .ok ())
    (h15 : ¬ ((!validateETagWithMarker event "match") = true))
    (h16 : ¬ ((!validateETagWithMarker event "billboard_confirmation") = true))
    (h17 : ¬ ((!validateETagWithMarker event "attention_confirmation") = true))
    (h18 : ¬ ((getTagValues event "e").length < 7))
    (h19 : ¬ ((getTagValues event "p").length < 4))
    (h20 : ¬ ((getTagValues event "r").length = 0))
    (contentData : JSONObject)
    (h21 : L.Unmarshal event.Content = some contentData)
    (h22 : firstMissingField contentData
          ["ref_match_event_id", "ref_match_id", "ref_billboard_confirmation_event_id", "ref_attention_confirmation_event_id", "ref_marketplace_pubkey", "ref_billboard_pubkey", "ref_promotion_pubkey", "ref_attention_pubkey", "ref_marketplace_id", "ref_billboard_id", "ref_promotion_id", "ref_attention_id"] = none) :
    ValidateMarketplaceConfirmationEvent L event = { Valid := true, Message := "Valid marketplace confirmation event" } := by
  unfold ValidateMarketplaceConfirmationEvent
  simp only []
  rw [if_neg h1]
  rw [h2]; try simp only []
  rw [if_neg h3]
  rw [if_neg h4]
  rw [if_neg h5]
  rw [h6]; try simp only []
  rw [if_neg h7]
  rw [h8]; try simp only []
  rw [if_neg h9]
  rw [h10]; try simp only []
  rw [if_neg h11]
  rw [h12]; try simp only []
  rw [if_neg h13]
  rw [h14]; try simp only []
  rw [if_neg h15]
  rw [if_neg h16]
  rw [if_neg h17]
  rw [if_neg h18]
  rw [if_neg h19]
  rw [if_neg h20]
  rw [h21]; try simp only []
  rw [h22]; try simp only []

/-- The two block-height rejections of `ValidateMarketplaceConfirmationEvent`, reached once the d tag is well-formed. -/
theorem ValidateMarketplaceConfirmationEvent_height (L : GoLib) (event : Event)
    (hd : ¬ (getTagValue event "d" = ""))
    (hf : validateDTagFormat 38788 (getTagValue event "d") = .ok ()) :
    (getTagValue event "t" = "" →
      ValidateMarketplaceConfirmationEvent L event = { Valid := false, Message := "Missing 't' tag (block height)" }) ∧
    (¬ (getTagValue event "t" = "") → Atoi (getTagValue event "t") = none →
      ValidateMarketplaceConfirmationEvent L event = { Valid := false, Message := "Invalid block height in 't' tag: must be numeric" }) := by
  constructor
  · intro ht
    unfold ValidateMarketplaceConfirmationEvent
    simp only []
    rw [if_neg hd, hf]; simp only []
    rw [if_pos ht]
  · intro ht hn
    unfold ValidateMarketplaceConfirmationEvent
    simp only []
    rw [if_neg hd, hf]; simp only []
    rw [if_neg ht, if_pos (by rw [hn]; rfl)]

/-- Every check that an event accepted by `ValidateAttentionPaymentConfirmationEvent` has passed, in source order. -/
theorem ValidateAttentionPaymentConfirmationEvent_checks (L : GoLib) (event : Event)
    (h : (ValidateAttentionPaymentConfirmationEvent L event).Valid = true) :
      ¬ (getTagValue event "d" = "") ∧
      validateDTagFormat 38988 (getTagValue event "d") = .ok () ∧
      ¬ (getTagValue event "t" = "") ∧
      ¬ ((Atoi (getTagValue event "t")).isNone = true) ∧
      ¬ ((!validateETagWithMarker event "marketplace_confirmation") = true) ∧
      ¬ (getTagValueByPrefix event "a" "38188:" = "") ∧
      validateCoordinateFormat (getTagValueByPrefix event "a" "38188:") 38188 = .ok () ∧
      ¬ (getTagValueByPrefix event "a" "38288:" = "") ∧
      validateCoordinateFormat (getTagValueByPrefix event "a" "38288:") 38288 = .ok () ∧
      ¬ (getTagValueByPrefix event "a" "38388:" = "") ∧
      validateCoordinateFormat (getTagValueByPrefix event "a" "38388:") 38388 = .ok () ∧
      ¬ (getTagValueByPrefix event "a" "38488:" = "") ∧
      validateCoordinateFormat (getTagValueByPrefix event "a" "38488:") 38488 = .ok () ∧
      ¬ (getTagValueByPrefix event "a" "38888:" = "") ∧
      validateCoordinateFormat (getTagValueByPrefix event "a" "38888:") 38888 = .ok () ∧
      ¬ ((getTagValues event "p").length < 4) ∧
      ¬ ((getTagValues event "r").length = 0) ∧
      ∃ contentData, L.Unmarshal event.Content = some contentData ∧
      firstMissingField contentData
          ["sats_received", "ref_match_event_id", "ref_match_id", "ref_marketplace_confirmation_event_id", "ref_marketplace_pubkey", "ref_billboard_pubkey", "ref_promotion_pubkey", "ref_attention_pubkey", "ref_marketplace_id", "ref_billboard_id", "ref_promotion_id", "ref_attention_id"] = none ∧
      ¬ (notPositive (asFloat (contentData.lookup "sats_received")) = true) := by
  unfold ValidateAttentionPaymentConfirmationEvent at h
  simp only [] at h
  by_cases h1 : getTagValue event "d" = ""
  · rw [if_pos h1] at h; simp at h
  rw [if_neg h1] at h
  rcases except_cases (validateDTagFormat 38988 (getTagValue event "d")) with h2 | ⟨err, h2⟩
  swap
  · rw [h2] at h; simp at h
  rw [h2] at h; try simp only [] at h
  by_cases h3 : getTagValue event "t" = ""
  · rw [if_pos h3] at h; simp at h
  rw [if_neg h3] at h
  by_cases h4 : (Atoi (getTagValue event "t")).isNone = true
  · rw [if_pos h4] at h; simp at h
  rw [if_neg h4] at h
  by_cases h5 : (!validateETagWithMarker event "marketplace_confirmation") = true
  · rw [if_pos h5] at h; simp at h
  rw [if_neg h5] at h
  by_cases h6 : getTagValueByPrefix event "a" "38188:" = ""
  · rw [if_pos h6] at h; simp at h
  rw [if_neg h6] at h
  rcases except_cases (validateCoordinateFormat (getTagValueByPrefix event "a" "38188:") 38188) with h7 | ⟨err, h7⟩
  swap
  · rw [h7] at h; simp at h
  rw [h7] at h; try simp only [] at h
  by_cases h8 : getTagValueByPrefix event "a" "38288:" = ""
  · rw [if_pos h8] at h; simp at h
  rw [if_neg h8] at h
  rcases except_cases (validateCoordinateFormat (getTagValueByPrefix event "a" "38288:") 38288) with h9 | ⟨err, h9⟩
  swap
  · rw [h9] at h; simp at h
  rw [h9] at h; try simp only [] at h
  by_cases h10 : getTagValueByPrefix event "a" "38388:" = ""
  · rw [if_pos h10] at h; simp at h
  rw [if_neg h10] at h
  rcases except_cases (validateCoordinateFormat (getTagValueByPrefix event "a" "38388:") 38388) with h11 | ⟨err, h11⟩
  swap
  · rw [h11] at h; simp at h
  rw [h11] at h; try simp only [] at h
  by_cases h12 : getTagValueByPrefix event "a" "38488:" = ""
  · rw [if_pos h12] at h; simp at h
  rw [if_neg h12] at h
  rcases except_cases (validateCoordinateFormat (getTagValueByPrefix event "a" "38488:") 38488) with h13 | ⟨err, h13⟩
  swap
  · rw [h13] at h; simp at h
  rw [h13] at h; try simp only [] at h
  by_cases h14 : getTagValueByPrefix event "a" "38888:" = ""
  · rw [if_pos h14] at h; simp at h
  rw [if_neg h14] at h
  rcases except_cases (validateCoordinateFormat (getTagValueByPrefix event "a" "38888:") 38888) with h15 | ⟨err, h15⟩
  swap
  · rw [h15] at h; simp at h
  rw [h15] at h; try simp only [] at h
  by_cases h16 : (getTagValues event "p").length < 4
  · rw [if_pos h16] at h; simp at h
  rw [if_neg h16] at h
  by_cases h17 : (getTagValues event "r").length = 0
  · rw [if_pos h17] at h; simp at h
  rw [if_neg h17] at h
  rcases option_cases (L.Unmarshal event.Content) with h18 | ⟨contentData, h18⟩
  · rw [h18] at h; simp at h
  rw [h18] at h; try simp only [] at h
  rcases option_cases (firstMissingField contentData
          ["sats_received", "ref_match_event_id", "ref_match_id", "ref_marketplace_confirmation_event_id", "ref_marketplace_pubkey", "ref_billboard_pubkey", "ref_promotion_pubkey", "ref_attention_pubkey", "ref_marketplace_id", "ref_billboard_id", "ref_promotion_id", "ref_attention_id"]) with h19 | ⟨field, h19⟩
  swap
  · rw [h19] at h; simp at h
  rw [h19] at h; try simp only [] at h
  by_cases h20 : notPositive (asFloat (contentData.lookup "sats_received")) = true
  · rw [if_pos h20] at h; simp at h
  rw [if_neg h20] at h
  exact ⟨h1, h2, h3, h4, h5, h6, h7, h8, h9, h10, h11, h12, h13, h14, h15, h16, h17, contentData, h18, h19, h20⟩

/-- An event that passes every check of `ValidateAttentionPaymentConfirmationEvent` is accepted with the fixed message. -/
theorem ValidateAttentionPaymentConfirmationEvent_accepts (L : GoLib) (event : Event)
    (h1 : ¬ (getTagValue event "d" = ""))
    (h2 : validateDTagFormat 38988 (getTagValue event "d") = .ok ())
    (h3 : ¬ (getTagValue event "t" = ""))
    (h4 : ¬ ((Atoi (getTagValue event "t")).isNone = true))
    (h5 : ¬ ((!validateETagWithMarker event "marketplace_confirmation") = true))
    (h6 : ¬ (getTagValueByPrefix event "a" "38188:" = ""))
    (h7 : validateCoordinateFormat (getTagValueByPrefix event "a" "38188:") 38188 = .ok ())
    (h8 : ¬ (getTagValueByPrefix event "a" "38288:" = ""))
    (h9 : validateCoordinateFormat (getTagValueByPrefix event "a" "38288:") 38288 = .ok ())
    (h10 : ¬ (getTagValueByPrefix event "a" "38388:" = ""))
    (h11 : validateCoordinateFormat (getTagValueByPrefix event "a" "38388:") 38388 = .ok ())
    (h12 : ¬ (getTagValueByPrefix event "a" "38488:" = ""))
    (h13 : validateCoordinateFormat (getTagValueByPrefix event "a" "38488:") 38488 = .ok ())
    (h14 : ¬ (getTagValueByPrefix event "a" "38888:" = ""))
    (h15 : validateCoordinateFormat (getTagValueByPrefix event "a" "38888:") 38888 = .ok ())
    (h16 : ¬ ((getTagValues event "p").length < 4))
    (h17 : ¬ ((getTagValues event "r").length = 0))
    (contentData : JSONObject)
    (h18 : L.Unmarshal event.Content = some contentData)
    (h19 : firstMissingField contentData
          ["sats_received", "ref_match_event_id", "ref_match_id", "ref_marketplace_confirmation_event_id", "ref_marketplace_pubkey", "ref_billboard_pubkey", "ref_promotion_pubkey", "ref_attention_pubkey", "ref_marketplace_id", "ref_billboard_id", "ref_promotion_id", "ref_attention_id"] = none)
    (h20 : ¬ (notPositive (asFloat (contentData.lookup "sats_received")) = true)) :
    ValidateAttentionPaymentConfirmationEvent L event = { Valid := true, Message := "Valid attention payment confirmation event" } := by
  unfold ValidateAttentionPaymentConfirmationEvent
  simp only []
  rw [if_neg h1]
  rw [h2]; try simp only []
  rw [if_neg h3]
  rw [if_neg h4]
  rw [if_neg h5]
  rw [if_neg h6]
  rw [h7]; try simp only []
  rw [if_neg h8]
  rw [h9]; try simp only []
  rw [if_neg h10]
  rw [h11]; try simp only []
  rw [if_neg h12]
  rw [h13]; try simp only []
  rw [if_neg h14]
  rw [h15]; try simp only []
  rw [if_neg h16]
  rw [if_neg h17]
  rw [h18]; try simp only []
  rw [h19]; try simp only []
  rw [if_neg h20]

/-- The two block-height rejections of `ValidateAttentionPaymentConfirmationEvent`, reached once the d tag is well-formed. -/
theorem ValidateAttentionPaymentConfirmationEvent_height (L : GoLib) (event : Event)
    (hd : ¬ (getTagValue event "d" = ""))
    (hf : validateDTagFormat 38988 (getTagValue event "d") = .ok ()) :
    (getTagValue event "t" = "" →
      ValidateAttentionPaymentConfirmationEvent L event = { Valid := false, Message := "Missing 't' tag (block height)" }) ∧
    (¬ (getTagValue event "t" = "") → Atoi (getTagValue event "t") = none →
      ValidateAttentionPaymentConfirmationEvent L event = { Valid := false, Message := "Invalid block height in 't' tag: must be numeric" }) := by
  constructor
  · intro ht
    unfold ValidateAttentionPaymentConfirmationEvent
    simp only []
    rw [if_neg hd, hf]; simp only []
    rw [if_pos ht]
  · intro ht hn
    unfold ValidateAttentionPaymentConfirmationEvent
    simp only []
    rw [if_neg hd, hf]; simp only []
    rw [if_neg ht, if_pos (by rw [hn]; rfl)]

/-- Every check that an event accepted by `ValidateBlockUpdateEvent` has passed, in source order. -/
theorem ValidateBlockUpdateEvent_checks (L : GoLib) (event : Event)
    (h : (ValidateBlockUpdateEvent L event).Valid = true) :
      ¬ (getTagValue event "d" = "") ∧
      validateDTagFormat 38088 (getTagValue event "d") = .ok () ∧
      ¬ (getTagValue event "t" = "") ∧
      ¬ ((Atoi (getTagValue event "t")).isNone = true) ∧
      ¬ ((getTagValues event "p").length = 0) ∧
      ¬ ((getTagValues event "r").length = 0) ∧
      ∃ contentData, L.Unmarshal event.Content = some contentData ∧
      ∃ heightValue, contentData.lookup "height" = some heightValue ∧
      parseHeight heightValue = .ok () ∧
      ¬ ((asString (contentData.lookup "hash")).isNone = true) ∧
      ¬ ((asString (contentData.lookup "ref_node_pubkey")).isNone = true) ∧
      ¬ ((asString (contentData.lookup "ref_block_id")).isNone = true) ∧
      ∃ refNodePubkey, asString (contentData.lookup "ref_node_pubkey") = some refNodePubkey ∧
      ¬ ((!L.EqualFold refNodePubkey event.PubKey) = true) ∧
      ∃ refBlockID, asString (contentData.lookup "ref_block_id") = some refBlockID ∧
      ¬ (refBlockID ≠ getTagValue event "d") := by
  unfold ValidateBlockUpdateEvent at h
  simp only [] at h
  by_cases h1 : getTagValue event "d" = ""
  · rw [if_pos h1] at h; simp at h
  rw [if_neg h1] at h
  rcases except_cases (validateDTagFormat 38088 (getTagValue event "d")) with h2 | ⟨err, h2⟩
  swap
  · rw [h2] at h; simp at h
  rw [h2] at h; try simp only [] at h
  by_cases h3 : getTagValue event "t" = ""
  · rw [if_pos h3] at h; simp at h
  rw [if_neg h3] at h
  by_cases h4 : (Atoi (getTagValue event "t")).isNone = true
  · rw [if_pos h4] at h; simp at h
  rw [if_neg h4] at h
  by_cases h5 : (getTagValues event "p").length = 0
  · rw [if_pos h5] at h; simp at h
  rw [if_neg h5] at h
  by_cases h6 : (getTagValues event "r").length = 0
  · rw [if_pos h6] at h; simp at h
  rw [if_neg h6] at h
  rcases option_cases (L.Unmarshal event.Content) with h7 | ⟨contentData, h7⟩
  · rw [h7] at h; simp at h
  rw [h7] at h; try simp only [] at h
  rcases option_cases (contentData.lookup "height") with h8 | ⟨heightValue, h8⟩
  · rw [h8] at h; simp at h
  rw [h8] at h; try simp only [] at h
  rcases except_cases (parseHeight heightValue) with h9 | ⟨err, h9⟩
  swap
  · rw [h9] at h; simp at h
  rw [h9] at h; try simp only [] at h
  by_cases h10 : (asString (contentData.lookup "hash")).isNone = true
  · rw [if_pos h10] at h; simp at h
  rw [if_neg h10] at h
  by_cases h11 : (asString (contentData.lookup "ref_node_pubkey")).isNone = true
  · rw [if_pos h11] at h; simp at h
  rw [if_neg h11] at h
  by_cases h12 : (asString (contentData.lookup "ref_block_id")).isNone = true
  · rw [if_pos h12] at h; simp at h
  rw [if_neg h12] at h
  rcases option_cases (asString (contentData.lookup "ref_node_pubkey")) with h13 | ⟨refNodePubkey, h13⟩
  · rw [h13] at h; simp at h
  rw [h13] at h; try simp only [] at h
  by_cases h14 : (!L.EqualFold refNodePubkey event.PubKey) = true
  · rw [if_pos h14] at h; simp at h
  rw [if_neg h14] at h
  rcases option_cases (asString (contentData.lookup "ref_block_id")) with h15 | ⟨refBlockID, h15⟩
  · rw [h15] at h; simp at h
  rw [h15] at h; try simp only [] at h
  by_cases h16 : refBlockID ≠ getTagValue event "d"
  · rw [if_pos h16] at h; simp at h
  rw [if_neg h16] at h
  exact ⟨h1, h2, h3, h4, h5, h6, contentData, h7, heightValue, h8, h9, h10, h11, h12, refNodePubkey, h13, h14, refBlockID, h15, h16⟩

/-- An event that passes every check of `ValidateBlockUpdateEvent` is accepted with the fixed message. -/
theorem ValidateBlockUpdateEvent_accepts (L : GoLib) (event : Event)
    (h1 : ¬ (getTagValue event "d" = ""))
    (h2 : validateDTagFormat 38088 (getTagValue event "d") = .ok ())
    (h3 : ¬ (getTagValue event "t" = ""))
    (h4 : ¬ ((Atoi (getTagValue event "t")).isNone = true))
    (h5 : ¬ ((getTagValues event "p").length = 0))
    (h6 : ¬ ((getTagValues event "r").length = 0))
    (contentData : JSONObject)
    (h7 : L.Unmarshal event.Content = some contentData)
    (heightValue : JSONValue)
    (h8 : contentData.lookup "height" = some heightValue)
    (h9 : parseHeight heightValue = .ok ())
    (h10 : ¬ ((asString (contentData.lookup "hash")).isNone = true))
    (h11 : ¬ ((asString (contentData.lookup "ref_node_pubkey")).isNone = true))
    (h12 : ¬ ((asString (contentData.lookup "ref_block_id")).isNone = true))
    (refNodePubkey : String)
    (h13 : asString (contentData.lookup "ref_node_pubkey") = some refNodePubkey)
    (h14 : ¬ ((!L.EqualFold refNodePubkey event.PubKey) = true))
    (refBlockID : String)
    (h15 : asString (contentData.lookup "ref_block_id") = some refBlockID)
    (h16 : ¬ (refBlockID ≠ getTagValue event "d")) :
    ValidateBlockUpdateEvent L event = { Valid := true, Message := "Valid block event" } := by
  unfold ValidateBlockUpdateEvent
  simp only []
  rw [if_neg h1]
  rw [h2]; try simp only []
  rw [if_neg h3]
  rw [if_neg h4]
  rw [if_neg h5]
  rw [if_neg h6]
  rw [h7]; try simp only []
  rw [h8]; try simp only []
  rw [h9]; try simp only []
  rw [if_neg h10]
  rw [if_neg h11]
  rw [if_neg h12]
  rw [h13]; try simp only []
  rw [if_neg h14]
  rw [h15]; try simp only []
  rw [if_neg h16]

/-- The two block-height rejections of `ValidateBlockUpdateEvent`, reached once the d tag is well-formed. -/
theorem ValidateBlockUpdateEvent_height (L : GoLib) (event : Event)
    (hd : ¬ (getTagValue event "d" = ""))
    (hf : validateDTagFormat 38088 (getTagValue event "d") = .ok ()) :
    (getTagValue event "t" = "" →
      ValidateBlockUpdateEvent L event = { Valid := false, Message := "Missing 't' tag (block height)" }) ∧
    (¬ (getTagValue event "t" = "") → Atoi (getTagValue event "t") = none →
      ValidateBlockUpdateEvent L event = { Valid := false, Message := "Invalid block height in 't' tag: must be numeric" }) := by
  constructor
  · intro ht
    unfold ValidateBlockUpdateEvent
    simp only []
    rw [if_neg hd, hf]; simp only []
    rw [if_pos ht]
  · intro ht hn
    unfold ValidateBlockUpdateEvent
    simp only []
    rw [if_neg hd, hf]; simp only []
    rw [if_neg ht, if_pos (by rw [hn]; rfl)]

/-- Every check that an event accepted by `ValidateMarketplaceEvent` has passed, in source order. -/
theorem ValidateMarketplaceEvent_checks (L : GoLib) (event : Event) (r : ValidationResult)
    (h : ValidateMarketplaceEvent L event = some r) (hr : r.Valid = true) :
      ¬ (getTagValue event "d" = "") ∧
      validateDTagFormat 38188 (getTagValue event "d") = .ok () ∧
      ¬ (getTagValue event "t" = "") ∧
      ¬ ((Atoi (getTagValue event "t")).isNone = true) ∧
      ¬ (getTagValueByPrefix event "a" "38088:" = "") ∧
      validateCoordinateFormat (getTagValueByPrefix event "a" "38088:") 38088 = .ok () ∧
      ¬ ((getTagValues event "k").length = 0) ∧
      ¬ ((getTagValues event "p").length < 2) ∧
      ¬ ((getTagValues event "r").length = 0) ∧
      ∃ contentData, L.Unmarshal event.Content = some contentData ∧
      firstMissingField contentData
          ["name", "description", "admin_pubkey", "min_duration", "max_duration", "match_fee_sats", "confirmation_fee_sats", "ref_marketplace_pubkey", "ref_marketplace_id", "ref_node_pubkey", "ref_block_id"] = none ∧
      ¬ (notPositive (asFloat (contentData.lookup "min_duration")) = true) ∧
      ¬ (notPositive (asFloat (contentData.lookup "max_duration")) = true) ∧
      ∃ minDur, asFloat (contentData.lookup "min_duration") = some minDur ∧
      ∃ maxDur, asFloat (contentData.lookup "max_duration") = some maxDur ∧
      ¬ (minDur > maxDur) ∧
      ¬ (isNegative (asFloat (contentData.lookup "match_fee_sats")) = true) ∧
      ¬ (isNegative (asFloat (contentData.lookup "confirmation_fee_sats")) = true) := by
  unfold ValidateMarketplaceEvent at h
  simp only [] at h
  by_cases h1 : getTagValue event "d" = ""
  · rw [if_pos h1] at h; simp at h; subst h; simp at hr
  rw [if_neg h1] at h
  rcases except_cases (validateDTagFormat 38188 (getTagValue event "d")) with h2 | ⟨err, h2⟩
  swap
  · rw [h2] at h; simp at h; subst h; simp at hr
  rw [h2] at h; try simp only [] at h
  by_cases h3 : getTagValue event "t" = ""
  · rw [if_pos h3] at h; simp at h; subst h; simp at hr
  rw [if_neg h3] at h
  by_cases h4 : (Atoi (getTagValue event "t")).isNone = true
  · rw [if_pos h4] at h; simp at h; subst h; simp at hr
  rw [if_neg h4] at h
  by_cases h5 : getTagValueByPrefix event "a" "38088:" = ""
  · rw [if_pos h5] at h; simp at h; subst h; simp at hr
  rw [if_neg h5] at h
  rcases except_cases (validateCoordinateFormat (getTagValueByPrefix event "a" "38088:") 38088) with h6 | ⟨err, h6⟩
  swap
  · rw [h6] at h; simp at h; subst h; simp at hr
  rw [h6] at h; try simp only [] at h
  by_cases h7 : (getTagValues event "k").length = 0
  · rw [if_pos h7] at h; simp at h; subst h; simp at hr
  rw [if_neg h7] at h
  by_cases h8 : (getTagValues event "p").length < 2
  · rw [if_pos h8] at h; simp at h; subst h; simp at hr
  rw [if_neg h8] at h
  by_cases h9 : (getTagValues event "r").length = 0
  · rw [if_pos h9] at h; simp at h; subst h; simp at hr
  rw [if_neg h9] at h
  rcases option_cases (L.Unmarshal event.Content) with h10 | ⟨contentData, h10⟩
  · rw [h10] at h; simp at h; subst h; simp at hr
  rw [h10] at h; try simp only [] at h
  rcases option_cases (firstMissingField contentData
          ["name", "description", "admin_pubkey", "min_duration", "max_duration", "match_fee_sats", "confirmation_fee_sats", "ref_marketplace_pubkey", "ref_marketplace_id", "ref_node_pubkey", "ref_block_id"]) with h11 | ⟨field, h11⟩
  swap
  · rw [h11] at h; simp at h; subst h; simp at hr
  rw [h11] at h; try simp only [] at h
  by_cases h12 : notPositive (asFloat (contentData.lookup "min_duration")) = true
  · rw [if_pos h12] at h; simp at h; subst h; simp at hr
  rw [if_neg h12] at h
  by_cases h13 : notPositive (asFloat (contentData.lookup "max_duration")) = true
  · rw [if_pos h13] at h; simp at h; subst h; simp at hr
  rw [if_neg h13] at h
  rcases option_cases (asFloat (contentData.lookup "min_duration")) with h14 | ⟨minDur, h14⟩
  · rw [h14] at h; simp at h
  rw [h14] at h; try simp only [] at h
  rcases option_cases (asFloat (contentData.lookup "max_duration")) with h15 | ⟨maxDur, h15⟩
  · rw [h15] at h; simp at h
  rw [h15] at h; try simp only [] at h
  by_cases h16 : minDur > maxDur
  · rw [if_pos h16] at h; simp at h; subst h; simp at hr
  rw [if_neg h16] at h
  by_cases h17 : isNegative (asFloat (contentData.lookup "match_fee_sats")) = true
  · rw [if_pos h17] at h; simp at h; subst h; simp at hr
  rw [if_neg h17] at h
  by_cases h18 : isNegative (asFloat (contentData.lookup "confirmation_fee_sats")) = true
  · rw [if_pos h18] at h; simp at h; subst h; simp at hr
  rw [if_neg h18] at h
  exact ⟨h1, h2, h3, h4, h5, h6, h7, h8, h9, contentData, h10, h11, h12, h13, minDur, h14, maxDur, h15, h16, h17, h18⟩

/-- An event that passes every check of `ValidateMarketplaceEvent` is accepted with the fixed message. -/
theorem ValidateMarketplaceEvent_accepts (L : GoLib) (event : Event)
    (h1 : ¬ (getTagValue event "d" = ""))
    (h2 : validateDTagFormat 38188 (getTagValue event "d") = .ok ())
    (h3 : ¬ (getTagValue event "t" = ""))
    (h4 : ¬ ((Atoi (getTagValue event "t")).isNone = true))
    (h5 : ¬ (getTagValueByPrefix event "a" "38088:" = ""))
    (h6 : validateCoordinateFormat (getTagValueByPrefix event "a" "38088:") 38088 = .ok ())
    (h7 : ¬ ((getTagValues event "k").length = 0))
    (h8 : ¬ ((getTagValues event "p").length < 2))
    (h9 : ¬ ((getTagValues event "r").length = 0))
    (contentData : JSONObject)
    (h10 : L.Unmarshal event.Content = some contentData)
    (h11 : firstMissingField contentData
          ["name", "description", "admin_pubkey", "min_duration", "max_duration", "match_fee_sats", "confirmation_fee_sats", "ref_marketplace_pubkey", "ref_marketplace_id", "ref_node_pubkey", "ref_block_id"] = none)
    (h12 : ¬ (notPositive (asFloat (contentData.lookup "min_duration")) = true))
    (h13 : ¬ (notPositive (asFloat (contentData.lookup "max_duration")) = true))
    (minDur : Rat)
    (h14 : asFloat (contentData.lookup "min_duration") = some minDur)
    (maxDur : Rat)
    (h15 : asFloat (contentData.lookup "max_duration") = some maxDur)
    (h16 : ¬ (minDur > maxDur))
    (h17 : ¬ (isNegative (asFloat (contentData.lookup "match_fee_sats")) = true))
    (h18 : ¬ (isNegative (asFloat (contentData.lookup "confirmation_fee_sats")) = true)) :
    ValidateMarketplaceEvent L event = some { Valid := true, Message := "Valid marketplace event" } := by
  unfold ValidateMarketplaceEvent
  simp only []
  rw [if_neg h1]
  rw [h2]; try simp only []
  rw [if_neg h3]
  rw [if_neg h4]
  rw [if_neg h5]
  rw [h6]; try simp only []
  rw [if_neg h7]
  rw [if_neg h8]
  rw [if_neg h9]
  rw [h10]; try simp only []
  rw [h11]; try simp only []
  rw [if_neg h12]
  rw [if_neg h13]
  rw [h14]; try simp only []
  rw [h15]; try simp only []
  rw [if_neg h16]
  rw [if_neg h17]
  rw [if_neg h18]

/-- The two block-height rejections of `ValidateMarketplaceEvent`, reached once the d tag is well-formed. -/
theorem ValidateMarketplaceEvent_height (L : GoLib) (event : Event)
    (hd : ¬ (getTagValue event "d" = ""))
    (hf : validateDTagFormat 38188 (getTagValue event "d") = .ok ()) :
    (getTagValue event "t" = "" →
      ValidateMarketplaceEvent L event = some { Valid := false, Message := "Missing 't' tag (block height)" }) ∧
    (¬ (getTagValue event "t" = "") → Atoi (getTagValue event "t") = none →
      ValidateMarketplaceEvent L event = some { Valid := false, Message := "Invalid block height in 't' tag: must be numeric" }) := by
  constructor
  · intro ht
    unfold ValidateMarketplaceEvent
    simp only []
    rw [if_neg hd, hf]; simp only []
    rw [if_pos ht]
  · intro ht hn
    unfold ValidateMarketplaceEvent
    simp only []
    rw [if_neg hd, hf]; simp only []
    rw [if_neg ht, if_pos (by rw [hn]; rfl)]

/-- Every check that an event accepted by `GoCore.ValidateMarketplaceEvent` has passed, in source order. -/
theorem GoCore_ValidateMarketplaceEvent_checks (L : GoLib) (event : Event) (r : ValidationResult)
    (h : GoCore.ValidateMarketplaceEvent L event = some r) (hr : r.Valid = true) :
      ¬ (getTagValue event "d" = "") ∧
      validateDTagFormat 38188 (getTagValue event "d") = .ok () ∧
      ¬ (getTagValue event "t" = "") ∧
      ¬ ((Atoi (getTagValue event "t")).isNone = true) ∧
      ¬ (getTagValueByPrefix event "a" "38808:" = "") ∧
      validateCoordinateFormat (getTagValueByPrefix event "a" "38808:") 38808 = .ok () ∧
      ¬ ((getTagValues event "k").length = 0) ∧
      ¬ ((getTagValues event "p").length < 2) ∧
      ¬ ((getTagValues event "r").length = 0) ∧
      ∃ content_data, L.Unmarshal event.Content = some content_data ∧
      firstMissingField content_data
          ["name", "description", "admin_pubkey", "min_duration", "max_duration", "match_fee_sats", "confirmation_fee_sats", "ref_marketplace_pubkey", "ref_marketplace_id", "ref_clock_pubkey", "ref_block_id"] = none ∧
      firstMissingField content_data
          ["billboard_count", "promotion_count", "attention_count", "match_count"] = none ∧
      ¬ (notPositive (asFloat (content_data.lookup "min_duration")) = true) ∧
      ¬ (notPositive (asFloat (content_data.lookup "max_duration")) = true) ∧
      ∃ minDur, asFloat (content_data.lookup "min_duration") = some minDur ∧
      ∃ maxDur, asFloat (content_data.lookup "max_duration") = some maxDur ∧
      ¬ (minDur > maxDur) ∧
      ¬ (isNegative (asFloat (content_data.lookup "match_fee_sats")) = true) ∧
      ¬ (isNegative (asFloat (content_data.lookup "confirmation_fee_sats")) = true) := by
  unfold GoCore.ValidateMarketplaceEvent at h
  simp only [] at h
  by_cases h1 : getTagValue event "d" = ""
  · rw [if_pos h1] at h; simp at h; subst h; simp at hr
  rw [if_neg h1] at h
  rcases except_cases (validateDTagFormat 38188 (getTagValue event "d")) with h2 | ⟨err, h2⟩
  swap
  · rw [h2] at h; simp at h; subst h; simp at hr
  rw [h2] at h; try simp only [] at h
  by_cases h3 : getTagValue event "t" = ""
  · rw [if_pos h3] at h; simp at h; subst h; simp at hr
  rw [if_neg h3] at h
  by_cases h4 : (Atoi (getTagValue event "t")).isNone = true
  · rw [if_pos h4] at h; simp at h; subst h; simp at hr
  rw [if_neg h4] at h
  by_cases h5 : getTagValueByPrefix event "a" "38808:" = ""
  · rw [if_pos h5] at h; simp at h; subst h; simp at hr
  rw [if_neg h5] at h
  rcases except_cases (validateCoordinateFormat (getTagValueByPrefix event "a" "38808:") 38808) with h6 | ⟨err, h6⟩
  swap
  · rw [h6] at h; simp at h; subst h; simp at hr
  rw [h6] at h; try simp only [] at h
  by_cases h7 : (getTagValues event "k").length = 0
  · rw [if_pos h7] at h; simp at h; subst h; simp at hr
  rw [if_neg h7] at h
  by_cases h8 : (getTagValues event "p").length < 2
  · rw [if_pos h8] at h; simp at h; subst h; simp at hr
  rw [if_neg h8] at h
  by_cases h9 : (getTagValues event "r").length = 0
  · rw [if_pos h9] at h; simp at h; subst h; simp at hr
  rw [if_neg h9] at h
  rcases option_cases (L.Unmarshal event.Content) with h10 | ⟨content_data, h10⟩
  · rw [h10] at h; simp at h; subst h; simp at hr
  rw [h10] at h; try simp only [] at h
  rcases option_cases (firstMissingField content_data
          ["name", "description", "admin_pubkey", "min_duration", "max_duration", "match_fee_sats", "confirmation_fee_sats", "ref_marketplace_pubkey", "ref_marketplace_id", "ref_clock_pubkey", "ref_block_id"]) with h11 | ⟨field, h11⟩
  swap
  · rw [h11] at h; simp at h; subst h; simp at hr
  rw [h11] at h; try simp only [] at h
  rcases option_cases (firstMissingField content_data
          ["billboard_count", "promotion_count", "attention_count", "match_count"]) with h12 | ⟨field, h12⟩
  swap
  · rw [h12] at h; simp at h; subst h; simp at hr
  rw [h12] at h; try simp only [] at h
  by_cases h13 : notPositive (asFloat (content_data.lookup "min_duration")) = true
  · rw [if_pos h13] at h; simp at h; subst h; simp at hr
  rw [if_neg h13] at h
  by_cases h14 : notPositive (asFloat (content_data.lookup "max_duration")) = true
  · rw [if_pos h14] at h; simp at h; subst h; simp at hr
  rw [if_neg h14] at h
  rcases option_cases (asFloat (content_data.lookup "min_duration")) with h15 | ⟨minDur, h15⟩
  · rw [h15] at h; simp at h
  rw [h15] at h; try simp only [] at h
  rcases option_cases (asFloat (content_data.lookup "max_duration")) with h16 | ⟨maxDur, h16⟩
  · rw [h16] at h; simp at h
  rw [h16] at h; try simp only [] at h
  by_cases h17 : minDur > maxDur
  · rw [if_pos h17] at h; simp at h; subst h; simp at hr
  rw [if_neg h17] at h
  by_cases h18 : isNegative (asFloat (content_data.lookup "match_fee_sats")) = true
  · rw [if_pos h18] at h; simp at h; subst h; simp at hr
  rw [if_neg h18] at h
  by_cases h19 : isNegative (asFloat (content_data.lookup "confirmation_fee_sats")) = true
  · rw [if_pos h19] at h; simp at h; subst h; simp at hr
  rw [if_neg h19] at h
  exact ⟨h1, h2, h3, h4, h5, h6, h7, h8, h9, content_data, h10, h11, h12, h13, h14, minDur, h15, maxDur, h16, h17, h18, h19⟩

/-- An event that passes every check of `GoCore.ValidateMarketplaceEvent` is accepted with the fixed message. -/
theorem GoCore_ValidateMarketplaceEvent_accepts (L : GoLib) (event : Event)
    (h1 : ¬ (getTagValue event "d" = ""))
    (h2 : validateDTagFormat 38188 (getTagValue event "d") = .ok ())
    (h3 : ¬ (getTagValue event "t" = ""))
    (h4 : ¬ ((Atoi (getTagValue event "t")).isNone = true))
    (h5 : ¬ (getTagValueByPrefix event "a" "38808:" = ""))
    (h6 : validateCoordinateFormat (getTagValueByPrefix event "a" "38808:") 38808 = .ok ())
    (h7 : ¬ ((getTagValues event "k").length = 0))
    (h8 : ¬ ((getTagValues event "p").length < 2))
    (h9 : ¬ ((getTagValues event "r").length = 0))
    (content_data : JSONObject)
    (h10 : L.Unmarshal event.Content = some content_data)
    (h11 : firstMissingField content_data
          ["name", "description", "admin_pubkey", "min_duration", "max_duration", "match_fee_sats", "confirmation_fee_sats", "ref_marketplace_pubkey", "ref_marketplace_id", "ref_clock_pubkey", "ref_block_id"] = none)
    (h12 : firstMissingField content_data
          ["billboard_count", "promotion_count", "attention_count", "match_count"] = none)
    (h13 : ¬ (notPositive (asFloat (content_data.lookup "min_duration")) = true))
    (h14 : ¬ (notPositive (asFloat (content_data.lookup "max_duration")) = true))
    (minDur : Rat)
    (h15 : asFloat (content_data.lookup "min_duration") = some minDur)
    (maxDur : Rat)
    (h16 : asFloat (content_data.lookup "max_duration") = some maxDur)
    (h17 : ¬ (minDur > maxDur))
    (h18 : ¬ (isNegative (asFloat (content_data.lookup "match_fee_sats")) = true))
    (h19 : ¬ (isNegative (asFloat (content_data.lookup "confirmation_fee_sats")) = true)) :
    GoCore.ValidateMarketplaceEvent L event = some { Valid := true, Message := "Valid marketplace event" } := by
  unfold GoCore.ValidateMarketplaceEvent
  simp only []
  rw [if_neg h1]
  rw [h2]; try simp only []
  rw [if_neg h3]
  rw [if_neg h4]
  rw [if_neg h5]
  rw [h6]; try simp only []
  rw [if_neg h7]
  rw [if_neg h8]
  rw [if_neg h9]
  rw [h10]; try simp only []
  rw [h11]; try simp only []
  rw [h12]; try simp only []
  rw [if_neg h13]
  rw [if_neg h14]
  rw [h15]; try simp only []
  rw [h16]; try simp only []
  rw [if_neg h17]
  rw [if_neg h18]
  rw [if_neg h19]

/-- The two block-height rejections of `GoCore.ValidateMarketplaceEvent`, reached once the d tag is well-formed. -/
theorem GoCore_ValidateMarketplaceEvent_height (L : GoLib) (event : Event)
    (hd : ¬ (getTagValue event "d" = ""))
    (hf : validateDTagFormat 38188 (getTagValue event "d") = .ok ()) :
    (getTagValue event "t" = "" →
      GoCore.ValidateMarketplaceEvent L event = some { Valid := false, Message := "Missing 't' tag (block height)" }) ∧
    (¬ (getTagValue event "t" = "") → Atoi (getTagValue event "t") = none →
      GoCore.ValidateMarketplaceEvent L event = some { Valid := false, Message := "Invalid block height in 't' tag: must be numeric" }) := by
  constructor
  · intro ht
    unfold GoCore.ValidateMarketplaceEvent
    simp only []
    rw [if_neg hd, hf]; simp only []
    rw [if_pos ht]
  · intro ht hn
    unfold GoCore.ValidateMarketplaceEvent
    simp only []
    rw [if_neg hd, hf]; simp only []
    rw [if_neg ht, if_pos (by rw [hn]; rfl)]

/-- Every check that an event accepted by `ValidateAttentionEvent` has passed, in source order. -/
theorem ValidateAttentionEvent_checks (L : GoLib) (event : Event) (r : ValidationResult)
    (h : ValidateAttentionEvent L event = some r) (hr : r.Valid = true) :
      ¬ (getTagValue event "d" = "") ∧
      validateDTagFormat 38488 (getTagValue event "d") = .ok () ∧
      ¬ (getTagValue event "t" = "") ∧
      ¬ ((Atoi (getTagValue event "t")).isNone = true) ∧
      ¬ (getTagValueByPrefix event "a" "38188:" = "") ∧
      validateCoordinateFormat (getTagValueByPrefix event "a" "38188:") 38188 = .ok () ∧
      ¬ ((!hasListCoordinate event "org.attnprotocol:promotion:blocked") = true) ∧
      ¬ ((!hasListCoordinate event "org.attnprotocol:promoter:blocked") = true) ∧
      ¬ ((getTagValues event "p").length < 2) ∧
      ¬ ((getTagValues event "r").length = 0) ∧
      ¬ ((getTagValues event "k").length = 0) ∧
      ∃ contentData, L.Unmarshal event.Content = some contentData ∧
      firstMissingField contentData
          ["ask", "min_duration", "max_duration", "ref_attention_pubkey", "ref_attention_id", "ref_marketplace_pubkey", "ref_marketplace_id", "blocked_promotions_id", "blocked_promoters_id"] = none ∧
      ¬ ((hasListCoordinate event "org.attnprotocol:marketplace:trusted" &&
          (contentData.lookup "trusted_marketplaces_id").isNone) = true) ∧
      ¬ ((hasListCoordinate event "org.attnprotocol:billboard:trusted" &&
          (contentData.lookup "trusted_billboards_id").isNone) = true) ∧
      ¬ (notPositive (asFloat (contentData.lookup "ask")) = true) ∧
      ¬ (notPositive (asFloat (contentData.lookup "min_duration")) = true) ∧
      ¬ (notPositive (asFloat (contentData.lookup "max_duration")) = true) ∧
      ∃ minDur, asFloat (contentData.lookup "min_duration") = some minDur ∧
      ∃ maxDur, asFloat (contentData.lookup "max_duration") = some maxDur ∧
      ¬ (minDur > maxDur) := by
  unfold ValidateAttentionEvent at h
  simp only [] at h
  by_cases h1 : getTagValue event "d" = ""
  · rw [if_pos h1] at h; simp at h; subst h; simp at hr
  rw [if_neg h1] at h
  rcases except_cases (validateDTagFormat 38488 (getTagValue event "d")) with h2 | ⟨err, h2⟩
  swap
  · rw [h2] at h; simp at h; subst h; simp at hr
  rw [h2] at h; try simp only [] at h
  by_cases h3 : getTagValue event "t" = ""
  · rw [if_pos h3] at h; simp at h; subst h; simp at hr
  rw [if_neg h3] at h
  by_cases h4 : (Atoi (getTagValue event "t")).isNone = true
  · rw [if_pos h4] at h; simp at h; subst h; simp at hr
  rw [if_neg h4] at h
  by_cases h5 : getTagValueByPrefix event "a" "38188:" = ""
  · rw [if_pos h5] at h; simp at h; subst h; simp at hr
  rw [if_neg h5] at h
  rcases except_cases (validateCoordinateFormat (getTagValueByPrefix event "a" "38188:") 38188) with h6 | ⟨err, h6⟩
  swap
  · rw [h6] at h; simp at h; subst h; simp at hr
  rw [h6] at h; try simp only [] at h
  by_cases h7 : (!hasListCoordinate event "org.attnprotocol:promotion:blocked") = true
  · rw [if_pos h7] at h; simp at h; subst h; simp at hr
  rw [if_neg h7] at h
  by_cases h8 : (!hasListCoordinate event "org.attnprotocol:promoter:blocked") = true
  · rw [if_pos h8] at h; simp at h; subst h; simp at hr
  rw [if_neg h8] at h
  by_cases h9 : (getTagValues event "p").length < 2
  · rw [if_pos h9] at h; simp at h; subst h; simp at hr
  rw [if_neg h9] at h
  by_cases h10 : (getTagValues event "r").length = 0
  · rw [if_pos h10] at h; simp at h; subst h; simp at hr
  rw [if_neg h10] at h
  by_cases h11 : (getTagValues event "k").length = 0
  · rw [if_pos h11] at h; simp at h; subst h; simp at hr
  rw [if_neg h11] at h
  rcases option_cases (L.Unmarshal event.Content) with h12 | ⟨contentData, h12⟩
  · rw [h12] at h; simp at h; subst h; simp at hr
  rw [h12] at h; try simp only [] at h
  rcases option_cases (firstMissingField contentData
          ["ask", "min_duration", "max_duration", "ref_attention_pubkey", "ref_attention_id", "ref_marketplace_pubkey", "ref_marketplace_id", "blocked_promotions_id", "blocked_promoters_id"]) with h13 | ⟨field, h13⟩
  swap
  · rw [h13] at h; simp at h; subst h; simp at hr
  rw [h13] at h; try simp only [] at h
  by_cases h14 : (hasListCoordinate event "org.attnprotocol:marketplace:trusted" &&
          (contentData.lookup "trusted_marketplaces_id").isNone) = true
  · rw [if_pos h14] at h; simp at h; subst h; simp at hr
  rw [if_neg h14] at h
  by_cases h15 : (hasListCoordinate event "org.attnprotocol:billboard:trusted" &&
          (contentData.lookup "trusted_billboards_id").isNone) = true
  · rw [if_pos h15] at h; simp at h; subst h; simp at hr
  rw [if_neg h15] at h
  by_cases h16 : notPositive (asFloat (contentData.lookup "ask")) = true
  · rw [if_pos h16] at h; simp at h; subst h; simp at hr
  rw [if_neg h16] at h
  by_cases h17 : notPositive (asFloat (contentData.lookup "min_duration")) = true
  · rw [if_pos h17] at h; simp at h; subst h; simp at hr
  rw [if_neg h17] at h
  by_cases h18 : notPositive (asFloat (contentData.lookup "max_duration")) = true
  · rw [if_pos h18] at h; simp at h; subst h; simp at hr
  rw [if_neg h18] at h
  rcases option_cases (asFloat (contentData.lookup "min_duration")) with h19 | ⟨minDur, h19⟩
  · rw [h19] at h; simp at h
  rw [h19] at h; try simp only [] at h
  rcases option_cases (asFloat (contentData.lookup "max_duration")) with h20 | ⟨maxDur, h20⟩
  · rw [h20] at h; simp at h
  rw [h20] at h; try simp only [] at h
  by_cases h21 : minDur > maxDur
  · rw [if_pos h21] at h; simp at h; subst h; simp at hr
  rw [if_neg h21] at h
  exact ⟨h1, h2, h3, h4, h5, h6, h7, h8, h9, h10, h11, contentData, h12, h13, h14, h15, h16, h17, h18, minDur, h19, maxDur, h20, h21⟩

/-- An event that passes every check of `ValidateAttentionEvent` is accepted with the fixed message. -/
theorem ValidateAttentionEvent_accepts (L : GoLib) (event : Event)
    (h1 : ¬ (getTagValue event "d" = ""))
    (h2 : validateDTagFormat 38488 (getTagValue event "d") = .ok ())
    (h3 : ¬ (getTagValue event "t" = ""))
    (h4 : ¬ ((Atoi (getTagValue event "t")).isNone = true))
    (h5 : ¬ (getTagValueByPrefix event "a" "38188:" = ""))
    (h6 : validateCoordinateFormat (getTagValueByPrefix event "a" "38188:") 38188 = .ok ())
    (h7 : ¬ ((!hasListCoordinate event "org.attnprotocol:promotion:blocked") = true))
    (h8 : ¬ ((!hasListCoordinate event "org.attnprotocol:promoter:blocked") = true))
    (h9 : ¬ ((getTagValues event "p").length < 2))
    (h10 : ¬ ((getTagValues event "r").length = 0))
    (h11 : ¬ ((getTagValues event "k").length = 0))
    (contentData : JSONObject)
    (h12 : L.Unmarshal event.Content = some contentData)
    (h13 : firstMissingField contentData
          ["ask", "min_duration", "max_duration", "ref_attention_pubkey", "ref_attention_id", "ref_marketplace_pubkey", "ref_marketplace_id", "blocked_promotions_id", "blocked_promoters_id"] = none)
    (h14 : ¬ ((hasListCoordinate event "org.attnprotocol:marketplace:trusted" &&
          (contentData.lookup "trusted_marketplaces_id").isNone) = true))
    (h15 : ¬ ((hasListCoordinate event "org.attnprotocol:billboard:trusted" &&
          (contentData.lookup "trusted_billboards_id").isNone) = true))
    (h16 : ¬ (notPositive (asFloat (contentData.lookup "ask")) = true))
    (h17 : ¬ (notPositive (asFloat (contentData.lookup "min_duration")) = true))
    (h18 : ¬ (notPositive (asFloat (contentData.lookup "max_duration")) = true))
    (minDur : Rat)
    (h19 : asFloat (contentData.lookup "min_duration") = some minDur)
    (maxDur : Rat)
    (h20 : asFloat (contentData.lookup "max_duration") = some maxDur)
    (h21 : ¬ (minDur > maxDur)) :
    ValidateAttentionEvent L event = some { Valid := true, Message := "Valid attention event" } := by
  unfold ValidateAttentionEvent
  simp only []
  rw [if_neg h1]
  rw [h2]; try simp only []
  rw [if_neg h3]
  rw [if_neg h4]
  rw [if_neg h5]
  rw [h6]; try simp only []
  rw [if_neg h7]
  rw [if_neg h8]
  rw [if_neg h9]
  rw [if_neg h10]
  rw [if_neg h11]
  rw [h12]; try simp only []
  rw [h13]; try simp only []
  rw [if_neg h14]
  rw [if_neg h15]
  rw [if_neg h16]
  rw [if_neg h17]
  rw [if_neg h18]
  rw [h19]; try simp only []
  rw [h20]; try simp only []
  rw [if_neg h21]

/-- The two block-height rejections of `ValidateAttentionEvent`, reached once the d tag is well-formed. -/
theorem ValidateAttentionEvent_height (L : GoLib) (event : Event)
    (hd : ¬ (getTagValue event "d" = ""))
    (hf : validateDTagFormat 38488 (getTagValue event "d") = .ok ()) :
    (getTagValue event "t" = "" →
      ValidateAttentionEvent L event = some { Valid := false, Message := "Missing 't' tag (block height)" }) ∧
    (¬ (getTagValue event "t" = "") → Atoi (getTagValue event "t") = none →
      ValidateAttentionEvent L event = some { Valid := false, Message := "Invalid block height in 't' tag: must be numeric" }) := by
  constructor
  · intro ht
    unfold ValidateAttentionEvent
    simp only []
    rw [if_neg hd, hf]; simp only []
    rw [if_pos ht]
  · intro ht hn
    unfold ValidateAttentionEvent
    simp only []
    rw [if_neg hd, hf]; simp only []
    rw [if_neg ht, if_pos (by rw [hn]; rfl)]


/-! ## Facts used by several theorems -/

theorem mapGet_append_of_lookup_none (a b : List (Int × Bool)) (k : Int)
    (h : a.lookup k = none) : mapGet (a ++ b) k = mapGet b k := by
  unfold mapGet
  induction a with
  | nil => rfl
  | cons p a ih =>
    obtain ⟨x, y⟩ := p
    simp only [List.lookup] at h
    split at h
    · simp at h
    · rename_i hne
      simp only [List.cons_append, List.lookup, hne]
      exact ih h

theorem mapGet_append_of_lookup_some (a b : List (Int × Bool)) (k : Int) (v : Bool)
    (h : a.lookup k = some v) : mapGet (a ++ b) k = v := by
  unfold mapGet
  induction a with
  | nil => simp [List.lookup] at h
  | cons p a ih =>
    obtain ⟨x, y⟩ := p
    simp only [List.lookup] at h
    split at h
    · rename_i heq
      simp only [Option.some.injEq] at h
      simp [List.lookup, heq, h]
    · rename_i hne
      simp only [List.cons_append, List.lookup, hne]
      exact ih h

theorem mapGet_eq_true_lookup (m : List (Int × Bool)) (k : Int) (h : mapGet m k = true) :
    m.lookup k = some true := by
  unfold mapGet at h
  cases hl : m.lookup k with
  | none => rw [hl] at h; simp at h
  | some v => rw [hl] at h; simp at h; rw [h]

theorem lookup_none_of_mapGet_false (m : List (Int × Bool)) (k : Int)
    (hall : ∀ p ∈ m, p.2 = true) (h : mapGet m k = false) : m.lookup k = none := by
  induction m with
  | nil => rfl
  | cons p m ih =>
    obtain ⟨x, y⟩ := p
    have hy : y = true := hall (x, y) (List.mem_cons_self _ _)
    subst hy
    by_cases hk : (k == x) = true
    · unfold mapGet at h
      simp only [List.lookup, hk, Option.getD_some] at h
      exact absurd h (by decide)
    · have hk2 : (k == x) = false := by simpa using hk
      have h2 : mapGet m k = false := by
        unfold mapGet at h ⊢
        simpa only [List.lookup, hk2] using h
      simp only [List.lookup, hk2]
      exact ih (fun p hp => hall p (List.mem_cons_of_mem _ hp)) h2

theorem mapGet_eq_false_ATTN (k : Int) (h : mapGet GoCore.ATTNProtocolKinds k = false) :
    GoCore.ATTNProtocolKinds.lookup k = none :=
  lookup_none_of_mapGet_false _ k (by decide) h

/-- The identifier check in closed form. -/
theorem validateDTagFormat_eq_ok_iff (kind : Int) (dTag : String) :
    validateDTagFormat kind dTag = .ok () ↔
      ∃ name rest : String, eventTypeMap.lookup kind = some name ∧ rest ≠ "" ∧
        dTag = "org.attnprotocol:" ++ name ++ ":" ++ rest := by
  constructor
  · intro h
    unfold validateDTagFormat at h
    simp only [] at h
    split at h
    · simp at h
    · rename_i hpre
      simp at hpre
      obtain ⟨t, rfl⟩ := (HasPrefix_iff _ _).1 hpre
      split at h
      · simp at h
      · rename_i expectedType hlook
        rw [TrimPrefix_append] at h
        split at h
        · simp at h
        · split at h
          · rename_i eventType identifier rst hsplit
            split at h
            · simp at h
            · rename_i hty
              split at h
              · simp at h
              · rename_i hid
                obtain ⟨_, _, ht⟩ := SplitN2_pair t eventType identifier rst hsplit
                simp only [ne_eq, Decidable.not_not] at hty
                subst hty
                refine ⟨eventType, identifier, hlook, hid, ?_⟩
                rw [ht, string_eq_iff_data]
                simp
          · simp at h
  · rintro ⟨name, rest, hlook, hrest, rfl⟩
    have hassoc : "org.attnprotocol:" ++ name ++ ":" ++ rest
        = "org.attnprotocol:" ++ (name ++ ":" ++ rest) := by
      rw [string_eq_iff_data]; simp
    have hpre : HasPrefix ("org.attnprotocol:" ++ (name ++ ":" ++ rest)) "org.attnprotocol:"
        = true := (HasPrefix_iff _ _).2 ⟨_, rfl⟩
    have hne : name ++ ":" ++ rest ≠ "org.attnprotocol:" ++ (name ++ ":" ++ rest) :=
      prefixed_ne_self _ _ (by decide)
    rw [hassoc]
    unfold validateDTagFormat
    simp only [hpre, hlook, TrimPrefix_append, if_neg hne,
      SplitN2_append name rest (eventTypeMap_no_colon kind name hlook)]
    simp [hrest]

/-- A well-formed identifier is not the empty string. -/
theorem dTag_ne_empty_of_ok (kind : Int) (dTag : String)
    (h : validateDTagFormat kind dTag = .ok ()) : ¬ (dTag = "") := by
  intro he
  subst he
  unfold validateDTagFormat at h
  simp only [] at h
  rw [if_pos (by decide)] at h
  simp at h

/-- `getTagValue` returns the value of the first tag that has at least two elements and
the requested name, and the empty string when there is no such tag. -/
theorem getTagValueIn_spec (name : String) (tags : List (List String)) :
    ((∀ t ∈ tags, ¬ (2 ≤ t.length ∧ t.getD 0 "" = name)) ∧ getTagValueIn name tags = "") ∨
    (∃ before v rest after, tags = before ++ (name :: v :: rest) :: after ∧
      (∀ t ∈ before, ¬ (2 ≤ t.length ∧ t.getD 0 "" = name)) ∧
      getTagValueIn name tags = v) := by
  induction tags with
  | nil => left; simp [getTagValueIn]
  | cons tag tags ih =>
    by_cases hc : tag.length ≥ 2 ∧ tag.getD 0 "" = name
    · right
      match tag, hc with
      | a :: v :: rest, hc =>
        have ha : a = name := by simpa using hc.2
        subst ha
        refine ⟨[], v, rest, tags, by simp, by simp, ?_⟩
        unfold getTagValueIn
        rw [if_pos hc]
        rfl
      | [], hc => simp at hc
      | [_], hc => simp at hc
    · have hstep : getTagValueIn name (tag :: tags) = getTagValueIn name tags := by
        rw [getTagValueIn, if_neg hc]
      rcases ih with ⟨h1, h2⟩ | ⟨before, v, rest, after, h1, h2, h3⟩
      · left
        refine ⟨?_, by rw [hstep, h2]⟩
        intro t ht
        rcases List.mem_cons.1 ht with rfl | ht
        · exact hc
        · exact h1 t ht
      · right
        refine ⟨tag :: before, v, rest, after, by simp [h1], ?_, by rw [hstep, h3]⟩
        intro t ht
        rcases List.mem_cons.1 ht with rfl | ht
        · exact hc
        · exact h2 t ht

theorem asString_eq_some_iff (v : Option JSONValue) (s : String) :
    asString v = some s ↔ v = some (JSONValue.string s) := by
  cases v with
  | none => simp [asString]
  | some j => cases j <;> simp [asString]

theorem asFloat_eq_some_iff (v : Option JSONValue) (x : Rat) :
    asFloat v = some x ↔ v = some (JSONValue.number x) := by
  cases v with
  | none => simp [asFloat]
  | some j => cases j <;> simp [asFloat]

/-- An event accepted by the helpers.go entry point was accepted by the validator of its
kind, or its kind is not a protocol kind. -/
theorem ValidateEvent_accepted_cases (L : GoLib) (event : Event) (r : ValidationResult)
    (h : ValidateEvent L event = some r) (hr : r.Valid = true) :
    (event.Kind = 38188 ∧ ValidateMarketplaceEvent L event = some r) ∨
    (event.Kind = 38288 ∧ ValidateBillboardEvent L event = r) ∨
    (event.Kind = 38388 ∧ ValidatePromotionEvent L event = r) ∨
    (event.Kind = 38488 ∧ ValidateAttentionEvent L event = some r) ∨
    (event.Kind = 38588 ∧ ValidateBillboardConfirmationEvent L event = r) ∨
    (event.Kind = 38688 ∧ ValidateAttentionConfirmationEvent L event = r) ∨
    (event.Kind = 38788 ∧ ValidateMarketplaceConfirmationEvent L event = r) ∨
    (event.Kind = 38888 ∧ ValidateMatchEvent L event = r) ∨
    (event.Kind = 38088 ∧ ValidateBlockUpdateEvent L event = r) ∨
    (event.Kind = 38988 ∧ ValidateAttentionPaymentConfirmationEvent L event = r) ∨
    event.Kind ∉
      [(38088 : Int), 38188, 38288, 38388, 38488, 38588, 38688, 38788, 38888, 38988] := by
  unfold ValidateEvent at h
  by_cases h1 : (!mapGet AllowedEventKinds event.Kind) = true
  · rw [if_pos h1] at h; simp at h; subst h; simp at hr
  rw [if_neg h1] at h
  by_cases h2 : (mapGet attnProtocolKinds event.Kind && !(validateOfficialTagsOnly event).Valid)
      = true
  · rw [if_pos h2] at h
    simp only [Option.some.injEq] at h
    subst h
    simp only [Bool.and_eq_true, Bool.not_eq_true'] at h2
    rw [h2.2] at hr
    exact absurd hr (by decide)
  rw [if_neg h2] at h
  by_cases k1 : event.Kind = 38188
  · rw [if_pos k1] at h; exact Or.inl ⟨k1, h⟩
  rw [if_neg k1] at h
  by_cases k2 : event.Kind = 38288
  · rw [if_pos k2] at h; exact Or.inr (Or.inl ⟨k2, Option.some.inj h⟩)
  rw [if_neg k2] at h
  by_cases k3 : event.Kind = 38388
  · rw [if_pos k3] at h; exact Or.inr (Or.inr (Or.inl ⟨k3, Option.some.inj h⟩))
  rw [if_neg k3] at h
  by_cases k4 : event.Kind = 38488
  · rw [if_pos k4] at h; exact Or.inr (Or.inr (Or.inr (Or.inl ⟨k4, h⟩)))
  rw [if_neg k4] at h
  by_cases k5 : event.Kind = 38588
  · rw [if_pos k5] at h
    exact Or.inr (Or.inr (Or.inr (Or.inr (Or.inl ⟨k5, Option.some.inj h⟩))))
  rw [if_neg k5] at h
  by_cases k6 : event.Kind = 38688
  · rw [if_pos k6] at h
    exact Or.inr (Or.inr (Or.inr (Or.inr (Or.inr (Or.inl ⟨k6, Option.some.inj h⟩)))))
  rw [if_neg k6] at h
  by_cases k7 : event.Kind = 38788
  · rw [if_pos k7] at h
    exact Or.inr (Or.inr (Or.inr (Or.inr (Or.inr (Or.inr (Or.inl ⟨k7, Option.some.inj h⟩))))))
  rw [if_neg k7] at h
  by_cases k8 : event.Kind = 38888
  · rw [if_pos k8] at h
    exact Or.inr (Or.inr (Or.inr (Or.inr (Or.inr (Or.inr (Or.inr
      (Or.inl ⟨k8, Option.some.inj h⟩)))))))
  rw [if_neg k8] at h
  by_cases k9 : event.Kind = 38088
  · rw [if_pos k9] at h
    exact Or.inr (Or.inr (Or.inr (Or.inr (Or.inr (Or.inr (Or.inr (Or.inr
      (Or.inl ⟨k9, Option.some.inj h⟩))))))))
  rw [if_neg k9] at h
  by_cases k10 : event.Kind = 38988
  · rw [if_pos k10] at h
    exact Or.inr (Or.inr (Or.inr (Or.inr (Or.inr (Or.inr (Or.inr (Or.inr (Or.inr
      (Or.inl ⟨k10, Option.some.inj h⟩)))))))))
  refine Or.inr (Or.inr (Or.inr (Or.inr (Or.inr (Or.inr (Or.inr (Or.inr (Or.inr
    (Or.inr ?_)))))))))
  simp only [List.mem_cons, List.mem_singleton, List.not_mem_nil, or_false, not_or]
  exact ⟨k9, k1, k2, k3, k4, k5, k6, k7, k8, k10⟩

/-- A d tag made of the literal namespace-and-type text and a non-empty identifier passes
the identifier check of its kind. -/
theorem dTag_ok_of_literal (kind : Int) (name lit id d : String)
    (hname : eventTypeMap.lookup kind = some name)
    (hlit : lit = "org.attnprotocol:" ++ name ++ ":") (hid : id ≠ "") (hd : d = lit ++ id) :
    validateDTagFormat kind d = .ok () ∧ ¬ (d = "") := by
  have h : validateDTagFormat kind d = .ok () :=
    (validateDTagFormat_eq_ok_iff kind d).2 ⟨name, id, hname, hid, by rw [hd, hlit]⟩
  exact ⟨h, dTag_ne_empty_of_ok kind d h⟩

theorem getTagValue_eq_empty_of_no_tag (event : Event) (name : String)
    (h : ∀ t ∈ event.Tags, ¬ (2 ≤ t.length ∧ t.getD 0 "" = name)) :
    getTagValue event name = "" := by
  unfold getTagValue
  rcases getTagValueIn_spec name event.Tags with ⟨_, h2⟩ | ⟨before, v, rest, after, h1, _, _⟩
  · exact h2
  · exact absurd ⟨by simp, by simp⟩ (h (name :: v :: rest) (by rw [h1]; simp))

/-- `ValidateMarketplaceEvent` returns a result on every event: its single-result type assertions are
reached only after the two-result assertions on the same fields have succeeded. -/
theorem ValidateMarketplaceEvent_total (L : GoLib) (event : Event) :
    ∃ r, ValidateMarketplaceEvent L event = some r := by
  unfold ValidateMarketplaceEvent
  simp only []
  by_cases h1 : getTagValue event "d" = ""
  · rw [if_pos h1]; exact ⟨_, rfl⟩
  rw [if_neg h1]
  rcases except_cases (validateDTagFormat 38188 (getTagValue event "d")) with h2 | ⟨err, h2⟩
  swap
  · rw [h2]; exact ⟨_, rfl⟩
  rw [h2]; try simp only []
  by_cases h3 : getTagValue event "t" = ""
  · rw [if_pos h3]; exact ⟨_, rfl⟩
  rw [if_neg h3]
  by_cases h4 : (Atoi (getTagValue event "t")).isNone = true
  · rw [if_pos h4]; exact ⟨_, rfl⟩
  rw [if_neg h4]
  by_cases h5 : getTagValueByPrefix event "a" "38088:" = ""
  · rw [if_pos h5]; exact ⟨_, rfl⟩
  rw [if_neg h5]
  rcases except_cases (validateCoordinateFormat (getTagValueByPrefix event "a" "38088:") 38088) with h6 | ⟨err, h6⟩
  swap
  · rw [h6]; exact ⟨_, rfl⟩
  rw [h6]; try simp only []
  by_cases h7 : (getTagValues event "k").length = 0
  · rw [if_pos h7]; exact ⟨_, rfl⟩
  rw [if_neg h7]
  by_cases h8 : (getTagValues event "p").length < 2
  · rw [if_pos h8]; exact ⟨_, rfl⟩
  rw [if_neg h8]
  by_cases h9 : (getTagValues event "r").length = 0
  · rw [if_pos h9]; exact ⟨_, rfl⟩
  rw [if_neg h9]
  rcases option_cases (L.Unmarshal event.Content) with h10 | ⟨contentData, h10⟩
  · rw [h10]; exact ⟨_, rfl⟩
  rw [h10]; try simp only []
  rcases option_cases (firstMissingField contentData
          ["name", "description", "admin_pubkey", "min_duration", "max_duration", "match_fee_sats", "confirmation_fee_sats", "ref_marketplace_pubkey", "ref_marketplace_id", "ref_node_pubkey", "ref_block_id"]) with h11 | ⟨field, h11⟩
  swap
  · rw [h11]; exact ⟨_, rfl⟩
  rw [h11]; try simp only []
  by_cases h12 : notPositive (asFloat (contentData.lookup "min_duration")) = true
  · rw [if_pos h12]; exact ⟨_, rfl⟩
  rw [if_neg h12]
  by_cases h13 : notPositive (asFloat (contentData.lookup "max_duration")) = true
  · rw [if_pos h13]; exact ⟨_, rfl⟩
  rw [if_neg h13]
  rcases option_cases (asFloat (contentData.lookup "min_duration")) with h14 | ⟨minDur, h14⟩
  · rw [h14] at h12; exact absurd rfl h12
  rw [h14]; try simp only []
  rcases option_cases (asFloat (contentData.lookup "max_duration")) with h15 | ⟨maxDur, h15⟩
  · rw [h15] at h13; exact absurd rfl h13
  rw [h15]; try simp only []
  by_cases h16 : minDur > maxDur
  · rw [if_pos h16]; exact ⟨_, rfl⟩
  rw [if_neg h16]
  by_cases h17 : isNegative (asFloat (contentData.lookup "match_fee_sats")) = true
  · rw [if_pos h17]; exact ⟨_, rfl⟩
  rw [if_neg h17]
  by_cases h18 : isNegative (asFloat (contentData.lookup "confirmation_fee_sats")) = true
  · rw [if_pos h18]; exact ⟨_, rfl⟩
  rw [if_neg h18]
  exact ⟨_, rfl⟩

/-- `GoCore.ValidateMarketplaceEvent` returns a result on every event: its single-result type assertions are
reached only after the two-result assertions on the same fields have succeeded. -/
theorem GoCore_ValidateMarketplaceEvent_total (L : GoLib) (event : Event) :
    ∃ r, GoCore.ValidateMarketplaceEvent L event = some r := by
  unfold GoCore.ValidateMarketplaceEvent
  simp only []
  by_cases h1 : getTagValue event "d" = ""
  · rw [if_pos h1]; exact ⟨_, rfl⟩
  rw [if_neg h1]
  rcases except_cases (validateDTagFormat 38188 (getTagValue event "d")) with h2 | ⟨err, h2⟩
  swap
  · rw [h2]; exact ⟨_, rfl⟩
  rw [h2]; try simp only []
  by_cases h3 : getTagValue event "t" = ""
  · rw [if_pos h3]; exact ⟨_, rfl⟩
  rw [if_neg h3]
  by_cases h4 : (Atoi (getTagValue event "t")).isNone = true
  · rw [if_pos h4]; exact ⟨_, rfl⟩
  rw [if_neg h4]
  by_cases h5 : getTagValueByPrefix event "a" "38808:" = ""
  · rw [if_pos h5]; exact ⟨_, rfl⟩
  rw [if_neg h5]
  rcases except_cases (validateCoordinateFormat (getTagValueByPrefix event "a" "38808:") 38808) with h6 | ⟨err, h6⟩
  swap
  · rw [h6]; exact ⟨_, rfl⟩
  rw [h6]; try simp only []
  by_cases h7 : (getTagValues event "k").length = 0
  · rw [if_pos h7]; exact ⟨_, rfl⟩
  rw [if_neg h7]
  by_cases h8 : (getTagValues event "p").length < 2
  · rw [if_pos h8]; exact ⟨_, rfl⟩
  rw [if_neg h8]
  by_cases h9 : (getTagValues event "r").length = 0
  · rw [if_pos h9]; exact ⟨_, rfl⟩
  rw [if_neg h9]
  rcases option_cases (L.Unmarshal event.Content) with h10 | ⟨content_data, h10⟩
  · rw [h10]; exact ⟨_, rfl⟩
  rw [h10]; try simp only []
  rcases option_cases (firstMissingField content_data
          ["name", "description", "admin_pubkey", "min_duration", "max_duration", "match_fee_sats", "confirmation_fee_sats", "ref_marketplace_pubkey", "ref_marketplace_id", "ref_clock_pubkey", "ref_block_id"]) with h11 | ⟨field, h11⟩
  swap
  · rw [h11]; exact ⟨_, rfl⟩
  rw [h11]; try simp only []
  rcases option_cases (firstMissingField content_data
          ["billboard_count", "promotion_count", "attention_count", "match_count"]) with h12 | ⟨field, h12⟩
  swap
  · rw [h12]; exact ⟨_, rfl⟩
  rw [h12]; try simp only []
  by_cases h13 : notPositive (asFloat (content_data.lookup "min_duration")) = true
  · rw [if_pos h13]; exact ⟨_, rfl⟩
  rw [if_neg h13]
  by_cases h14 : notPositive (asFloat (content_data.lookup "max_duration")) = true
  · rw [if_pos h14]; exact ⟨_, rfl⟩
  rw [if_neg h14]
  rcases option_cases (asFloat (content_data.lookup "min_duration")) with h15 | ⟨minDur, h15⟩
  · rw [h15] at h13; exact absurd rfl h13
  rw [h15]; try simp only []
  rcases option_cases (asFloat (content_data.lookup "max_duration")) with h16 | ⟨maxDur, h16⟩
  · rw [h16] at h14; exact absurd rfl h14
  rw [h16]; try simp only []
  by_cases h17 : minDur > maxDur
  · rw [if_pos h17]; exact ⟨_, rfl⟩
  rw [if_neg h17]
  by_cases h18 : isNegative (asFloat (content_data.lookup "match_fee_sats")) = true
  · rw [if_pos h18]; exact ⟨_, rfl⟩
  rw [if_neg h18]
  by_cases h19 : isNegative (asFloat (content_data.lookup "confirmation_fee_sats")) = true
  · rw [if_pos h19]; exact ⟨_, rfl⟩
  rw [if_neg h19]
  exact ⟨_, rfl⟩

/-- `ValidateAttentionEvent` returns a result on every event: its single-result type assertions are
reached only after the two-result assertions on the same fields have succeeded. -/
theorem ValidateAttentionEvent_total (L : GoLib) (event : Event) :
    ∃ r, ValidateAttentionEvent L event = some r := by
  unfold ValidateAttentionEvent
  simp only []
  by_cases h1 : getTagValue event "d" = ""
  · rw [if_pos h1]; exact ⟨_, rfl⟩
  rw [if_neg h1]
  rcases except_cases (validateDTagFormat 38488 (getTagValue event "d")) with h2 | ⟨err, h2⟩
  swap
  · rw [h2]; exact ⟨_, rfl⟩
  rw [h2]; try simp only []
  by_cases h3 : getTagValue event "t" = ""
  · rw [if_pos h3]; exact ⟨_, rfl⟩
  rw [if_neg h3]
  by_cases h4 : (Atoi (getTagValue event "t")).isNone = true
  · rw [if_pos h4]; exact ⟨_, rfl⟩
  rw [if_neg h4]
  by_cases h5 : getTagValueByPrefix event "a" "38188:" = ""
  · rw [if_pos h5]; exact ⟨_, rfl⟩
  rw [if_neg h5]
  rcases except_cases (validateCoordinateFormat (getTagValueByPrefix event "a" "38188:") 38188) with h6 | ⟨err, h6⟩
  swap
  · rw [h6]; exact ⟨_, rfl⟩
  rw [h6]; try simp only []
  by_cases h7 : (!hasListCoordinate event "org.attnprotocol:promotion:blocked") = true
  · rw [if_pos h7]; exact ⟨_, rfl⟩
  rw [if_neg h7]
  by_cases h8 : (!hasListCoordinate event "org.attnprotocol:promoter:blocked") = true
  · rw [if_pos h8]; exact ⟨_, rfl⟩
  rw [if_neg h8]
  by_cases h9 : (getTagValues event "p").length < 2
  · rw [if_pos h9]; exact ⟨_, rfl⟩
  rw [if_neg h9]
  by_cases h10 : (getTagValues event "r").length = 0
  · rw [if_pos h10]; exact ⟨_, rfl⟩
  rw [if_neg h10]
  by_cases h11 : (getTagValues event "k").length = 0
  · rw [if_pos h11]; exact ⟨_, rfl⟩
  rw [if_neg h11]
  rcases option_cases (L.Unmarshal event.Content) with h12 | ⟨contentData, h12⟩
  · rw [h12]; exact ⟨_, rfl⟩
  rw [h12]; try simp only []
  rcases option_cases (firstMissingField contentData
          ["ask", "min_duration", "max_duration", "ref_attention_pubkey", "ref_attention_id", "ref_marketplace_pubkey", "ref_marketplace_id", "blocked_promotions_id", "blocked_promoters_id"]) with h13 | ⟨field, h13⟩
  swap
  · rw [h13]; exact ⟨_, rfl⟩
  rw [h13]; try simp only []
  by_cases h14 : (hasListCoordinate event "org.attnprotocol:marketplace:trusted" &&
          (contentData.lookup "trusted_marketplaces_id").isNone) = true
  · rw [if_pos h14]; exact ⟨_, rfl⟩
  rw [if_neg h14]
  by_cases h15 : (hasListCoordinate event "org.attnprotocol:billboard:trusted" &&
          (contentData.lookup "trusted_billboards_id").isNone) = true
  · rw [if_pos h15]; exact ⟨_, rfl⟩
  rw [if_neg h15]
  by_cases h16 : notPositive (asFloat (contentData.lookup "ask")) = true
  · rw [if_pos h16]; exact ⟨_, rfl⟩
  rw [if_neg h16]
  by_cases h17 : notPositive (asFloat (contentData.lookup "min_duration")) = true
  · rw [if_pos h17]; exact ⟨_, rfl⟩
  rw [if_neg h17]
  by_cases h18 : notPositive (asFloat (contentData.lookup "max_duration")) = true
  · rw [if_pos h18]; exact ⟨_, rfl⟩
  rw [if_neg h18]
  rcases option_cases (asFloat (contentData.lookup "min_duration")) with h19 | ⟨minDur, h19⟩
  · rw [h19] at h17; exact absurd rfl h17
  rw [h19]; try simp only []
  rcases option_cases (asFloat (contentData.lookup "max_duration")) with h20 | ⟨maxDur, h20⟩
  · rw [h20] at h18; exact absurd rfl h18
  rw [h20]; try simp only []
  by_cases h21 : minDur > maxDur
  · rw [if_pos h21]; exact ⟨_, rfl⟩
  rw [if_neg h21]
  exact ⟨_, rfl⟩


/-- `getTagValues` lists element 1 of exactly the tags with at least two elements and the
requested name, in tag order. -/
theorem getTagValuesIn_eq_filter_map (name : String) (tags : List (List String)) :
    getTagValuesIn name tags
      = (tags.filter (fun t => decide (t.length ≥ 2 ∧ t.getD 0 "" = name))).map
          (fun t => t.getD 1 "") := by
  induction tags with
  | nil => rfl
  | cons tag tags ih =>
    by_cases hc : tag.length ≥ 2 ∧ tag.getD 0 "" = name
    · have hd : decide (tag.length ≥ 2 ∧ tag.getD 0 "" = name) = true := decide_eq_true hc
      rw [getTagValuesIn, if_pos hc, ih, List.filter_cons]
      simp only [hd, if_true, List.map_cons]
    · have hd : decide (tag.length ≥ 2 ∧ tag.getD 0 "" = name) = false := decide_eq_false hc
      rw [getTagValuesIn, if_neg hc, ih, List.filter_cons]
      simp only [hd, Bool.false_eq_true, if_false]

/-- A non-empty `getTagValues` result comes from a tag of the event. -/
theorem exists_tag_of_getTagValues (event : Event) (name : String)
    (h : 1 ≤ (getTagValues event name).length) :
    ∃ tag ∈ event.Tags, 2 ≤ tag.length ∧ tag.getD 0 "" = name := by
  unfold getTagValues at h
  rw [getTagValuesIn_eq_filter_map, List.length_map] at h
  obtain ⟨tag, htag⟩ := List.exists_mem_of_length_pos (by omega : 0 <
    (event.Tags.filter (fun t => decide (t.length ≥ 2 ∧ t.getD 0 "" = name))).length)
  rw [List.mem_filter] at htag
  exact ⟨tag, htag.1, of_decide_eq_true htag.2⟩

theorem asString_isSome (v : Option JSONValue) (h : ¬ ((asString v).isNone = true)) :
    ∃ s, v = some (JSONValue.string s) := by
  cases hs : asString v with
  | none => rw [hs] at h; exact absurd rfl h
  | some s => exact ⟨s, (asString_eq_some_iff _ _).1 hs⟩

theorem positive_of_not_notPositive (v : Option JSONValue)
    (h : ¬ (notPositive (asFloat v) = true)) : ∃ x : Rat, v = some (JSONValue.number x) ∧ 0 < x :=
  (notPositive_eq_false_iff v).1 (by simpa using h)

theorem nonneg_of_not_isNegative (v : Option JSONValue)
    (h : ¬ (isNegative (asFloat v) = true)) : ∃ x : Rat, v = some (JSONValue.number x) ∧ 0 ≤ x :=
  (isNegative_eq_false_iff v).1 (by simpa using h)

theorem not_notPositive_of_positive (v : Option JSONValue) (x : Rat)
    (h : v = some (JSONValue.number x)) (hx : 0 < x) : ¬ (notPositive (asFloat v) = true) := by
  rw [Bool.not_eq_true]
  exact (notPositive_eq_false_iff v).2 ⟨x, h, hx⟩

theorem not_isNegative_of_nonneg (v : Option JSONValue) (x : Rat)
    (h : v = some (JSONValue.number x)) (hx : 0 ≤ x) : ¬ (isNegative (asFloat v) = true) := by
  rw [Bool.not_eq_true]
  exact (isNegative_eq_false_iff v).2 ⟨x, h, hx⟩

theorem Atoi_ne_empty (s : String) (n : Int) (h : Atoi s = some n) : ¬ (s = "") := by
  intro he
  have hnone : Atoi "" = none := by decide
  rw [he, hnone] at h
  cases h

theorem coordinate_ne_empty (c : String) (k : Int)
    (h : validateCoordinateFormat c k = .ok ()) : ¬ (c = "") := by
  intro he
  subst he
  unfold validateCoordinateFormat at h
  simp only [] at h
  rw [if_pos (by decide)] at h
  cases h

/-- A d tag that passes the identifier check of a kind is the literal namespace-and-type
text of that kind followed by a non-empty identifier. -/
theorem dTag_literal_of_ok (kind : Int) (name lit d : String)
    (hname : eventTypeMap.lookup kind = some name)
    (hlit : lit = "org.attnprotocol:" ++ name ++ ":")
    (h : validateDTagFormat kind d = .ok ()) : ∃ id : String, id ≠ "" ∧ d = lit ++ id := by
  obtain ⟨name2, id, hname2, hid, hd⟩ := (validateDTagFormat_eq_ok_iff kind d).1 h
  rw [hname] at hname2
  cases hname2
  exact ⟨id, hid, by rw [hd, hlit]⟩

theorem Atoi_isSome (s : String) (h : ¬ ((Atoi s).isNone = true)) : ∃ n, Atoi s = some n := by
  cases hs : Atoi s with
  | none => rw [hs] at h; exact absurd rfl h
  | some n => exact ⟨n, rfl⟩

theorem Atoi_not_isNone (s : String) (n : Int) (h : Atoi s = some n) :
    ¬ ((Atoi s).isNone = true) := by
  rw [h]; simp

/-! ## Facts about required fields, markers and prefixed tags -/

/-- The required-field loop reports `f` exactly when `f` is listed, every field listed
before it is present and `f` itself is absent. -/
theorem firstMissingField_eq_some_iff (content : JSONObject) (fields : List String)
    (f : String) :
    firstMissingField content fields = some f ↔
      ∃ before after, fields = before ++ f :: after ∧
        (∀ g ∈ before, ∃ v, content.lookup g = some v) ∧ content.lookup f = none := by
  induction fields with
  | nil => simp [firstMissingField]
  | cons g gs ih =>
    by_cases hg : (content.lookup g).isNone = true
    · have hnone : content.lookup g = none := Option.isNone_iff_eq_none.1 hg
      rw [firstMissingField, if_pos hg]
      constructor
      · intro h
        simp only [Option.some.injEq] at h
        subst h
        exact ⟨[], gs, rfl, by simp, hnone⟩
      · rintro ⟨before, after, hsplit, hall, hf⟩
        cases before with
        | nil =>
          simp only [List.nil_append, List.cons.injEq] at hsplit
          rw [hsplit.1]
        | cons b bs =>
          simp only [List.cons_append, List.cons.injEq] at hsplit
          obtain ⟨v, hv⟩ := hall b (by simp)
          rw [← hsplit.1, hnone] at hv
          cases hv
    · rw [firstMissingField, if_neg hg, ih]
      have hsome : ∃ v, content.lookup g = some v := by
        cases hl : content.lookup g with
        | none => rw [hl] at hg; exact absurd rfl hg
        | some v => exact ⟨v, rfl⟩
      constructor
      · rintro ⟨before, after, hsplit, hall, hf⟩
        refine ⟨g :: before, after, by rw [hsplit]; rfl, ?_, hf⟩
        intro x hx
        rcases List.mem_cons.1 hx with rfl | hx
        · exact hsome
        · exact hall x hx
      · rintro ⟨before, after, hsplit, hall, hf⟩
        cases before with
        | nil =>
          simp only [List.nil_append, List.cons.injEq] at hsplit
          obtain ⟨v, hv⟩ := hsome
          rw [hsplit.1, hf] at hv
          cases hv
        | cons b bs =>
          simp only [List.cons_append, List.cons.injEq] at hsplit
          exact ⟨bs, after, hsplit.2, fun x hx => hall x (List.mem_cons_of_mem _ hx), hf⟩

theorem firstMissingField_append (content : JSONObject) (l1 l2 : List String) :
    firstMissingField content (l1 ++ l2) =
      match firstMissingField content l1 with
      | some f => some f
      | none => firstMissingField content l2 := by
  induction l1 with
  | nil => rfl
  | cons g gs ih =>
    by_cases hg : (content.lookup g).isNone = true
    · simp only [List.cons_append, firstMissingField, if_pos hg]
    · simp only [List.cons_append, firstMissingField, if_neg hg]
      exact ih

/-- The required-field loop only reads the listed fields. -/
theorem firstMissingField_congr (c1 c2 : JSONObject) (fields : List String)
    (h : ∀ f ∈ fields, c1.lookup f = c2.lookup f) :
    firstMissingField c1 fields = firstMissingField c2 fields := by
  induction fields with
  | nil => rfl
  | cons g gs ih =>
    rw [firstMissingField, firstMissingField, h g (by simp),
      ih (fun f hf => h f (List.mem_cons_of_mem _ hf))]

/-- A listed field that is absent makes the required-field loop report some field. -/
theorem firstMissingField_ne_none (content : JSONObject) (fields : List String) (f : String)
    (hf : f ∈ fields) (hnone : content.lookup f = none) :
    firstMissingField content fields ≠ none := by
  intro h
  obtain ⟨v, hv⟩ := (firstMissingField_eq_none_iff content fields).1 h f hf
  rw [hnone] at hv
  cases hv

/-- `getTagValueByPrefix` returns the value of the first tag that has at least two
elements, the requested name and a value with the requested prefix, and the empty string
when there is no such tag. -/
theorem getTagValueByPrefixIn_spec (name pre : String) (tags : List (List String)) :
    ((∀ t ∈ tags, ¬ (2 ≤ t.length ∧ t.getD 0 "" = name ∧ HasPrefix (t.getD 1 "") pre = true)) ∧
      getTagValueByPrefixIn name pre tags = "") ∨
    (∃ before v rest after, tags = before ++ (name :: v :: rest) :: after ∧
      (∀ t ∈ before,
        ¬ (2 ≤ t.length ∧ t.getD 0 "" = name ∧ HasPrefix (t.getD 1 "") pre = true)) ∧
      HasPrefix v pre = true ∧ getTagValueByPrefixIn name pre tags = v) := by
  induction tags with
  | nil => left; simp [getTagValueByPrefixIn]
  | cons tag tags ih =>
    by_cases hc : tag.length ≥ 2 ∧ tag.getD 0 "" = name ∧ HasPrefix (tag.getD 1 "") pre = true
    · right
      match tag, hc with
      | a :: v :: rest, hc =>
        have ha : a = name := by simpa using hc.2.1
        subst ha
        have hv : HasPrefix v pre = true := by simpa using hc.2.2
        refine ⟨[], v, rest, tags, by simp, by simp, hv, ?_⟩
        unfold getTagValueByPrefixIn
        rw [if_pos hc]
        rfl
      | [], hc => simp at hc
      | [_], hc => simp at hc
    · have hstep : getTagValueByPrefixIn name pre (tag :: tags)
          = getTagValueByPrefixIn name pre tags := by
        rw [getTagValueByPrefixIn, if_neg hc]
      rcases ih with ⟨h1, h2⟩ | ⟨before, v, rest, after, h1, h2, h3, h4⟩
      · left
        refine ⟨?_, by rw [hstep, h2]⟩
        intro t ht
        rcases List.mem_cons.1 ht with rfl | ht
        · exact hc
        · exact h1 t ht
      · right
        refine ⟨tag :: before, v, rest, after, by simp [h1], ?_, h3, by rw [hstep, h4]⟩
        intro t ht
        rcases List.mem_cons.1 ht with rfl | ht
        · exact hc
        · exact h2 t ht

theorem getTagValueByPrefix_eq_empty_of_no_tag (event : Event) (name pre : String)
    (h : ∀ t ∈ event.Tags,
      ¬ (2 ≤ t.length ∧ t.getD 0 "" = name ∧ HasPrefix (t.getD 1 "") pre = true)) :
    getTagValueByPrefix event name pre = "" := by
  unfold getTagValueByPrefix
  rcases getTagValueByPrefixIn_spec name pre event.Tags with
    ⟨_, h2⟩ | ⟨before, v, rest, after, h1, _, h3, _⟩
  · exact h2
  · exact absurd ⟨by simp, by simp, by simpa using h3⟩
      (h (name :: v :: rest) (by rw [h1]; simp))

/-- A non-empty `getTagValueByPrefix` result is the value of a tag of the event, and it
starts with the prefix. -/
theorem getTagValueByPrefix_mem (event : Event) (name pre : String)
    (h : getTagValueByPrefix event name pre ≠ "") :
    HasPrefix (getTagValueByPrefix event name pre) pre = true ∧
    ∃ rest, (name :: getTagValueByPrefix event name pre :: rest) ∈ event.Tags := by
  unfold getTagValueByPrefix at h ⊢
  rcases getTagValueByPrefixIn_spec name pre event.Tags with
    ⟨_, h2⟩ | ⟨before, v, rest, after, h1, _, h3, h4⟩
  · exact absurd h2 h
  · rw [h4]
    exact ⟨h3, rest, by rw [h1]; simp⟩

/-- The marker check in closed form. -/
theorem validateETagWithMarker_iff (event : Event) (marker : String) :
    validateETagWithMarker event marker = true ↔
      ∃ tag ∈ event.Tags, 4 ≤ tag.length ∧ tag.getD 0 "" = "e" ∧ tag.getD 3 "" = marker := by
  unfold validateETagWithMarker
  simp only [List.any_eq_true, Bool.and_eq_true, decide_eq_true_eq, beq_iff_eq, ge_iff_le,
    and_assoc]

/-- The list-coordinate check in closed form. -/
theorem hasListCoordinate_iff (event : Event) (suffix : String) :
    hasListCoordinate event suffix = true ↔
      ∃ tag ∈ event.Tags, 2 ≤ tag.length ∧ tag.getD 0 "" = "a" ∧
        HasPrefix (tag.getD 1 "") "30000:" = true ∧ HasSuffix (tag.getD 1 "") suffix = true := by
  unfold hasListCoordinate
  simp only [List.any_eq_true, Bool.and_eq_true, decide_eq_true_eq, beq_iff_eq, ge_iff_le,
    and_assoc]

/-- The malformed-payload message is none of the missing-field messages. -/
theorem valid_json_message_ne_missing (f : String) :
    "Content must be valid JSON" ≠ "Content must include " ++ f := by
  intro h
  have hd := congrArg String.data h
  rw [String.data_append] at hd
  have h14 := congrArg (List.take 14) hd
  rw [List.take_append_of_le_length (by decide)] at h14
  exact absurd h14 (by decide)

theorem not_true_of_eq_false (b : Bool) (h : b = false) : ¬ (b = true) := by
  rw [h]; decide

theorem not_not_true_of_eq_true (b : Bool) (h : b = true) : ¬ ((!b) = true) := by
  rw [h]; decide

theorem eq_true_of_not_not_true (b : Bool) (h : ¬ ((!b) = true)) : b = true := by
  cases b with
  | true => rfl
  | false => exact absurd rfl h

theorem eq_false_of_not_true (b : Bool) (h : ¬ (b = true)) : b = false := by
  cases b with
  | false => rfl
  | true => exact absurd rfl h

/-! ## Rejections at the payload stage

For every validator with a required-field list: the result on an event that passes the tag
checks and whose payload does not decode (`_bad_json`) or lacks a required field
(`_missing_field`). -/

/-- `ValidateMarketplaceEvent` on an event that passes the tag checks and whose payload does not decode. -/
theorem ValidateMarketplaceEvent_bad_json (L : GoLib) (event : Event)
    (h1 : ¬ (getTagValue event "d" = ""))
    (h2 : validateDTagFormat 38188 (getTagValue event "d") = .ok ())
    (h3 : ¬ (getTagValue event "t" = ""))
    (h4 : ¬ ((Atoi (getTagValue event "t")).isNone = true))
    (h5 : ¬ (getTagValueByPrefix event "a" "38088:" = ""))
    (h6 : validateCoordinateFormat (getTagValueByPrefix event "a" "38088:") 38088 = .ok ())
    (h7 : ¬ ((getTagValues event "k").length = 0))
    (h8 : ¬ ((getTagValues event "p").length < 2))
    (h9 : ¬ ((getTagValues event "r").length = 0))
    (hU : L.Unmarshal event.Content = none) :
    ValidateMarketplaceEvent L event = some { Valid := false, Message := "Content must be valid JSON" } := by
  unfold ValidateMarketplaceEvent
  simp only []
  rw [if_neg h1]
  rw [h2]; try simp only []
  rw [if_neg h3]
  rw [if_neg h4]
  rw [if_neg h5]
  rw [h6]; try simp only []
  rw [if_neg h7]
  rw [if_neg h8]
  rw [if_neg h9]
  rw [hU]

/-- `ValidateMarketplaceEvent` on an event that passes the tag checks and whose decoded payload lacks a
required field: the first missing field is reported. -/
theorem ValidateMarketplaceEvent_missing_field (L : GoLib) (event : Event)
    (h1 : ¬ (getTagValue event "d" = ""))
    (h2 : validateDTagFormat 38188 (getTagValue event "d") = .ok ())
    (h3 : ¬ (getTagValue event "t" = ""))
    (h4 : ¬ ((Atoi (getTagValue event "t")).isNone = true))
    (h5 : ¬ (getTagValueByPrefix event "a" "38088:" = ""))
    (h6 : validateCoordinateFormat (getTagValueByPrefix event "a" "38088:") 38088 = .ok ())
    (h7 : ¬ ((getTagValues event "k").length = 0))
    (h8 : ¬ ((getTagValues event "p").length < 2))
    (h9 : ¬ ((getTagValues event "r").length = 0))
    (contentData : JSONObject) (hU : L.Unmarshal event.Content = some contentData)
    (field : String)
    (hf : firstMissingField contentData
          ["name", "description", "admin_pubkey", "min_duration", "max_duration", "match_fee_sats", "confirmation_fee_sats", "ref_marketplace_pubkey", "ref_marketplace_id", "ref_node_pubkey", "ref_block_id"] = some field) :
    ValidateMarketplaceEvent L event = some { Valid := false, Message := "Content must include " ++ field } := by
  unfold ValidateMarketplaceEvent
  simp only []
  rw [if_neg h1]
  rw [h2]; try simp only []
  rw [if_neg h3]
  rw [if_neg h4]
  rw [if_neg h5]
  rw [h6]; try simp only []
  rw [if_neg h7]
  rw [if_neg h8]
  rw [if_neg h9]
  rw [hU]; try simp only []
  rw [hf]

/-- `GoCore.ValidateMarketplaceEvent` on an event that passes the tag checks and whose payload does not decode. -/
theorem GoCore_ValidateMarketplaceEvent_bad_json (L : GoLib) (event : Event)
    (h1 : ¬ (getTagValue event "d" = ""))
    (h2 : validateDTagFormat 38188 (getTagValue event "d") = .ok ())
    (h3 : ¬ (getTagValue event "t" = ""))
    (h4 : ¬ ((Atoi (getTagValue event "t")).isNone = true))
    (h5 : ¬ (getTagValueByPrefix event "a" "38808:" = ""))
    (h6 : validateCoordinateFormat (getTagValueByPrefix event "a" "38808:") 38808 = .ok ())
    (h7 : ¬ ((getTagValues event "k").length = 0))
    (h8 : ¬ ((getTagValues event "p").length < 2))
    (h9 : ¬ ((getTagValues event "r").length = 0))
    (hU : L.Unmarshal event.Content = none) :
    GoCore.ValidateMarketplaceEvent L event = some { Valid := false, Message := "Content must be valid JSON" } := by
  unfold GoCore.ValidateMarketplaceEvent
  simp only []
  rw [if_neg h1]
  rw [h2]; try simp only []
  rw [if_neg h3]
  rw [if_neg h4]
  rw [if_neg h5]
  rw [h6]; try simp only []
  rw [if_neg h7]
  rw [if_neg h8]
  rw [if_neg h9]
  rw [hU]

/-- `GoCore.ValidateMarketplaceEvent` on an event that passes the tag checks and whose decoded payload lacks a
required field: the first missing field is reported. -/
theorem GoCore_ValidateMarketplaceEvent_missing_field (L : GoLib) (event : Event)
    (h1 : ¬ (getTagValue event "d" = ""))
    (h2 : validateDTagFormat 38188 (getTagValue event "d") = .ok ())
    (h3 : ¬ (getTagValue event "t" = ""))
    (h4 : ¬ ((Atoi (getTagValue event "t")).isNone = true))
    (h5 : ¬ (getTagValueByPrefix event "a" "38808:" = ""))
    (h6 : validateCoordinateFormat (getTagValueByPrefix event "a" "38808:") 38808 = .ok ())
    (h7 : ¬ ((getTagValues event "k").length = 0))
    (h8 : ¬ ((getTagValues event "p").length < 2))
    (h9 : ¬ ((getTagValues event "r").length = 0))
    (content_data : JSONObject) (hU : L.Unmarshal event.Content = some content_data)
    (field : String)
    (hf : firstMissingField content_data
          ["name", "description", "admin_pubkey", "min_duration", "max_duration", "match_fee_sats", "confirmation_fee_sats", "ref_marketplace_pubkey", "ref_marketplace_id", "ref_clock_pubkey", "ref_block_id"] = some field) :
    GoCore.ValidateMarketplaceEvent L event = some { Valid := false, Message := "Content must include " ++ field } := by
  unfold GoCore.ValidateMarketplaceEvent
  simp only []
  rw [if_neg h1]
  rw [h2]; try simp only []
  rw [if_neg h3]
  rw [if_neg h4]
  rw [if_neg h5]
  rw [h6]; try simp only []
  rw [if_neg h7]
  rw [if_neg h8]
  rw [if_neg h9]
  rw [hU]; try simp only []
  rw [hf]

/-- `GoCore.ValidateMarketplaceEvent` on an event that passes the tag checks and whose decoded payload lacks a
required field: the first missing field is reported. -/
theorem GoCore_ValidateMarketplaceEvent_missing_count_field (L : GoLib) (event : Event)
    (h1 : ¬ (getTagValue event "d" = ""))
    (h2 : validateDTagFormat 38188 (getTagValue event "d") = .ok ())
    (h3 : ¬ (getTagValue event "t" = ""))
    (h4 : ¬ ((Atoi (getTagValue event "t")).isNone = true))
    (h5 : ¬ (getTagValueByPrefix event "a" "38808:" = ""))
    (h6 : validateCoordinateFormat (getTagValueByPrefix event "a" "38808:") 38808 = .ok ())
    (h7 : ¬ ((getTagValues event "k").length = 0))
    (h8 : ¬ ((getTagValues event "p").length < 2))
    (h9 : ¬ ((getTagValues event "r").length = 0))
    (content_data : JSONObject) (hU : L.Unmarshal event.Content = some content_data)
    (hp1 : firstMissingField content_data
          ["name", "description", "admin_pubkey", "min_duration", "max_duration", "match_fee_sats", "confirmation_fee_sats", "ref_marketplace_pubkey", "ref_marketplace_id", "ref_clock_pubkey", "ref_block_id"] = none)
    (field : String)
    (hf : firstMissingField content_data
          ["billboard_count", "promotion_count", "attention_count", "match_count"] = some field) :
    GoCore.ValidateMarketplaceEvent L event = some { Valid := false, Message := "Content must include " ++ field } := by
  unfold GoCore.ValidateMarketplaceEvent
  simp only []
  rw [if_neg h1]
  rw [h2]; try simp only []
  rw [if_neg h3]
  rw [if_neg h4]
  rw [if_neg h5]
  rw [h6]; try simp only []
  rw [if_neg h7]
  rw [if_neg h8]
  rw [if_neg h9]
  rw [hU]; try simp only []
  rw [hp1]; try simp only []
  rw [hf]

/-- `ValidateBillboardEvent` on an event that passes the tag checks and whose payload does not decode. -/
theorem ValidateBillboardEvent_bad_json (L : GoLib) (event : Event)
    (h1 : ¬ (getTagValue event "d" = ""))
    (h2 : validateDTagFormat 38288 (getTagValue event "d") = .ok ())
    (h3 : ¬ (getTagValue event "t" = ""))
    (h4 : ¬ ((Atoi (getTagValue event "t")).isNone = true))
    (h5 : ¬ (getTagValueByPrefix event "a" "38188:" = ""))
    (h6 : validateCoordinateFormat (getTagValueByPrefix event "a" "38188:") 38188 = .ok ())
    (h7 : ¬ ((getTagValues event "p").length < 2))
    (h8 : ¬ ((getTagValues event "r").length = 0))
    (h9 : ¬ (getTagValue event "k" = ""))
    (h10 : ¬ (getTagValue event "u" = ""))
    (hU : L.Unmarshal event.Content = none) :
    ValidateBillboardEvent L event = { Valid := false, Message := "Content must be valid JSON" } := by
  unfold ValidateBillboardEvent
  simp only []
  rw [if_neg h1]
  rw [h2]; try simp only []
  rw [if_neg h3]
  rw [if_neg h4]
  rw [if_neg h5]
  rw [h6]; try simp only []
  rw [if_neg h7]
  rw [if_neg h8]
  rw [if_neg h9]
  rw [if_neg h10]
  rw [hU]

/-- `ValidateBillboardEvent` on an event that passes the tag checks and whose decoded payload lacks a
required field: the first missing field is reported. -/
theorem ValidateBillboardEvent_missing_field (L : GoLib) (event : Event)
    (h1 : ¬ (getTagValue event "d" = ""))
    (h2 : validateDTagFormat 38288 (getTagValue event "d") = .ok ())
    (h3 : ¬ (getTagValue event "t" = ""))
    (h4 : ¬ ((Atoi (getTagValue event "t")).isNone = true))
    (h5 : ¬ (getTagValueByPrefix event "a" "38188:" = ""))
    (h6 : validateCoordinateFormat (getTagValueByPrefix event "a" "38188:") 38188 = .ok ())
    (h7 : ¬ ((getTagValues event "p").length < 2))
    (h8 : ¬ ((getTagValues event "r").length = 0))
    (h9 : ¬ (getTagValue event "k" = ""))
    (h10 : ¬ (getTagValue event "u" = ""))
    (contentData : JSONObject) (hU : L.Unmarshal event.Content = some contentData)
    (field : String)
    (hf : firstMissingField contentData
          ["name", "confirmation_fee_sats", "ref_billboard_pubkey", "ref_billboard_id", "ref_marketplace_pubkey", "ref_marketplace_id"] = some field) :
    ValidateBillboardEvent L event = { Valid := false, Message := "Content must include " ++ field } := by
  unfold ValidateBillboardEvent
  simp only []
  rw [if_neg h1]
  rw [h2]; try simp only []
  rw [if_neg h3]
  rw [if_neg h4]
  rw [if_neg h5]
  rw [h6]; try simp only []
  rw [if_neg h7]
  rw [if_neg h8]
  rw [if_neg h9]
  rw [if_neg h10]
  rw [hU]; try simp only []
  rw [hf]

/-- `ValidatePromotionEvent` on an event that passes the tag checks and whose payload does not decode. -/
theorem ValidatePromotionEvent_bad_json (L : GoLib) (event : Event)
    (h1 : ¬ (getTagValue event "d" = ""))
    (h2 : validateDTagFormat 38388 (getTagValue event "d") = .ok ())
    (h3 : ¬ (getTagValue event "t" = ""))
    (h4 : ¬ ((Atoi (getTagValue event "t")).isNone = true))
    (h5 : ¬ (getTagValueByPrefix event "a" "38188:" = ""))
    (h6 : validateCoordinateFormat (getTagValueByPrefix event "a" "38188:") 38188 = .ok ())
    (h7 : ¬ (getTagValueByPrefix event "a" "34236:" = ""))
    (h8 : ¬ (Contains (getTagValueByPrefix event "a" "34236:") "org.attnprotocol:" = true))
    (h9 : ¬ (getTagValueByPrefix event "a" "38288:" = ""))
    (h10 : validateCoordinateFormat (getTagValueByPrefix event "a" "38288:") 38288 = .ok ())
    (h11 : ¬ ((getTagValues event "p").length < 3))
    (h12 : ¬ ((getTagValues event "r").length = 0))
    (h13 : ¬ (getTagValue event "k" = ""))
    (h14 : ¬ (getTagValue event "u" = ""))
    (hU : L.Unmarshal event.Content = none) :
    ValidatePromotionEvent L event = { Valid := false, Message := "Content must be valid JSON" } := by
  unfold ValidatePromotionEvent
  simp only []
  rw [if_neg h1]
  rw [h2]; try simp only []
  rw [if_neg h3]
  rw [if_neg h4]
  rw [if_neg h5]
  rw [h6]; try simp only []
  rw [if_neg h7]
  rw [if_neg h8]
  rw [if_neg h9]
  rw [h10]; try simp only []
  rw [if_neg h11]
  rw [if_neg h12]
  rw [if_neg h13]
  rw [if_neg h14]
  rw [hU]

/-- `ValidatePromotionEvent` on an event that passes the tag checks and whose decoded payload lacks a
required field: the first missing field is reported. -/
theorem ValidatePromotionEvent_missing_field (L : GoLib) (event : Event)
    (h1 : ¬ (getTagValue event "d" = ""))
    (h2 : validateDTagFormat 38388 (getTagValue event "d") = .ok ())
    (h3 : ¬ (getTagValue event "t" = ""))
    (h4 : ¬ ((Atoi (getTagValue event "t")).isNone = true))
    (h5 : ¬ (getTagValueByPrefix event "a" "38188:" = ""))
    (h6 : validateCoordinateFormat (getTagValueByPrefix event "a" "38188:") 38188 = .ok ())
    (h7 : ¬ (getTagValueByPrefix event "a" "34236:" = ""))
    (h8 : ¬ (Contains (getTagValueByPrefix event "a" "34236:") "org.attnprotocol:" = true))
    (h9 : ¬ (getTagValueByPrefix event "a" "38288:" = ""))
    (h10 : validateCoordinateFormat (getTagValueByPrefix event "a" "38288:") 38288 = .ok ())
    (h11 : ¬ ((getTagValues event "p").length < 3))
    (h12 : ¬ ((getTagValues event "r").length = 0))
    (h13 : ¬ (getTagValue event "k" = ""))
    (h14 : ¬ (getTagValue event "u" = ""))
    (contentData : JSONObject) (hU : L.Unmarshal event.Content = some contentData)
    (field : String)
    (hf : firstMissingField contentData
          ["duration", "bid", "event_id", "call_to_action", "call_to_action_url", "escrow_id_list", "ref_promotion_pubkey", "ref_promotion_id", "ref_marketplace_pubkey", "ref_marketplace_id", "ref_billboard_pubkey", "ref_billboard_id"] = some field) :
    ValidatePromotionEvent L event = { Valid := false, Message := "Content must include " ++ field } := by
  unfold ValidatePromotionEvent
  simp only []
  rw [if_neg h1]
  rw [h2]; try simp only []
  rw [if_neg h3]
  rw [if_neg h4]
  rw [if_neg h5]
  rw [h6]; try simp only []
  rw [if_neg h7]
  rw [if_neg h8]
  rw [if_neg h9]
  rw [h10]; try simp only []
  rw [if_neg h11]
  rw [if_neg h12]
  rw [if_neg h13]
  rw [if_neg h14]
  rw [hU]; try simp only []
  rw [hf]

/-- `ValidateAttentionEvent` on an event that passes the tag checks and whose payload does not decode. -/
theorem ValidateAttentionEvent_bad_json (L : GoLib) (event : Event)
    (h1 : ¬ (getTagValue event "d" = ""))
    (h2 : validateDTagFormat 38488 (getTagValue event "d") = .ok ())
    (h3 : ¬ (getTagValue event "t" = ""))
    (h4 : ¬ ((Atoi (getTagValue event "t")).isNone = true))
    (h5 : ¬ (getTagValueByPrefix event "a" "38188:" = ""))
    (h6 : validateCoordinateFormat (getTagValueByPrefix event "a" "38188:") 38188 = .ok ())
    (h7 : ¬ ((!hasListCoordinate event "org.attnprotocol:promotion:blocked") = true))
    (h8 : ¬ ((!hasListCoordinate event "org.attnprotocol:promoter:blocked") = true))
    (h9 : ¬ ((getTagValues event "p").length < 2))
    (h10 : ¬ ((getTagValues event "r").length = 0))
    (h11 : ¬ ((getTagValues event "k").length = 0))
    (hU : L.Unmarshal event.Content = none) :
    ValidateAttentionEvent L event = some { Valid := false, Message := "Content must be valid JSON" } := by
  unfold ValidateAttentionEvent
  simp only []
  rw [if_neg h1]
  rw [h2]; try simp only []
  rw [if_neg h3]
  rw [if_neg h4]
  rw [if_neg h5]
  rw [h6]; try simp only []
  rw [if_neg h7]
  rw [if_neg h8]
  rw [if_neg h9]
  rw [if_neg h10]
  rw [if_neg h11]
  rw [hU]

/-- `ValidateAttentionEvent` on an event that passes the tag checks and whose decoded payload lacks a
required field: the first missing field is reported. -/
theorem ValidateAttentionEvent_missing_field (L : GoLib) (event : Event)
    (h1 : ¬ (getTagValue event "d" = ""))
    (h2 : validateDTagFormat 38488 (getTagValue event "d") = .ok ())
    (h3 : ¬ (getTagValue event "t" = ""))
    (h4 : ¬ ((Atoi (getTagValue event "t")).isNone = true))
    (h5 : ¬ (getTagValueByPrefix event "a" "38188:" = ""))
    (h6 : validateCoordinateFormat (getTagValueByPrefix event "a" "38188:") 38188 = .ok ())
    (h7 : ¬ ((!hasListCoordinate event "org.attnprotocol:promotion:blocked") = true))
    (h8 : ¬ ((!hasListCoordinate event "org.attnprotocol:promoter:blocked") = true))
    (h9 : ¬ ((getTagValues event "p").length < 2))
    (h10 : ¬ ((getTagValues event "r").length = 0))
    (h11 : ¬ ((getTagValues event "k").length = 0))
    (contentData : JSONObject) (hU : L.Unmarshal event.Content = some contentData)
    (field : String)
    (hf : firstMissingField contentData
          ["ask", "min_duration", "max_duration", "ref_attention_pubkey", "ref_attention_id", "ref_marketplace_pubkey", "ref_marketplace_id", "blocked_promotions_id", "blocked_promoters_id"] = some field) :
    ValidateAttentionEvent L event = some { Valid := false, Message := "Content must include " ++ field } := by
  unfold ValidateAttentionEvent
  simp only []
  rw [if_neg h1]
  rw [h2]; try simp only []
  rw [if_neg h3]
  rw [if_neg h4]
  rw [if_neg h5]
  rw [h6]; try simp only []
  rw [if_neg h7]
  rw [if_neg h8]
  rw [if_neg h9]
  rw [if_neg h10]
  rw [if_neg h11]
  rw [hU]; try simp only []
  rw [hf]

/-- `ValidateMatchEvent` on an event that passes the tag checks and whose payload does not decode. -/
theorem ValidateMatchEvent_bad_json (L : GoLib) (event : Event)
    (h1 : ¬ (getTagValue event "d" = ""))
    (h2 : validateDTagFormat 38888 (getTagValue event "d") = .ok ())
    (h3 : ¬ (getTagValue event "t" = ""))
    (h4 : ¬ ((Atoi (getTagValue event "t")).isNone = true))
    (h5 : ¬ (getTagValueByPrefix event "a" "38188:" = ""))
    (h6 : validateCoordinateFormat (getTagValueByPrefix event "a" "38188:") 38188 = .ok ())
    (h7 : ¬ (getTagValueByPrefix event "a" "38288:" = ""))
    (h8 : validateCoordinateFormat (getTagValueByPrefix event "a" "38288:") 38288 = .ok ())
    (h9 : ¬ (getTagValueByPrefix event "a" "38388:" = ""))
    (h10 : validateCoordinateFormat (getTagValueByPrefix event "a" "38388:") 38388 = .ok ())
    (h11 : ¬ (getTagValueByPrefix event "a" "38488:" = ""))
    (h12 : validateCoordinateFormat (getTagValueByPrefix event "a" "38488:") 38488 = .ok ())
    (h13 : ¬ ((getTagValues event "p").length < 4))
    (h14 : ¬ ((getTagValues event "r").length = 0))
    (h15 : ¬ ((getTagValues event "k").length = 0))
    (hU : L.Unmarshal event.Content = none) :
    ValidateMatchEvent L event = { Valid := false, Message := "Content must be valid JSON" } := by
  unfold ValidateMatchEvent
  simp only []
  rw [if_neg h1]
  rw [h2]; try simp only []
  rw [if_neg h3]
  rw [if_neg h4]
  rw [if_neg h5]
  rw [h6]; try simp only []
  rw [if_neg h7]
  rw [h8]; try simp only []
  rw [if_neg h9]
  rw [h10]; try simp only []
  rw [if_neg h11]
  rw [h12]; try simp only []
  rw [if_neg h13]
  rw [if_neg h14]
  rw [if_neg h15]
  rw [hU]

/-- `ValidateMatchEvent` on an event that passes the tag checks and whose decoded payload lacks a
required field: the first missing field is reported. -/
theorem ValidateMatchEvent_missing_field (L : GoLib) (event : Event)
    (h1 : ¬ (getTagValue event "d" = ""))
    (h2 : validateDTagFormat 38888 (getTagValue event "d") = .ok ())
    (h3 : ¬ (getTagValue event "t" = ""))
    (h4 : ¬ ((Atoi (getTagValue event "t")).isNone = true))
    (h5 : ¬ (getTagValueByPrefix event "a" "38188:" = ""))
    (h6 : validateCoordinateFormat (getTagValueByPrefix event "a" "38188:") 38188 = .ok ())
    (h7 : ¬ (getTagValueByPrefix event "a" "38288:" = ""))
    (h8 : validateCoordinateFormat (getTagValueByPrefix event "a" "38288:") 38288 = .ok ())
    (h9 : ¬ (getTagValueByPrefix event "a" "38388:" = ""))
    (h10 : validateCoordinateFormat (getTagValueByPrefix event "a" "38388:") 38388 = .ok ())
    (h11 : ¬ (getTagValueByPrefix event "a" "38488:" = ""))
    (h12 : validateCoordinateFormat (getTagValueByPrefix event "a" "38488:") 38488 = .ok ())
    (h13 : ¬ ((getTagValues event "p").length < 4))
    (h14 : ¬ ((getTagValues event "r").length = 0))
    (h15 : ¬ ((getTagValues event "k").length = 0))
    (contentData : JSONObject) (hU : L.Unmarshal event.Content = some contentData)
    (field : String)
    (hf : firstMissingField contentData
          ["ref_match_id", "ref_promotion_id", "ref_attention_id", "ref_billboard_id", "ref_marketplace_id", "ref_marketplace_pubkey", "ref_promotion_pubkey", "ref_attention_pubkey", "ref_billboard_pubkey"] = some field) :
    ValidateMatchEvent L event = { Valid := false, Message := "Content must include " ++ field } := by
  unfold ValidateMatchEvent
  simp only []
  rw [if_neg h1]
  rw [h2]; try simp only []
  rw [if_neg h3]
  rw [if_neg h4]
  rw [if_neg h5]
  rw [h6]; try simp only []
  rw [if_neg h7]
  rw [h8]; try simp only []
  rw [if_neg h9]
  rw [h10]; try simp only []
  rw [if_neg h11]
  rw [h12]; try simp only []
  rw [if_neg h13]
  rw [if_neg h14]
  rw [if_neg h15]
  rw [hU]; try simp only []
  rw [hf]

/-- `ValidateBillboardConfirmationEvent` on an event that passes the tag checks and whose payload does not decode. -/
theorem ValidateBillboardConfirmationEvent_bad_json (L : GoLib) (event : Event)
    (h1 : ¬ (getTagValue event "d" = ""))
    (h2 : validateDTagFormat 38588 (getTagValue event "d") = .ok ())
    (h3 : ¬ (getTagValue event "t" = ""))
    (h4 : ¬ ((Atoi (getTagValue event "t")).isNone = true))
    (h5 : ¬ (getTagValueByPrefix event "a" "38188:" = ""))
    (h6 : validateCoordinateFormat (getTagValueByPrefix event "a" "38188:") 38188 = .ok ())
    (h7 : ¬ (getTagValueByPrefix event "a" "38288:" = ""))
    (h8 : validateCoordinateFormat (getTagValueByPrefix event "a" "38288:") 38288 = .ok ())
    (h9 : ¬ (getTagValueByPrefix event "a" "38388:" = ""))
    (h10 : validateCoordinateFormat (getTagValueByPrefix event "a" "38388:") 38388 = .ok ())
    (h11 : ¬ (getTagValueByPrefix event "a" "38488:" = ""))
    (h12 : validateCoordinateFormat (getTagValueByPrefix event "a" "38488:") 38488 = .ok ())
    (h13 : ¬ (getTagValueByPrefix event "a" "38888:" = ""))
    (h14 : validateCoordinateFormat (getTagValueByPrefix event "a" "38888:") 38888 = .ok ())
    (h15 : ¬ ((!validateETagWithMarker event "match") = true))
    (h16 : ¬ ((getTagValues event "e").length < 5))
    (h17 : ¬ ((getTagValues event "p").length < 4))
    (h18 : ¬ ((getTagValues event "r").length = 0))
    (hU : L.Unmarshal event.Content = none) :
    ValidateBillboardConfirmationEvent L event = { Valid := false, Message := "Content must be valid JSON" } := by
  unfold ValidateBillboardConfirmationEvent
  simp only []
  rw [if_neg h1]
  rw [h2]; try simp only []
  rw [if_neg h3]
  rw [if_neg h4]
  rw [if_neg h5]
  rw [h6]; try simp only []
  rw [if_neg h7]
  rw [h8]; try simp only []
  rw [if_neg h9]
  rw [h10]; try simp only []
  rw [if_neg h11]
  rw [h12]; try simp only []
  rw [if_neg h13]
  rw [h14]; try simp only []
  rw [if_neg h15]
  rw [if_neg h16]
  rw [if_neg h17]
  rw [if_neg h18]
  rw [hU]

/-- `ValidateBillboardConfirmationEvent` on an event that passes the tag checks and whose decoded payload lacks a
required field: the first missing field is reported. -/
theorem ValidateBillboardConfirmationEvent_missing_field (L : GoLib) (event : Event)
    (h1 : ¬ (getTagValue event "d" = ""))
    (h2 : validateDTagFormat 38588 (getTagValue event "d") = .ok ())
    (h3 : ¬ (getTagValue event "t" = ""))
    (h4 : ¬ ((Atoi (getTagValue event "t")).isNone = true))
    (h5 : ¬ (getTagValueByPrefix event "a" "38188:" = ""))
    (h6 : validateCoordinateFormat (getTagValueByPrefix event "a" "38188:") 38188 = .ok ())
    (h7 : ¬ (getTagValueByPrefix event "a" "38288:" = ""))
    (h8 : validateCoordinateFormat (getTagValueByPrefix event "a" "38288:") 38288 = .ok ())
    (h9 : ¬ (getTagValueByPrefix event "a" "38388:" = ""))
    (h10 : validateCoordinateFormat (getTagValueByPrefix event "a" "38388:") 38388 = .ok ())
    (h11 : ¬ (getTagValueByPrefix event "a" "38488:" = ""))
    (h12 : validateCoordinateFormat (getTagValueByPrefix event "a" "38488:") 38488 = .ok ())
    (h13 : ¬ (getTagValueByPrefix event "a" "38888:" = ""))
    (h14 : validateCoordinateFormat (getTagValueByPrefix event "a" "38888:") 38888 = .ok ())
    (h15 : ¬ ((!validateETagWithMarker event "match") = true))
    (h16 : ¬ ((getTagValues event "e").length < 5))
    (h17 : ¬ ((getTagValues event "p").length < 4))
    (h18 : ¬ ((getTagValues event "r").length = 0))
    (contentData : JSONObject) (hU : L.Unmarshal event.Content = some contentData)
    (field : String)
    (hf : firstMissingField contentData
          ["ref_match_event_id", "ref_match_id", "ref_marketplace_pubkey", "ref_billboard_pubkey", "ref_promotion_pubkey", "ref_attention_pubkey", "ref_marketplace_id", "ref_billboard_id", "ref_promotion_id", "ref_attention_id"] = some field) :
    ValidateBillboardConfirmationEvent L event = { Valid := false, Message := "Content must include " ++ field } := by
  unfold ValidateBillboardConfirmationEvent
  simp only []
  rw [if_neg h1]
  rw [h2]; try simp only []
  rw [if_neg h3]
  rw [if_neg h4]
  rw [if_neg h5]
  rw [h6]; try simp only []
  rw [if_neg h7]
  rw [h8]; try simp only []
  rw [if_neg h9]
  rw [h10]; try simp only []
  rw [if_neg h11]
  rw [h12]; try simp only []
  rw [if_neg h13]
  rw [h14]; try simp only []
  rw [if_neg h15]
  rw [if_neg h16]
  rw [if_neg h17]
  rw [if_neg h18]
  rw [hU]; try simp only []
  rw [hf]

/-- `ValidateAttentionConfirmationEvent` on an event that passes the tag checks and whose payload does not decode. -/
theorem ValidateAttentionConfirmationEvent_bad_json (L : GoLib) (event : Event)
    (h1 : ¬ (getTagValue event "d" = ""))
    (h2 : validateDTagFormat 38688 (getTagValue event "d") = .ok ())
    (h3 : ¬ (getTagValue event "t" = ""))
    (h4 : ¬ ((Atoi (getTagValue event "t")).isNone = true))
    (h5 : ¬ (getTagValueByPrefix event "a" "38188:" = ""))
    (h6 : validateCoordinateFormat (getTagValueByPrefix event "a" "38188:") 38188 = .ok ())
    (h7 : ¬ (getTagValueByPrefix event "a" "38288:" = ""))
    (h8 : validateCoordinateFormat (getTagValueByPrefix event "a" "38288:") 38288 = .ok ())
    (h9 : ¬ (getTagValueByPrefix event "a" "38388:" = ""))
    (h10 : validateCoordinateFormat (getTagValueByPrefix event "a" "38388:") 38388 = .ok ())
    (h11 : ¬ (getTagValueByPrefix event "a" "38488:" = ""))
    (h12 : validateCoordinateFormat (getTagValueByPrefix event "a" "38488:") 38488 = .ok ())
    (h13 : ¬ (getTagValueByPrefix event "a" "38888:" = ""))
    (h14 : validateCoordinateFormat (getTagValueByPrefix event "a" "38888:") 38888 = .ok ())
    (h15 : ¬ ((!validateETagWithMarker event "match") = true))
    (h16 : ¬ ((getTagValues event "e").length < 5))
    (h17 : ¬ ((getTagValues event "p").length < 4))
    (h18 : ¬ ((getTagValues event "r").length = 0))
    (hU : L.Unmarshal event.Content = none) :
    ValidateAttentionConfirmationEvent L event = { Valid := false, Message := "Content must be valid JSON" } := by
  unfold ValidateAttentionConfirmationEvent
  simp only []
  rw [if_neg h1]
  rw [h2]; try simp only []
  rw [if_neg h3]
  rw [if_neg h4]
  rw [if_neg h5]
  rw [h6]; try simp only []
  rw [if_neg h7]
  rw [h8]; try simp only []
  rw [if_neg h9]
  rw [h10]; try simp only []
  rw [if_neg h11]
  rw [h12]; try simp only []
  rw [if_neg h13]
  rw [h14]; try simp only []
  rw [if_neg h15]
  rw [if_neg h16]
  rw [if_neg h17]
  rw [if_neg h18]
  rw [hU]

/-- `ValidateAttentionConfirmationEvent` on an event that passes the tag checks and whose decoded payload lacks a
required field: the first missing field is reported. -/
theorem ValidateAttentionConfirmationEvent_missing_field (L : GoLib) (event : Event)
    (h1 : ¬ (getTagValue event "d" = ""))
    (h2 : validateDTagFormat 38688 (getTagValue event "d") = .ok ())
    (h3 : ¬ (getTagValue event "t" = ""))
    (h4 : ¬ ((Atoi (getTagValue event "t")).isNone = true))
    (h5 : ¬ (getTagValueByPrefix event "a" "38188:" = ""))
    (h6 : validateCoordinateFormat (getTagValueByPrefix event "a" "38188:") 38188 = .ok ())
    (h7 : ¬ (getTagValueByPrefix event "a" "38288:" = ""))
    (h8 : validateCoordinateFormat (getTagValueByPrefix event "a" "38288:") 38288 = .ok ())
    (h9 : ¬ (getTagValueByPrefix event "a" "38388:" = ""))
    (h10 : validateCoordinateFormat (getTagValueByPrefix event "a" "38388:") 38388 = .ok ())
    (h11 : ¬ (getTagValueByPrefix event "a" "38488:" = ""))
    (h12 : validateCoordinateFormat (getTagValueByPrefix event "a" "38488:") 38488 = .ok ())
    (h13 : ¬ (getTagValueByPrefix event "a" "38888:" = ""))
    (h14 : validateCoordinateFormat (getTagValueByPrefix event "a" "38888:") 38888 = .ok ())
    (h15 : ¬ ((!validateETagWithMarker event "match") = true))
    (h16 : ¬ ((getTagValues event "e").length < 5))
    (h17 : ¬ ((getTagValues event "p").length < 4))
    (h18 : ¬ ((getTagValues event "r").length = 0))
    (contentData : JSONObject) (hU : L.Unmarshal event.Content = some contentData)
    (field : String)
    (hf : firstMissingField contentData
          ["ref_match_event_id", "ref_match_id", "ref_marketplace_pubkey", "ref_billboard_pubkey", "ref_promotion_pubkey", "ref_attention_pubkey", "ref_marketplace_id", "ref_billboard_id", "ref_promotion_id", "ref_attention_id"] = some field) :
    ValidateAttentionConfirmationEvent L event = { Valid := false, Message := "Content must include " ++ field } := by
  unfold ValidateAttentionConfirmationEvent
  simp only []
  rw [if_neg h1]
  rw [h2]; try simp only []
  rw [if_neg h3]
  rw [if_neg h4]
  rw [if_neg h5]
  rw [h6]; try simp only []
  rw [if_neg h7]
  rw [h8]; try simp only []
  rw [if_neg h9]
  rw [h10]; try simp only []
  rw [if_neg h11]
  rw [h12]; try simp only []
  rw [if_neg h13]
  rw [h14]; try simp only []
  rw [if_neg h15]
  rw [if_neg h16]
  rw [if_neg h17]
  rw [if_neg h18]
  rw [hU]; try simp only []
  rw [hf]

/-- `ValidateMarketplaceConfirmationEvent` on an event that passes the tag checks and whose payload does not decode. -/
theorem ValidateMarketplaceConfirmationEvent_bad_json (L : GoLib) (event : Event)
    (h1 : ¬ (getTagValue event "d" = ""))
    (h2 : validateDTagFormat 38788 (getTagValue event "d") = .ok ())
    (h3 : ¬ (getTagValue event "t" = ""))
    (h4 : ¬ ((Atoi (getTagValue event "t")).isNone = true))
    (h5 : ¬ (getTagValueByPrefix event "a" "38188:" = ""))
    (h6 : validateCoordinateFormat (getTagValueByPrefix event "a" "38188:") 38188 = .ok ())
    (h7 : ¬ (getTagValueByPrefix event "a" "38288:" = ""))
    (h8 : validateCoordinateFormat (getTagValueByPrefix event "a" "38288:") 38288 = .ok ())
    (h9 : ¬ (getTagValueByPrefix event "a" "38388:" = ""))
    (h10 : validateCoordinateFormat (getTagValueByPrefix event "a" "38388:") 38388 = .ok ())
    (h11 : ¬ (getTagValueByPrefix event "a" "38488:" = ""))
    (h12 : validateCoordinateFormat (getTagValueByPrefix event "a" "38488:") 38488 = .ok ())
    (h13 : ¬ (getTagValueByPrefix event "a" "38888:" = ""))
    (h14 : validateCoordinateFormat (getTagValueByPrefix event "a" "38888:") 38888 = .ok ())
    (h15 : ¬ ((!validateETagWithMarker event "match") = true))
    (h16 : ¬ ((!validateETagWithMarker event "billboard_confirmation") = true))
    (h17 : ¬ ((!validateETagWithMarker event "attention_confirmation") = true))
    (h18 : ¬ ((getTagValues event "e").length < 7))
    (h19 : ¬ ((getTagValues event "p").length < 4))
    (h20 : ¬ ((getTagValues event "r").length = 0))
    (hU : L.Unmarshal event.Content = none) :
    ValidateMarketplaceConfirmationEvent L event = { Valid := false, Message := "Content must be valid JSON" } := by
  unfold ValidateMarketplaceConfirmationEvent
  simp only []
  rw [if_neg h1]
  rw [h2]; try simp only []
  rw [if_neg h3]
  rw [if_neg h4]
  rw [if_neg h5]
  rw [h6]; try simp only []
  rw [if_neg h7]
  rw [h8]; try simp only []
  rw [if_neg h9]
  rw [h10]; try simp only []
  rw [if_neg h11]
  rw [h12]; try simp only []
  rw [if_neg h13]
  rw [h14]; try simp only []
  rw [if_neg h15]
  rw [if_neg h16]
  rw [if_neg h17]
  rw [if_neg h18]
  rw [if_neg h19]
  rw [if_neg h20]
  rw [hU]

/-- `ValidateMarketplaceConfirmationEvent` on an event that passes the tag checks and whose decoded payload lacks a
required field: the first missing field is reported. -/
theorem ValidateMarketplaceConfirmationEvent_missing_field (L : GoLib) (event : Event)
    (h1 : ¬ (getTagValue event "d" = ""))
    (h2 : validateDTagFormat 38788 (getTagValue event "d") = .ok ())
    (h3 : ¬ (getTagValue event "t" = ""))
    (h4 : ¬ ((Atoi (getTagValue event "t")).isNone = true))
    (h5 : ¬ (getTagValueByPrefix event "a" "38188:" = ""))
    (h6 : validateCoordinateFormat (getTagValueByPrefix event "a" "38188:") 38188 = .ok ())
    (h7 : ¬ (getTagValueByPrefix event "a" "38288:" = ""))
    (h8 : validateCoordinateFormat (getTagValueByPrefix event "a" "38288:") 38288 = .ok ())
    (h9 : ¬ (getTagValueByPrefix event "a" "38388:" = ""))
    (h10 : validateCoordinateFormat (getTagValueByPrefix event "a" "38388:") 38388 = .ok ())
    (h11 : ¬ (getTagValueByPrefix event "a" "38488:" = ""))
    (h12 : validateCoordinateFormat (getTagValueByPrefix event "a" "38488:") 38488 = .ok ())
    (h13 : ¬ (getTagValueByPrefix event "a" "38888:" = ""))
    (h14 : validateCoordinateFormat (getTagValueByPrefix event "a" "38888:") 38888 = .ok ())
    (h15 : ¬ ((!validateETagWithMarker event "match") = true))
    (h16 : ¬ ((!validateETagWithMarker event "billboard_confirmation") = true))
    (h17 : ¬ ((!validateETagWithMarker event "attention_confirmation") = true))
    (h18 : ¬ ((getTagValues event "e").length < 7))
    (h19 : ¬ ((getTagValues event "p").length < 4))
    (h20 : ¬ ((getTagValues event "r").length = 0))
    (contentData : JSONObject) (hU : L.Unmarshal event.Content = some contentData)
    (field : String)
    (hf : firstMissingField contentData
          ["ref_match_event_id", "ref_match_id", "ref_billboard_confirmation_event_id", "ref_attention_confirmation_event_id", "ref_marketplace_pubkey", "ref_billboard_pubkey", "ref_promotion_pubkey", "ref_attention_pubkey", "ref_marketplace_id", "ref_billboard_id", "ref_promotion_id", "ref_attention_id"] = some field) :
    ValidateMarketplaceConfirmationEvent L event = { Valid := false, Message := "Content must include " ++ field } := by
  unfold ValidateMarketplaceConfirmationEvent
  simp only []
  rw [if_neg h1]
  rw [h2]; try simp only []
  rw [if_neg h3]
  rw [if_neg h4]
  rw [if_neg h5]
  rw [h6]; try simp only []
  rw [if_neg h7]
  rw [h8]; try simp only []
  rw [if_neg h9]
  rw [h10]; try simp only []
  rw [if_neg h11]
  rw [h12]; try simp only []
  rw [if_neg h13]
  rw [h14]; try simp only []
  rw [if_neg h15]
  rw [if_neg h16]
  rw [if_neg h17]
  rw [if_neg h18]
  rw [if_neg h19]
  rw [if_neg h20]
  rw [hU]; try simp only []
  rw [hf]

/-- `ValidateAttentionPaymentConfirmationEvent` on an event that passes the tag checks and whose payload does not decode. -/
theorem ValidateAttentionPaymentConfirmationEvent_bad_json (L : GoLib) (event : Event)
    (h1 : ¬ (getTagValue event "d" = ""))
    (h2 : validateDTagFormat 38988 (getTagValue event "d") = .ok ())
    (h3 : ¬ (getTagValue event "t" = ""))
    (h4 : ¬ ((Atoi (getTagValue event "t")).isNone = true))
    (h5 : ¬ ((!validateETagWithMarker event "marketplace_confirmation") = true))
    (h6 : ¬ (getTagValueByPrefix event "a" "38188:" = ""))
    (h7 : validateCoordinateFormat (getTagValueByPrefix event "a" "38188:") 38188 = .ok ())
    (h8 : ¬ (getTagValueByPrefix event "a" "38288:" = ""))
    (h9 : validateCoordinateFormat (getTagValueByPrefix event "a" "38288:") 38288 = .ok ())
    (h10 : ¬ (getTagValueByPrefix event "a" "38388:" = ""))
    (h11 : validateCoordinateFormat (getTagValueByPrefix event "a" "38388:") 38388 = .ok ())
    (h12 : ¬ (getTagValueByPrefix event "a" "38488:" = ""))
    (h13 : validateCoordinateFormat (getTagValueByPrefix event "a" "38488:") 38488 = .ok ())
    (h14 : ¬ (getTagValueByPrefix event "a" "38888:" = ""))
    (h15 : validateCoordinateFormat (getTagValueByPrefix event "a" "38888:") 38888 = .ok ())
    (h16 : ¬ ((getTagValues event "p").length < 4))
    (h17 : ¬ ((getTagValues event "r").length = 0))
    (hU : L.Unmarshal event.Content = none) :
    ValidateAttentionPaymentConfirmationEvent L event = { Valid := false, Message := "Content must be valid JSON" } := by
  unfold ValidateAttentionPaymentConfirmationEvent
  simp only []
  rw [if_neg h1]
  rw [h2]; try simp only []
  rw [if_neg h3]
  rw [if_neg h4]
  rw [if_neg h5]
  rw [if_neg h6]
  rw [h7]; try simp only []
  rw [if_neg h8]
  rw [h9]; try simp only []
  rw [if_neg h10]
  rw [h11]; try simp only []
  rw [if_neg h12]
  rw [h13]; try simp only []
  rw [if_neg h14]
  rw [h15]; try simp only []
  rw [if_neg h16]
  rw [if_neg h17]
  rw [hU]

/-- `ValidateAttentionPaymentConfirmationEvent` on an event that passes the tag checks and whose decoded payload lacks a
required field: the first missing field is reported. -/
theorem ValidateAttentionPaymentConfirmationEvent_missing_field (L : GoLib) (event : Event)
    (h1 : ¬ (getTagValue event "d" = ""))
    (h2 : validateDTagFormat 38988 (getTagValue event "d") = .ok ())
    (h3 : ¬ (getTagValue event "t" = ""))
    (h4 : ¬ ((Atoi (getTagValue event "t")).isNone = true))
    (h5 : ¬ ((!validateETagWithMarker event "marketplace_confirmation") = true))
    (h6 : ¬ (getTagValueByPrefix event "a" "38188:" = ""))
    (h7 : validateCoordinateFormat (getTagValueByPrefix event "a" "38188:") 38188 = .ok ())
    (h8 : ¬ (getTagValueByPrefix event "a" "38288:" = ""))
    (h9 : validateCoordinateFormat (getTagValueByPrefix event "a" "38288:") 38288 = .ok ())
    (h10 : ¬ (getTagValueByPrefix event "a" "38388:" = ""))
    (h11 : validateCoordinateFormat (getTagValueByPrefix event "a" "38388:") 38388 = .ok ())
    (h12 : ¬ (getTagValueByPrefix event "a" "38488:" = ""))
    (h13 : validateCoordinateFormat (getTagValueByPrefix event "a" "38488:") 38488 = .ok ())
    (h14 : ¬ (getTagValueByPrefix event "a" "38888:" = ""))
    (h15 : validateCoordinateFormat (getTagValueByPrefix event "a" "38888:") 38888 = .ok ())
    (h16 : ¬ ((getTagValues event "p").length < 4))
    (h17 : ¬ ((getTagValues event "r").length = 0))
    (contentData : JSONObject) (hU : L.Unmarshal event.Content = some contentData)
    (field : String)
    (hf : firstMissingField contentData
          ["sats_received", "ref_match_event_id", "ref_match_id", "ref_marketplace_confirmation_event_id", "ref_marketplace_pubkey", "ref_billboard_pubkey", "ref_promotion_pubkey", "ref_attention_pubkey", "ref_marketplace_id", "ref_billboard_id", "ref_promotion_id", "ref_attention_id"] = some field) :
    ValidateAttentionPaymentConfirmationEvent L event = { Valid := false, Message := "Content must include " ++ field } := by
  unfold ValidateAttentionPaymentConfirmationEvent
  simp only []
  rw [if_neg h1]
  rw [h2]; try simp only []
  rw [if_neg h3]
  rw [if_neg h4]
  rw [if_neg h5]
  rw [if_neg h6]
  rw [h7]; try simp only []
  rw [if_neg h8]
  rw [h9]; try simp only []
  rw [if_neg h10]
  rw [h11]; try simp only []
  rw [if_neg h12]
  rw [h13]; try simp only []
  rw [if_neg h14]
  rw [h15]; try simp only []
  rw [if_neg h16]
  rw [if_neg h17]
  rw [hU]; try simp only []
  rw [hf]

/-! ## Tags behind the accessors -/

/-- A non-empty result of `getTagValue` is the second element of a tag of the event. -/
theorem getTagValue_mem (event : Event) (name : String)
    (h : getTagValue event name ≠ "") :
    ∃ rest, (name :: getTagValue event name :: rest) ∈ event.Tags := by
  unfold getTagValue at h ⊢
  rcases getTagValueIn_spec name event.Tags with ⟨_, h0⟩ | ⟨before, v, rest, after, htags, _, hv⟩
  · exact absurd h0 h
  · refine ⟨rest, ?_⟩
    rw [hv, htags]
    exact List.mem_append_right _ (List.mem_cons_self _ _)

/-- The number of values `getTagValues` returns is the number of tags with at least two
elements whose first element is the name. -/
theorem getTagValues_length (event : Event) (name : String) :
    (getTagValues event name).length
      = (event.Tags.filter (fun t => decide (t.length ≥ 2 ∧ t.getD 0 "" = name))).length := by
  unfold getTagValues
  rw [getTagValuesIn_eq_filter_map, List.length_map]

/-- A coordinate that `getTagValueByPrefix` found and `validateCoordinateFormat` accepts is
the second element of an `a` tag of the event and starts with the prefix. -/
theorem coordinate_tag_exists (event : Event) (pre : String) (k : Int)
    (h : validateCoordinateFormat (getTagValueByPrefix event "a" pre) k = .ok ()) :
    ∃ c rest, ("a" :: c :: rest) ∈ event.Tags ∧ HasPrefix c pre = true ∧
      validateCoordinateFormat c k = .ok () := by
  obtain ⟨hp, rest, hmem⟩ := getTagValueByPrefix_mem event "a" pre (coordinate_ne_empty _ _ h)
  exact ⟨_, rest, hmem, hp, h⟩

/-- The two-result array assertion succeeds only on arrays. -/
theorem isArray_of_not_not (v : JSONValue) (h : ¬ ((!isArray v) = true)) :
    ∃ xs, v = JSONValue.array xs := by
  cases v with
  | array xs => exact ⟨xs, rfl⟩
  | _ => exact absurd rfl h

/-- After the tags named `name` are filtered out, `getTagValue` finds nothing. -/
theorem getTagValue_filter_out (event e2 : Event) (name : String)
    (h : e2.Tags = event.Tags.filter (fun t => !decide (t.getD 0 "" = name))) :
    getTagValue e2 name = "" := by
  apply getTagValue_eq_empty_of_no_tag
  intro t ht hcon
  rw [h, List.mem_filter] at ht
  have h2 := ht.2
  rw [Bool.not_eq_true', decide_eq_false_iff_not] at h2
  exact h2 hcon.2

/-- After the tags named `name` whose value starts with `pre` are filtered out,
`getTagValueByPrefix` finds nothing. -/
theorem getTagValueByPrefix_filter_out (event e2 : Event) (name pre : String)
    (h : e2.Tags = event.Tags.filter
      (fun t => !(decide (t.getD 0 "" = name) && HasPrefix (t.getD 1 "") pre))) :
    getTagValueByPrefix e2 name pre = "" := by
  apply getTagValueByPrefix_eq_empty_of_no_tag
  intro t ht hcon
  rw [h, List.mem_filter] at ht
  have h2 := ht.2
  rw [Bool.not_eq_true', Bool.and_eq_false_iff, decide_eq_false_iff_not] at h2
  rcases h2 with h2 | h2
  · exact h2 hcon.2.1
  · rw [hcon.2.2] at h2
    cases h2

/-! ## Results of ValidatePromotionEvent on a decoded payload -/

/-- `ValidatePromotionEvent` on an event that passes the tag checks and whose payload decodes:
the result is a missing-field rejection, one of the three value rejections, or acceptance. -/
theorem ValidatePromotionEvent_decoded (L : GoLib) (event : Event)
    (h1 : ¬ (getTagValue event "d" = ""))
    (h2 : validateDTagFormat 38388 (getTagValue event "d") = .ok ())
    (h3 : ¬ (getTagValue event "t" = ""))
    (h4 : ¬ ((Atoi (getTagValue event "t")).isNone = true))
    (h5 : ¬ (getTagValueByPrefix event "a" "38188:" = ""))
    (h6 : validateCoordinateFormat (getTagValueByPrefix event "a" "38188:") 38188 = .ok ())
    (h7 : ¬ (getTagValueByPrefix event "a" "34236:" = ""))
    (h8 : ¬ (Contains (getTagValueByPrefix event "a" "34236:") "org.attnprotocol:" = true))
    (h9 : ¬ (getTagValueByPrefix event "a" "38288:" = ""))
    (h10 : validateCoordinateFormat (getTagValueByPrefix event "a" "38288:") 38288 = .ok ())
    (h11 : ¬ ((getTagValues event "p").length < 3))
    (h12 : ¬ ((getTagValues event "r").length = 0))
    (h13 : ¬ (getTagValue event "k" = ""))
    (h14 : ¬ (getTagValue event "u" = ""))
    (contentData : JSONObject) (hU : L.Unmarshal event.Content = some contentData) :
    (∃ f, f ∈ ["duration", "bid", "event_id", "call_to_action", "call_to_action_url", "escrow_id_list",
        "ref_promotion_pubkey", "ref_promotion_id", "ref_marketplace_pubkey",
        "ref_marketplace_id", "ref_billboard_pubkey", "ref_billboard_id"] ∧
      contentData.lookup f = none ∧
      ValidatePromotionEvent L event =
        { Valid := false, Message := "Content must include " ++ f }) ∨
    ValidatePromotionEvent L event =
      { Valid := false, Message := "escrow_id_list must be an array" } ∨
    ValidatePromotionEvent L event =
      { Valid := false, Message := "bid must be a positive number" } ∨
    ValidatePromotionEvent L event =
      { Valid := false, Message := "duration must be a positive number" } ∨
    ValidatePromotionEvent L event = { Valid := true, Message := "Valid promotion event" } := by
  unfold ValidatePromotionEvent
  simp only []
  rw [if_neg h1]
  rw [h2]; try simp only []
  rw [if_neg h3]
  rw [if_neg h4]
  rw [if_neg h5]
  rw [h6]; try simp only []
  rw [if_neg h7]
  rw [if_neg h8]
  rw [if_neg h9]
  rw [h10]; try simp only []
  rw [if_neg h11]
  rw [if_neg h12]
  rw [if_neg h13]
  rw [if_neg h14]
  rw [hU]; try simp only []
  rcases option_cases (firstMissingField contentData
      ["duration", "bid", "event_id", "call_to_action", "call_to_action_url", "escrow_id_list",
        "ref_promotion_pubkey", "ref_promotion_id", "ref_marketplace_pubkey",
        "ref_marketplace_id", "ref_billboard_pubkey", "ref_billboard_id"]) with hf | ⟨f, hf⟩
  swap
  · rw [hf]
    obtain ⟨before, after, hsplit, _, hnone⟩ := (firstMissingField_eq_some_iff _ _ _).1 hf
    refine Or.inl ⟨f, ?_, hnone, rfl⟩
    rw [hsplit]
    exact List.mem_append_right _ (List.mem_cons_self _ _)
  rw [hf]; try simp only []
  rcases option_cases (contentData.lookup "escrow_id_list") with he | ⟨escrowList, he⟩
  · rw [he]
    exact Or.inr (Or.inl rfl)
  rw [he]; try simp only []
  by_cases ha : (!isArray escrowList) = true
  · rw [if_pos ha]
    exact Or.inr (Or.inl rfl)
  rw [if_neg ha]
  by_cases hb : notPositive (asFloat (contentData.lookup "bid")) = true
  · rw [if_pos hb]
    exact Or.inr (Or.inr (Or.inl rfl))
  rw [if_neg hb]
  by_cases hd : notPositive (asFloat (contentData.lookup "duration")) = true
  · rw [if_pos hd]
    exact Or.inr (Or.inr (Or.inr (Or.inl rfl)))
  rw [if_neg hd]
  exact Or.inr (Or.inr (Or.inr (Or.inr rfl)))

/-! ## Trusted-list fields of ValidateAttentionEvent -/

/-- `ValidateAttentionEvent` on an event that passes the tag checks, carries the
trusted-marketplaces list coordinate and whose payload has the nine required fields but not
trusted_marketplaces_id. -/
theorem ValidateAttentionEvent_trusted_marketplaces_missing (L : GoLib) (event : Event)
    (h1 : ¬ (getTagValue event "d" = ""))
    (h2 : validateDTagFormat 38488 (getTagValue event "d") = .ok ())
    (h3 : ¬ (getTagValue event "t" = ""))
    (h4 : ¬ ((Atoi (getTagValue event "t")).isNone = true))
    (h5 : ¬ (getTagValueByPrefix event "a" "38188:" = ""))
    (h6 : validateCoordinateFormat (getTagValueByPrefix event "a" "38188:") 38188 = .ok ())
    (h7 : ¬ ((!hasListCoordinate event "org.attnprotocol:promotion:blocked") = true))
    (h8 : ¬ ((!hasListCoordinate event "org.attnprotocol:promoter:blocked") = true))
    (h9 : ¬ ((getTagValues event "p").length < 2))
    (h10 : ¬ ((getTagValues event "r").length = 0))
    (h11 : ¬ ((getTagValues event "k").length = 0))
    (contentData : JSONObject) (hU : L.Unmarshal event.Content = some contentData)
    (hF : firstMissingField contentData
      ["ask", "min_duration", "max_duration", "ref_attention_pubkey", "ref_attention_id",
        "ref_marketplace_pubkey", "ref_marketplace_id", "blocked_promotions_id",
        "blocked_promoters_id"] = none)
    (hT : hasListCoordinate event "org.attnprotocol:marketplace:trusted" = true)
    (hN : contentData.lookup "trusted_marketplaces_id" = none) :
    ValidateAttentionEvent L event =
      some { Valid := false, Message := "trusted_marketplaces_id must be present in content if trusted marketplaces coordinate is in tags" } := by
  unfold ValidateAttentionEvent
  simp only []
  rw [if_neg h1]
  rw [h2]; try simp only []
  rw [if_neg h3]
  rw [if_neg h4]
  rw [if_neg h5]
  rw [h6]; try simp only []
  rw [if_neg h7]
  rw [if_neg h8]
  rw [if_neg h9]
  rw [if_neg h10]
  rw [if_neg h11]
  rw [hU]; try simp only []
  rw [hF]; try simp only []
  rw [if_pos (by rw [hT, hN]; rfl)]

/-- `ValidateAttentionEvent` on an event that passes the tag checks and the
trusted-marketplaces check, carries the trusted-billboards list coordinate and whose
payload has the nine required fields but not trusted_billboards_id. -/
theorem ValidateAttentionEvent_trusted_billboards_missing (L : GoLib) (event : Event)
    (h1 : ¬ (getTagValue event "d" = ""))
    (h2 : validateDTagFormat 38488 (getTagValue event "d") = .ok ())
    (h3 : ¬ (getTagValue event "t" = ""))
    (h4 : ¬ ((Atoi (getTagValue event "t")).isNone = true))
    (h5 : ¬ (getTagValueByPrefix event "a" "38188:" = ""))
    (h6 : validateCoordinateFormat (getTagValueByPrefix event "a" "38188:") 38188 = .ok ())
    (h7 : ¬ ((!hasListCoordinate event "org.attnprotocol:promotion:blocked") = true))
    (h8 : ¬ ((!hasListCoordinate event "org.attnprotocol:promoter:blocked") = true))
    (h9 : ¬ ((getTagValues event "p").length < 2))
    (h10 : ¬ ((getTagValues event "r").length = 0))
    (h11 : ¬ ((getTagValues event "k").length = 0))
    (contentData : JSONObject) (hU : L.Unmarshal event.Content = some contentData)
    (hF : firstMissingField contentData
      ["ask", "min_duration", "max_duration", "ref_attention_pubkey", "ref_attention_id",
        "ref_marketplace_pubkey", "ref_marketplace_id", "blocked_promotions_id",
        "blocked_promoters_id"] = none)
    (hM : ¬ ((hasListCoordinate event "org.attnprotocol:marketplace:trusted" &&
      (contentData.lookup "trusted_marketplaces_id").isNone) = true))
    (hT : hasListCoordinate event "org.attnprotocol:billboard:trusted" = true)
    (hN : contentData.lookup "trusted_billboards_id" = none) :
    ValidateAttentionEvent L event =
      some { Valid := false, Message := "trusted_billboards_id must be present in content if trusted billboards coordinate is in tags" } := by
  unfold ValidateAttentionEvent
  simp only []
  rw [if_neg h1]
  rw [h2]; try simp only []
  rw [if_neg h3]
  rw [if_neg h4]
  rw [if_neg h5]
  rw [h6]; try simp only []
  rw [if_neg h7]
  rw [if_neg h8]
  rw [if_neg h9]
  rw [if_neg h10]
  rw [if_neg h11]
  rw [hU]; try simp only []
  rw [hF]; try simp only []
  rw [if_neg hM]
  rw [if_pos (by rw [hT, hN]; rfl)]

/-- A key other than the appended one is looked up in the original map. -/
theorem lookup_append_singleton_of_ne (c : JSONObject) (k f : String) (v : JSONValue)
    (h : f ≠ k) : (c ++ [(k, v)]).lookup f = c.lookup f := by
  induction c with
  | nil =>
    show List.lookup f [(k, v)] = none
    rw [List.lookup_cons]
    have hb : (f == k) = false := beq_eq_false_iff_ne.2 h
    rw [hb]
    rfl
  | cons p ps ih =>
    obtain ⟨a, b⟩ := p
    show List.lookup f ((a, b) :: (ps ++ [(k, v)])) = List.lookup f ((a, b) :: ps)
    rw [List.lookup_cons, List.lookup_cons, ih]

/-! ## Accessors on arbitrary tag lists -/

/-- The values collected from a concatenation are the values of the first part followed by
those of the second. -/
theorem getTagValuesIn_append (name : String) (xs ys : List (List String)) :
    getTagValuesIn name (xs ++ ys) = getTagValuesIn name xs ++ getTagValuesIn name ys := by
  induction xs with
  | nil => rfl
  | cons tag rest ih =>
    by_cases hc : tag.length ≥ 2 ∧ tag.getD 0 "" = name
    · rw [List.cons_append, getTagValuesIn, if_pos hc, ih, getTagValuesIn, if_pos hc,
        List.cons_append]
    · rw [List.cons_append, getTagValuesIn, if_neg hc, ih, getTagValuesIn, if_neg hc]

/-- In a tag with at least two elements, positions 0 and 1 exist and hold what the
accessors read. -/
theorem tag_two_in_bounds (tag : List String) (h : 2 ≤ tag.length) :
    tag[0]? = some (tag.getD 0 "") ∧ tag[1]? = some (tag.getD 1 "") := by
  match tag, h with
  | _ :: _ :: _, _ => exact ⟨by simp, by simp⟩

/-- In a tag with at least four elements, positions 0 and 3 exist and hold what the
marker check reads. -/
theorem tag_four_in_bounds (tag : List String) (h : 4 ≤ tag.length) :
    tag[0]? = some (tag.getD 0 "") ∧ tag[3]? = some (tag.getD 3 "") := by
  match tag, h with
  | _ :: _ :: _ :: _ :: _, _ => exact ⟨by simp, by simp⟩

/-- Every string starts with the empty string. -/
theorem HasPrefix_empty (s : String) : HasPrefix s "" = true := by
  unfold HasPrefix
  show List.isPrefixOf [] s.data = true
  cases s.data <;> rfl

/-- With the empty prefix, the loop of `getTagValueByPrefix` is the loop of `getTagValue`. -/
theorem getTagValueByPrefixIn_empty (name : String) (tags : List (List String)) :
    getTagValueByPrefixIn name "" tags = getTagValueIn name tags := by
  induction tags with
  | nil => rfl
  | cons tag rest ih =>
    by_cases hc : tag.length ≥ 2 ∧ tag.getD 0 "" = name
    · rw [getTagValueByPrefixIn, getTagValueIn, if_pos hc,
        if_pos ⟨hc.1, hc.2, HasPrefix_empty _⟩]
    · rw [getTagValueByPrefixIn, getTagValueIn, if_neg hc,
        if_neg (fun h => hc ⟨h.1, h.2.1⟩), ih]

/-! ## The height field of a Block payload -/

/-- A conditional that yields `some n` took its first branch. -/
theorem ite_some_eq_some (p : Prop) [Decidable p] (v n : Int)
    (h : (if p then some v else none) = some n) : p ∧ v = n := by
  by_cases hp : p
  · rw [if_pos hp] at h
    exact ⟨hp, Option.some.inj h⟩
  · rw [if_neg hp] at h
    cases h

/-- A string that `Atoi` accepts denotes a signed 64-bit integer. -/
theorem Atoi_range (s : String) (n : Int) (h : Atoi s = some n) :
    -(2 : Int) ^ 63 ≤ n ∧ n ≤ (2 : Int) ^ 63 - 1 := by
  unfold Atoi at h
  cases hd : s.data with
  | nil =>
    rw [hd] at h
    cases h
  | cons c cs =>
    rw [hd] at h
    simp only [] at h
    by_cases hb : (if c = '-' ∨ c = '+' then cs else c :: cs) = []
    · rw [if_pos hb] at h
      cases h
    rw [if_neg hb] at h
    by_cases hdig : ((if c = '-' ∨ c = '+' then cs else c :: cs).all Char.isDigit) = true
    · rw [if_pos hdig] at h
      obtain ⟨hr, hv⟩ := ite_some_eq_some _ _ _ h
      rw [← hv]
      exact hr
    · rw [if_neg hdig] at h
      cases h

/-- `parseHeight` succeeds on numbers and on strings that `strconv` parses, and on nothing
else. -/
theorem parseHeight_ok_iff (v : JSONValue) :
    parseHeight v = .ok () ↔
      (∃ x : Rat, v = JSONValue.number x) ∨ (∃ s n, v = JSONValue.string s ∧ Atoi s = some n) := by
  constructor
  · intro h
    cases v with
    | number x => exact Or.inl ⟨x, rfl⟩
    | string s =>
      rcases option_cases (Atoi s) with hn | ⟨n, hn⟩
      · simp only [parseHeight] at h
        rw [hn] at h
        cases h
      · exact Or.inr ⟨s, n, rfl, hn⟩
    | null => cases h
    | bool b => cases h
    | array xs => cases h
    | object kvs => cases h
  · rintro (⟨x, hx⟩ | ⟨s, n, hs, hn⟩)
    · rw [hx]
      rfl
    · rw [hs]
      simp only [parseHeight]
      rw [hn]

/-- `ValidateBlockUpdateEvent` on an event that passes the tag checks and whose payload has a
height that `parseHeight` refuses. -/
theorem ValidateBlockUpdateEvent_bad_height (L : GoLib) (event : Event)
    (h1 : ¬ (getTagValue event "d" = ""))
    (h2 : validateDTagFormat 38088 (getTagValue event "d") = .ok ())
    (h3 : ¬ (getTagValue event "t" = ""))
    (h4 : ¬ ((Atoi (getTagValue event "t")).isNone = true))
    (h5 : ¬ ((getTagValues event "p").length = 0))
    (h6 : ¬ ((getTagValues event "r").length = 0))
    (contentData : JSONObject) (hU : L.Unmarshal event.Content = some contentData)
    (heightValue : JSONValue) (hH : contentData.lookup "height" = some heightValue)
    (hP : parseHeight heightValue ≠ .ok ()) :
    ValidateBlockUpdateEvent L event =
      { Valid := false, Message := "Block content 'height' must be numeric" } := by
  unfold ValidateBlockUpdateEvent
  simp only []
  rw [if_neg h1]
  rw [h2]; try simp only []
  rw [if_neg h3]
  rw [if_neg h4]
  rw [if_neg h5]
  rw [if_neg h6]
  rw [hU]; try simp only []
  rw [hH]; try simp only []
  rcases except_cases (parseHeight heightValue) with hok | ⟨err, herr⟩
  · exact absurd hok hP
  · rw [herr]

/-! ## Splitting a coordinate into its segments -/

/-- Cutting a character list never yields an empty list of segments. -/
theorem splitChars_ne_nil (sep : Char) (cs : List Char) : splitChars sep cs ≠ [] := by
  cases cs with
  | nil => simp [splitChars]
  | cons c cs =>
    simp only [splitChars]
    split
    · simp
    · split <;> simp

/-- A separator-free segment followed by the separator is cut off as the first segment. -/
theorem splitChars_append_sep (sep : Char) (a b : List Char) (ha : sep ∉ a) :
    splitChars sep (a ++ sep :: b) = a :: splitChars sep b := by
  induction a with
  | nil => simp [splitChars]
  | cons c a ih =>
    have hc : c ≠ sep := fun h => ha (by simp [h])
    have ha2 : sep ∉ a := fun h => ha (by simp [h])
    simp [splitChars, hc, ih ha2]

/-- A separator-free character list is its own single segment. -/
theorem splitChars_no_sep (sep : Char) (a : List Char) (ha : sep ∉ a) :
    splitChars sep a = [a] := by
  induction a with
  | nil => simp [splitChars]
  | cons c a ih =>
    have hc : c ≠ sep := fun h => ha (by simp [h])
    have ha2 : sep ∉ a := fun h => ha (by simp [h])
    simp [splitChars, hc, ih ha2]

/-- `strings.Split` cuts off a colon-free first segment. -/
theorem Split_cons (a rest : String) (h : ':' ∉ a.data) :
    Split (a ++ (":" ++ rest)) ':' = a :: Split rest ':' := by
  unfold Split
  have hd : (a ++ (":" ++ rest)).data = a.data ++ ':' :: rest.data := by simp
  rw [hd, splitChars_append_sep ':' a.data rest.data h]
  rfl

/-- `strings.Split` of a colon-free string is that string alone. -/
theorem Split_single (a : String) (h : ':' ∉ a.data) : Split a ':' = [a] := by
  unfold Split
  rw [splitChars_no_sep ':' a.data h]
  rfl

/-- `strings.Split` returns at least one segment. -/
theorem Split_length_pos (s : String) : 1 ≤ (Split s ':').length := by
  unfold Split
  rw [List.length_map]
  cases h : splitChars ':' s.data with
  | nil => exact absurd h (splitChars_ne_nil ':' s.data)
  | cons x xs => simp

/-- `validateCoordinateFormat` on a coordinate with at least five segments whose first segment
parses as the expected kind, whose third segment is the namespace and whose fourth segment is
not empty. -/
theorem validateCoordinateFormat_of_segments (c : String) (k : Int)
    (hlen : 5 ≤ (Split c ':').length)
    (hk : Atoi ((Split c ':').getD 0 "") = some k)
    (hns : (Split c ':').getD 2 "" = "org.attnprotocol")
    (ht : (Split c ':').getD 3 "" ≠ "") :
    validateCoordinateFormat c k = .ok () := by
  unfold validateCoordinateFormat
  simp only []
  rw [if_neg (by omega), hk]
  simp only []
  rw [if_neg (fun h => h rfl)]
  by_cases hr : 38088 ≤ k ∧ k ≤ 38988
  · rw [if_pos hr, if_neg (by omega), if_neg (fun h => h hns), if_neg (by omega), if_neg ht]
  · rw [if_neg hr]

/-- `validateCoordinateFormat` on a coordinate of a kind in the protocol range whose third
segment is not the namespace. -/
theorem validateCoordinateFormat_other_namespace (c : String) (k : Int)
    (hr : 38088 ≤ k ∧ k ≤ 38988)
    (hlen : 4 ≤ (Split c ':').length)
    (hk : Atoi ((Split c ':').getD 0 "") = some k)
    (hns : (Split c ':').getD 2 "" ≠ "org.attnprotocol") :
    validateCoordinateFormat c k
      = .error "protocol coordinate must include 'org.attnprotocol:' prefix" := by
  unfold validateCoordinateFormat
  simp only []
  rw [if_neg (by omega), hk]
  simp only []
  rw [if_neg (fun h => h rfl), if_pos hr, if_neg (by omega), if_pos hns]

/-- `validateCoordinateFormat` on a coordinate of a kind in the protocol range with the
namespace as third segment, at least five segments and an empty fourth segment. -/
theorem validateCoordinateFormat_empty_type (c : String) (k : Int)
    (hr : 38088 ≤ k ∧ k ≤ 38988)
    (hlen : 5 ≤ (Split c ':').length)
    (hk : Atoi ((Split c ':').getD 0 "") = some k)
    (hns : (Split c ':').getD 2 "" = "org.attnprotocol")
    (ht : (Split c ':').getD 3 "" = "") :
    validateCoordinateFormat c k = .error "protocol coordinate event type is empty" := by
  unfold validateCoordinateFormat
  simp only []
  rw [if_neg (by omega), hk]
  simp only []
  rw [if_neg (fun h => h rfl), if_pos hr, if_neg (by omega), if_neg (fun h => h hns),
    if_neg (by omega), if_pos ht]

/-- If a colon-free list followed by a colon equals a list followed by a colon and a rest,
the rest is empty. -/
theorem append_colon_cancel (t n i : List Char) (ht : ':' ∉ t)
    (h : t ++ [':'] = n ++ ':' :: i) : n = t ∧ i = [] := by
  induction t generalizing n with
  | nil =>
    cases n with
    | nil =>
      simp only [List.nil_append, List.cons.injEq, true_and] at h
      exact ⟨rfl, h.symm⟩
    | cons x n2 =>
      simp only [List.nil_append, List.cons_append, List.cons.injEq] at h
      have h2 := h.2
      cases n2 <;> simp at h2
  | cons c t2 ih =>
    have hc : c ≠ ':' := fun e => ht (by simp [e])
    have ht2 : ':' ∉ t2 := fun e => ht (by simp [e])
    cases n with
    | nil =>
      simp only [List.cons_append, List.nil_append, List.cons.injEq] at h
      exact absurd h.1 hc
    | cons x n2 =>
      simp only [List.cons_append, List.cons.injEq] at h
      obtain ⟨hn, hi⟩ := ih n2 ht2 h.2
      exact ⟨by rw [h.1, hn], hi⟩

/-! ## Decimal rendering of the kinds in the protocol range -/

set_option maxRecDepth 10000

/-- For each of the 901 integers from 38088 to 38988, `Atoi` reads back the decimal rendering
and the rendering has no colon. -/
theorem Atoi_fmtInt_fin : ∀ i : Fin 901,
    (Atoi (fmtInt (38088 + (i.val : Int))) = some (38088 + (i.val : Int)) ∧
      ':' ∉ (fmtInt (38088 + (i.val : Int))).data) := by
  decide

/-- For a kind in the protocol range, `Atoi` reads back the decimal rendering and the
rendering has no colon. -/
theorem Atoi_fmtInt_protocol_range (k : Int) (hr : 38088 ≤ k ∧ k ≤ 38988) :
    Atoi (fmtInt k) = some k ∧ ':' ∉ (fmtInt k).data := by
  have hlt : (k - 38088).toNat < 901 := by omega
  have hk : 38088 + (((⟨(k - 38088).toNat, hlt⟩ : Fin 901).val : Nat) : Int) = k := by
    show 38088 + (((k - 38088).toNat : Nat) : Int) = k
    omega
  have h := Atoi_fmtInt_fin ⟨(k - 38088).toNat, hlt⟩
  rw [hk] at h
  exact h

/-- The segments of the coordinate `<k>::org.attnprotocol:<t>:` for a colon-free `t`. -/
theorem Split_bare_coordinate (ks t : String) (hks : ':' ∉ ks.data) (ht : ':' ∉ t.data) :
    Split (ks ++ "::org.attnprotocol:" ++ t ++ ":") ':' = [ks, "", "org.attnprotocol", t, ""] := by
  have hfinal : Split (t ++ ":") ':' = [t, ""] := by
    have h := Split_cons t "" ht
    rw [String.append_empty] at h
    rw [h, Split_single "" (by decide)]
  have e : ks ++ "::org.attnprotocol:" ++ t ++ ":"
      = ks ++ (":" ++ ("" ++ (":" ++ ("org.attnprotocol" ++ (":" ++ (t ++ ":")))))) := by
    rw [string_eq_iff_data]
    simp
  rw [e, Split_cons _ _ hks, Split_cons _ _ (by decide), Split_cons _ _ (by decide), hfinal]

/-- The identifier `org.attnprotocol:<t>:` with a colon-free `t` passes the identifier check
of no kind. -/
theorem bare_identifier_rejected (k : Int) (t : String) (ht : ':' ∉ t.data) :
    validateDTagFormat k ("org.attnprotocol:" ++ t ++ ":") ≠ .ok () := by
  intro h
  obtain ⟨name, rest, _, hrest, heq⟩ := (validateDTagFormat_eq_ok_iff _ _).1 h
  rw [string_eq_iff_data] at heq
  simp only [String.data_append, List.append_assoc] at heq
  have h2 := List.append_cancel_left heq
  have h3 := (append_colon_cancel t.data name.data rest.data ht h2).2
  apply hrest
  rw [string_eq_iff_data, h3]

/-- The identifier `org.attnprotocol:<t>:` under the kind whose event type is `t`: the
identifier part is empty. -/
theorem bare_identifier_empty (k : Int) (t : String) (hlook : eventTypeMap.lookup k = some t) :
    validateDTagFormat k ("org.attnprotocol:" ++ t ++ ":") = .error "d tag identifier is empty" := by
  have hassoc : "org.attnprotocol:" ++ t ++ ":" = "org.attnprotocol:" ++ (t ++ ":" ++ "") := by
    rw [string_eq_iff_data]; simp
  have hpre : HasPrefix ("org.attnprotocol:" ++ (t ++ ":" ++ "")) "org.attnprotocol:"
      = true := (HasPrefix_iff _ _).2 ⟨_, rfl⟩
  have hne : t ++ ":" ++ "" ≠ "org.attnprotocol:" ++ (t ++ ":" ++ "") :=
    prefixed_ne_self _ _ (by decide)
  rw [hassoc]
  unfold validateDTagFormat
  simp only [hpre, hlook, TrimPrefix_append, if_neg hne,
    SplitN2_append t "" (eventTypeMap_no_colon k t hlook)]
  simp

/-- The identifier `org.attnprotocol:<t>:` under a kind whose event type is not the
colon-free `t`: the event type is reported as mismatching. -/
theorem bare_identifier_mismatch (k : Int) (t name : String) (ht : ':' ∉ t.data)
    (hlook : eventTypeMap.lookup k = some name) (hne : t ≠ name) :
    validateDTagFormat k ("org.attnprotocol:" ++ t ++ ":")
      = .error ("d tag event type mismatch: expected '" ++ name ++ "', got '" ++ t ++ "'") := by
  have hassoc : "org.attnprotocol:" ++ t ++ ":" = "org.attnprotocol:" ++ (t ++ ":" ++ "") := by
    rw [string_eq_iff_data]; simp
  have hpre : HasPrefix ("org.attnprotocol:" ++ (t ++ ":" ++ "")) "org.attnprotocol:"
      = true := (HasPrefix_iff _ _).2 ⟨_, rfl⟩
  have hne2 : t ++ ":" ++ "" ≠ "org.attnprotocol:" ++ (t ++ ":" ++ "") :=
    prefixed_ne_self _ _ (by decide)
  rw [hassoc]
  unfold validateDTagFormat
  simp only [hpre, hlook, TrimPrefix_append, if_neg hne2, SplitN2_append t "" ht]
  simp [hne]

/-! ## The first tag of a name -/

/-- `getTagValue` returns the value of the first tag of the name that has two or more
elements, whatever that value is and whatever follows. -/
theorem getTagValueIn_first (name v : String) (before : List (List String))
    (rest : List String) (after : List (List String))
    (hno : ∀ t ∈ before, ¬ (2 ≤ t.length ∧ t[0]? = some name)) :
    getTagValueIn name (before ++ (name :: v :: rest) :: after) = v := by
  induction before with
  | nil =>
    rw [List.nil_append, getTagValueIn, if_pos ⟨by simp, rfl⟩]
    rfl
  | cons tag tags ih =>
    have hskip : ¬ (tag.length ≥ 2 ∧ tag.getD 0 "" = name) := by
      intro hcon
      apply hno tag (List.mem_cons_self _ _)
      refine ⟨hcon.1, ?_⟩
      rw [(tag_two_in_bounds tag hcon.1).1, hcon.2]
    rw [List.cons_append, getTagValueIn, if_neg hskip]
    exact ih (fun t ht => hno t (List.mem_cons_of_mem _ ht))

/-! ## Theorems -/

/-- C1: `validateDTagFormat(kind, d)` returns nil exactly when `kind` is a key of the
event-type table and `d` is `org.attnprotocol:` followed by the canonical event-type name
of that kind, a colon and a non-empty remainder (which may contain colons); in every other
case it returns an error. -/
theorem validateDTagFormat_ok_iff (kind : Int) (dTag : String) :
    (validateDTagFormat kind dTag = .ok () ↔
      ∃ name rest : String, eventTypeMap.lookup kind = some name ∧ rest ≠ "" ∧
        dTag = "org.attnprotocol:" ++ name ++ ":" ++ rest) ∧
    ((¬ ∃ name rest : String, eventTypeMap.lookup kind = some name ∧ rest ≠ "" ∧
        dTag = "org.attnprotocol:" ++ name ++ ":" ++ rest) ↔
      ∃ msg, validateDTagFormat kind dTag = .error msg) := by
  have key : validateDTagFormat kind dTag = .ok () ↔
      ∃ name rest : String, eventTypeMap.lookup kind = some name ∧ rest ≠ "" ∧
        dTag = "org.attnprotocol:" ++ name ++ ":" ++ rest := by
    constructor
    · intro h
      unfold validateDTagFormat at h
      simp only [] at h
      split at h
      · simp at h
      · rename_i hpre
        simp at hpre
        obtain ⟨t, rfl⟩ := (HasPrefix_iff _ _).1 hpre
        split at h
        · simp at h
        · rename_i expectedType hlook
          rw [TrimPrefix_append] at h
          split at h
          · simp at h
          · split at h
            · rename_i eventType identifier rst hsplit
              split at h
              · simp at h
              · rename_i hty
                split at h
                · simp at h
                · rename_i hid
                  obtain ⟨_, _, ht⟩ := SplitN2_pair t eventType identifier rst hsplit
                  simp only [ne_eq, Decidable.not_not] at hty
                  subst hty
                  refine ⟨eventType, identifier, hlook, hid, ?_⟩
                  rw [ht, string_eq_iff_data]
                  simp
            · simp at h
    · rintro ⟨name, rest, hlook, hrest, rfl⟩
      have hassoc : "org.attnprotocol:" ++ name ++ ":" ++ rest
          = "org.attnprotocol:" ++ (name ++ ":" ++ rest) := by
        rw [string_eq_iff_data]; simp
      have hpre : HasPrefix ("org.attnprotocol:" ++ (name ++ ":" ++ rest)) "org.attnprotocol:"
          = true := (HasPrefix_iff _ _).2 ⟨_, rfl⟩
      have hne : name ++ ":" ++ rest ≠ "org.attnprotocol:" ++ (name ++ ":" ++ rest) :=
        prefixed_ne_self _ _ (by decide)
      rw [hassoc]
      unfold validateDTagFormat
      simp only [hpre, hlook, TrimPrefix_append, if_neg hne,
        SplitN2_append name rest (eventTypeMap_no_colon kind name hlook)]
      simp [hrest]
  refine ⟨key, ?_⟩
  rw [← key]
  cases hv : validateDTagFormat kind dTag with
  | ok u => simp
  | error msg => simp

/-- Witness for C1: the block identifier `org.attnprotocol:block:870500:00ab` is accepted
for kind 38088, and the same identifier is rejected for kind 38188. -/
theorem validateDTagFormat_ok_iff_witness :
    validateDTagFormat 38088 "org.attnprotocol:block:870500:00ab" = .ok () ∧
    ∃ msg, validateDTagFormat 38188 "org.attnprotocol:block:870500:00ab" = .error msg :=
  ⟨(validateDTagFormat_ok_iff 38088 "org.attnprotocol:block:870500:00ab").1.2
      ⟨"block", "870500:00ab", by decide, by decide, by decide⟩,
   ⟨"d tag event type mismatch: expected 'marketplace', got 'block'", by decide⟩⟩

/-- C2: `validateCoordinateFormat(c, k)` succeeds exactly when splitting `c` on `:` gives
at least 3 segments, segment 0 parses as an integer equal to `k`, and, when `k` lies in
38088..38988, there are at least 5 segments, segment 2 is `org.attnprotocol` and segment 3
is non-empty; in particular a coordinate whose leading segment is not an integer equal to
`k` is rejected. -/
theorem validateCoordinateFormat_ok_iff (c : String) (k : Int) :
    (validateCoordinateFormat c k = .ok () ↔
      3 ≤ (Split c ':').length ∧ Atoi ((Split c ':').getD 0 "") = some k ∧
      (38088 ≤ k ∧ k ≤ 38988 →
        5 ≤ (Split c ':').length ∧ (Split c ':').getD 2 "" = "org.attnprotocol" ∧
        (Split c ':').getD 3 "" ≠ "")) ∧
    (Atoi ((Split c ':').getD 0 "") ≠ some k →
      ∃ msg, validateCoordinateFormat c k = .error msg) := by
  have key : validateCoordinateFormat c k = .ok () ↔
      3 ≤ (Split c ':').length ∧ Atoi ((Split c ':').getD 0 "") = some k ∧
      (38088 ≤ k ∧ k ≤ 38988 →
        5 ≤ (Split c ':').length ∧ (Split c ':').getD 2 "" = "org.attnprotocol" ∧
        (Split c ':').getD 3 "" ≠ "") := by
    unfold validateCoordinateFormat
    simp only []
    split
    · rename_i h1
      simp only [reduceCtorEq, false_iff, not_and]
      intro h; omega
    · rename_i h1
      split
      · rename_i h2
        simp only [reduceCtorEq, false_iff, not_and]
        intro _ h; rw [h2] at h
        exact absurd h (by simp)
      · rename_i coordKind h2
        split
        · rename_i h3
          simp only [reduceCtorEq, false_iff, not_and]
          intro _ h; rw [h2] at h
          simp only [Option.some.injEq] at h
          exact absurd h h3
        · rename_i h3
          simp only [ne_eq, Decidable.not_not] at h3
          subst h3
          split
          · rename_i h4
            split
            · simp only [reduceCtorEq, false_iff, not_and]
              intro _ _ h; have := (h h4).1; omega
            · split
              · rename_i h6
                simp only [reduceCtorEq, false_iff, not_and]
                intro _ _ h; exact absurd (h h4).2.1 h6
              · split
                · simp only [reduceCtorEq, false_iff, not_and]
                  intro _ _ h; have := (h h4).1; omega
                · split
                  · rename_i h8
                    simp only [reduceCtorEq, false_iff, not_and]
                    intro _ _ h; exact absurd h8 (h h4).2.2
                  · rename_i h5 h6 h7 h8
                    simp only [true_iff]
                    refine ⟨by omega, h2, fun _ => ⟨by omega, ?_, h8⟩⟩
                    simpa using h6
          · rename_i h4
            simp only [true_iff]
            exact ⟨by omega, h2, fun h => absurd h h4⟩
  refine ⟨key, ?_⟩
  intro hne
  cases hv : validateCoordinateFormat c k with
  | error msg => exact ⟨msg, rfl⟩
  | ok u =>
    cases u
    exact absurd (key.1 hv).2.1 hne

/-- Witness for C2: a marketplace coordinate whose leading kind segment is 38288 is
rejected when kind 38188 is expected. -/
theorem validateCoordinateFormat_ok_iff_witness :
    ∃ msg, validateCoordinateFormat "38288:ab:org.attnprotocol:marketplace:m1" 38188
      = .error msg :=
  (validateCoordinateFormat_ok_iff "38288:ab:org.attnprotocol:marketplace:m1" 38188).2
    (by decide)

/-- C3 (as stated, refuted): the video coordinate `34236:ab:org.attnprotocol:video`
contains the namespace token and is checked against kind 34236, which lies outside
38088..38988, yet `validateCoordinateFormat` returns nil for it. -/
theorem validateCoordinateFormat_namespace_counterexample :
    ¬ (38088 ≤ (34236 : Int) ∧ (34236 : Int) ≤ 38988) ∧
    Contains "34236:ab:org.attnprotocol:video" "org.attnprotocol" = true ∧
    validateCoordinateFormat "34236:ab:org.attnprotocol:video" 34236 = .ok () := by
  decide

/-- C3 (amended): for an expected kind `k` outside 38088..38988 and a coordinate `c` that
contains the namespace token, `validateCoordinateFormat(c, k)` does not examine the token:
it returns nil exactly when `c` has at least 3 colon-separated segments and segment 0
parses as an integer equal to `k`, and an error otherwise. -/
theorem validateCoordinateFormat_outside_range (c : String) (k : Int)
    (hk : ¬ (38088 ≤ k ∧ k ≤ 38988)) (_hc : Contains c "org.attnprotocol" = true) :
    (validateCoordinateFormat c k = .ok () ↔
      3 ≤ (Split c ':').length ∧ Atoi ((Split c ':').getD 0 "") = some k) ∧
    (¬ (3 ≤ (Split c ':').length ∧ Atoi ((Split c ':').getD 0 "") = some k) →
      ∃ msg, validateCoordinateFormat c k = .error msg) := by
  have key : validateCoordinateFormat c k = .ok () ↔
      3 ≤ (Split c ':').length ∧ Atoi ((Split c ':').getD 0 "") = some k := by
    unfold validateCoordinateFormat
    simp only []
    split
    · simp only [reduceCtorEq, false_iff, not_and]
      intro h; omega
    · split
      · rename_i h2
        simp only [reduceCtorEq, false_iff, not_and]
        intro _ h; rw [h2] at h
        exact absurd h (by simp)
      · rename_i coordKind h2
        split
        · rename_i h3
          simp only [reduceCtorEq, false_iff, not_and]
          intro _ h; rw [h2] at h
          simp only [Option.some.injEq] at h
          exact absurd h h3
        · rename_i h3
          simp only [ne_eq, Decidable.not_not] at h3
          subst h3
          rw [if_neg hk]
          simp only [true_iff]
          exact ⟨by omega, h2⟩
  refine ⟨key, ?_⟩
  intro hne
  cases hv : validateCoordinateFormat c k with
  | error msg => exact ⟨msg, rfl⟩
  | ok u =>
    cases u
    exact absurd (key.1 hv) hne

/-- Witness for C3 (amended): the coordinate `34236:org.attnprotocol` has two segments and
is rejected for kind 34236. -/
theorem validateCoordinateFormat_outside_range_witness :
    ∃ msg, validateCoordinateFormat "34236:org.attnprotocol" 34236 = .error msg :=
  (validateCoordinateFormat_outside_range "34236:org.attnprotocol" 34236
    (by decide) (by decide)).2 (by decide)

/-- C4: `validateOfficialTagsOnly(event)` returns Valid=true exactly when every tag with at
least one element has its name in the set d, t, a, e, p, r, k, u; when it returns
Valid=false the message names the first tag, in tag order, whose name is outside the set. -/
theorem validateOfficialTagsOnly_spec (event : Event) :
    ((validateOfficialTagsOnly event).Valid = true ↔
      ∀ tag ∈ event.Tags, ∀ name rest, tag = name :: rest →
        name ∈ ["d", "t", "a", "e", "p", "r", "k", "u"]) ∧
    ((validateOfficialTagsOnly event).Valid = false →
      ∃ before name rest after, event.Tags = before ++ (name :: rest) :: after ∧
        (∀ tag ∈ before, ∀ n r, tag = n :: r → n ∈ ["d", "t", "a", "e", "p", "r", "k", "u"]) ∧
        name ∉ ["d", "t", "a", "e", "p", "r", "k", "u"] ∧
        (validateOfficialTagsOnly event).Message = "Non-standard tag '" ++ name
          ++ "' not allowed. Only official Nostr tags are permitted: d, t, a, e, p, r, k, u") :=
  validateOfficialTagsIn_spec event.Tags

/-- Witness for C4: with tags d, (empty), x, y the guard names `x`, the first disallowed
name. -/
theorem validateOfficialTagsOnly_spec_witness :
    ∃ before name rest after,
      ([["d", "v"], [], ["x", "1"], ["y"]] : List (List String))
        = before ++ (name :: rest) :: after ∧
      (∀ tag ∈ before, ∀ n r, tag = n :: r → n ∈ ["d", "t", "a", "e", "p", "r", "k", "u"]) ∧
      name ∉ ["d", "t", "a", "e", "p", "r", "k", "u"] ∧
      (validateOfficialTagsOnly ⟨38188, "", "", [["d", "v"], [], ["x", "1"], ["y"]]⟩).Message
        = "Non-standard tag '" ++ name
          ++ "' not allowed. Only official Nostr tags are permitted: d, t, a, e, p, r, k, u" :=
  (validateOfficialTagsOnly_spec ⟨38188, "", "", [["d", "v"], [], ["x", "1"], ["y"]]⟩).2
    (by decide)

/-- C5: for every event whose kind is not a key of `AllowedEventKinds`, `ValidateEvent`
(helpers.go) returns Valid=false with a message that contains the decimal kind and the
words "not supported", whatever the tags, pubkey and content are. -/
theorem ValidateEvent_rejects_unlisted_kind (L : GoLib) (event : Event)
    (h : AllowedEventKinds.lookup event.Kind = none) :
    ValidateEvent L event = some
      { Valid := false,
        Message := "Event kind " ++ fmtInt event.Kind ++ " is not supported by this relay. Only ATTN Protocol kinds (38088-38988) and supporting kinds are accepted. See relay documentation for full list." } ∧
    (∀ r, ValidateEvent L event = some r →
      r.Valid = false ∧ Contains r.Message (fmtInt event.Kind) = true ∧
      Contains r.Message "not supported" = true) := by
  have hres : ValidateEvent L event = some
      { Valid := false,
        Message := "Event kind " ++ fmtInt event.Kind ++ " is not supported by this relay. Only ATTN Protocol kinds (38088-38988) and supporting kinds are accepted. See relay documentation for full list." } := by
    unfold ValidateEvent
    simp [mapGet, h]
  refine ⟨hres, ?_⟩
  intro r hr
  rw [hres] at hr
  simp only [Option.some.injEq] at hr
  subst hr
  refine ⟨rfl, Contains_append _ _ _, ?_⟩
  have hm : "Event kind " ++ fmtInt event.Kind ++ " is not supported by this relay. Only ATTN Protocol kinds (38088-38988) and supporting kinds are accepted. See relay documentation for full list."
      = ("Event kind " ++ fmtInt event.Kind ++ " is ") ++ "not supported" ++ " by this relay. Only ATTN Protocol kinds (38088-38988) and supporting kinds are accepted. See relay documentation for full list." := by
    rw [string_eq_iff_data]
    simp
  show Contains _ "not supported" = true
  rw [hm]
  exact Contains_append _ _ _

/-- Witness for C5: kind 4 (encrypted direct message) is not in the table, and the event is
rejected with a message naming kind 4. -/
theorem ValidateEvent_rejects_unlisted_kind_witness :
    ValidateEvent sampleLib ⟨4, "ab", "test content", []⟩ = some
      { Valid := false,
        Message := "Event kind 4 is not supported by this relay. Only ATTN Protocol kinds (38088-38988) and supporting kinds are accepted. See relay documentation for full list." } :=
  (ValidateEvent_rejects_unlisted_kind sampleLib ⟨4, "ab", "test content", []⟩ (by decide)).1

/-- C6: for every event whose kind is in `AllowedEventKinds` but is not one of the ten
protocol kinds 38088, 38188, ..., 38988, `ValidateEvent` (helpers.go) returns exactly
Valid=true with message "Valid supporting event kind", independently of tags and content. -/
theorem ValidateEvent_supporting_kind (L : GoLib) (event : Event)
    (hallowed : mapGet AllowedEventKinds event.Kind = true)
    (hnot : event.Kind ∉
      [(38088 : Int), 38188, 38288, 38388, 38488, 38588, 38688, 38788, 38888, 38988]) :
    ValidateEvent L event = some { Valid := true, Message := "Valid supporting event kind" } := by
  have hp : mapGet attnProtocolKinds event.Kind = false :=
    mapGet_false_of_not_mem _ _ (by simpa [attnProtocolKinds] using hnot)
  simp only [List.mem_cons, List.mem_singleton, not_or, List.not_mem_nil, or_false] at hnot
  obtain ⟨h0, h1, h2, h3, h4, h5, h6, h7, h8, h9⟩ := hnot
  unfold ValidateEvent
  simp [hallowed, hp, h0, h1, h2, h3, h4, h5, h6, h7, h8, h9]

/-- Witness for C6: a kind-34236 (video) event with a non-standard tag and a payload that
is not JSON is accepted as a supporting event. -/
theorem ValidateEvent_supporting_kind_witness :
    ValidateEvent sampleLib ⟨34236, "ab", "not json", [["zz", "1"]]⟩
      = some { Valid := true, Message := "Valid supporting event kind" } :=
  ValidateEvent_supporting_kind sampleLib ⟨34236, "ab", "not json", [["zz", "1"]]⟩
    (by decide) (by decide)

/-- C7: for every event of a protocol-native kind (ten kinds for `ValidateEvent` of
helpers.go, nine for `ValidateATTNEvent` of go-core) that carries a tag whose name is
outside d, t, a, e, p, r, k, u, the entry point returns exactly the result of
`validateOfficialTagsOnly(event)`, which has Valid=false and a message naming the first
disallowed tag, whatever else is wrong with the event; consequently every accepted
protocol-native event uses only names of the closed set. -/
theorem tag_guard_precedes_kind_validation (S : GoCore.Siblings) (L : GoLib) (event : Event) :
    ((∃ tag ∈ event.Tags, ∃ name rest, tag = name :: rest ∧
        name ∉ ["d", "t", "a", "e", "p", "r", "k", "u"]) →
      (event.Kind ∈
          [(38088 : Int), 38188, 38288, 38388, 38488, 38588, 38688, 38788, 38888, 38988] →
        ValidateEvent L event = some (validateOfficialTagsOnly event)) ∧
      (event.Kind ∈ [(38188 : Int), 38288, 38388, 38488, 38588, 38688, 38788, 38888, 38988] →
        GoCore.ValidateATTNEvent S L event = some (GoCore.validateOfficialTagsOnly event)) ∧
      (validateOfficialTagsOnly event).Valid = false ∧
      ∃ before name rest after, event.Tags = before ++ (name :: rest) :: after ∧
        (∀ tag ∈ before, ∀ n r, tag = n :: r → n ∈ ["d", "t", "a", "e", "p", "r", "k", "u"]) ∧
        name ∉ ["d", "t", "a", "e", "p", "r", "k", "u"] ∧
        (validateOfficialTagsOnly event).Message = "Non-standard tag '" ++ name
          ++ "' not allowed. Only official Nostr tags are permitted: d, t, a, e, p, r, k, u") ∧
    (∀ r, event.Kind ∈
          [(38088 : Int), 38188, 38288, 38388, 38488, 38588, 38688, 38788, 38888, 38988] →
      ValidateEvent L event = some r → r.Valid = true →
      ∀ tag ∈ event.Tags, ∀ name rest, tag = name :: rest →
        name ∈ ["d", "t", "a", "e", "p", "r", "k", "u"]) ∧
    (∀ r, event.Kind ∈ [(38188 : Int), 38288, 38388, 38488, 38588, 38688, 38788, 38888, 38988] →
      GoCore.ValidateATTNEvent S L event = some r → r.Valid = true →
      ∀ tag ∈ event.Tags, ∀ name rest, tag = name :: rest →
        name ∈ ["d", "t", "a", "e", "p", "r", "k", "u"]) := by
  refine ⟨?_, ?_, ?_⟩
  · intro hbad
    have hv := guard_fails_of_bad_tag event hbad
    exact ⟨fun hk => ValidateEvent_of_guard_fails L event hk hv,
      fun hk => ValidateATTNEvent_of_guard_fails S L event hk hv, hv,
      (validateOfficialTagsIn_spec event.Tags).2 hv⟩
  · intro r hk hr hvalid tag hmem name rest he
    by_contra hn
    have hv := guard_fails_of_bad_tag event ⟨tag, hmem, name, rest, he, hn⟩
    rw [ValidateEvent_of_guard_fails L event hk hv] at hr
    simp only [Option.some.injEq] at hr
    rw [← hr, hv] at hvalid
    exact absurd hvalid (by simp)
  · intro r hk hr hvalid tag hmem name rest he
    by_contra hn
    have hv := guard_fails_of_bad_tag event ⟨tag, hmem, name, rest, he, hn⟩
    rw [ValidateATTNEvent_of_guard_fails S L event hk hv] at hr
    simp only [Option.some.injEq] at hr
    rw [← hr] at hvalid
    have hv2 : (GoCore.validateOfficialTagsOnly event).Valid = false := hv
    rw [hv2] at hvalid
    exact absurd hvalid (by simp)

/-- Witness for C7: a kind-38388 event with no d tag, no payload and the tag `client` is
answered by both entry points with the guard's verdict on `client`. -/
theorem tag_guard_precedes_kind_validation_witness :
    ValidateEvent sampleLib ⟨38388, "ab", "not json", [["t", "x"], ["client", "web"]]⟩
      = some { Valid := false, Message := "Non-standard tag 'client' not allowed. Only official Nostr tags are permitted: d, t, a, e, p, r, k, u" } ∧
    GoCore.ValidateATTNEvent sampleSiblings sampleLib
        ⟨38388, "ab", "not json", [["t", "x"], ["client", "web"]]⟩
      = some { Valid := false, Message := "Non-standard tag 'client' not allowed. Only official Nostr tags are permitted: d, t, a, e, p, r, k, u" } :=
  have h := (tag_guard_precedes_kind_validation sampleSiblings sampleLib
    ⟨38388, "ab", "not json", [["t", "x"], ["client", "web"]]⟩).1
    ⟨["client", "web"], by decide, "client", ["web"], rfl, by decide⟩
  ⟨h.1 (by decide), h.2.1 (by decide)⟩

/-- C8: for every event whose kind is not one of the nine ATTN kinds (38808, 38088 and the
supporting kinds 0, 1, 5, 10002, 30000, 34236 included), `ValidateATTNEvent` returns exactly
Valid=false with message "Not an ATTN Protocol event kind", whatever its tags and content. -/
theorem ValidateATTNEvent_rejects_other_kinds (S : GoCore.Siblings) (L : GoLib) (event : Event)
    (hnot : event.Kind ∉
      [(38188 : Int), 38288, 38388, 38488, 38588, 38688, 38788, 38888, 38988]) :
    GoCore.ValidateATTNEvent S L event
      = some { Valid := false, Message := "Not an ATTN Protocol event kind" } := by
  have hp : mapGet GoCore.ATTNProtocolKinds event.Kind = false :=
    mapGet_false_of_not_mem _ _ (by simpa [GoCore.ATTNProtocolKinds] using hnot)
  simp only [List.mem_cons, List.mem_singleton, not_or, List.not_mem_nil, or_false] at hnot
  obtain ⟨h1, h2, h3, h4, h5, h6, h7, h8, h9⟩ := hnot
  unfold GoCore.ValidateATTNEvent
  simp [hp, h1, h2, h3, h4, h5, h6, h7, h8, h9]

/-- Witness for C8: events of kind 38808, 38088 and 34236 are answered with "Not an ATTN
Protocol event kind", also when they carry a non-standard tag. -/
theorem ValidateATTNEvent_rejects_other_kinds_witness :
    GoCore.ValidateATTNEvent sampleSiblings sampleLib ⟨38808, "ab", "{}", []⟩
      = some { Valid := false, Message := "Not an ATTN Protocol event kind" } ∧
    GoCore.ValidateATTNEvent sampleSiblings sampleLib ⟨38088, "ab", "{}", [["zz", "1"]]⟩
      = some { Valid := false, Message := "Not an ATTN Protocol event kind" } ∧
    GoCore.ValidateATTNEvent sampleSiblings sampleLib ⟨34236, "ab", "{}", []⟩
      = some { Valid := false, Message := "Not an ATTN Protocol event kind" } :=
  ⟨ValidateATTNEvent_rejects_other_kinds sampleSiblings sampleLib _ (by decide),
   ValidateATTNEvent_rejects_other_kinds sampleSiblings sampleLib _ (by decide),
   ValidateATTNEvent_rejects_other_kinds sampleSiblings sampleLib _ (by decide)⟩

/-- C9: `IsATTNProtocolKind(k)` is true exactly for the nine kinds 38188, 38288, 38388,
38488, 38588, 38688, 38788, 38888, 38988; the table `ATTNProtocolKinds` has exactly 9
entries (with pairwise distinct keys), and `IsATTNProtocolKind(38808)` is false. -/
theorem IsATTNProtocolKind_iff (k : Int) :
    (GoCore.IsATTNProtocolKind k = true ↔
      k ∈ [(38188 : Int), 38288, 38388, 38488, 38588, 38688, 38788, 38888, 38988]) ∧
    GoCore.ATTNProtocolKinds.length = 9 ∧
    (GoCore.ATTNProtocolKinds.map Prod.fst).Nodup ∧
    GoCore.IsATTNProtocolKind 38808 = false := by
  refine ⟨⟨?_, ?_⟩, by decide, by decide, by decide⟩
  · intro h
    by_contra hn
    have hf : mapGet GoCore.ATTNProtocolKinds k = false :=
      mapGet_false_of_not_mem _ _ (by simpa [GoCore.ATTNProtocolKinds] using hn)
    unfold GoCore.IsATTNProtocolKind at h
    rw [hf] at h
    exact absurd h (by simp)
  · intro h
    exact mapGet_ATTNProtocolKinds k h

/-- C10 (as stated, refuted): the table `AllowedEventKinds` of helpers.go does not have 22
entries. -/
theorem AllowedEventKinds_count_counterexample :
    (AllowedEventKinds.map Prod.fst).Nodup ∧ ¬ (AllowedEventKinds.length = 22) := by
  decide

/-- C10 (amended): the table `AllowedEventKinds` of helpers.go has exactly 33 entries with
pairwise distinct keys, all flagged true: the 10 ATTN protocol kinds and the 23 supporting
kinds 0, 3, 5, 10002, 10003, 22242, 27235, 30000, 30001, 31989, 31990, 1063, 30023, 30311,
34236, 1, 6, 16, 1111, 9734, 9735, 1984, 1985. -/
theorem AllowedEventKinds_count :
    AllowedEventKinds.length = 33 ∧
    (AllowedEventKinds.map Prod.fst).Nodup ∧
    AllowedEventKinds.map Prod.fst =
      [(38088 : Int), 38188, 38288, 38388, 38488, 38588, 38688, 38788, 38888, 38988] ++
      [0, 3, 5, 10002, 10003, 22242, 27235, 30000, 30001, 31989, 31990, 1063, 30023, 30311,
       34236, 1, 6, 16, 1111, 9734, 9735, 1984, 1985] ∧
    [(0 : Int), 3, 5, 10002, 10003, 22242, 27235, 30000, 30001, 31989, 31990, 1063, 30023,
       30311, 34236, 1, 6, 16, 1111, 9734, 9735, 1984, 1985].length = 23 ∧
    (∀ p ∈ AllowedEventKinds, p.2 = true) := by
  decide

set_option maxRecDepth 10000

/-- C11: the relay gate `ValidateEvent` of validation.go, with the sibling (City Protocol)
validator and its allowed-kind table as parameters: for an event whose kind is allowed and
is not an ATTN kind the result is the sibling validator's result on that event, unchanged;
for an event whose kind is an ATTN kind the result has the same Valid and Message as
go-core `ValidateATTNEvent` on that event. -/
theorem Relay_ValidateEvent_routes (C : Relay.City) (S : GoCore.Siblings) (L : GoLib)
    (event : Event) :
    (mapGet (Relay.AllowedEventKinds C) event.Kind = true →
      GoCore.IsATTNProtocolKind event.Kind = false →
      Relay.ValidateEvent C S L event = C.ValidateEvent event) ∧
    (GoCore.IsATTNProtocolKind event.Kind = true →
      Relay.ValidateEvent C S L event = GoCore.ValidateATTNEvent S L event ∧
      (∀ r, GoCore.ValidateATTNEvent S L event = some r →
        ∃ r2, Relay.ValidateEvent C S L event = some r2 ∧
          r2.Valid = r.Valid ∧ r2.Message = r.Message) ∧
      (GoCore.ValidateATTNEvent S L event = none → Relay.ValidateEvent C S L event = none)) := by
  constructor
  · intro hallowed hattn
    unfold Relay.ValidateEvent
    rw [hallowed, hattn]
    rfl
  · intro hattn
    have hlook : GoCore.ATTNProtocolKinds.lookup event.Kind = some true :=
      mapGet_eq_true_lookup _ _ hattn
    have hallowed : mapGet (Relay.AllowedEventKinds C) event.Kind = true :=
      mapGet_append_of_lookup_some _ _ _ _ hlook
    have heq : Relay.ValidateEvent C S L event = GoCore.ValidateATTNEvent S L event := by
      unfold Relay.ValidateEvent
      rw [hallowed, hattn]
      simp only [Bool.not_true, Bool.false_eq_true, if_false, if_true]
      cases GoCore.ValidateATTNEvent S L event with
      | none => rfl
      | some r => rfl
    refine ⟨heq, ?_, ?_⟩
    · intro r hr
      exact ⟨r, by rw [heq, hr], rfl, rfl⟩
    · intro hn
      rw [heq, hn]

/-- Witness for C11: a kind-38808 event is answered with the sibling's verdict, and a
kind-38288 event with the verdict of go-core `ValidateATTNEvent`. -/
theorem Relay_ValidateEvent_routes_witness :
    Relay.ValidateEvent sampleCity sampleSiblings sampleLib ⟨38808, "ab", "{}", []⟩
      = some { Valid := true, Message := "city verdict" } ∧
    Relay.ValidateEvent sampleCity sampleSiblings sampleLib ⟨38288, "ab", "{}", []⟩
      = some { Valid := false, Message := "billboard" } :=
  ⟨(Relay_ValidateEvent_routes sampleCity sampleSiblings sampleLib ⟨38808, "ab", "{}", []⟩).1
      (by decide) (by decide),
   ((Relay_ValidateEvent_routes sampleCity sampleSiblings sampleLib ⟨38288, "ab", "{}", []⟩).2
      (by decide)).1⟩

/-- C12: identifier invariant. For every event of one of the ten protocol kinds that
`ValidateEvent` (helpers.go) accepts, the value of the first tag named d with at least two
elements is `org.attnprotocol:` followed by the canonical event-type name bound to the
event's kind, a colon and a non-empty identifier. -/
theorem accepted_identifier_format (L : GoLib) (event : Event) (r : ValidationResult)
    (hk : event.Kind ∈
      [(38088 : Int), 38188, 38288, 38388, 38488, 38588, 38688, 38788, 38888, 38988])
    (h : ValidateEvent L event = some r) (hr : r.Valid = true) :
    ∃ name id : String, eventTypeMap.lookup event.Kind = some name ∧ id ≠ "" ∧
      getTagValue event "d" = "org.attnprotocol:" ++ name ++ ":" ++ id ∧
      ∃ before rest after,
        event.Tags = before ++ ("d" :: ("org.attnprotocol:" ++ name ++ ":" ++ id) :: rest) :: after ∧
        ∀ t ∈ before, ¬ (2 ≤ t.length ∧ t.getD 0 "" = "d") := by
  have hfmt : validateDTagFormat event.Kind (getTagValue event "d") = .ok () := by
    rcases ValidateEvent_accepted_cases L event r h hr with
      ⟨k, hv⟩ | ⟨k, hv⟩ | ⟨k, hv⟩ | ⟨k, hv⟩ | ⟨k, hv⟩ | ⟨k, hv⟩ | ⟨k, hv⟩ | ⟨k, hv⟩ |
      ⟨k, hv⟩ | ⟨k, hv⟩ | hn
    · rw [k]; exact (ValidateMarketplaceEvent_checks L event r hv hr).2.1
    · rw [k]; exact (ValidateBillboardEvent_checks L event (by rw [hv]; exact hr)).2.1
    · rw [k]; exact (ValidatePromotionEvent_checks L event (by rw [hv]; exact hr)).2.1
    · rw [k]; exact (ValidateAttentionEvent_checks L event r hv hr).2.1
    · rw [k]; exact (ValidateBillboardConfirmationEvent_checks L event (by rw [hv]; exact hr)).2.1
    · rw [k]; exact (ValidateAttentionConfirmationEvent_checks L event (by rw [hv]; exact hr)).2.1
    · rw [k]
      exact (ValidateMarketplaceConfirmationEvent_checks L event (by rw [hv]; exact hr)).2.1
    · rw [k]; exact (ValidateMatchEvent_checks L event (by rw [hv]; exact hr)).2.1
    · rw [k]; exact (ValidateBlockUpdateEvent_checks L event (by rw [hv]; exact hr)).2.1
    · rw [k]
      exact (ValidateAttentionPaymentConfirmationEvent_checks L event
        (by rw [hv]; exact hr)).2.1
    · exact absurd hk hn
  obtain ⟨name, id, hname, hid, hd⟩ := (validateDTagFormat_eq_ok_iff _ _).1 hfmt
  refine ⟨name, id, hname, hid, hd, ?_⟩
  have hne : ¬ (getTagValue event "d" = "") := dTag_ne_empty_of_ok _ _ hfmt
  rcases getTagValueIn_spec "d" event.Tags with ⟨_, h2⟩ | ⟨before, v, rest, after, h1, h2, h3⟩
  · exact absurd h2 hne
  · have hv : v = "org.attnprotocol:" ++ name ++ ":" ++ id := by
      rw [← h3]; exact hd
    subst hv
    exact ⟨before, rest, after, h1, h2⟩

/-- Witness for C12: the Block event `blockEvent` is accepted by `ValidateEvent`, and its d
tag is `org.attnprotocol:block:` followed by the non-empty identifier `870500:00ab`. -/
theorem accepted_identifier_format_witness :
    ∃ name id : String, eventTypeMap.lookup blockEvent.Kind = some name ∧ id ≠ "" ∧
      getTagValue blockEvent "d" = "org.attnprotocol:" ++ name ++ ":" ++ id ∧
      ∃ before rest after,
        blockEvent.Tags
          = before ++ ("d" :: ("org.attnprotocol:" ++ name ++ ":" ++ id) :: rest) :: after ∧
        ∀ t ∈ before, ¬ (2 ≤ t.length ∧ t.getD 0 "" = "d") :=
  accepted_identifier_format payloadLib blockEvent { Valid := true, Message := "Valid block event" }
    (by decide) (by decide) rfl

/-- C13: Scenario A in general form, for go-core `ValidateMarketplaceEvent`. An event whose
first d tag is `org.attnprotocol:marketplace:<non-empty id>`, whose first t tag value parses
as an integer, whose first a tag starting with `38808:` passes `validateCoordinateFormat`
for kind 38808, that has at least one k tag, two p tags and one r tag, and whose content
decodes to an object with the eleven required fields and the four count fields, with
min_duration and max_duration numbers > 0, min_duration <= max_duration, and match_fee_sats
and confirmation_fee_sats numbers >= 0, is accepted with exactly Valid=true and message
"Valid marketplace event". -/
theorem GoCore_marketplace_scenario_A (L : GoLib) (event : Event) (id : String) (n : Int)
    (content : JSONObject) (minDur maxDur matchFee confFee : Rat)
    (hd : getTagValue event "d" = "org.attnprotocol:marketplace:" ++ id) (hid : id ≠ "")
    (ht : Atoi (getTagValue event "t") = some n)
    (ha : validateCoordinateFormat (getTagValueByPrefix event "a" "38808:") 38808 = .ok ())
    (hk : 1 ≤ (getTagValues event "k").length)
    (hp : 2 ≤ (getTagValues event "p").length)
    (hr : 1 ≤ (getTagValues event "r").length)
    (hc : L.Unmarshal event.Content = some content)
    (hfields : ∀ f ∈ ["name", "description", "admin_pubkey", "min_duration", "max_duration",
        "match_fee_sats", "confirmation_fee_sats", "ref_marketplace_pubkey",
        "ref_marketplace_id", "ref_clock_pubkey", "ref_block_id"],
      ∃ v, content.lookup f = some v)
    (hcounts : ∀ f ∈ ["billboard_count", "promotion_count", "attention_count", "match_count"],
      ∃ v, content.lookup f = some v)
    (hmin : content.lookup "min_duration" = some (JSONValue.number minDur))
    (hmax : content.lookup "max_duration" = some (JSONValue.number maxDur))
    (hminpos : 0 < minDur) (hmaxpos : 0 < maxDur) (hle : minDur ≤ maxDur)
    (hmf : content.lookup "match_fee_sats" = some (JSONValue.number matchFee))
    (hcf : content.lookup "confirmation_fee_sats" = some (JSONValue.number confFee))
    (hmfpos : 0 ≤ matchFee) (hcfpos : 0 ≤ confFee) :
    GoCore.ValidateMarketplaceEvent L event
      = some { Valid := true, Message := "Valid marketplace event" } := by
  have hw := dTag_ok_of_literal 38188 "marketplace" "org.attnprotocol:marketplace:" id
    (getTagValue event "d") (by decide) (by decide) hid hd
  have ht1 : ¬ (getTagValue event "t" = "") := by
    intro he
    have hnone : Atoi "" = none := by decide
    rw [he, hnone] at ht
    cases ht
  have ht2 : ¬ ((Atoi (getTagValue event "t")).isNone = true) := by
    rw [ht]; simp
  have ha1 : ¬ (getTagValueByPrefix event "a" "38808:" = "") := by
    intro he
    rw [he] at ha
    exact absurd ha (by decide)
  exact GoCore_ValidateMarketplaceEvent_accepts L event hw.2 hw.1 ht1 ht2 ha1 ha
    (by omega) (by omega) (by omega) content hc
    ((firstMissingField_eq_none_iff _ _).2 hfields)
    ((firstMissingField_eq_none_iff _ _).2 hcounts)
    (by rw [Bool.not_eq_true]; exact (notPositive_eq_false_iff _).2 ⟨minDur, hmin, hminpos⟩)
    (by rw [Bool.not_eq_true]; exact (notPositive_eq_false_iff _).2 ⟨maxDur, hmax, hmaxpos⟩)
    minDur ((asFloat_eq_some_iff _ _).2 hmin) maxDur ((asFloat_eq_some_iff _ _).2 hmax)
    (not_lt.2 hle)
    (by rw [Bool.not_eq_true]; exact (isNegative_eq_false_iff _).2 ⟨matchFee, hmf, hmfpos⟩)
    (by rw [Bool.not_eq_true]; exact (isNegative_eq_false_iff _).2 ⟨confFee, hcf, hcfpos⟩)

/-- Witness for C13: the Marketplace event `coreMarketplaceEvent` (identifier abc123,
durations 10 and 20, both fees 0, four count fields) is accepted. -/
theorem GoCore_marketplace_scenario_A_witness :
    GoCore.ValidateMarketplaceEvent payloadLib coreMarketplaceEvent
      = some { Valid := true, Message := "Valid marketplace event" } :=
  GoCore_marketplace_scenario_A payloadLib coreMarketplaceEvent "abc123" 870500
    coreMarketplaceMap 10 20 0 0 (by decide) (by decide) (by decide) (by decide) (by decide)
    (by decide) (by decide) rfl
    ((firstMissingField_eq_none_iff _ _).1 (by decide))
    ((firstMissingField_eq_none_iff _ _).1 (by decide))
    rfl rfl (by decide) (by decide) (by decide) rfl rfl (by decide) (by decide)

/-- C14: Scenario B in general form. For each per-kind validator (Marketplace in both
packages, Billboard, Promotion, Attention, Match, the three confirmations, Attention Payment
Confirmation, Block): an event whose first d tag is well-formed for that kind and whose
first t tag value is non-empty but does not parse as an integer is rejected with exactly
"Invalid block height in 't' tag: must be numeric"; such an event with no t tag of at least
two elements is rejected with exactly "Missing 't' tag (block height)". -/
theorem block_height_rejections (L : GoLib) (event : Event) :
    (getTagValue event "t" ≠ "" → Atoi (getTagValue event "t") = none →
      ((∃ id : String, id ≠ "" ∧
          getTagValue event "d" = "org.attnprotocol:marketplace:" ++ id) →
          ValidateMarketplaceEvent L event = some { Valid := false, Message := "Invalid block height in 't' tag: must be numeric" } ∧
          GoCore.ValidateMarketplaceEvent L event = some { Valid := false, Message := "Invalid block height in 't' tag: must be numeric" }) ∧
      ((∃ id : String, id ≠ "" ∧
          getTagValue event "d" = "org.attnprotocol:billboard:" ++ id) →
          ValidateBillboardEvent L event = { Valid := false, Message := "Invalid block height in 't' tag: must be numeric" }) ∧
      ((∃ id : String, id ≠ "" ∧
          getTagValue event "d" = "org.attnprotocol:promotion:" ++ id) →
          ValidatePromotionEvent L event = { Valid := false, Message := "Invalid block height in 't' tag: must be numeric" }) ∧
      ((∃ id : String, id ≠ "" ∧
          getTagValue event "d" = "org.attnprotocol:attention:" ++ id) →
          ValidateAttentionEvent L event = some { Valid := false, Message := "Invalid block height in 't' tag: must be numeric" }) ∧
      ((∃ id : String, id ≠ "" ∧
          getTagValue event "d" = "org.attnprotocol:match:" ++ id) →
          ValidateMatchEvent L event = { Valid := false, Message := "Invalid block height in 't' tag: must be numeric" }) ∧
      ((∃ id : String, id ≠ "" ∧
          getTagValue event "d" = "org.attnprotocol:billboard-confirmation:" ++ id) →
          ValidateBillboardConfirmationEvent L event = { Valid := false, Message := "Invalid block height in 't' tag: must be numeric" }) ∧
      ((∃ id : String, id ≠ "" ∧
          getTagValue event "d" = "org.attnprotocol:attention-confirmation:" ++ id) →
          ValidateAttentionConfirmationEvent L event = { Valid := false, Message := "Invalid block height in 't' tag: must be numeric" }) ∧
      ((∃ id : String, id ≠ "" ∧
          getTagValue event "d" = "org.attnprotocol:marketplace-confirmation:" ++ id) →
          ValidateMarketplaceConfirmationEvent L event = { Valid := false, Message := "Invalid block height in 't' tag: must be numeric" }) ∧
      ((∃ id : String, id ≠ "" ∧
          getTagValue event "d" = "org.attnprotocol:attention-payment-confirmation:" ++ id) →
          ValidateAttentionPaymentConfirmationEvent L event = { Valid := false, Message := "Invalid block height in 't' tag: must be numeric" }) ∧
      ((∃ id : String, id ≠ "" ∧
          getTagValue event "d" = "org.attnprotocol:block:" ++ id) →
          ValidateBlockUpdateEvent L event = { Valid := false, Message := "Invalid block height in 't' tag: must be numeric" })) ∧
    ((∀ t ∈ event.Tags, ¬ (2 ≤ t.length ∧ t.getD 0 "" = "t")) →
      ((∃ id : String, id ≠ "" ∧
          getTagValue event "d" = "org.attnprotocol:marketplace:" ++ id) →
          ValidateMarketplaceEvent L event = some { Valid := false, Message := "Missing 't' tag (block height)" } ∧
          GoCore.ValidateMarketplaceEvent L event = some { Valid := false, Message := "Missing 't' tag (block height)" }) ∧
      ((∃ id : String, id ≠ "" ∧
          getTagValue event "d" = "org.attnprotocol:billboard:" ++ id) →
          ValidateBillboardEvent L event = { Valid := false, Message := "Missing 't' tag (block height)" }) ∧
      ((∃ id : String, id ≠ "" ∧
          getTagValue event "d" = "org.attnprotocol:promotion:" ++ id) →
          ValidatePromotionEvent L event = { Valid := false, Message := "Missing 't' tag (block height)" }) ∧
      ((∃ id : String, id ≠ "" ∧
          getTagValue event "d" = "org.attnprotocol:attention:" ++ id) →
          ValidateAttentionEvent L event = some { Valid := false, Message := "Missing 't' tag (block height)" }) ∧
      ((∃ id : String, id ≠ "" ∧
          getTagValue event "d" = "org.attnprotocol:match:" ++ id) →
          ValidateMatchEvent L event = { Valid := false, Message := "Missing 't' tag (block height)" }) ∧
      ((∃ id : String, id ≠ "" ∧
          getTagValue event "d" = "org.attnprotocol:billboard-confirmation:" ++ id) →
          ValidateBillboardConfirmationEvent L event = { Valid := false, Message := "Missing 't' tag (block height)" }) ∧
      ((∃ id : String, id ≠ "" ∧
          getTagValue event "d" = "org.attnprotocol:attention-confirmation:" ++ id) →
          ValidateAttentionConfirmationEvent L event = { Valid := false, Message := "Missing 't' tag (block height)" }) ∧
      ((∃ id : String, id ≠ "" ∧
          getTagValue event "d" = "org.attnprotocol:marketplace-confirmation:" ++ id) →
          ValidateMarketplaceConfirmationEvent L event = { Valid := false, Message := "Missing 't' tag (block height)" }) ∧
      ((∃ id : String, id ≠ "" ∧
          getTagValue event "d" = "org.attnprotocol:attention-payment-confirmation:" ++ id) →
          ValidateAttentionPaymentConfirmationEvent L event = { Valid := false, Message := "Missing 't' tag (block height)" }) ∧
      ((∃ id : String, id ≠ "" ∧
          getTagValue event "d" = "org.attnprotocol:block:" ++ id) →
          ValidateBlockUpdateEvent L event = { Valid := false, Message := "Missing 't' tag (block height)" })) := by
  constructor
  · intro ht hn
    exact ⟨
    (fun ⟨id, hid, hd⟩ =>
      have hw := dTag_ok_of_literal 38188 "marketplace" "org.attnprotocol:marketplace:" id
        (getTagValue event "d") (by decide) (by decide) hid hd
      ⟨(ValidateMarketplaceEvent_height L event hw.2 hw.1).2 ht hn, (GoCore_ValidateMarketplaceEvent_height L event hw.2 hw.1).2 ht hn⟩),
    (fun ⟨id, hid, hd⟩ =>
      have hw := dTag_ok_of_literal 38288 "billboard" "org.attnprotocol:billboard:" id
        (getTagValue event "d") (by decide) (by decide) hid hd
      (ValidateBillboardEvent_height L event hw.2 hw.1).2 ht hn),
    (fun ⟨id, hid, hd⟩ =>
      have hw := dTag_ok_of_literal 38388 "promotion" "org.attnprotocol:promotion:" id
        (getTagValue event "d") (by decide) (by decide) hid hd
      (ValidatePromotionEvent_height L event hw.2 hw.1).2 ht hn),
    (fun ⟨id, hid, hd⟩ =>
      have hw := dTag_ok_of_literal 38488 "attention" "org.attnprotocol:attention:" id
        (getTagValue event "d") (by decide) (by decide) hid hd
      (ValidateAttentionEvent_height L event hw.2 hw.1).2 ht hn),
    (fun ⟨id, hid, hd⟩ =>
      have hw := dTag_ok_of_literal 38888 "match" "org.attnprotocol:match:" id
        (getTagValue event "d") (by decide) (by decide) hid hd
      (ValidateMatchEvent_height L event hw.2 hw.1).2 ht hn),
    (fun ⟨id, hid, hd⟩ =>
      have hw := dTag_ok_of_literal 38588 "billboard-confirmation" "org.attnprotocol:billboard-confirmation:" id
        (getTagValue event "d") (by decide) (by decide) hid hd
      (ValidateBillboardConfirmationEvent_height L event hw.2 hw.1).2 ht hn),
    (fun ⟨id, hid, hd⟩ =>
      have hw := dTag_ok_of_literal 38688 "attention-confirmation" "org.attnprotocol:attention-confirmation:" id
        (getTagValue event "d") (by decide) (by decide) hid hd
      (ValidateAttentionConfirmationEvent_height L event hw.2 hw.1).2 ht hn),
    (fun ⟨id, hid, hd⟩ =>
      have hw := dTag_ok_of_literal 38788 "marketplace-confirmation" "org.attnprotocol:marketplace-confirmation:" id
        (getTagValue event "d") (by decide) (by decide) hid hd
      (ValidateMarketplaceConfirmationEvent_height L event hw.2 hw.1).2 ht hn),
    (fun ⟨id, hid, hd⟩ =>
      have hw := dTag_ok_of_literal 38988 "attention-payment-confirmation" "org.attnprotocol:attention-payment-confirmation:" id
        (getTagValue event "d") (by decide) (by decide) hid hd
      (ValidateAttentionPaymentConfirmationEvent_height L event hw.2 hw.1).2 ht hn),
    (fun ⟨id, hid, hd⟩ =>
      have hw := dTag_ok_of_literal 38088 "block" "org.attnprotocol:block:" id
        (getTagValue event "d") (by decide) (by decide) hid hd
      (ValidateBlockUpdateEvent_height L event hw.2 hw.1).2 ht hn)⟩
  · intro hno
    have ht : getTagValue event "t" = "" := getTagValue_eq_empty_of_no_tag event "t" hno
    exact ⟨
    (fun ⟨id, hid, hd⟩ =>
      have hw := dTag_ok_of_literal 38188 "marketplace" "org.attnprotocol:marketplace:" id
        (getTagValue event "d") (by decide) (by decide) hid hd
      ⟨(ValidateMarketplaceEvent_height L event hw.2 hw.1).1 ht, (GoCore_ValidateMarketplaceEvent_height L event hw.2 hw.1).1 ht⟩),
    (fun ⟨id, hid, hd⟩ =>
      have hw := dTag_ok_of_literal 38288 "billboard" "org.attnprotocol:billboard:" id
        (getTagValue event "d") (by decide) (by decide) hid hd
      (ValidateBillboardEvent_height L event hw.2 hw.1).1 ht),
    (fun ⟨id, hid, hd⟩ =>
      have hw := dTag_ok_of_literal 38388 "promotion" "org.attnprotocol:promotion:" id
        (getTagValue event "d") (by decide) (by decide) hid hd
      (ValidatePromotionEvent_height L event hw.2 hw.1).1 ht),
    (fun ⟨id, hid, hd⟩ =>
      have hw := dTag_ok_of_literal 38488 "attention" "org.attnprotocol:attention:" id
        (getTagValue event "d") (by decide) (by decide) hid hd
      (ValidateAttentionEvent_height L event hw.2 hw.1).1 ht),
    (fun ⟨id, hid, hd⟩ =>
      have hw := dTag_ok_of_literal 38888 "match" "org.attnprotocol:match:" id
        (getTagValue event "d") (by decide) (by decide) hid hd
      (ValidateMatchEvent_height L event hw.2 hw.1).1 ht),
    (fun ⟨id, hid, hd⟩ =>
      have hw := dTag_ok_of_literal 38588 "billboard-confirmation" "org.attnprotocol:billboard-confirmation:" id
        (getTagValue event "d") (by decide) (by decide) hid hd
      (ValidateBillboardConfirmationEvent_height L event hw.2 hw.1).1 ht),
    (fun ⟨id, hid, hd⟩ =>
      have hw := dTag_ok_of_literal 38688 "attention-confirmation" "org.attnprotocol:attention-confirmation:" id
        (getTagValue event "d") (by decide) (by decide) hid hd
      (ValidateAttentionConfirmationEvent_height L event hw.2 hw.1).1 ht),
    (fun ⟨id, hid, hd⟩ =>
      have hw := dTag_ok_of_literal 38788 "marketplace-confirmation" "org.attnprotocol:marketplace-confirmation:" id
        (getTagValue event "d") (by decide) (by decide) hid hd
      (ValidateMarketplaceConfirmationEvent_height L event hw.2 hw.1).1 ht),
    (fun ⟨id, hid, hd⟩ =>
      have hw := dTag_ok_of_literal 38988 "attention-payment-confirmation" "org.attnprotocol:attention-payment-confirmation:" id
        (getTagValue event "d") (by decide) (by decide) hid hd
      (ValidateAttentionPaymentConfirmationEvent_height L event hw.2 hw.1).1 ht),
    (fun ⟨id, hid, hd⟩ =>
      have hw := dTag_ok_of_literal 38088 "block" "org.attnprotocol:block:" id
        (getTagValue event "d") (by decide) (by decide) hid hd
      (ValidateBlockUpdateEvent_height L event hw.2 hw.1).1 ht)⟩

/-- Witness for C14: a Promotion event with a well-formed d tag and the t tag value `abc` is
rejected for its block height, and without its t tag it is rejected for the missing tag. -/
theorem block_height_rejections_witness :
    ValidatePromotionEvent sampleLib
        ⟨38388, "ab", "", [["d", "org.attnprotocol:promotion:p1"], ["t", "abc"]]⟩
      = { Valid := false, Message := "Invalid block height in 't' tag: must be numeric" } ∧
    ValidatePromotionEvent sampleLib
        ⟨38388, "ab", "", [["d", "org.attnprotocol:promotion:p1"], ["t"]]⟩
      = { Valid := false, Message := "Missing 't' tag (block height)" } :=
  ⟨((block_height_rejections sampleLib
      ⟨38388, "ab", "", [["d", "org.attnprotocol:promotion:p1"], ["t", "abc"]]⟩).1
      (by decide) (by decide)).2.2.1 ⟨"p1", by decide, by decide⟩,
   ((block_height_rejections sampleLib
      ⟨38388, "ab", "", [["d", "org.attnprotocol:promotion:p1"], ["t"]]⟩).2
      (by decide)).2.2.1 ⟨"p1", by decide, by decide⟩⟩

/-- C15: Scenario C in general form. For every event in which the first a tag whose value
starts with `34236:` (the video coordinate) contains the substring `org.attnprotocol:`,
`ValidatePromotionEvent` returns Valid=false. -/
theorem promotion_video_namespace_rejected (L : GoLib) (event : Event)
    (h : Contains (getTagValueByPrefix event "a" "34236:") "org.attnprotocol:" = true) :
    (ValidatePromotionEvent L event).Valid = false := by
  cases hv : (ValidatePromotionEvent L event).Valid with
  | false => rfl
  | true => exact absurd h (ValidatePromotionEvent_checks L event hv).2.2.2.2.2.2.2.1

/-- Witness for C15: a Promotion event whose video coordinate is
`34236:ab:org.attnprotocol:video` is rejected. -/
theorem promotion_video_namespace_rejected_witness :
    (ValidatePromotionEvent payloadLib
      { stringBidEvent with
        Tags := ["a", "34236:ab:org.attnprotocol:video"] :: stringBidEvent.Tags }).Valid
      = false :=
  promotion_video_namespace_rejected payloadLib _ (by decide)

/-- C16 (as stated, refuted): the Block event `blockEvent` has issuer pubkey `AB12`, its
payload field ref_node_pubkey is `ab12`, which is a different string, and
`ValidateBlockUpdateEvent` accepts it. -/
theorem block_pubkey_case_counterexample :
    payloadLib.Unmarshal blockEvent.Content = some blockMap ∧
    blockMap.lookup "ref_node_pubkey" = some (JSONValue.string "ab12") ∧
    "ab12" ≠ blockEvent.PubKey ∧
    ValidateBlockUpdateEvent payloadLib blockEvent
      = { Valid := true, Message := "Valid block event" } :=
  ⟨rfl, rfl, by decide, by decide⟩

/-- C16 (amended): for every Block event whose payload field ref_node_pubkey, when it is a
string, does not match the event's issuer pubkey under `strings.EqualFold` (a comparison
that ignores letter case), `ValidateBlockUpdateEvent` returns Valid=false; this includes a
payload that does not decode and a ref_node_pubkey that is absent or not a string. -/
theorem block_pubkey_mismatch_rejected (L : GoLib) (event : Event)
    (h : ∀ content s, L.Unmarshal event.Content = some content →
      content.lookup "ref_node_pubkey" = some (JSONValue.string s) →
      L.EqualFold s event.PubKey = false) :
    (ValidateBlockUpdateEvent L event).Valid = false := by
  cases hv : (ValidateBlockUpdateEvent L event).Valid with
  | false => rfl
  | true =>
    obtain ⟨_, _, _, _, _, _, content, hc, _, _, _, _, _, _, s, hs, hfold, _⟩ :=
      ValidateBlockUpdateEvent_checks L event hv
    have hf := h content s hc ((asString_eq_some_iff _ _).1 hs)
    rw [hf] at hfold
    exact absurd rfl hfold

/-- Witness for C16 (amended): the Block event `blockEvent` re-issued under the pubkey `cd34`
keeps ref_node_pubkey `ab12` in its payload and is rejected. -/
theorem block_pubkey_mismatch_rejected_witness :
    (ValidateBlockUpdateEvent payloadLib { blockEvent with PubKey := "cd34" }).Valid = false :=
  block_pubkey_mismatch_rejected payloadLib { blockEvent with PubKey := "cd34" }
    (by
      intro content s hc hl
      have hc2 : some blockMap = some content := hc
      cases hc2
      have hl2 : some (JSONValue.string "ab12") = some (JSONValue.string s) := hl
      cases hl2
      decide)

/-- C17 (the code at the failing input): the Block event `driftedBlockEvent` has the d tag
`org.attnprotocol:block:870500:00ab`, the t tag value 1, the payload height 2 and the
payload hash `ffff`, and `ValidateBlockUpdateEvent` accepts it. -/
theorem block_height_not_cross_checked :
    getTagValue driftedBlockEvent "d" = "org.attnprotocol:block:870500:00ab" ∧
    Atoi (getTagValue driftedBlockEvent "t") = some 1 ∧
    payloadLib.Unmarshal driftedBlockEvent.Content = some driftedBlockMap ∧
    driftedBlockMap.lookup "height" = some (JSONValue.number 2) ∧
    driftedBlockMap.lookup "hash" = some (JSONValue.string "ffff") ∧
    ValidateBlockUpdateEvent payloadLib driftedBlockEvent
      = { Valid := true, Message := "Valid block event" } :=
  ⟨by decide, by decide, rfl, rfl, rfl, by decide⟩

/-- C18: for every Block event accepted by `ValidateBlockUpdateEvent`, the payload field
ref_block_id is a string equal to the value of the event's first d tag, the payload has
string fields hash and ref_node_pubkey, and the event has at least one p tag and at least
one r tag. -/
theorem accepted_block_payload (L : GoLib) (event : Event)
    (h : (ValidateBlockUpdateEvent L event).Valid = true) :
    ∃ content hash pk, L.Unmarshal event.Content = some content ∧
      content.lookup "ref_block_id" = some (JSONValue.string (getTagValue event "d")) ∧
      content.lookup "hash" = some (JSONValue.string hash) ∧
      content.lookup "ref_node_pubkey" = some (JSONValue.string pk) ∧
      1 ≤ (getTagValues event "p").length ∧ 1 ≤ (getTagValues event "r").length ∧
      (∃ tag ∈ event.Tags, 2 ≤ tag.length ∧ tag.getD 0 "" = "p") ∧
      (∃ tag ∈ event.Tags, 2 ≤ tag.length ∧ tag.getD 0 "" = "r") := by
  obtain ⟨_, _, _, _, hp, hr, content, hc, _, _, _, hhash, _, _, pk, hpk, _, rid, hrid, hd⟩ :=
    ValidateBlockUpdateEvent_checks L event h
  obtain ⟨hash, hhash2⟩ := asString_isSome _ hhash
  have hd2 : rid = getTagValue event "d" := by
    by_contra hne
    exact hd hne
  subst hd2
  have hp1 : 1 ≤ (getTagValues event "p").length := by omega
  have hr1 : 1 ≤ (getTagValues event "r").length := by omega
  exact ⟨content, hash, pk, hc, (asString_eq_some_iff _ _).1 hrid, hhash2,
    (asString_eq_some_iff _ _).1 hpk, hp1, hr1,
    exists_tag_of_getTagValues event "p" hp1, exists_tag_of_getTagValues event "r" hr1⟩

/-- Witness for C18: the accepted Block event `blockEvent` carries its d tag value in
ref_block_id. -/
theorem accepted_block_payload_witness :
    ∃ content hash pk, payloadLib.Unmarshal blockEvent.Content = some content ∧
      content.lookup "ref_block_id" = some (JSONValue.string (getTagValue blockEvent "d")) ∧
      content.lookup "hash" = some (JSONValue.string hash) ∧
      content.lookup "ref_node_pubkey" = some (JSONValue.string pk) ∧
      1 ≤ (getTagValues blockEvent "p").length ∧ 1 ≤ (getTagValues blockEvent "r").length ∧
      (∃ tag ∈ blockEvent.Tags, 2 ≤ tag.length ∧ tag.getD 0 "" = "p") ∧
      (∃ tag ∈ blockEvent.Tags, 2 ≤ tag.length ∧ tag.getD 0 "" = "r") :=
  accepted_block_payload payloadLib blockEvent (by decide)

/-- C19: duration ordering. For every event whose payload has min_duration > max_duration,
`ValidateMarketplaceEvent` (helpers.go and go-core) and `ValidateAttentionEvent` return a
result with Valid=false; and every event accepted by one of the three has numeric
min_duration and max_duration with 0 < min_duration <= max_duration. -/
theorem duration_ordering (L : GoLib) (event : Event) :
    (∀ content (minDur maxDur : Rat), L.Unmarshal event.Content = some content →
      content.lookup "min_duration" = some (JSONValue.number minDur) →
      content.lookup "max_duration" = some (JSONValue.number maxDur) →
      minDur > maxDur →
      (∃ r, ValidateMarketplaceEvent L event = some r ∧ r.Valid = false) ∧
      (∃ r, GoCore.ValidateMarketplaceEvent L event = some r ∧ r.Valid = false) ∧
      (∃ r, ValidateAttentionEvent L event = some r ∧ r.Valid = false)) ∧
    (∀ r, (ValidateMarketplaceEvent L event = some r ∨
        GoCore.ValidateMarketplaceEvent L event = some r ∨
        ValidateAttentionEvent L event = some r) → r.Valid = true →
      ∃ (content : JSONObject) (minDur maxDur : Rat), L.Unmarshal event.Content = some content ∧
        content.lookup "min_duration" = some (JSONValue.number minDur) ∧
        content.lookup "max_duration" = some (JSONValue.number maxDur) ∧
        0 < minDur ∧ minDur ≤ maxDur) := by
  have key : ∀ r, (ValidateMarketplaceEvent L event = some r ∨
        GoCore.ValidateMarketplaceEvent L event = some r ∨
        ValidateAttentionEvent L event = some r) → r.Valid = true →
      ∃ (content : JSONObject) (minDur maxDur : Rat), L.Unmarshal event.Content = some content ∧
        content.lookup "min_duration" = some (JSONValue.number minDur) ∧
        content.lookup "max_duration" = some (JSONValue.number maxDur) ∧
        0 < minDur ∧ minDur ≤ maxDur := by
    intro r hcase hr
    rcases hcase with hv | hv | hv
    · obtain ⟨_, _, _, _, _, _, _, _, _, content, hc, _, hmin, _, mn, hmn, mx, hmx, hle, _⟩ :=
        ValidateMarketplaceEvent_checks L event r hv hr
      obtain ⟨x, hx, hpos⟩ := positive_of_not_notPositive _ hmin
      have hmn2 := (asFloat_eq_some_iff _ _).1 hmn
      have hxe : x = mn := by
        rw [hx] at hmn2
        simpa using hmn2
      subst hxe
      exact ⟨content, x, mx, hc, hmn2, (asFloat_eq_some_iff _ _).1 hmx, hpos, not_lt.1 hle⟩
    · obtain ⟨_, _, _, _, _, _, _, _, _, content, hc, _, _, hmin, _, mn, hmn, mx, hmx, hle, _⟩ :=
        GoCore_ValidateMarketplaceEvent_checks L event r hv hr
      obtain ⟨x, hx, hpos⟩ := positive_of_not_notPositive _ hmin
      have hmn2 := (asFloat_eq_some_iff _ _).1 hmn
      have hxe : x = mn := by
        rw [hx] at hmn2
        simpa using hmn2
      subst hxe
      exact ⟨content, x, mx, hc, hmn2, (asFloat_eq_some_iff _ _).1 hmx, hpos, not_lt.1 hle⟩
    · obtain ⟨_, _, _, _, _, _, _, _, _, _, _, content, hc, _, _, _, _, hmin, _, mn, hmn, mx,
        hmx, hle⟩ := ValidateAttentionEvent_checks L event r hv hr
      obtain ⟨x, hx, hpos⟩ := positive_of_not_notPositive _ hmin
      have hmn2 := (asFloat_eq_some_iff _ _).1 hmn
      have hxe : x = mn := by
        rw [hx] at hmn2
        simpa using hmn2
      subst hxe
      exact ⟨content, x, mx, hc, hmn2, (asFloat_eq_some_iff _ _).1 hmx, hpos, not_lt.1 hle⟩
  refine ⟨?_, key⟩
  intro content minDur maxDur hc hmin hmax hgt
  have reject : ∀ r, (ValidateMarketplaceEvent L event = some r ∨
        GoCore.ValidateMarketplaceEvent L event = some r ∨
        ValidateAttentionEvent L event = some r) → r.Valid = false := by
    intro r hcase
    cases hr : r.Valid with
    | false => rfl
    | true =>
      obtain ⟨content2, mn, mx, hc2, hmn, hmx, _, hle⟩ := key r hcase hr
      rw [hc] at hc2
      cases hc2
      rw [hmin] at hmn
      rw [hmax] at hmx
      cases hmn
      cases hmx
      exact absurd hgt (not_lt.2 hle)
  obtain ⟨r1, h1⟩ := ValidateMarketplaceEvent_total L event
  obtain ⟨r2, h2⟩ := GoCore_ValidateMarketplaceEvent_total L event
  obtain ⟨r3, h3⟩ := ValidateAttentionEvent_total L event
  exact ⟨⟨r1, h1, reject r1 (Or.inl h1)⟩, ⟨r2, h2, reject r2 (Or.inr (Or.inl h2))⟩,
    ⟨r3, h3, reject r3 (Or.inr (Or.inr h3))⟩⟩

/-- Witness for C19: the Marketplace event `swappedDurationsEvent` has min_duration 30 and
max_duration 20 and is rejected. -/
theorem duration_ordering_witness :
    ∃ r, ValidateMarketplaceEvent payloadLib swappedDurationsEvent = some r ∧ r.Valid = false :=
  ((duration_ordering payloadLib swappedDurationsEvent).1 swappedDurationsMap 30 20
    rfl rfl rfl (by decide)).1

/-- C20: sign rules. Every accepted event has its positivity-required payload fields as
numbers > 0 (bid and duration for Promotion, ask for Attention, sats_received for Attention
Payment Confirmation) and its fee fields as numbers >= 0 (match_fee_sats and
confirmation_fee_sats for Marketplace, confirmation_fee_sats for Billboard); a
positivity-required field that is not a number > 0 (0, a negative number, a string such as
"10") makes the event invalid, while fees of exactly 0 do not: Billboard acceptance is
characterised with the fee condition `0 <= fee`, and a Marketplace event that passes the
other checks is accepted for any fees >= 0. -/
theorem sign_rules (L : GoLib) (event : Event) :
    ((ValidatePromotionEvent L event).Valid = true →
      ∃ (content : JSONObject) (bid duration : Rat),
        L.Unmarshal event.Content = some content ∧
        content.lookup "bid" = some (JSONValue.number bid) ∧ 0 < bid ∧
        content.lookup "duration" = some (JSONValue.number duration) ∧ 0 < duration) ∧
    (∀ r, ValidateAttentionEvent L event = some r → r.Valid = true →
      ∃ (content : JSONObject) (ask : Rat), L.Unmarshal event.Content = some content ∧
        content.lookup "ask" = some (JSONValue.number ask) ∧ 0 < ask) ∧
    ((ValidateAttentionPaymentConfirmationEvent L event).Valid = true →
      ∃ (content : JSONObject) (sats : Rat), L.Unmarshal event.Content = some content ∧
        content.lookup "sats_received" = some (JSONValue.number sats) ∧ 0 < sats) ∧
    (∀ r, (ValidateMarketplaceEvent L event = some r ∨
        GoCore.ValidateMarketplaceEvent L event = some r) → r.Valid = true →
      ∃ (content : JSONObject) (matchFee confFee : Rat),
        L.Unmarshal event.Content = some content ∧
        content.lookup "match_fee_sats" = some (JSONValue.number matchFee) ∧ 0 ≤ matchFee ∧
        content.lookup "confirmation_fee_sats" = some (JSONValue.number confFee) ∧
        0 ≤ confFee) ∧
    (∀ content, L.Unmarshal event.Content = some content →
      (((¬ ∃ x : Rat, content.lookup "bid" = some (JSONValue.number x) ∧ 0 < x) ∨
          (¬ ∃ x : Rat, content.lookup "duration" = some (JSONValue.number x) ∧ 0 < x)) →
        (ValidatePromotionEvent L event).Valid = false) ∧
      ((¬ ∃ x : Rat, content.lookup "ask" = some (JSONValue.number x) ∧ 0 < x) →
        ∃ r, ValidateAttentionEvent L event = some r ∧ r.Valid = false) ∧
      ((¬ ∃ x : Rat, content.lookup "sats_received" = some (JSONValue.number x) ∧ 0 < x) →
        (ValidateAttentionPaymentConfirmationEvent L event).Valid = false)) ∧
    ((ValidateBillboardEvent L event).Valid = true ↔
      (∃ id : String, id ≠ "" ∧ getTagValue event "d" = "org.attnprotocol:billboard:" ++ id) ∧
      (∃ n, Atoi (getTagValue event "t") = some n) ∧
      validateCoordinateFormat (getTagValueByPrefix event "a" "38188:") 38188 = .ok () ∧
      2 ≤ (getTagValues event "p").length ∧ 1 ≤ (getTagValues event "r").length ∧
      getTagValue event "k" ≠ "" ∧ getTagValue event "u" ≠ "" ∧
      ∃ (content : JSONObject) (fee : Rat), L.Unmarshal event.Content = some content ∧
        (∀ f ∈ ["name", "confirmation_fee_sats", "ref_billboard_pubkey", "ref_billboard_id",
            "ref_marketplace_pubkey", "ref_marketplace_id"], ∃ v, content.lookup f = some v) ∧
        content.lookup "confirmation_fee_sats" = some (JSONValue.number fee) ∧ 0 ≤ fee) ∧
    (∀ (id : String) (n : Int) (content : JSONObject) (minDur maxDur matchFee confFee : Rat),
      getTagValue event "d" = "org.attnprotocol:marketplace:" ++ id → id ≠ "" →
      Atoi (getTagValue event "t") = some n →
      validateCoordinateFormat (getTagValueByPrefix event "a" "38088:") 38088 = .ok () →
      1 ≤ (getTagValues event "k").length → 2 ≤ (getTagValues event "p").length →
      1 ≤ (getTagValues event "r").length →
      L.Unmarshal event.Content = some content →
      (∀ f ∈ ["name", "description", "admin_pubkey", "min_duration", "max_duration",
          "match_fee_sats", "confirmation_fee_sats", "ref_marketplace_pubkey",
          "ref_marketplace_id", "ref_node_pubkey", "ref_block_id"],
        ∃ v, content.lookup f = some v) →
      content.lookup "min_duration" = some (JSONValue.number minDur) →
      content.lookup "max_duration" = some (JSONValue.number maxDur) →
      0 < minDur → 0 < maxDur → minDur ≤ maxDur →
      content.lookup "match_fee_sats" = some (JSONValue.number matchFee) →
      content.lookup "confirmation_fee_sats" = some (JSONValue.number confFee) →
      0 ≤ matchFee → 0 ≤ confFee →
      ValidateMarketplaceEvent L event
        = some { Valid := true, Message := "Valid marketplace event" }) := by
  have hpromo : (ValidatePromotionEvent L event).Valid = true →
      ∃ (content : JSONObject) (bid duration : Rat),
        L.Unmarshal event.Content = some content ∧
        content.lookup "bid" = some (JSONValue.number bid) ∧ 0 < bid ∧
        content.lookup "duration" = some (JSONValue.number duration) ∧ 0 < duration := by
    intro h
    obtain ⟨_, _, _, _, _, _, _, _, _, _, _, _, _, _, content, hc, _, _, _, _, hbid, hdur⟩ :=
      ValidatePromotionEvent_checks L event h
    obtain ⟨b, hb, hbpos⟩ := positive_of_not_notPositive _ hbid
    obtain ⟨d, hd, hdpos⟩ := positive_of_not_notPositive _ hdur
    exact ⟨content, b, d, hc, hb, hbpos, hd, hdpos⟩
  have hatt : ∀ r, ValidateAttentionEvent L event = some r → r.Valid = true →
      ∃ (content : JSONObject) (ask : Rat), L.Unmarshal event.Content = some content ∧
        content.lookup "ask" = some (JSONValue.number ask) ∧ 0 < ask := by
    intro r hv hr
    obtain ⟨_, _, _, _, _, _, _, _, _, _, _, content, hc, _, _, _, hask, _⟩ :=
      ValidateAttentionEvent_checks L event r hv hr
    obtain ⟨a, ha, hapos⟩ := positive_of_not_notPositive _ hask
    exact ⟨content, a, hc, ha, hapos⟩
  have hapc : (ValidateAttentionPaymentConfirmationEvent L event).Valid = true →
      ∃ (content : JSONObject) (sats : Rat), L.Unmarshal event.Content = some content ∧
        content.lookup "sats_received" = some (JSONValue.number sats) ∧ 0 < sats := by
    intro h
    obtain ⟨_, _, _, _, _, _, _, _, _, _, _, _, _, _, _, _, _, content, hc, _, hs⟩ :=
      ValidateAttentionPaymentConfirmationEvent_checks L event h
    obtain ⟨x, hx, hxpos⟩ := positive_of_not_notPositive _ hs
    exact ⟨content, x, hc, hx, hxpos⟩
  refine ⟨hpromo, hatt, hapc, ?_, ?_, ?_, ?_⟩
  · intro r hcase hr
    rcases hcase with hv | hv
    · obtain ⟨_, _, _, _, _, _, _, _, _, content, hc, _, _, _, _, _, _, _, _, hmf, hcf⟩ :=
        ValidateMarketplaceEvent_checks L event r hv hr
      obtain ⟨m, hm, hmpos⟩ := nonneg_of_not_isNegative _ hmf
      obtain ⟨c, hc2, hcpos⟩ := nonneg_of_not_isNegative _ hcf
      exact ⟨content, m, c, hc, hm, hmpos, hc2, hcpos⟩
    · obtain ⟨_, _, _, _, _, _, _, _, _, content, hc, _, _, _, _, _, _, _, _, _, hmf, hcf⟩ :=
        GoCore_ValidateMarketplaceEvent_checks L event r hv hr
      obtain ⟨m, hm, hmpos⟩ := nonneg_of_not_isNegative _ hmf
      obtain ⟨c, hc2, hcpos⟩ := nonneg_of_not_isNegative _ hcf
      exact ⟨content, m, c, hc, hm, hmpos, hc2, hcpos⟩
  · intro content hc
    refine ⟨?_, ?_, ?_⟩
    · intro hbad
      cases hv : (ValidatePromotionEvent L event).Valid with
      | false => rfl
      | true =>
        obtain ⟨content2, b, d, hc2, hb, hbpos, hd, hdpos⟩ := hpromo hv
        rw [hc] at hc2
        cases hc2
        rcases hbad with hn | hn
        · exact absurd ⟨b, hb, hbpos⟩ hn
        · exact absurd ⟨d, hd, hdpos⟩ hn
    · intro hbad
      obtain ⟨r, hv⟩ := ValidateAttentionEvent_total L event
      refine ⟨r, hv, ?_⟩
      cases hr : r.Valid with
      | false => rfl
      | true =>
        obtain ⟨content2, a, hc2, ha, hapos⟩ := hatt r hv hr
        rw [hc] at hc2
        cases hc2
        exact absurd ⟨a, ha, hapos⟩ hbad
    · intro hbad
      cases hv : (ValidateAttentionPaymentConfirmationEvent L event).Valid with
      | false => rfl
      | true =>
        obtain ⟨content2, x, hc2, hx, hxpos⟩ := hapc hv
        rw [hc] at hc2
        cases hc2
        exact absurd ⟨x, hx, hxpos⟩ hbad
  · constructor
    · intro h
      obtain ⟨_, hfmt, _, hat, _, hco, hp, hr, hk, hu, content, hc, hfields, hfee⟩ :=
        ValidateBillboardEvent_checks L event h
      obtain ⟨fee, hfee2, hfeepos⟩ := nonneg_of_not_isNegative _ hfee
      exact ⟨dTag_literal_of_ok 38288 "billboard" "org.attnprotocol:billboard:" _
          (by decide) (by decide) hfmt,
        Atoi_isSome _ hat, hco, by omega, by omega, hk, hu, content, fee, hc,
        (firstMissingField_eq_none_iff _ _).1 hfields, hfee2, hfeepos⟩
    · rintro ⟨⟨id, hid, hd⟩, ⟨n, hn⟩, hco, hp, hr, hk, hu, content, fee, hc, hfields, hfee,
        hfeepos⟩
      have hw := dTag_ok_of_literal 38288 "billboard" "org.attnprotocol:billboard:" id
        (getTagValue event "d") (by decide) (by decide) hid hd
      rw [ValidateBillboardEvent_accepts L event hw.2 hw.1 (Atoi_ne_empty _ n hn)
        (Atoi_not_isNone _ n hn) (coordinate_ne_empty _ _ hco) hco (by omega) (by omega) hk hu
        content hc ((firstMissingField_eq_none_iff _ _).2 hfields)
        (not_isNegative_of_nonneg _ fee hfee hfeepos)]
  · intro id n content minDur maxDur matchFee confFee hd hid hn hco hk hp hr hc hfields hmin hmax
      hminpos hmaxpos hle hmf hcf hmfpos hcfpos
    have hw := dTag_ok_of_literal 38188 "marketplace" "org.attnprotocol:marketplace:" id
      (getTagValue event "d") (by decide) (by decide) hid hd
    exact ValidateMarketplaceEvent_accepts L event hw.2 hw.1 (Atoi_ne_empty _ n hn)
      (Atoi_not_isNone _ n hn) (coordinate_ne_empty _ _ hco) hco (by omega) (by omega)
      (by omega) content hc ((firstMissingField_eq_none_iff _ _).2 hfields)
      (not_notPositive_of_positive _ minDur hmin hminpos)
      (not_notPositive_of_positive _ maxDur hmax hmaxpos)
      minDur ((asFloat_eq_some_iff _ _).2 hmin) maxDur ((asFloat_eq_some_iff _ _).2 hmax)
      (not_lt.2 hle) (not_isNegative_of_nonneg _ matchFee hmf hmfpos)
      (not_isNegative_of_nonneg _ confFee hcf hcfpos)

/-- Witness for C20: the Promotion event `stringBidEvent`, whose bid is the string "10", is
rejected, and the Billboard event `freeBillboardEvent`, whose fee is exactly 0, is accepted. -/
theorem sign_rules_witness :
    (ValidatePromotionEvent payloadLib stringBidEvent).Valid = false ∧
    (ValidateBillboardEvent payloadLib freeBillboardEvent).Valid = true :=
  ⟨((sign_rules payloadLib stringBidEvent).2.2.2.2.1 stringBidMap rfl).1
      (Or.inl (by
        rintro ⟨x, hx, _⟩
        have hx2 : some (JSONValue.string "10") = some (JSONValue.number x) := hx
        cases hx2)),
   (sign_rules payloadLib freeBillboardEvent).2.2.2.2.2.1.2
      ⟨⟨"b1", by decide, by decide⟩, ⟨870500, by decide⟩, by decide, by decide, by decide,
        by decide, by decide, freeBillboardMap, 0, rfl,
        (firstMissingField_eq_none_iff _ _).1 (by decide), rfl, by decide⟩⟩

/-- C21: required-field fail-fast. For each per-kind validator with a required-field list
(Marketplace in both packages, Billboard, Promotion, Attention, Match, the three
confirmations, Attention Payment Confirmation): an event that passes all tag checks of the
validator and whose content decodes to an object lacking a required field is rejected with
exactly "Content must include <f>", `f` being the first missing field in the listed order,
whatever the values of the other fields; and an event whose decoded content lacks any
required field is never accepted. -/
theorem required_field_fail_fast (L : GoLib) (event : Event) (content : JSONObject)
    (hc : L.Unmarshal event.Content = some content) :
    (((∃ id : String, id ≠ "" ∧
        getTagValue event "d" = "org.attnprotocol:marketplace:" ++ id) ∧
      (∃ n, Atoi (getTagValue event "t") = some n) ∧
      validateCoordinateFormat (getTagValueByPrefix event "a" "38088:") 38088 = .ok () ∧
      1 ≤ (getTagValues event "k").length ∧
      2 ≤ (getTagValues event "p").length ∧
      1 ≤ (getTagValues event "r").length) →
      ∀ f before after,
        ["name", "description", "admin_pubkey", "min_duration", "max_duration",
          "match_fee_sats", "confirmation_fee_sats", "ref_marketplace_pubkey",
          "ref_marketplace_id", "ref_node_pubkey", "ref_block_id"] = before ++ f :: after →
        (∀ g ∈ before, ∃ v, content.lookup g = some v) → content.lookup f = none →
        ValidateMarketplaceEvent L event = some { Valid := false, Message := "Content must include " ++ f }) ∧
    (∀ f ∈ ["name", "description", "admin_pubkey", "min_duration", "max_duration",
          "match_fee_sats", "confirmation_fee_sats", "ref_marketplace_pubkey",
          "ref_marketplace_id", "ref_node_pubkey", "ref_block_id"],
      content.lookup f = none → ∃ r, ValidateMarketplaceEvent L event = some r ∧ r.Valid = false) ∧
    (((∃ id : String, id ≠ "" ∧
        getTagValue event "d" = "org.attnprotocol:marketplace:" ++ id) ∧
      (∃ n, Atoi (getTagValue event "t") = some n) ∧
      validateCoordinateFormat (getTagValueByPrefix event "a" "38808:") 38808 = .ok () ∧
      1 ≤ (getTagValues event "k").length ∧
      2 ≤ (getTagValues event "p").length ∧
      1 ≤ (getTagValues event "r").length) →
      ∀ f before after,
        ["name", "description", "admin_pubkey", "min_duration", "max_duration",
          "match_fee_sats", "confirmation_fee_sats", "ref_marketplace_pubkey",
          "ref_marketplace_id", "ref_clock_pubkey", "ref_block_id", "billboard_count",
          "promotion_count", "attention_count", "match_count"] = before ++ f :: after →
        (∀ g ∈ before, ∃ v, content.lookup g = some v) → content.lookup f = none →
        GoCore.ValidateMarketplaceEvent L event = some { Valid := false, Message := "Content must include " ++ f }) ∧
    (∀ f ∈ ["name", "description", "admin_pubkey", "min_duration", "max_duration",
          "match_fee_sats", "confirmation_fee_sats", "ref_marketplace_pubkey",
          "ref_marketplace_id", "ref_clock_pubkey", "ref_block_id", "billboard_count",
          "promotion_count", "attention_count", "match_count"],
      content.lookup f = none → ∃ r, GoCore.ValidateMarketplaceEvent L event = some r ∧ r.Valid = false) ∧
    (((∃ id : String, id ≠ "" ∧
        getTagValue event "d" = "org.attnprotocol:billboard:" ++ id) ∧
      (∃ n, Atoi (getTagValue event "t") = some n) ∧
      validateCoordinateFormat (getTagValueByPrefix event "a" "38188:") 38188 = .ok () ∧
      2 ≤ (getTagValues event "p").length ∧
      1 ≤ (getTagValues event "r").length ∧
      getTagValue event "k" ≠ "" ∧
      getTagValue event "u" ≠ "") →
      ∀ f before after,
        ["name", "confirmation_fee_sats", "ref_billboard_pubkey", "ref_billboard_id",
          "ref_marketplace_pubkey", "ref_marketplace_id"] = before ++ f :: after →
        (∀ g ∈ before, ∃ v, content.lookup g = some v) → content.lookup f = none →
        ValidateBillboardEvent L event = { Valid := false, Message := "Content must include " ++ f }) ∧
    (∀ f ∈ ["name", "confirmation_fee_sats", "ref_billboard_pubkey", "ref_billboard_id",
          "ref_marketplace_pubkey", "ref_marketplace_id"],
      content.lookup f = none → (ValidateBillboardEvent L event).Valid = false) ∧
    (((∃ id : String, id ≠ "" ∧
        getTagValue event "d" = "org.attnprotocol:promotion:" ++ id) ∧
      (∃ n, Atoi (getTagValue event "t") = some n) ∧
      validateCoordinateFormat (getTagValueByPrefix event "a" "38188:") 38188 = .ok () ∧
      getTagValueByPrefix event "a" "34236:" ≠ "" ∧
      Contains (getTagValueByPrefix event "a" "34236:") "org.attnprotocol:" = false ∧
      validateCoordinateFormat (getTagValueByPrefix event "a" "38288:") 38288 = .ok () ∧
      3 ≤ (getTagValues event "p").length ∧
      1 ≤ (getTagValues event "r").length ∧
      getTagValue event "k" ≠ "" ∧
      getTagValue event "u" ≠ "") →
      ∀ f before after,
        ["duration", "bid", "event_id", "call_to_action", "call_to_action_url",
          "escrow_id_list", "ref_promotion_pubkey", "ref_promotion_id", "ref_marketplace_pubkey",
          "ref_marketplace_id", "ref_billboard_pubkey", "ref_billboard_id"] = before ++ f :: after →
        (∀ g ∈ before, ∃ v, content.lookup g = some v) → content.lookup f = none →
        ValidatePromotionEvent L event = { Valid := false, Message := "Content must include " ++ f }) ∧
    (∀ f ∈ ["duration", "bid", "event_id", "call_to_action", "call_to_action_url",
          "escrow_id_list", "ref_promotion_pubkey", "ref_promotion_id", "ref_marketplace_pubkey",
          "ref_marketplace_id", "ref_billboard_pubkey", "ref_billboard_id"],
      content.lookup f = none → (ValidatePromotionEvent L event).Valid = false) ∧
    (((∃ id : String, id ≠ "" ∧
        getTagValue event "d" = "org.attnprotocol:attention:" ++ id) ∧
      (∃ n, Atoi (getTagValue event "t") = some n) ∧
      validateCoordinateFormat (getTagValueByPrefix event "a" "38188:") 38188 = .ok () ∧
      hasListCoordinate event "org.attnprotocol:promotion:blocked" = true ∧
      hasListCoordinate event "org.attnprotocol:promoter:blocked" = true ∧
      2 ≤ (getTagValues event "p").length ∧
      1 ≤ (getTagValues event "r").length ∧
      1 ≤ (getTagValues event "k").length) →
      ∀ f before after,
        ["ask", "min_duration", "max_duration", "ref_attention_pubkey", "ref_attention_id",
          "ref_marketplace_pubkey", "ref_marketplace_id", "blocked_promotions_id",
          "blocked_promoters_id"] = before ++ f :: after →
        (∀ g ∈ before, ∃ v, content.lookup g = some v) → content.lookup f = none →
        ValidateAttentionEvent L event = some { Valid := false, Message := "Content must include " ++ f }) ∧
    (∀ f ∈ ["ask", "min_duration", "max_duration", "ref_attention_pubkey", "ref_attention_id",
          "ref_marketplace_pubkey", "ref_marketplace_id", "blocked_promotions_id",
          "blocked_promoters_id"],
      content.lookup f = none → ∃ r, ValidateAttentionEvent L event = some r ∧ r.Valid = false) ∧
    (((∃ id : String, id ≠ "" ∧
        getTagValue event "d" = "org.attnprotocol:match:" ++ id) ∧
      (∃ n, Atoi (getTagValue event "t") = some n) ∧
      validateCoordinateFormat (getTagValueByPrefix event "a" "38188:") 38188 = .ok () ∧
      validateCoordinateFormat (getTagValueByPrefix event "a" "38288:") 38288 = .ok () ∧
      validateCoordinateFormat (getTagValueByPrefix event "a" "38388:") 38388 = .ok () ∧
      validateCoordinateFormat (getTagValueByPrefix event "a" "38488:") 38488 = .ok () ∧
      4 ≤ (getTagValues event "p").length ∧
      1 ≤ (getTagValues event "r").length ∧
      1 ≤ (getTagValues event "k").length) →
      ∀ f before after,
        ["ref_match_id", "ref_promotion_id", "ref_attention_id", "ref_billboard_id",
          "ref_marketplace_id", "ref_marketplace_pubkey", "ref_promotion_pubkey",
          "ref_attention_pubkey", "ref_billboard_pubkey"] = before ++ f :: after →
        (∀ g ∈ before, ∃ v, content.lookup g = some v) → content.lookup f = none →
        ValidateMatchEvent L event = { Valid := false, Message := "Content must include " ++ f }) ∧
    (∀ f ∈ ["ref_match_id", "ref_promotion_id", "ref_attention_id", "ref_billboard_id",
          "ref_marketplace_id", "ref_marketplace_pubkey", "ref_promotion_pubkey",
          "ref_attention_pubkey", "ref_billboard_pubkey"],
      content.lookup f = none → (ValidateMatchEvent L event).Valid = false) ∧
    (((∃ id : String, id ≠ "" ∧
        getTagValue event "d" = "org.attnprotocol:billboard-confirmation:" ++ id) ∧
      (∃ n, Atoi (getTagValue event "t") = some n) ∧
      validateCoordinateFormat (getTagValueByPrefix event "a" "38188:") 38188 = .ok () ∧
      validateCoordinateFormat (getTagValueByPrefix event "a" "38288:") 38288 = .ok () ∧
      validateCoordinateFormat (getTagValueByPrefix event "a" "38388:") 38388 = .ok () ∧
      validateCoordinateFormat (getTagValueByPrefix event "a" "38488:") 38488 = .ok () ∧
      validateCoordinateFormat (getTagValueByPrefix event "a" "38888:") 38888 = .ok () ∧
      validateETagWithMarker event "match" = true ∧
      5 ≤ (getTagValues event "e").length ∧
      4 ≤ (getTagValues event "p").length ∧
      1 ≤ (getTagValues event "r").length) →
      ∀ f before after,
        ["ref_match_event_id", "ref_match_id", "ref_marketplace_pubkey",
          "ref_billboard_pubkey", "ref_promotion_pubkey", "ref_attention_pubkey",
          "ref_marketplace_id", "ref_billboard_id", "ref_promotion_id", "ref_attention_id"] = before ++ f :: after →
        (∀ g ∈ before, ∃ v, content.lookup g = some v) → content.lookup f = none →
        ValidateBillboardConfirmationEvent L event = { Valid := false, Message := "Content must include " ++ f }) ∧
    (∀ f ∈ ["ref_match_event_id", "ref_match_id", "ref_marketplace_pubkey",
          "ref_billboard_pubkey", "ref_promotion_pubkey", "ref_attention_pubkey",
          "ref_marketplace_id", "ref_billboard_id", "ref_promotion_id", "ref_attention_id"],
      content.lookup f = none → (ValidateBillboardConfirmationEvent L event).Valid = false) ∧
    (((∃ id : String, id ≠ "" ∧
        getTagValue event "d" = "org.attnprotocol:attention-confirmation:" ++ id) ∧
      (∃ n, Atoi (getTagValue event "t") = some n) ∧
      validateCoordinateFormat (getTagValueByPrefix event "a" "38188:") 38188 = .ok () ∧
      validateCoordinateFormat (getTagValueByPrefix event "a" "38288:") 38288 = .ok () ∧
      validateCoordinateFormat (getTagValueByPrefix event "a" "38388:") 38388 = .ok () ∧
      validateCoordinateFormat (getTagValueByPrefix event "a" "38488:") 38488 = .ok () ∧
      validateCoordinateFormat (getTagValueByPrefix event "a" "38888:") 38888 = .ok () ∧
      validateETagWithMarker event "match" = true ∧
      5 ≤ (getTagValues event "e").length ∧
      4 ≤ (getTagValues event "p").length ∧
      1 ≤ (getTagValues event "r").length) →
      ∀ f before after,
        ["ref_match_event_id", "ref_match_id", "ref_marketplace_pubkey",
          "ref_billboard_pubkey", "ref_promotion_pubkey", "ref_attention_pubkey",
          "ref_marketplace_id", "ref_billboard_id", "ref_promotion_id", "ref_attention_id"] = before ++ f :: after →
        (∀ g ∈ before, ∃ v, content.lookup g = some v) → content.lookup f = none →
        ValidateAttentionConfirmationEvent L event = { Valid := false, Message := "Content must include " ++ f }) ∧
    (∀ f ∈ ["ref_match_event_id", "ref_match_id", "ref_marketplace_pubkey",
          "ref_billboard_pubkey", "ref_promotion_pubkey", "ref_attention_pubkey",
          "ref_marketplace_id", "ref_billboard_id", "ref_promotion_id", "ref_attention_id"],
      content.lookup f = none → (ValidateAttentionConfirmationEvent L event).Valid = false) ∧
    (((∃ id : String, id ≠ "" ∧
        getTagValue event "d" = "org.attnprotocol:marketplace-confirmation:" ++ id) ∧
      (∃ n, Atoi (getTagValue event "t") = some n) ∧
      validateCoordinateFormat (getTagValueByPrefix event "a" "38188:") 38188 = .ok () ∧
      validateCoordinateFormat (getTagValueByPrefix event "a" "38288:") 38288 = .ok () ∧
      validateCoordinateFormat (getTagValueByPrefix event "a" "38388:") 38388 = .ok () ∧
      validateCoordinateFormat (getTagValueByPrefix event "a" "38488:") 38488 = .ok () ∧
      validateCoordinateFormat (getTagValueByPrefix event "a" "38888:") 38888 = .ok () ∧
      validateETagWithMarker event "match" = true ∧
      validateETagWithMarker event "billboard_confirmation" = true ∧
      validateETagWithMarker event "attention_confirmation" = true ∧
      7 ≤ (getTagValues event "e").length ∧
      4 ≤ (getTagValues event "p").length ∧
      1 ≤ (getTagValues event "r").length) →
      ∀ f before after,
        ["ref_match_event_id", "ref_match_id", "ref_billboard_confirmation_event_id",
          "ref_attention_confirmation_event_id", "ref_marketplace_pubkey",
          "ref_billboard_pubkey", "ref_promotion_pubkey", "ref_attention_pubkey",
          "ref_marketplace_id", "ref_billboard_id", "ref_promotion_id", "ref_attention_id"] = before ++ f :: after →
        (∀ g ∈ before, ∃ v, content.lookup g = some v) → content.lookup f = none →
        ValidateMarketplaceConfirmationEvent L event = { Valid := false, Message := "Content must include " ++ f }) ∧
    (∀ f ∈ ["ref_match_event_id", "ref_match_id", "ref_billboard_confirmation_event_id",
          "ref_attention_confirmation_event_id", "ref_marketplace_pubkey",
          "ref_billboard_pubkey", "ref_promotion_pubkey", "ref_attention_pubkey",
          "ref_marketplace_id", "ref_billboard_id", "ref_promotion_id", "ref_attention_id"],
      content.lookup f = none → (ValidateMarketplaceConfirmationEvent L event).Valid = false) ∧
    (((∃ id : String, id ≠ "" ∧
        getTagValue event "d" = "org.attnprotocol:attention-payment-confirmation:" ++ id) ∧
      (∃ n, Atoi (getTagValue event "t") = some n) ∧
      validateETagWithMarker event "marketplace_confirmation" = true ∧
      validateCoordinateFormat (getTagValueByPrefix event "a" "38188:") 38188 = .ok () ∧
      validateCoordinateFormat (getTagValueByPrefix event "a" "38288:") 38288 = .ok () ∧
      validateCoordinateFormat (getTagValueByPrefix event "a" "38388:") 38388 = .ok () ∧
      validateCoordinateFormat (getTagValueByPrefix event "a" "38488:") 38488 = .ok () ∧
      validateCoordinateFormat (getTagValueByPrefix event "a" "38888:") 38888 = .ok () ∧
      4 ≤ (getTagValues event "p").length ∧
      1 ≤ (getTagValues event "r").length) →
      ∀ f before after,
        ["sats_received", "ref_match_event_id", "ref_match_id",
          "ref_marketplace_confirmation_event_id", "ref_marketplace_pubkey",
          "ref_billboard_pubkey", "ref_promotion_pubkey", "ref_attention_pubkey",
          "ref_marketplace_id", "ref_billboard_id", "ref_promotion_id", "ref_attention_id"] = before ++ f :: after →
        (∀ g ∈ before, ∃ v, content.lookup g = some v) → content.lookup f = none →
        ValidateAttentionPaymentConfirmationEvent L event = { Valid := false, Message := "Content must include " ++ f }) ∧
    (∀ f ∈ ["sats_received", "ref_match_event_id", "ref_match_id",
          "ref_marketplace_confirmation_event_id", "ref_marketplace_pubkey",
          "ref_billboard_pubkey", "ref_promotion_pubkey", "ref_attention_pubkey",
          "ref_marketplace_id", "ref_billboard_id", "ref_promotion_id", "ref_attention_id"],
      content.lookup f = none → (ValidateAttentionPaymentConfirmationEvent L event).Valid = false) := by
  refine ⟨?_, ?_, ?_, ?_, ?_, ?_, ?_, ?_, ?_, ?_, ?_, ?_, ?_, ?_, ?_, ?_, ?_, ?_, ?_, ?_⟩
  · rintro ⟨⟨id, hid, hd⟩, ⟨n, hn⟩, hc38088, hnk, hnp, hnr⟩ f before after hsplit hall hnone
    have hw := dTag_ok_of_literal 38188 "marketplace" "org.attnprotocol:marketplace:" id
      (getTagValue event "d") (by decide) (by decide) hid hd
    have hf := (firstMissingField_eq_some_iff content _ f).2 ⟨before, after, hsplit, hall, hnone⟩
    exact ValidateMarketplaceEvent_missing_field L event hw.2 hw.1 (Atoi_ne_empty _ n hn) (Atoi_not_isNone _ n hn) (coordinate_ne_empty _ _ hc38088) hc38088 (Nat.pos_iff_ne_zero.1 hnk) (Nat.not_lt.2 hnp) (Nat.pos_iff_ne_zero.1 hnr)
      content hc f hf
  · intro f hmem hnone
    obtain ⟨r, hr⟩ := ValidateMarketplaceEvent_total L event
    refine ⟨r, hr, ?_⟩
    cases hvalid : r.Valid with
    | false => rfl
    | true =>
      obtain ⟨_, _, _, _, _, _, _, _, _, content2, hc2, hfm1⟩ := ValidateMarketplaceEvent_checks L event r hr hvalid
      have hnone2 : content2.lookup f = none := by
        rw [hc] at hc2
        cases hc2
        exact hnone
      exact absurd hfm1.1 (firstMissingField_ne_none content2 _ f hmem hnone2)
  · rintro ⟨⟨id, hid, hd⟩, ⟨n, hn⟩, hc38808, hnk, hnp, hnr⟩ f before after hsplit hall hnone
    have hw := dTag_ok_of_literal 38188 "marketplace" "org.attnprotocol:marketplace:" id
      (getTagValue event "d") (by decide) (by decide) hid hd
    have hf := (firstMissingField_eq_some_iff content _ f).2 ⟨before, after, hsplit, hall, hnone⟩
    have happ : firstMissingField content
        (["name", "description", "admin_pubkey", "min_duration", "max_duration",
          "match_fee_sats", "confirmation_fee_sats", "ref_marketplace_pubkey",
          "ref_marketplace_id", "ref_clock_pubkey", "ref_block_id"] ++
          ["billboard_count", "promotion_count", "attention_count", "match_count"]) = some f := hf
    rw [firstMissingField_append] at happ
    rcases option_cases (firstMissingField content
        ["name", "description", "admin_pubkey", "min_duration", "max_duration",
          "match_fee_sats", "confirmation_fee_sats", "ref_marketplace_pubkey",
          "ref_marketplace_id", "ref_clock_pubkey", "ref_block_id"]) with h1 | ⟨g1, h1⟩
    · rw [h1] at happ
      exact GoCore_ValidateMarketplaceEvent_missing_count_field L event hw.2 hw.1 (Atoi_ne_empty _ n hn) (Atoi_not_isNone _ n hn) (coordinate_ne_empty _ _ hc38808) hc38808 (Nat.pos_iff_ne_zero.1 hnk) (Nat.not_lt.2 hnp) (Nat.pos_iff_ne_zero.1 hnr)
        content hc h1 f happ
    · rw [h1] at happ
      simp only [Option.some.injEq] at happ
      subst happ
      exact GoCore_ValidateMarketplaceEvent_missing_field L event hw.2 hw.1 (Atoi_ne_empty _ n hn) (Atoi_not_isNone _ n hn) (coordinate_ne_empty _ _ hc38808) hc38808 (Nat.pos_iff_ne_zero.1 hnk) (Nat.not_lt.2 hnp) (Nat.pos_iff_ne_zero.1 hnr)
        content hc g1 h1
  · intro f hmem hnone
    obtain ⟨r, hr⟩ := GoCore_ValidateMarketplaceEvent_total L event
    refine ⟨r, hr, ?_⟩
    cases hvalid : r.Valid with
    | false => rfl
    | true =>
      obtain ⟨_, _, _, _, _, _, _, _, _, content2, hc2, hfm1, hfm2⟩ := GoCore_ValidateMarketplaceEvent_checks L event r hr hvalid
      have hnone2 : content2.lookup f = none := by
        rw [hc] at hc2
        cases hc2
        exact hnone
      have hall15 : ∀ x ∈ ["name", "description", "admin_pubkey", "min_duration", "max_duration",
          "match_fee_sats", "confirmation_fee_sats", "ref_marketplace_pubkey",
          "ref_marketplace_id", "ref_clock_pubkey", "ref_block_id", "billboard_count",
          "promotion_count", "attention_count", "match_count"],
          ∃ v, content2.lookup x = some v := by
        intro x hx
        have hx2 : x ∈ ["name", "description", "admin_pubkey", "min_duration", "max_duration",
            "match_fee_sats", "confirmation_fee_sats", "ref_marketplace_pubkey",
            "ref_marketplace_id", "ref_clock_pubkey", "ref_block_id"] ++
            ["billboard_count", "promotion_count", "attention_count", "match_count"] := hx
        rcases List.mem_append.1 hx2 with hx3 | hx3
        · exact (firstMissingField_eq_none_iff _ _).1 hfm1 x hx3
        · exact (firstMissingField_eq_none_iff _ _).1 hfm2.1 x hx3
      obtain ⟨v, hv⟩ := hall15 f hmem
      rw [hnone2] at hv
      cases hv
  · rintro ⟨⟨id, hid, hd⟩, ⟨n, hn⟩, hc38188, hnp, hnr, hvk, hvu⟩ f before after hsplit hall hnone
    have hw := dTag_ok_of_literal 38288 "billboard" "org.attnprotocol:billboard:" id
      (getTagValue event "d") (by decide) (by decide) hid hd
    have hf := (firstMissingField_eq_some_iff content _ f).2 ⟨before, after, hsplit, hall, hnone⟩
    exact ValidateBillboardEvent_missing_field L event hw.2 hw.1 (Atoi_ne_empty _ n hn) (Atoi_not_isNone _ n hn) (coordinate_ne_empty _ _ hc38188) hc38188 (Nat.not_lt.2 hnp) (Nat.pos_iff_ne_zero.1 hnr) hvk hvu
      content hc f hf
  · intro f hmem hnone
    cases hvalid : (ValidateBillboardEvent L event).Valid with
    | false => rfl
    | true =>
      obtain ⟨_, _, _, _, _, _, _, _, _, _, content2, hc2, hfm1⟩ := ValidateBillboardEvent_checks L event hvalid
      have hnone2 : content2.lookup f = none := by
        rw [hc] at hc2
        cases hc2
        exact hnone
      exact absurd hfm1.1 (firstMissingField_ne_none content2 _ f hmem hnone2)
  · rintro ⟨⟨id, hid, hd⟩, ⟨n, hn⟩, hc38188, hvideo, hclean, hc38288, hnp, hnr, hvk, hvu⟩ f before after hsplit hall hnone
    have hw := dTag_ok_of_literal 38388 "promotion" "org.attnprotocol:promotion:" id
      (getTagValue event "d") (by decide) (by decide) hid hd
    have hf := (firstMissingField_eq_some_iff content _ f).2 ⟨before, after, hsplit, hall, hnone⟩
    exact ValidatePromotionEvent_missing_field L event hw.2 hw.1 (Atoi_ne_empty _ n hn) (Atoi_not_isNone _ n hn) (coordinate_ne_empty _ _ hc38188) hc38188 hvideo (not_true_of_eq_false _ hclean) (coordinate_ne_empty _ _ hc38288) hc38288 (Nat.not_lt.2 hnp) (Nat.pos_iff_ne_zero.1 hnr) hvk hvu
      content hc f hf
  · intro f hmem hnone
    cases hvalid : (ValidatePromotionEvent L event).Valid with
    | false => rfl
    | true =>
      obtain ⟨_, _, _, _, _, _, _, _, _, _, _, _, _, _, content2, hc2, hfm1⟩ := ValidatePromotionEvent_checks L event hvalid
      have hnone2 : content2.lookup f = none := by
        rw [hc] at hc2
        cases hc2
        exact hnone
      exact absurd hfm1.1 (firstMissingField_ne_none content2 _ f hmem hnone2)
  · rintro ⟨⟨id, hid, hd⟩, ⟨n, hn⟩, hc38188, hm_promotion_blocked, hm_promoter_blocked, hnp, hnr, hnk⟩ f before after hsplit hall hnone
    have hw := dTag_ok_of_literal 38488 "attention" "org.attnprotocol:attention:" id
      (getTagValue event "d") (by decide) (by decide) hid hd
    have hf := (firstMissingField_eq_some_iff content _ f).2 ⟨before, after, hsplit, hall, hnone⟩
    exact ValidateAttentionEvent_missing_field L event hw.2 hw.1 (Atoi_ne_empty _ n hn) (Atoi_not_isNone _ n hn) (coordinate_ne_empty _ _ hc38188) hc38188 (not_not_true_of_eq_true _ hm_promotion_blocked) (not_not_true_of_eq_true _ hm_promoter_blocked) (Nat.not_lt.2 hnp) (Nat.pos_iff_ne_zero.1 hnr) (Nat.pos_iff_ne_zero.1 hnk)
      content hc f hf
  · intro f hmem hnone
    obtain ⟨r, hr⟩ := ValidateAttentionEvent_total L event
    refine ⟨r, hr, ?_⟩
    cases hvalid : r.Valid with
    | false => rfl
    | true =>
      obtain ⟨_, _, _, _, _, _, _, _, _, _, _, content2, hc2, hfm1⟩ := ValidateAttentionEvent_checks L event r hr hvalid
      have hnone2 : content2.lookup f = none := by
        rw [hc] at hc2
        cases hc2
        exact hnone
      exact absurd hfm1.1 (firstMissingField_ne_none content2 _ f hmem hnone2)
  · rintro ⟨⟨id, hid, hd⟩, ⟨n, hn⟩, hc38188, hc38288, hc38388, hc38488, hnp, hnr, hnk⟩ f before after hsplit hall hnone
    have hw := dTag_ok_of_literal 38888 "match" "org.attnprotocol:match:" id
      (getTagValue event "d") (by decide) (by decide) hid hd
    have hf := (firstMissingField_eq_some_iff content _ f).2 ⟨before, after, hsplit, hall, hnone⟩
    exact ValidateMatchEvent_missing_field L event hw.2 hw.1 (Atoi_ne_empty _ n hn) (Atoi_not_isNone _ n hn) (coordinate_ne_empty _ _ hc38188) hc38188 (coordinate_ne_empty _ _ hc38288) hc38288 (coordinate_ne_empty _ _ hc38388) hc38388 (coordinate_ne_empty _ _ hc38488) hc38488 (Nat.not_lt.2 hnp) (Nat.pos_iff_ne_zero.1 hnr) (Nat.pos_iff_ne_zero.1 hnk)
      content hc f hf
  · intro f hmem hnone
    cases hvalid : (ValidateMatchEvent L event).Valid with
    | false => rfl
    | true =>
      obtain ⟨_, _, _, _, _, _, _, _, _, _, _, _, _, _, _, content2, hc2, hfm1⟩ := ValidateMatchEvent_checks L event hvalid
      have hnone2 : content2.lookup f = none := by
        rw [hc] at hc2
        cases hc2
        exact hnone
      exact absurd hfm1 (firstMissingField_ne_none content2 _ f hmem hnone2)
  · rintro ⟨⟨id, hid, hd⟩, ⟨n, hn⟩, hc38188, hc38288, hc38388, hc38488, hc38888, hm_match, hne, hnp, hnr⟩ f before after hsplit hall hnone
    have hw := dTag_ok_of_literal 38588 "billboard-confirmation" "org.attnprotocol:billboard-confirmation:" id
      (getTagValue event "d") (by decide) (by decide) hid hd
    have hf := (firstMissingField_eq_some_iff content _ f).2 ⟨before, after, hsplit, hall, hnone⟩
    exact ValidateBillboardConfirmationEvent_missing_field L event hw.2 hw.1 (Atoi_ne_empty _ n hn) (Atoi_not_isNone _ n hn) (coordinate_ne_empty _ _ hc38188) hc38188 (coordinate_ne_empty _ _ hc38288) hc38288 (coordinate_ne_empty _ _ hc38388) hc38388 (coordinate_ne_empty _ _ hc38488) hc38488 (coordinate_ne_empty _ _ hc38888) hc38888 (not_not_true_of_eq_true _ hm_match) (Nat.not_lt.2 hne) (Nat.not_lt.2 hnp) (Nat.pos_iff_ne_zero.1 hnr)
      content hc f hf
  · intro f hmem hnone
    cases hvalid : (ValidateBillboardConfirmationEvent L event).Valid with
    | false => rfl
    | true =>
      obtain ⟨_, _, _, _, _, _, _, _, _, _, _, _, _, _, _, _, _, _, content2, hc2, hfm1⟩ := ValidateBillboardConfirmationEvent_checks L event hvalid
      have hnone2 : content2.lookup f = none := by
        rw [hc] at hc2
        cases hc2
        exact hnone
      exact absurd hfm1 (firstMissingField_ne_none content2 _ f hmem hnone2)
  · rintro ⟨⟨id, hid, hd⟩, ⟨n, hn⟩, hc38188, hc38288, hc38388, hc38488, hc38888, hm_match, hne, hnp, hnr⟩ f before after hsplit hall hnone
    have hw := dTag_ok_of_literal 38688 "attention-confirmation" "org.attnprotocol:attention-confirmation:" id
      (getTagValue event "d") (by decide) (by decide) hid hd
    have hf := (firstMissingField_eq_some_iff content _ f).2 ⟨before, after, hsplit, hall, hnone⟩
    exact ValidateAttentionConfirmationEvent_missing_field L event hw.2 hw.1 (Atoi_ne_empty _ n hn) (Atoi_not_isNone _ n hn) (coordinate_ne_empty _ _ hc38188) hc38188 (coordinate_ne_empty _ _ hc38288) hc38288 (coordinate_ne_empty _ _ hc38388) hc38388 (coordinate_ne_empty _ _ hc38488) hc38488 (coordinate_ne_empty _ _ hc38888) hc38888 (not_not_true_of_eq_true _ hm_match) (Nat.not_lt.2 hne) (Nat.not_lt.2 hnp) (Nat.pos_iff_ne_zero.1 hnr)
      content hc f hf
  · intro f hmem hnone
    cases hvalid : (ValidateAttentionConfirmationEvent L event).Valid with
    | false => rfl
    | true =>
      obtain ⟨_, _, _, _, _, _, _, _, _, _, _, _, _, _, _, _, _, _, content2, hc2, hfm1⟩ := ValidateAttentionConfirmationEvent_checks L event hvalid
      have hnone2 : content2.lookup f = none := by
        rw [hc] at hc2
        cases hc2
        exact hnone
      exact absurd hfm1 (firstMissingField_ne_none content2 _ f hmem hnone2)
  · rintro ⟨⟨id, hid, hd⟩, ⟨n, hn⟩, hc38188, hc38288, hc38388, hc38488, hc38888, hm_match, hm_billboard_confirmation, hm_attention_confirmation, hne, hnp, hnr⟩ f before after hsplit hall hnone
    have hw := dTag_ok_of_literal 38788 "marketplace-confirmation" "org.attnprotocol:marketplace-confirmation:" id
      (getTagValue event "d") (by decide) (by decide) hid hd
    have hf := (firstMissingField_eq_some_iff content _ f).2 ⟨before, after, hsplit, hall, hnone⟩
    exact ValidateMarketplaceConfirmationEvent_missing_field L event hw.2 hw.1 (Atoi_ne_empty _ n hn) (Atoi_not_isNone _ n hn) (coordinate_ne_empty _ _ hc38188) hc38188 (coordinate_ne_empty _ _ hc38288) hc38288 (coordinate_ne_empty _ _ hc38388) hc38388 (coordinate_ne_empty _ _ hc38488) hc38488 (coordinate_ne_empty _ _ hc38888) hc38888 (not_not_true_of_eq_true _ hm_match) (not_not_true_of_eq_true _ hm_billboard_confirmation) (not_not_true_of_eq_true _ hm_attention_confirmation) (Nat.not_lt.2 hne) (Nat.not_lt.2 hnp) (Nat.pos_iff_ne_zero.1 hnr)
      content hc f hf
  · intro f hmem hnone
    cases hvalid : (ValidateMarketplaceConfirmationEvent L event).Valid with
    | false => rfl
    | true =>
      obtain ⟨_, _, _, _, _, _, _, _, _, _, _, _, _, _, _, _, _, _, _, _, content2, hc2, hfm1⟩ := ValidateMarketplaceConfirmationEvent_checks L event hvalid
      have hnone2 : content2.lookup f = none := by
        rw [hc] at hc2
        cases hc2
        exact hnone
      exact absurd hfm1 (firstMissingField_ne_none content2 _ f hmem hnone2)
  · rintro ⟨⟨id, hid, hd⟩, ⟨n, hn⟩, hm_marketplace_confirmation, hc38188, hc38288, hc38388, hc38488, hc38888, hnp, hnr⟩ f before after hsplit hall hnone
    have hw := dTag_ok_of_literal 38988 "attention-payment-confirmation" "org.attnprotocol:attention-payment-confirmation:" id
      (getTagValue event "d") (by decide) (by decide) hid hd
    have hf := (firstMissingField_eq_some_iff content _ f).2 ⟨before, after, hsplit, hall, hnone⟩
    exact ValidateAttentionPaymentConfirmationEvent_missing_field L event hw.2 hw.1 (Atoi_ne_empty _ n hn) (Atoi_not_isNone _ n hn) (not_not_true_of_eq_true _ hm_marketplace_confirmation) (coordinate_ne_empty _ _ hc38188) hc38188 (coordinate_ne_empty _ _ hc38288) hc38288 (coordinate_ne_empty _ _ hc38388) hc38388 (coordinate_ne_empty _ _ hc38488) hc38488 (coordinate_ne_empty _ _ hc38888) hc38888 (Nat.not_lt.2 hnp) (Nat.pos_iff_ne_zero.1 hnr)
      content hc f hf
  · intro f hmem hnone
    cases hvalid : (ValidateAttentionPaymentConfirmationEvent L event).Valid with
    | false => rfl
    | true =>
      obtain ⟨_, _, _, _, _, _, _, _, _, _, _, _, _, _, _, _, _, content2, hc2, hfm1⟩ := ValidateAttentionPaymentConfirmationEvent_checks L event hvalid
      have hnone2 : content2.lookup f = none := by
        rw [hc] at hc2
        cases hc2
        exact hnone
      exact absurd hfm1.1 (firstMissingField_ne_none content2 _ f hmem hnone2)


/-- Witness for C21: the Promotion event `promotionNoBidEvent` passes every tag check, its
payload has duration 0 (a numeric-rule violation) and lacks bid; it is rejected with
"Content must include bid". -/
theorem required_field_fail_fast_witness :
    chainLib.Unmarshal promotionNoBidEvent.Content = some promotionNoBidMap ∧
    promotionNoBidMap.lookup "duration" = some (.number 0) ∧
    ValidatePromotionEvent chainLib promotionNoBidEvent =
      { Valid := false, Message := "Content must include bid" } :=
  ⟨rfl, rfl,
    (required_field_fail_fast chainLib promotionNoBidEvent promotionNoBidMap rfl).2.2.2.2.2.2.1
      ⟨⟨"p1", by decide, by decide⟩, ⟨870500, by decide⟩, by decide, by decide, by decide,
        by decide, by decide, by decide, by decide, by decide⟩
      "bid" ["duration"]
      ["event_id", "call_to_action", "call_to_action_url", "escrow_id_list",
        "ref_promotion_pubkey", "ref_promotion_id", "ref_marketplace_pubkey",
        "ref_marketplace_id", "ref_billboard_pubkey", "ref_billboard_id"]
      rfl
      (fun g hg => ⟨.number 0, by
        rw [List.mem_singleton] at hg
        subst hg
        rfl⟩)
      rfl⟩

/-- C22: every event accepted by `ValidatePromotionEvent` has a d tag of the form
org.attnprotocol:promotion:<id>, a t tag whose value parses as an integer, an a tag
starting with "38188:" and one starting with "38288:" that each pass
`validateCoordinateFormat`, an a tag starting with "34236:", at least three p tags, at
least one r tag, a non-empty k tag and a non-empty u tag, and a payload whose
escrow_id_list is an array; and an event whose tags are those of any event with the t
tags, the d tags or the marketplace coordinates removed is not accepted. -/
theorem promotion_accepted_requirements (L : GoLib) (event : Event)
    (h : (ValidatePromotionEvent L event).Valid = true) :
    (∃ id rest, id ≠ "" ∧ ("d" :: ("org.attnprotocol:promotion:" ++ id) :: rest) ∈ event.Tags ∧
      getTagValue event "d" = "org.attnprotocol:promotion:" ++ id) ∧
    (∃ v rest n, ("t" :: v :: rest) ∈ event.Tags ∧ getTagValue event "t" = v ∧
      Atoi v = some n) ∧
    (∃ c rest, ("a" :: c :: rest) ∈ event.Tags ∧ HasPrefix c "38188:" = true ∧
      validateCoordinateFormat c 38188 = .ok ()) ∧
    (∃ c rest, ("a" :: c :: rest) ∈ event.Tags ∧ HasPrefix c "38288:" = true ∧
      validateCoordinateFormat c 38288 = .ok ()) ∧
    (∃ c rest, ("a" :: c :: rest) ∈ event.Tags ∧ HasPrefix c "34236:" = true) ∧
    3 ≤ (event.Tags.filter (fun t => decide (t.length ≥ 2 ∧ t.getD 0 "" = "p"))).length ∧
    1 ≤ (event.Tags.filter (fun t => decide (t.length ≥ 2 ∧ t.getD 0 "" = "r"))).length ∧
    (∃ rest, ("k" :: getTagValue event "k" :: rest) ∈ event.Tags ∧ getTagValue event "k" ≠ "") ∧
    (∃ rest, ("u" :: getTagValue event "u" :: rest) ∈ event.Tags ∧ getTagValue event "u" ≠ "") ∧
    (∃ content xs, L.Unmarshal event.Content = some content ∧
      content.lookup "escrow_id_list" = some (JSONValue.array xs)) ∧
    (∀ e2 : Event, e2.Tags = event.Tags.filter (fun t => !decide (t.getD 0 "" = "t")) →
      (ValidatePromotionEvent L e2).Valid = false) ∧
    (∀ e2 : Event, e2.Tags = event.Tags.filter (fun t => !decide (t.getD 0 "" = "d")) →
      (ValidatePromotionEvent L e2).Valid = false) ∧
    (∀ e2 : Event,
      e2.Tags = event.Tags.filter
        (fun t => !(decide (t.getD 0 "" = "a") && HasPrefix (t.getD 1 "") "38188:")) →
      (ValidatePromotionEvent L e2).Valid = false) := by
  obtain ⟨h1, h2, h3, h4, _, h6, h7, _, _, h10, h11, h12, h13, h14, content, hU, _, escrow,
    hE, hA, _, _⟩ := ValidatePromotionEvent_checks L event h
  refine ⟨?_, ?_, coordinate_tag_exists event _ _ h6, coordinate_tag_exists event _ _ h10,
    ?_, ?_, ?_, ?_, ?_, ?_, ?_, ?_, ?_⟩
  · obtain ⟨id, hid, hd⟩ := dTag_literal_of_ok 38388 "promotion" "org.attnprotocol:promotion:"
      _ (by decide) (by decide) h2
    obtain ⟨rest, hmem⟩ := getTagValue_mem event "d" h1
    rw [hd] at hmem
    exact ⟨id, rest, hid, hmem, hd⟩
  · obtain ⟨n, hn⟩ := Atoi_isSome _ h4
    obtain ⟨rest, hmem⟩ := getTagValue_mem event "t" h3
    exact ⟨_, rest, n, hmem, rfl, hn⟩
  · obtain ⟨hp, rest, hmem⟩ := getTagValueByPrefix_mem event "a" "34236:" h7
    exact ⟨_, rest, hmem, hp⟩
  · rw [← getTagValues_length]
    exact Nat.not_lt.1 h11
  · rw [← getTagValues_length]
    exact Nat.pos_of_ne_zero h12
  · obtain ⟨rest, hmem⟩ := getTagValue_mem event "k" h13
    exact ⟨rest, hmem, h13⟩
  · obtain ⟨rest, hmem⟩ := getTagValue_mem event "u" h14
    exact ⟨rest, hmem, h14⟩
  · obtain ⟨xs, hxs⟩ := isArray_of_not_not escrow hA
    rw [hxs] at hE
    exact ⟨content, xs, hU, hE⟩
  · intro e2 he2
    apply eq_false_of_not_true
    intro hv
    exact (ValidatePromotionEvent_checks L e2 hv).2.2.1 (getTagValue_filter_out event e2 "t" he2)
  · intro e2 he2
    apply eq_false_of_not_true
    intro hv
    exact (ValidatePromotionEvent_checks L e2 hv).1 (getTagValue_filter_out event e2 "d" he2)
  · intro e2 he2
    apply eq_false_of_not_true
    intro hv
    exact (ValidatePromotionEvent_checks L e2 hv).2.2.2.2.1
      (getTagValueByPrefix_filter_out event e2 "a" "38188:" he2)

/-- Witness for C22: the Promotion event `promotionEvent` is accepted and has three p
tags. -/
theorem promotion_accepted_requirements_witness :
    (ValidatePromotionEvent chainLib promotionEvent).Valid = true ∧
    3 ≤ (promotionEvent.Tags.filter
      (fun t => decide (t.length ≥ 2 ∧ t.getD 0 "" = "p"))).length ∧
    (ValidatePromotionEvent chainLib
      { promotionEvent with
        Tags := promotionEvent.Tags.filter (fun t => !decide (t.getD 0 "" = "t")) }).Valid
      = false :=
  ⟨by decide,
    (promotion_accepted_requirements chainLib promotionEvent (by decide)).2.2.2.2.2.1,
    (promotion_accepted_requirements chainLib promotionEvent (by decide)).2.2.2.2.2.2.2.2.2.2.1
      _ rfl⟩

/-- Counterexample for C23: the content of `promotionNullEvent` is the text null, which is
not a JSON object; `json.Unmarshal` accepts it without error and leaves the map nil. The
event passes every tag check and is rejected with the missing-field message "Content must
include duration", not with "Content must be valid JSON". -/
theorem promotion_null_payload_counterexample :
    promotionNullEvent.Content = "null" ∧
    promotionNullEvent.Tags = promotionEvent.Tags ∧
    nullLib.Unmarshal promotionNullEvent.Content = some [] ∧
    ValidatePromotionEvent nullLib promotionNullEvent =
      { Valid := false, Message := "Content must include duration" } ∧
    (ValidatePromotionEvent nullLib promotionNullEvent).Message ≠ "Content must be valid JSON" := by
  refine ⟨rfl, rfl, rfl, ?_, ?_⟩ <;> decide

/-- C23, amended: a payload that the decoder refuses is its own failure. For every event
whose content `json.Unmarshal` rejects with an error, `ValidatePromotionEvent` returns
Valid=false, and so does `ValidateEvent` when the kind is 38388; when all tag checks of the
validator pass the result is exactly "Content must be valid JSON" (through `ValidateEvent` as
well, when the event has only official tags); on an event that passes the tag checks and
whose content decodes, the validator returns a missing-field message, a value-rule message
or acceptance, none of which is that message; and an event whose content decodes to a map
without keys, as the content null does, is rejected too, with "Content must include
duration" when the tag checks pass. -/
theorem promotion_malformed_payload (L : GoLib) (event : Event)
    (hU : L.Unmarshal event.Content = none) :
    (ValidatePromotionEvent L event).Valid = false ∧
    (event.Kind = 38388 → ∃ r, ValidateEvent L event = some r ∧ r.Valid = false) ∧
    (((∃ id : String, id ≠ "" ∧
        getTagValue event "d" = "org.attnprotocol:promotion:" ++ id) ∧
      (∃ n, Atoi (getTagValue event "t") = some n) ∧
      validateCoordinateFormat (getTagValueByPrefix event "a" "38188:") 38188 = .ok () ∧
      getTagValueByPrefix event "a" "34236:" ≠ "" ∧
      Contains (getTagValueByPrefix event "a" "34236:") "org.attnprotocol:" = false ∧
      validateCoordinateFormat (getTagValueByPrefix event "a" "38288:") 38288 = .ok () ∧
      3 ≤ (getTagValues event "p").length ∧
      1 ≤ (getTagValues event "r").length ∧
      getTagValue event "k" ≠ "" ∧
      getTagValue event "u" ≠ "") →
      ValidatePromotionEvent L event =
        { Valid := false, Message := "Content must be valid JSON" } ∧
      (event.Kind = 38388 → (validateOfficialTagsOnly event).Valid = true →
        ValidateEvent L event =
          some { Valid := false, Message := "Content must be valid JSON" })) ∧
    (∀ (e2 : Event) (content : JSONObject),
      ((∃ id : String, id ≠ "" ∧
        getTagValue e2 "d" = "org.attnprotocol:promotion:" ++ id) ∧
      (∃ n, Atoi (getTagValue e2 "t") = some n) ∧
      validateCoordinateFormat (getTagValueByPrefix e2 "a" "38188:") 38188 = .ok () ∧
      getTagValueByPrefix e2 "a" "34236:" ≠ "" ∧
      Contains (getTagValueByPrefix e2 "a" "34236:") "org.attnprotocol:" = false ∧
      validateCoordinateFormat (getTagValueByPrefix e2 "a" "38288:") 38288 = .ok () ∧
      3 ≤ (getTagValues e2 "p").length ∧
      1 ≤ (getTagValues e2 "r").length ∧
      getTagValue e2 "k" ≠ "" ∧
      getTagValue e2 "u" ≠ "") →
      L.Unmarshal e2.Content = some content →
      ((∃ f, f ∈ ["duration", "bid", "event_id", "call_to_action", "call_to_action_url", "escrow_id_list",
        "ref_promotion_pubkey", "ref_promotion_id", "ref_marketplace_pubkey",
        "ref_marketplace_id", "ref_billboard_pubkey", "ref_billboard_id"] ∧
          ValidatePromotionEvent L e2 =
            { Valid := false, Message := "Content must include " ++ f }) ∨
        (ValidatePromotionEvent L e2).Message ∈
          ["escrow_id_list must be an array", "bid must be a positive number",
            "duration must be a positive number", "Valid promotion event"]) ∧
      (ValidatePromotionEvent L e2).Message ≠ "Content must be valid JSON") ∧
    (∀ e2 : Event, L.Unmarshal e2.Content = some [] →
      (ValidatePromotionEvent L e2).Valid = false ∧
      (((∃ id : String, id ≠ "" ∧
        getTagValue e2 "d" = "org.attnprotocol:promotion:" ++ id) ∧
      (∃ n, Atoi (getTagValue e2 "t") = some n) ∧
      validateCoordinateFormat (getTagValueByPrefix e2 "a" "38188:") 38188 = .ok () ∧
      getTagValueByPrefix e2 "a" "34236:" ≠ "" ∧
      Contains (getTagValueByPrefix e2 "a" "34236:") "org.attnprotocol:" = false ∧
      validateCoordinateFormat (getTagValueByPrefix e2 "a" "38288:") 38288 = .ok () ∧
      3 ≤ (getTagValues e2 "p").length ∧
      1 ≤ (getTagValues e2 "r").length ∧
      getTagValue e2 "k" ≠ "" ∧
      getTagValue e2 "u" ≠ "") →
        ValidatePromotionEvent L e2 =
          { Valid := false, Message := "Content must include duration" })) ∧
    (∀ f : String, "Content must be valid JSON" ≠ "Content must include " ++ f) ∧
    "Content must be valid JSON" ∉
      ["escrow_id_list must be an array", "bid must be a positive number",
        "duration must be a positive number"] := by
  have hinvalid : (ValidatePromotionEvent L event).Valid = false := by
    apply eq_false_of_not_true
    intro hv
    obtain ⟨_, _, _, _, _, _, _, _, _, _, _, _, _, _, content, hc, _⟩ := ValidatePromotionEvent_checks L event hv
    rw [hU] at hc
    cases hc
  have hroute : event.Kind = 38388 →
      ValidateEvent L event = some (validateOfficialTagsOnly event) ∧
        (validateOfficialTagsOnly event).Valid = false ∨
      ValidateEvent L event = some (ValidatePromotionEvent L event) ∧
        (validateOfficialTagsOnly event).Valid = true := by
    intro hk
    unfold ValidateEvent
    rw [hk]
    rw [if_neg (by decide)]
    cases hg : (validateOfficialTagsOnly event).Valid with
    | false =>
      left
      refine ⟨?_, rfl⟩
      rw [if_pos (by decide)]
    | true =>
      right
      refine ⟨?_, rfl⟩
      rw [if_neg (by decide)]
      rw [if_neg (by decide), if_neg (by decide), if_pos rfl]
  refine ⟨hinvalid, ?_, ?_, ?_, ?_, valid_json_message_ne_missing, by decide⟩
  · intro hk
    rcases hroute hk with ⟨hr, hg⟩ | ⟨hr, _⟩
    · exact ⟨_, hr, hg⟩
    · exact ⟨_, hr, hinvalid⟩
  · rintro ⟨⟨id, hid, hd⟩, ⟨n, hn⟩, hc38188, hvideo, hclean, hc38288, hnp, hnr, hvk, hvu⟩
    have hw := dTag_ok_of_literal 38388 "promotion" "org.attnprotocol:promotion:" id
      (getTagValue event "d") (by decide) (by decide) hid hd
    have hres := ValidatePromotionEvent_bad_json L event hw.2 hw.1 (Atoi_ne_empty _ n hn) (Atoi_not_isNone _ n hn) (coordinate_ne_empty _ _ hc38188) hc38188 hvideo (not_true_of_eq_false _ hclean) (coordinate_ne_empty _ _ hc38288) hc38288 (Nat.not_lt.2 hnp) (Nat.pos_iff_ne_zero.1 hnr) hvk hvu hU
    refine ⟨hres, ?_⟩
    intro hk hg
    rcases hroute hk with ⟨_, hg2⟩ | ⟨hr, _⟩
    · rw [hg] at hg2
      cases hg2
    · rw [hr, hres]
  · rintro e2 content ⟨⟨id, hid, hd⟩, ⟨n, hn⟩, hc38188, hvideo, hclean, hc38288, hnp, hnr, hvk, hvu⟩ hc
    have hw := dTag_ok_of_literal 38388 "promotion" "org.attnprotocol:promotion:" id
      (getTagValue e2 "d") (by decide) (by decide) hid hd
    rcases ValidatePromotionEvent_decoded L e2 hw.2 hw.1 (Atoi_ne_empty _ n hn) (Atoi_not_isNone _ n hn) (coordinate_ne_empty _ _ hc38188) hc38188 hvideo (not_true_of_eq_false _ hclean) (coordinate_ne_empty _ _ hc38288) hc38288 (Nat.not_lt.2 hnp) (Nat.pos_iff_ne_zero.1 hnr) hvk hvu content hc
      with ⟨f, hmem, _, hres⟩ | hres | hres | hres | hres
    · refine ⟨Or.inl ⟨f, hmem, hres⟩, ?_⟩
      rw [hres]
      exact fun heq => valid_json_message_ne_missing f heq.symm
    all_goals
      rw [hres]
      exact ⟨Or.inr (by decide), by decide⟩
  · intro e2 hnil
    constructor
    · apply eq_false_of_not_true
      intro hv
      obtain ⟨_, _, _, _, _, _, _, _, _, _, _, _, _, _, content, hc, hF, _⟩ :=
        ValidatePromotionEvent_checks L e2 hv
      rw [hnil] at hc
      cases hc
      obtain ⟨v, hv2⟩ := (firstMissingField_eq_none_iff _ _).1 hF "duration" (by decide)
      cases hv2
    · rintro ⟨⟨id, hid, hd⟩, ⟨n, hn⟩, hc38188, hvideo, hclean, hc38288, hnp, hnr, hvk, hvu⟩
      have hw := dTag_ok_of_literal 38388 "promotion" "org.attnprotocol:promotion:" id
        (getTagValue e2 "d") (by decide) (by decide) hid hd
      exact ValidatePromotionEvent_missing_field L e2 hw.2 hw.1 (Atoi_ne_empty _ n hn)
        (Atoi_not_isNone _ n hn) (coordinate_ne_empty _ _ hc38188) hc38188 hvideo
        (not_true_of_eq_false _ hclean) (coordinate_ne_empty _ _ hc38288) hc38288
        (Nat.not_lt.2 hnp) (Nat.pos_iff_ne_zero.1 hnr) hvk hvu [] hnil "duration" rfl

/-- Witness for C23, amended: the decoder refuses the content of `promotionBadJsonEvent`;
the event passes the tag checks and is rejected with "Content must be valid JSON". -/
theorem promotion_malformed_payload_witness :
    chainLib.Unmarshal promotionBadJsonEvent.Content = none ∧
    ValidatePromotionEvent chainLib promotionBadJsonEvent =
      { Valid := false, Message := "Content must be valid JSON" } :=
  ⟨rfl,
    ((promotion_malformed_payload chainLib promotionBadJsonEvent rfl).2.2.1
      ⟨⟨"p1", by decide, by decide⟩, ⟨870500, by decide⟩, by decide, by decide, by decide,
        by decide, by decide, by decide, by decide, by decide⟩).1⟩

/-- C24: conditional trusted-list field. An Attention event that has an a tag starting with
"30000:" and ending with "org.attnprotocol:marketplace:trusted" (respectively
"org.attnprotocol:billboard:trusted") and whose payload lacks trusted_marketplaces_id
(respectively trusted_billboards_id) is rejected by `ValidateAttentionEvent`; when the tag
checks pass and the nine required fields are present, the rejection is the message that
names the trusted field. -/
theorem trusted_list_field_required (L : GoLib) (event : Event) (content : JSONObject)
    (hU : L.Unmarshal event.Content = some content) :
    ((∃ tag ∈ event.Tags, 2 ≤ tag.length ∧ tag.getD 0 "" = "a" ∧
        HasPrefix (tag.getD 1 "") "30000:" = true ∧
        HasSuffix (tag.getD 1 "") "org.attnprotocol:marketplace:trusted" = true) →
      content.lookup "trusted_marketplaces_id" = none →
      ∃ r, ValidateAttentionEvent L event = some r ∧ r.Valid = false) ∧
    ((∃ tag ∈ event.Tags, 2 ≤ tag.length ∧ tag.getD 0 "" = "a" ∧
        HasPrefix (tag.getD 1 "") "30000:" = true ∧
        HasSuffix (tag.getD 1 "") "org.attnprotocol:billboard:trusted" = true) →
      content.lookup "trusted_billboards_id" = none →
      ∃ r, ValidateAttentionEvent L event = some r ∧ r.Valid = false) ∧
    (((∃ id : String, id ≠ "" ∧
        getTagValue event "d" = "org.attnprotocol:attention:" ++ id) ∧
      (∃ n, Atoi (getTagValue event "t") = some n) ∧
      validateCoordinateFormat (getTagValueByPrefix event "a" "38188:") 38188 = .ok () ∧
      hasListCoordinate event "org.attnprotocol:promotion:blocked" = true ∧
      hasListCoordinate event "org.attnprotocol:promoter:blocked" = true ∧
      2 ≤ (getTagValues event "p").length ∧
      1 ≤ (getTagValues event "r").length ∧
      1 ≤ (getTagValues event "k").length) →
      (∀ f ∈ ["ask", "min_duration", "max_duration", "ref_attention_pubkey", "ref_attention_id",
        "ref_marketplace_pubkey", "ref_marketplace_id", "blocked_promotions_id",
        "blocked_promoters_id"],
        ∃ v, content.lookup f = some v) →
      hasListCoordinate event "org.attnprotocol:marketplace:trusted" = true →
      content.lookup "trusted_marketplaces_id" = none →
      ValidateAttentionEvent L event =
        some { Valid := false, Message := "trusted_marketplaces_id must be present in content if trusted marketplaces coordinate is in tags" }) ∧
    (((∃ id : String, id ≠ "" ∧
        getTagValue event "d" = "org.attnprotocol:attention:" ++ id) ∧
      (∃ n, Atoi (getTagValue event "t") = some n) ∧
      validateCoordinateFormat (getTagValueByPrefix event "a" "38188:") 38188 = .ok () ∧
      hasListCoordinate event "org.attnprotocol:promotion:blocked" = true ∧
      hasListCoordinate event "org.attnprotocol:promoter:blocked" = true ∧
      2 ≤ (getTagValues event "p").length ∧
      1 ≤ (getTagValues event "r").length ∧
      1 ≤ (getTagValues event "k").length) →
      (∀ f ∈ ["ask", "min_duration", "max_duration", "ref_attention_pubkey", "ref_attention_id",
        "ref_marketplace_pubkey", "ref_marketplace_id", "blocked_promotions_id",
        "blocked_promoters_id"],
        ∃ v, content.lookup f = some v) →
      (hasListCoordinate event "org.attnprotocol:marketplace:trusted" = true →
        ∃ v, content.lookup "trusted_marketplaces_id" = some v) →
      hasListCoordinate event "org.attnprotocol:billboard:trusted" = true →
      content.lookup "trusted_billboards_id" = none →
      ValidateAttentionEvent L event =
        some { Valid := false, Message := "trusted_billboards_id must be present in content if trusted billboards coordinate is in tags" }) := by
  refine ⟨?_, ?_, ?_, ?_⟩
  · intro htag hnone
    have hT := (hasListCoordinate_iff event "org.attnprotocol:marketplace:trusted").2 htag
    obtain ⟨r, hr⟩ := ValidateAttentionEvent_total L event
    refine ⟨r, hr, ?_⟩
    apply eq_false_of_not_true
    intro hv
    obtain ⟨_, _, _, _, _, _, _, _, _, _, _, content2, hc2, _, hm, hb, _⟩ :=
      ValidateAttentionEvent_checks L event r hr hv
    rw [hU] at hc2
    cases hc2
    apply hm
    rw [hT, hnone]
    rfl
  · intro htag hnone
    have hT := (hasListCoordinate_iff event "org.attnprotocol:billboard:trusted").2 htag
    obtain ⟨r, hr⟩ := ValidateAttentionEvent_total L event
    refine ⟨r, hr, ?_⟩
    apply eq_false_of_not_true
    intro hv
    obtain ⟨_, _, _, _, _, _, _, _, _, _, _, content2, hc2, _, hm, hb, _⟩ :=
      ValidateAttentionEvent_checks L event r hr hv
    rw [hU] at hc2
    cases hc2
    apply hb
    rw [hT, hnone]
    rfl
  · rintro ⟨⟨id, hid, hd⟩, ⟨n, hn⟩, hc38188, hm_promotion_blocked, hm_promoter_blocked, hnp, hnr, hnk⟩ hfields hT hnone
    have hw := dTag_ok_of_literal 38488 "attention" "org.attnprotocol:attention:" id
      (getTagValue event "d") (by decide) (by decide) hid hd
    exact ValidateAttentionEvent_trusted_marketplaces_missing L event hw.2 hw.1 (Atoi_ne_empty _ n hn) (Atoi_not_isNone _ n hn) (coordinate_ne_empty _ _ hc38188) hc38188 (not_not_true_of_eq_true _ hm_promotion_blocked) (not_not_true_of_eq_true _ hm_promoter_blocked) (Nat.not_lt.2 hnp) (Nat.pos_iff_ne_zero.1 hnr) (Nat.pos_iff_ne_zero.1 hnk)
      content hU ((firstMissingField_eq_none_iff _ _).2 hfields) hT hnone
  · rintro ⟨⟨id, hid, hd⟩, ⟨n, hn⟩, hc38188, hm_promotion_blocked, hm_promoter_blocked, hnp, hnr, hnk⟩ hfields hM hT hnone
    have hw := dTag_ok_of_literal 38488 "attention" "org.attnprotocol:attention:" id
      (getTagValue event "d") (by decide) (by decide) hid hd
    refine ValidateAttentionEvent_trusted_billboards_missing L event hw.2 hw.1 (Atoi_ne_empty _ n hn) (Atoi_not_isNone _ n hn) (coordinate_ne_empty _ _ hc38188) hc38188 (not_not_true_of_eq_true _ hm_promotion_blocked) (not_not_true_of_eq_true _ hm_promoter_blocked) (Nat.not_lt.2 hnp) (Nat.pos_iff_ne_zero.1 hnr) (Nat.pos_iff_ne_zero.1 hnk)
      content hU ((firstMissingField_eq_none_iff _ _).2 hfields) ?_ hT hnone
    intro hcon
    rw [Bool.and_eq_true] at hcon
    obtain ⟨v, hv⟩ := hM hcon.1
    rw [hv] at hcon
    exact Bool.noConfusion hcon.2

/-- Witness for C24: `attentionTrustedTagEvent` carries the trusted-marketplaces list
coordinate, its payload lacks trusted_marketplaces_id, and it is rejected. -/
theorem trusted_list_field_required_witness :
    chainLib.Unmarshal attentionTrustedTagEvent.Content = some attentionMap ∧
    attentionMap.lookup "trusted_marketplaces_id" = none ∧
    ∃ r, ValidateAttentionEvent chainLib attentionTrustedTagEvent = some r ∧ r.Valid = false :=
  ⟨rfl, rfl,
    (trusted_list_field_required chainLib attentionTrustedTagEvent attentionMap rfl).1
      ⟨["a", "30000:ab:org.attnprotocol:marketplace:trusted"], by decide, by decide, by decide,
        by decide, by decide⟩
      rfl⟩

/-- C25: converse not checked. Two Attention events with the same tags, neither carrying a
trusted-marketplaces or trusted-billboards list coordinate, whose decoded payloads agree on
every field other than trusted_marketplaces_id and trusted_billboards_id, get the same
result from `ValidateAttentionEvent` (the pubkey is not read at all). -/
theorem attention_trusted_fields_unchecked (L : GoLib) (e1 e2 : Event) (c1 c2 : JSONObject)
    (htags : e1.Tags = e2.Tags)
    (hm : hasListCoordinate e1 "org.attnprotocol:marketplace:trusted" = false)
    (hb : hasListCoordinate e1 "org.attnprotocol:billboard:trusted" = false)
    (hU1 : L.Unmarshal e1.Content = some c1) (hU2 : L.Unmarshal e2.Content = some c2)
    (hsame : ∀ f, f ≠ "trusted_marketplaces_id" → f ≠ "trusted_billboards_id" →
      c1.lookup f = c2.lookup f) :
    ValidateAttentionEvent L e1 = ValidateAttentionEvent L e2 := by
  have hm2 : hasListCoordinate e2 "org.attnprotocol:marketplace:trusted" = false := by
    unfold hasListCoordinate at hm ⊢
    rw [← htags]
    exact hm
  have hb2 : hasListCoordinate e2 "org.attnprotocol:billboard:trusted" = false := by
    unfold hasListCoordinate at hb ⊢
    rw [← htags]
    exact hb
  have hfm : firstMissingField c1
      ["ask", "min_duration", "max_duration", "ref_attention_pubkey", "ref_attention_id",
        "ref_marketplace_pubkey", "ref_marketplace_id", "blocked_promotions_id",
        "blocked_promoters_id"]
      = firstMissingField c2
      ["ask", "min_duration", "max_duration", "ref_attention_pubkey", "ref_attention_id",
        "ref_marketplace_pubkey", "ref_marketplace_id", "blocked_promotions_id",
        "blocked_promoters_id"] :=
    firstMissingField_congr c1 c2 _ (fun f hf => hsame f
      (by intro hcon; rw [hcon] at hf; revert hf; decide)
      (by intro hcon; rw [hcon] at hf; revert hf; decide))
  unfold ValidateAttentionEvent
  unfold getTagValue getTagValueByPrefix getTagValues hasListCoordinate
  unfold hasListCoordinate at hm hb hm2 hb2
  simp only []
  rw [htags] at hm hb ⊢
  rw [hU1, hU2]
  simp only []
  rw [hfm, hm2, hb2]
  rw [hsame "ask" (by decide) (by decide), hsame "min_duration" (by decide) (by decide),
    hsame "max_duration" (by decide) (by decide)]
  simp only [Bool.false_and]

/-- Witness for C25: `attentionEvent` and `attentionExtraFieldEvent` have the same tags
without trusted-list coordinates; the payload of the second adds trusted_marketplaces_id;
both get the same result. -/
theorem attention_trusted_fields_unchecked_witness :
    attentionEvent.Tags = attentionExtraFieldEvent.Tags ∧
    attentionMap.lookup "trusted_marketplaces_id" = none ∧
    (∃ v, attentionTrustedMap.lookup "trusted_marketplaces_id" = some v) ∧
    ValidateAttentionEvent chainLib attentionEvent
      = ValidateAttentionEvent chainLib attentionExtraFieldEvent :=
  ⟨rfl, rfl, ⟨_, rfl⟩,
    attention_trusted_fields_unchecked chainLib attentionEvent attentionExtraFieldEvent
      attentionMap attentionTrustedMap rfl (by decide) (by decide) rfl rfl
      (fun f h1 _ => (lookup_append_singleton_of_ne attentionMap "trusted_marketplaces_id" f
        (JSONValue.string "org.attnprotocol:marketplace:trusted") h1).symm)⟩

/-- C26: an event is accepted by `ValidateMatchEvent` exactly when it has a well-formed d
tag, a numeric t tag, format-valid coordinates starting with "38188:", "38288:", "38388:"
and "38488:", at least 4 p tags, at least one r tag, at least one k tag, and a payload that
decodes and contains the nine ref fields; so an accepted event has a tags with these
prefixes that pass `validateCoordinateFormat`, and no e tag is required: the conditions do
not mention e tags, and `matchEvent`, which has none, is accepted. -/
theorem match_accepted_iff (L : GoLib) (event : Event) :
    ((ValidateMatchEvent L event).Valid = true ↔
      (∃ id : String, id ≠ "" ∧
        getTagValue event "d" = "org.attnprotocol:match:" ++ id) ∧
      (∃ n, Atoi (getTagValue event "t") = some n) ∧
      validateCoordinateFormat (getTagValueByPrefix event "a" "38188:") 38188 = .ok () ∧
      validateCoordinateFormat (getTagValueByPrefix event "a" "38288:") 38288 = .ok () ∧
      validateCoordinateFormat (getTagValueByPrefix event "a" "38388:") 38388 = .ok () ∧
      validateCoordinateFormat (getTagValueByPrefix event "a" "38488:") 38488 = .ok () ∧
      4 ≤ (getTagValues event "p").length ∧
      1 ≤ (getTagValues event "r").length ∧
      1 ≤ (getTagValues event "k").length ∧
      ∃ content, L.Unmarshal event.Content = some content ∧
        (∀ f ∈ ["ref_match_id", "ref_promotion_id", "ref_attention_id", "ref_billboard_id",
           "ref_marketplace_id", "ref_marketplace_pubkey", "ref_promotion_pubkey",
           "ref_attention_pubkey", "ref_billboard_pubkey"],
          ∃ v, content.lookup f = some v)) ∧
    ((ValidateMatchEvent L event).Valid = true →
      (∃ c rest, ("a" :: c :: rest) ∈ event.Tags ∧ HasPrefix c "38188:" = true ∧
        validateCoordinateFormat c 38188 = .ok ()) ∧
      (∃ c rest, ("a" :: c :: rest) ∈ event.Tags ∧ HasPrefix c "38288:" = true ∧
        validateCoordinateFormat c 38288 = .ok ()) ∧
      (∃ c rest, ("a" :: c :: rest) ∈ event.Tags ∧ HasPrefix c "38388:" = true ∧
        validateCoordinateFormat c 38388 = .ok ()) ∧
      (∃ c rest, ("a" :: c :: rest) ∈ event.Tags ∧ HasPrefix c "38488:" = true ∧
        validateCoordinateFormat c 38488 = .ok ()) ∧
      4 ≤ (event.Tags.filter (fun t => decide (t.length ≥ 2 ∧ t.getD 0 "" = "p"))).length ∧
      1 ≤ (event.Tags.filter (fun t => decide (t.length ≥ 2 ∧ t.getD 0 "" = "r"))).length ∧
      1 ≤ (event.Tags.filter (fun t => decide (t.length ≥ 2 ∧ t.getD 0 "" = "k"))).length) ∧
    ((ValidateMatchEvent chainLib matchEvent).Valid = true ∧
      ∀ tag ∈ matchEvent.Tags, tag.getD 0 "" ≠ "e") := by
  refine ⟨?_, ?_, ?_⟩
  · constructor
    · intro hv
      obtain ⟨h1, h2, h3, h4, h5, h6, h7, h8, h9, h10, h11, h12, h13, h14, h15, content, hU, hF⟩ :=
        ValidateMatchEvent_checks L event hv
      exact ⟨dTag_literal_of_ok 38888 "match" "org.attnprotocol:match:" _ (by decide) (by decide) h2, Atoi_isSome _ h4, h6, h8, h10, h12, Nat.not_lt.1 h13, Nat.pos_of_ne_zero h14, Nat.pos_of_ne_zero h15,
        content, hU, (firstMissingField_eq_none_iff _ _).1 hF⟩
    · rintro ⟨⟨id, hid, hd⟩, ⟨n, hn⟩, hc38188, hc38288, hc38388, hc38488, hnp, hnr, hnk, content, hU, hF⟩
      have hw := dTag_ok_of_literal 38888 "match" "org.attnprotocol:match:" id
        (getTagValue event "d") (by decide) (by decide) hid hd
      rw [ValidateMatchEvent_accepts L event hw.2 hw.1 (Atoi_ne_empty _ n hn) (Atoi_not_isNone _ n hn) (coordinate_ne_empty _ _ hc38188) hc38188 (coordinate_ne_empty _ _ hc38288) hc38288 (coordinate_ne_empty _ _ hc38388) hc38388 (coordinate_ne_empty _ _ hc38488) hc38488 (Nat.not_lt.2 hnp) (Nat.pos_iff_ne_zero.1 hnr) (Nat.pos_iff_ne_zero.1 hnk)
        content hU ((firstMissingField_eq_none_iff _ _).2 hF)]
  · intro hv
    obtain ⟨_, _, _, _, _, h6, _, h8, _, h10, _, h12, h13, h14, h15, _⟩ :=
      ValidateMatchEvent_checks L event hv
    exact ⟨coordinate_tag_exists event _ _ h6,
      coordinate_tag_exists event _ _ h8,
      coordinate_tag_exists event _ _ h10,
      coordinate_tag_exists event _ _ h12,
      (getTagValues_length event "p") ▸ Nat.not_lt.1 h13,
      (getTagValues_length event "r") ▸ Nat.pos_of_ne_zero h14,
      (getTagValues_length event "k") ▸ Nat.pos_of_ne_zero h15⟩
  · exact ⟨by decide, by decide⟩

/-- Witness for C26: `matchEvent` is accepted and has four p tags. -/
theorem match_accepted_iff_witness :
    (ValidateMatchEvent chainLib matchEvent).Valid = true ∧
    4 ≤ (matchEvent.Tags.filter (fun t => decide (t.length ≥ 2 ∧ t.getD 0 "" = "p"))).length :=
  ⟨by decide, ((match_accepted_iff chainLib matchEvent).2.1 (by decide)).2.2.2.2.1⟩

/-- C27: an event is accepted by `ValidateBillboardConfirmationEvent` (respectively
`ValidateAttentionConfirmationEvent`) exactly when it has a well-formed d tag, a numeric t
tag, format-valid marketplace, billboard, promotion, attention and match coordinates, an e
tag marked "match", at least 5 e tags, at least 4 p tags, at least one r tag, and a payload
that decodes and contains the ten ref fields; so an accepted event has at least 5 e tags
with two or more elements, an e tag with four or more elements whose fourth element is
"match", at least 4 p tags, at least one r tag, and a tags with the five prefixes that pass
`validateCoordinateFormat`. -/
theorem single_party_confirmation_accepted_iff (L : GoLib) (event : Event) :
    ((ValidateBillboardConfirmationEvent L event).Valid = true ↔
      (∃ id : String, id ≠ "" ∧
        getTagValue event "d" = "org.attnprotocol:billboard-confirmation:" ++ id) ∧
      (∃ n, Atoi (getTagValue event "t") = some n) ∧
      validateCoordinateFormat (getTagValueByPrefix event "a" "38188:") 38188 = .ok () ∧
      validateCoordinateFormat (getTagValueByPrefix event "a" "38288:") 38288 = .ok () ∧
      validateCoordinateFormat (getTagValueByPrefix event "a" "38388:") 38388 = .ok () ∧
      validateCoordinateFormat (getTagValueByPrefix event "a" "38488:") 38488 = .ok () ∧
      validateCoordinateFormat (getTagValueByPrefix event "a" "38888:") 38888 = .ok () ∧
      validateETagWithMarker event "match" = true ∧
      5 ≤ (getTagValues event "e").length ∧
      4 ≤ (getTagValues event "p").length ∧
      1 ≤ (getTagValues event "r").length ∧
      ∃ content, L.Unmarshal event.Content = some content ∧
        (∀ f ∈ ["ref_match_event_id", "ref_match_id", "ref_marketplace_pubkey",
           "ref_billboard_pubkey", "ref_promotion_pubkey", "ref_attention_pubkey",
           "ref_marketplace_id", "ref_billboard_id", "ref_promotion_id", "ref_attention_id"],
          ∃ v, content.lookup f = some v)) ∧
    ((ValidateBillboardConfirmationEvent L event).Valid = true →
      (∃ c rest, ("a" :: c :: rest) ∈ event.Tags ∧ HasPrefix c "38188:" = true ∧
        validateCoordinateFormat c 38188 = .ok ()) ∧
      (∃ c rest, ("a" :: c :: rest) ∈ event.Tags ∧ HasPrefix c "38288:" = true ∧
        validateCoordinateFormat c 38288 = .ok ()) ∧
      (∃ c rest, ("a" :: c :: rest) ∈ event.Tags ∧ HasPrefix c "38388:" = true ∧
        validateCoordinateFormat c 38388 = .ok ()) ∧
      (∃ c rest, ("a" :: c :: rest) ∈ event.Tags ∧ HasPrefix c "38488:" = true ∧
        validateCoordinateFormat c 38488 = .ok ()) ∧
      (∃ c rest, ("a" :: c :: rest) ∈ event.Tags ∧ HasPrefix c "38888:" = true ∧
        validateCoordinateFormat c 38888 = .ok ()) ∧
      (∃ tag ∈ event.Tags, 4 ≤ tag.length ∧ tag.getD 0 "" = "e" ∧
        tag.getD 3 "" = "match") ∧
      5 ≤ (event.Tags.filter (fun t => decide (t.length ≥ 2 ∧ t.getD 0 "" = "e"))).length ∧
      4 ≤ (event.Tags.filter (fun t => decide (t.length ≥ 2 ∧ t.getD 0 "" = "p"))).length ∧
      1 ≤ (event.Tags.filter (fun t => decide (t.length ≥ 2 ∧ t.getD 0 "" = "r"))).length) ∧
    ((ValidateAttentionConfirmationEvent L event).Valid = true ↔
      (∃ id : String, id ≠ "" ∧
        getTagValue event "d" = "org.attnprotocol:attention-confirmation:" ++ id) ∧
      (∃ n, Atoi (getTagValue event "t") = some n) ∧
      validateCoordinateFormat (getTagValueByPrefix event "a" "38188:") 38188 = .ok () ∧
      validateCoordinateFormat (getTagValueByPrefix event "a" "38288:") 38288 = .ok () ∧
      validateCoordinateFormat (getTagValueByPrefix event "a" "38388:") 38388 = .ok () ∧
      validateCoordinateFormat (getTagValueByPrefix event "a" "38488:") 38488 = .ok () ∧
      validateCoordinateFormat (getTagValueByPrefix event "a" "38888:") 38888 = .ok () ∧
      validateETagWithMarker event "match" = true ∧
      5 ≤ (getTagValues event "e").length ∧
      4 ≤ (getTagValues event "p").length ∧
      1 ≤ (getTagValues event "r").length ∧
      ∃ content, L.Unmarshal event.Content = some content ∧
        (∀ f ∈ ["ref_match_event_id", "ref_match_id", "ref_marketplace_pubkey",
           "ref_billboard_pubkey", "ref_promotion_pubkey", "ref_attention_pubkey",
           "ref_marketplace_id", "ref_billboard_id", "ref_promotion_id", "ref_attention_id"],
          ∃ v, content.lookup f = some v)) ∧
    ((ValidateAttentionConfirmationEvent L event).Valid = true →
      (∃ c rest, ("a" :: c :: rest) ∈ event.Tags ∧ HasPrefix c "38188:" = true ∧
        validateCoordinateFormat c 38188 = .ok ()) ∧
      (∃ c rest, ("a" :: c :: rest) ∈ event.Tags ∧ HasPrefix c "38288:" = true ∧
        validateCoordinateFormat c 38288 = .ok ()) ∧
      (∃ c rest, ("a" :: c :: rest) ∈ event.Tags ∧ HasPrefix c "38388:" = true ∧
        validateCoordinateFormat c 38388 = .ok ()) ∧
      (∃ c rest, ("a" :: c :: rest) ∈ event.Tags ∧ HasPrefix c "38488:" = true ∧
        validateCoordinateFormat c 38488 = .ok ()) ∧
      (∃ c rest, ("a" :: c :: rest) ∈ event.Tags ∧ HasPrefix c "38888:" = true ∧
        validateCoordinateFormat c 38888 = .ok ()) ∧
      (∃ tag ∈ event.Tags, 4 ≤ tag.length ∧ tag.getD 0 "" = "e" ∧
        tag.getD 3 "" = "match") ∧
      5 ≤ (event.Tags.filter (fun t => decide (t.length ≥ 2 ∧ t.getD 0 "" = "e"))).length ∧
      4 ≤ (event.Tags.filter (fun t => decide (t.length ≥ 2 ∧ t.getD 0 "" = "p"))).length ∧
      1 ≤ (event.Tags.filter (fun t => decide (t.length ≥ 2 ∧ t.getD 0 "" = "r"))).length) := by
  refine ⟨?_, ?_, ?_, ?_⟩
  · constructor
    · intro hv
      obtain ⟨h1, h2, h3, h4, h5, h6, h7, h8, h9, h10, h11, h12, h13, h14, h15, h16, h17, h18, content, hU, hF⟩ :=
        ValidateBillboardConfirmationEvent_checks L event hv
      exact ⟨dTag_literal_of_ok 38588 "billboard-confirmation" "org.attnprotocol:billboard-confirmation:" _ (by decide) (by decide) h2, Atoi_isSome _ h4, h6, h8, h10, h12, h14, eq_true_of_not_not_true _ h15, Nat.not_lt.1 h16, Nat.not_lt.1 h17, Nat.pos_of_ne_zero h18,
        content, hU, (firstMissingField_eq_none_iff _ _).1 hF⟩
    · rintro ⟨⟨id, hid, hd⟩, ⟨n, hn⟩, hc38188, hc38288, hc38388, hc38488, hc38888, hm_match, hne, hnp, hnr, content, hU, hF⟩
      have hw := dTag_ok_of_literal 38588 "billboard-confirmation" "org.attnprotocol:billboard-confirmation:" id
        (getTagValue event "d") (by decide) (by decide) hid hd
      rw [ValidateBillboardConfirmationEvent_accepts L event hw.2 hw.1 (Atoi_ne_empty _ n hn) (Atoi_not_isNone _ n hn) (coordinate_ne_empty _ _ hc38188) hc38188 (coordinate_ne_empty _ _ hc38288) hc38288 (coordinate_ne_empty _ _ hc38388) hc38388 (coordinate_ne_empty _ _ hc38488) hc38488 (coordinate_ne_empty _ _ hc38888) hc38888 (not_not_true_of_eq_true _ hm_match) (Nat.not_lt.2 hne) (Nat.not_lt.2 hnp) (Nat.pos_iff_ne_zero.1 hnr)
        content hU ((firstMissingField_eq_none_iff _ _).2 hF)]
  · intro hv
    obtain ⟨_, _, _, _, _, h6, _, h8, _, h10, _, h12, _, h14, h15, h16, h17, h18, _⟩ :=
      ValidateBillboardConfirmationEvent_checks L event hv
    exact ⟨coordinate_tag_exists event _ _ h6,
      coordinate_tag_exists event _ _ h8,
      coordinate_tag_exists event _ _ h10,
      coordinate_tag_exists event _ _ h12,
      coordinate_tag_exists event _ _ h14,
      (validateETagWithMarker_iff event "match").1 (eq_true_of_not_not_true _ h15),
      (getTagValues_length event "e") ▸ Nat.not_lt.1 h16,
      (getTagValues_length event "p") ▸ Nat.not_lt.1 h17,
      (getTagValues_length event "r") ▸ Nat.pos_of_ne_zero h18⟩
  · constructor
    · intro hv
      obtain ⟨h1, h2, h3, h4, h5, h6, h7, h8, h9, h10, h11, h12, h13, h14, h15, h16, h17, h18, content, hU, hF⟩ :=
        ValidateAttentionConfirmationEvent_checks L event hv
      exact ⟨dTag_literal_of_ok 38688 "attention-confirmation" "org.attnprotocol:attention-confirmation:" _ (by decide) (by decide) h2, Atoi_isSome _ h4, h6, h8, h10, h12, h14, eq_true_of_not_not_true _ h15, Nat.not_lt.1 h16, Nat.not_lt.1 h17, Nat.pos_of_ne_zero h18,
        content, hU, (firstMissingField_eq_none_iff _ _).1 hF⟩
    · rintro ⟨⟨id, hid, hd⟩, ⟨n, hn⟩, hc38188, hc38288, hc38388, hc38488, hc38888, hm_match, hne, hnp, hnr, content, hU, hF⟩
      have hw := dTag_ok_of_literal 38688 "attention-confirmation" "org.attnprotocol:attention-confirmation:" id
        (getTagValue event "d") (by decide) (by decide) hid hd
      rw [ValidateAttentionConfirmationEvent_accepts L event hw.2 hw.1 (Atoi_ne_empty _ n hn) (Atoi_not_isNone _ n hn) (coordinate_ne_empty _ _ hc38188) hc38188 (coordinate_ne_empty _ _ hc38288) hc38288 (coordinate_ne_empty _ _ hc38388) hc38388 (coordinate_ne_empty _ _ hc38488) hc38488 (coordinate_ne_empty _ _ hc38888) hc38888 (not_not_true_of_eq_true _ hm_match) (Nat.not_lt.2 hne) (Nat.not_lt.2 hnp) (Nat.pos_iff_ne_zero.1 hnr)
        content hU ((firstMissingField_eq_none_iff _ _).2 hF)]
  · intro hv
    obtain ⟨_, _, _, _, _, h6, _, h8, _, h10, _, h12, _, h14, h15, h16, h17, h18, _⟩ :=
      ValidateAttentionConfirmationEvent_checks L event hv
    exact ⟨coordinate_tag_exists event _ _ h6,
      coordinate_tag_exists event _ _ h8,
      coordinate_tag_exists event _ _ h10,
      coordinate_tag_exists event _ _ h12,
      coordinate_tag_exists event _ _ h14,
      (validateETagWithMarker_iff event "match").1 (eq_true_of_not_not_true _ h15),
      (getTagValues_length event "e") ▸ Nat.not_lt.1 h16,
      (getTagValues_length event "p") ▸ Nat.not_lt.1 h17,
      (getTagValues_length event "r") ▸ Nat.pos_of_ne_zero h18⟩

/-- Witness for C27: `billboardConfirmationEvent` is accepted and has five e tags. -/
theorem single_party_confirmation_accepted_iff_witness :
    (ValidateBillboardConfirmationEvent chainLib billboardConfirmationEvent).Valid = true ∧
    5 ≤ (billboardConfirmationEvent.Tags.filter
      (fun t => decide (t.length ≥ 2 ∧ t.getD 0 "" = "e"))).length :=
  ⟨by decide,
    ((single_party_confirmation_accepted_iff chainLib billboardConfirmationEvent).2.1
      (by decide)).2.2.2.2.2.2.1⟩

/-- C28: an event is accepted by `ValidateMarketplaceConfirmationEvent` exactly when it has a
well-formed d tag, a numeric t tag, the five format-valid coordinates, e tags marked
"match", "billboard_confirmation" and "attention_confirmation", at least 7 e tags, at least
4 p tags, at least one r tag, and a payload that decodes and contains the twelve ref fields;
so an accepted event has at least 7 e tags, e tags with four or more elements whose fourth
element is each of the three markers, at least 4 p tags and at least one r tag. -/
theorem marketplace_confirmation_accepted_iff (L : GoLib) (event : Event) :
    ((ValidateMarketplaceConfirmationEvent L event).Valid = true ↔
      (∃ id : String, id ≠ "" ∧
        getTagValue event "d" = "org.attnprotocol:marketplace-confirmation:" ++ id) ∧
      (∃ n, Atoi (getTagValue event "t") = some n) ∧
      validateCoordinateFormat (getTagValueByPrefix event "a" "38188:") 38188 = .ok () ∧
      validateCoordinateFormat (getTagValueByPrefix event "a" "38288:") 38288 = .ok () ∧
      validateCoordinateFormat (getTagValueByPrefix event "a" "38388:") 38388 = .ok () ∧
      validateCoordinateFormat (getTagValueByPrefix event "a" "38488:") 38488 = .ok () ∧
      validateCoordinateFormat (getTagValueByPrefix event "a" "38888:") 38888 = .ok () ∧
      validateETagWithMarker event "match" = true ∧
      validateETagWithMarker event "billboard_confirmation" = true ∧
      validateETagWithMarker event "attention_confirmation" = true ∧
      7 ≤ (getTagValues event "e").length ∧
      4 ≤ (getTagValues event "p").length ∧
      1 ≤ (getTagValues event "r").length ∧
      ∃ content, L.Unmarshal event.Content = some content ∧
        (∀ f ∈ ["ref_match_event_id", "ref_match_id", "ref_billboard_confirmation_event_id",
           "ref_attention_confirmation_event_id", "ref_marketplace_pubkey",
           "ref_billboard_pubkey", "ref_promotion_pubkey", "ref_attention_pubkey",
           "ref_marketplace_id", "ref_billboard_id", "ref_promotion_id", "ref_attention_id"],
          ∃ v, content.lookup f = some v)) ∧
    ((ValidateMarketplaceConfirmationEvent L event).Valid = true →
      (∃ c rest, ("a" :: c :: rest) ∈ event.Tags ∧ HasPrefix c "38188:" = true ∧
        validateCoordinateFormat c 38188 = .ok ()) ∧
      (∃ c rest, ("a" :: c :: rest) ∈ event.Tags ∧ HasPrefix c "38288:" = true ∧
        validateCoordinateFormat c 38288 = .ok ()) ∧
      (∃ c rest, ("a" :: c :: rest) ∈ event.Tags ∧ HasPrefix c "38388:" = true ∧
        validateCoordinateFormat c 38388 = .ok ()) ∧
      (∃ c rest, ("a" :: c :: rest) ∈ event.Tags ∧ HasPrefix c "38488:" = true ∧
        validateCoordinateFormat c 38488 = .ok ()) ∧
      (∃ c rest, ("a" :: c :: rest) ∈ event.Tags ∧ HasPrefix c "38888:" = true ∧
        validateCoordinateFormat c 38888 = .ok ()) ∧
      (∃ tag ∈ event.Tags, 4 ≤ tag.length ∧ tag.getD 0 "" = "e" ∧
        tag.getD 3 "" = "match") ∧
      (∃ tag ∈ event.Tags, 4 ≤ tag.length ∧ tag.getD 0 "" = "e" ∧
        tag.getD 3 "" = "billboard_confirmation") ∧
      (∃ tag ∈ event.Tags, 4 ≤ tag.length ∧ tag.getD 0 "" = "e" ∧
        tag.getD 3 "" = "attention_confirmation") ∧
      7 ≤ (event.Tags.filter (fun t => decide (t.length ≥ 2 ∧ t.getD 0 "" = "e"))).length ∧
      4 ≤ (event.Tags.filter (fun t => decide (t.length ≥ 2 ∧ t.getD 0 "" = "p"))).length ∧
      1 ≤ (event.Tags.filter (fun t => decide (t.length ≥ 2 ∧ t.getD 0 "" = "r"))).length) := by
  refine ⟨?_, ?_⟩
  · constructor
    · intro hv
      obtain ⟨h1, h2, h3, h4, h5, h6, h7, h8, h9, h10, h11, h12, h13, h14, h15, h16, h17, h18, h19, h20, content, hU, hF⟩ :=
        ValidateMarketplaceConfirmationEvent_checks L event hv
      exact ⟨dTag_literal_of_ok 38788 "marketplace-confirmation" "org.attnprotocol:marketplace-confirmation:" _ (by decide) (by decide) h2, Atoi_isSome _ h4, h6, h8, h10, h12, h14, eq_true_of_not_not_true _ h15, eq_true_of_not_not_true _ h16, eq_true_of_not_not_true _ h17, Nat.not_lt.1 h18, Nat.not_lt.1 h19, Nat.pos_of_ne_zero h20,
        content, hU, (firstMissingField_eq_none_iff _ _).1 hF⟩
    · rintro ⟨⟨id, hid, hd⟩, ⟨n, hn⟩, hc38188, hc38288, hc38388, hc38488, hc38888, hm_match, hm_billboard_confirmation, hm_attention_confirmation, hne, hnp, hnr, content, hU, hF⟩
      have hw := dTag_ok_of_literal 38788 "marketplace-confirmation" "org.attnprotocol:marketplace-confirmation:" id
        (getTagValue event "d") (by decide) (by decide) hid hd
      rw [ValidateMarketplaceConfirmationEvent_accepts L event hw.2 hw.1 (Atoi_ne_empty _ n hn) (Atoi_not_isNone _ n hn) (coordinate_ne_empty _ _ hc38188) hc38188 (coordinate_ne_empty _ _ hc38288) hc38288 (coordinate_ne_empty _ _ hc38388) hc38388 (coordinate_ne_empty _ _ hc38488) hc38488 (coordinate_ne_empty _ _ hc38888) hc38888 (not_not_true_of_eq_true _ hm_match) (not_not_true_of_eq_true _ hm_billboard_confirmation) (not_not_true_of_eq_true _ hm_attention_confirmation) (Nat.not_lt.2 hne) (Nat.not_lt.2 hnp) (Nat.pos_iff_ne_zero.1 hnr)
        content hU ((firstMissingField_eq_none_iff _ _).2 hF)]
  · intro hv
    obtain ⟨_, _, _, _, _, h6, _, h8, _, h10, _, h12, _, h14, h15, h16, h17, h18, h19, h20, _⟩ :=
      ValidateMarketplaceConfirmationEvent_checks L event hv
    exact ⟨coordinate_tag_exists event _ _ h6,
      coordinate_tag_exists event _ _ h8,
      coordinate_tag_exists event _ _ h10,
      coordinate_tag_exists event _ _ h12,
      coordinate_tag_exists event _ _ h14,
      (validateETagWithMarker_iff event "match").1 (eq_true_of_not_not_true _ h15),
      (validateETagWithMarker_iff event "billboard_confirmation").1 (eq_true_of_not_not_true _ h16),
      (validateETagWithMarker_iff event "attention_confirmation").1 (eq_true_of_not_not_true _ h17),
      (getTagValues_length event "e") ▸ Nat.not_lt.1 h18,
      (getTagValues_length event "p") ▸ Nat.not_lt.1 h19,
      (getTagValues_length event "r") ▸ Nat.pos_of_ne_zero h20⟩

/-- Witness for C28: `marketplaceConfirmationEvent` is accepted and has seven e tags. -/
theorem marketplace_confirmation_accepted_iff_witness :
    (ValidateMarketplaceConfirmationEvent chainLib marketplaceConfirmationEvent).Valid = true ∧
    7 ≤ (marketplaceConfirmationEvent.Tags.filter
      (fun t => decide (t.length ≥ 2 ∧ t.getD 0 "" = "e"))).length :=
  ⟨by decide,
    ((marketplace_confirmation_accepted_iff chainLib marketplaceConfirmationEvent).2
      (by decide)).2.2.2.2.2.2.2.2.1⟩

/-- C29: an event is accepted by `ValidateAttentionPaymentConfirmationEvent` exactly when it
has a well-formed d tag, a numeric t tag, an e tag marked "marketplace_confirmation", the
five format-valid coordinates, at least 4 p tags, at least one r tag, and a payload that
decodes, contains sats_received and the eleven ref fields, and has a number greater than 0
as sats_received; so an accepted event has an e tag with four or more elements whose fourth
element is the marker, and the number of e tags has no lower bound beyond that tag: the
conditions do not count e tags, and `paymentEvent`, whose only e tag carries the marker, is
accepted. -/
theorem payment_confirmation_accepted_iff (L : GoLib) (event : Event) :
    ((ValidateAttentionPaymentConfirmationEvent L event).Valid = true ↔
      (∃ id : String, id ≠ "" ∧
        getTagValue event "d" = "org.attnprotocol:attention-payment-confirmation:" ++ id) ∧
      (∃ n, Atoi (getTagValue event "t") = some n) ∧
      validateETagWithMarker event "marketplace_confirmation" = true ∧
      validateCoordinateFormat (getTagValueByPrefix event "a" "38188:") 38188 = .ok () ∧
      validateCoordinateFormat (getTagValueByPrefix event "a" "38288:") 38288 = .ok () ∧
      validateCoordinateFormat (getTagValueByPrefix event "a" "38388:") 38388 = .ok () ∧
      validateCoordinateFormat (getTagValueByPrefix event "a" "38488:") 38488 = .ok () ∧
      validateCoordinateFormat (getTagValueByPrefix event "a" "38888:") 38888 = .ok () ∧
      4 ≤ (getTagValues event "p").length ∧
      1 ≤ (getTagValues event "r").length ∧
      ∃ content, L.Unmarshal event.Content = some content ∧
        (∀ f ∈ ["sats_received", "ref_match_event_id", "ref_match_id",
           "ref_marketplace_confirmation_event_id", "ref_marketplace_pubkey",
           "ref_billboard_pubkey", "ref_promotion_pubkey", "ref_attention_pubkey",
           "ref_marketplace_id", "ref_billboard_id", "ref_promotion_id", "ref_attention_id"],
          ∃ v, content.lookup f = some v) ∧
        ∃ x : Rat, content.lookup "sats_received" = some (JSONValue.number x) ∧ 0 < x) ∧
    ((ValidateAttentionPaymentConfirmationEvent L event).Valid = true →
      (∃ tag ∈ event.Tags, 4 ≤ tag.length ∧ tag.getD 0 "" = "e" ∧
        tag.getD 3 "" = "marketplace_confirmation") ∧
      (∃ c rest, ("a" :: c :: rest) ∈ event.Tags ∧ HasPrefix c "38188:" = true ∧
        validateCoordinateFormat c 38188 = .ok ()) ∧
      (∃ c rest, ("a" :: c :: rest) ∈ event.Tags ∧ HasPrefix c "38288:" = true ∧
        validateCoordinateFormat c 38288 = .ok ()) ∧
      (∃ c rest, ("a" :: c :: rest) ∈ event.Tags ∧ HasPrefix c "38388:" = true ∧
        validateCoordinateFormat c 38388 = .ok ()) ∧
      (∃ c rest, ("a" :: c :: rest) ∈ event.Tags ∧ HasPrefix c "38488:" = true ∧
        validateCoordinateFormat c 38488 = .ok ()) ∧
      (∃ c rest, ("a" :: c :: rest) ∈ event.Tags ∧ HasPrefix c "38888:" = true ∧
        validateCoordinateFormat c 38888 = .ok ()) ∧
      4 ≤ (event.Tags.filter (fun t => decide (t.length ≥ 2 ∧ t.getD 0 "" = "p"))).length ∧
      1 ≤ (event.Tags.filter (fun t => decide (t.length ≥ 2 ∧ t.getD 0 "" = "r"))).length) ∧
    ((ValidateAttentionPaymentConfirmationEvent chainLib paymentEvent).Valid = true ∧
      (paymentEvent.Tags.filter (fun t => decide (t.getD 0 "" = "e"))).length = 1) := by
  refine ⟨?_, ?_, ?_⟩
  · constructor
    · intro hv
      obtain ⟨h1, h2, h3, h4, h5, h6, h7, h8, h9, h10, h11, h12, h13, h14, h15, h16, h17, content, hU, hF, hS⟩ :=
        ValidateAttentionPaymentConfirmationEvent_checks L event hv
      exact ⟨dTag_literal_of_ok 38988 "attention-payment-confirmation" "org.attnprotocol:attention-payment-confirmation:" _ (by decide) (by decide) h2, Atoi_isSome _ h4, eq_true_of_not_not_true _ h5, h7, h9, h11, h13, h15, Nat.not_lt.1 h16, Nat.pos_of_ne_zero h17,
        content, hU, (firstMissingField_eq_none_iff _ _).1 hF, positive_of_not_notPositive _ hS⟩
    · rintro ⟨⟨id, hid, hd⟩, ⟨n, hn⟩, hm_marketplace_confirmation, hc38188, hc38288, hc38388, hc38488, hc38888, hnp, hnr, content, hU, hF, x, hx, hpos⟩
      have hw := dTag_ok_of_literal 38988 "attention-payment-confirmation" "org.attnprotocol:attention-payment-confirmation:" id
        (getTagValue event "d") (by decide) (by decide) hid hd
      rw [ValidateAttentionPaymentConfirmationEvent_accepts L event hw.2 hw.1 (Atoi_ne_empty _ n hn) (Atoi_not_isNone _ n hn) (not_not_true_of_eq_true _ hm_marketplace_confirmation) (coordinate_ne_empty _ _ hc38188) hc38188 (coordinate_ne_empty _ _ hc38288) hc38288 (coordinate_ne_empty _ _ hc38388) hc38388 (coordinate_ne_empty _ _ hc38488) hc38488 (coordinate_ne_empty _ _ hc38888) hc38888 (Nat.not_lt.2 hnp) (Nat.pos_iff_ne_zero.1 hnr)
        content hU ((firstMissingField_eq_none_iff _ _).2 hF) (not_notPositive_of_positive _ x hx hpos)]
  · intro hv
    obtain ⟨_, _, _, _, h5, _, h7, _, h9, _, h11, _, h13, _, h15, h16, h17, _⟩ :=
      ValidateAttentionPaymentConfirmationEvent_checks L event hv
    exact ⟨(validateETagWithMarker_iff event "marketplace_confirmation").1 (eq_true_of_not_not_true _ h5),
      coordinate_tag_exists event _ _ h7,
      coordinate_tag_exists event _ _ h9,
      coordinate_tag_exists event _ _ h11,
      coordinate_tag_exists event _ _ h13,
      coordinate_tag_exists event _ _ h15,
      (getTagValues_length event "p") ▸ Nat.not_lt.1 h16,
      (getTagValues_length event "r") ▸ Nat.pos_of_ne_zero h17⟩
  · exact ⟨by decide, by decide⟩

/-- Witness for C29: `paymentEvent` is accepted and its payload has sats_received 100. -/
theorem payment_confirmation_accepted_iff_witness :
    (ValidateAttentionPaymentConfirmationEvent chainLib paymentEvent).Valid = true ∧
    4 ≤ (paymentEvent.Tags.filter (fun t => decide (t.length ≥ 2 ∧ t.getD 0 "" = "p"))).length :=
  ⟨by decide,
    ((payment_confirmation_accepted_iff chainLib paymentEvent).2.1
      (by decide)).2.2.2.2.2.2.1⟩

/-- Counterexample for C30: `unmarkedFewPEvent` is a Billboard Confirmation event that
passes the identifier, height and coordinate checks and has three p tags and no e tag; the
validator reports the missing "match" marker, not the missing p tags. And
`paymentBareEvent` is an Attention Payment Confirmation event with a well-formed d tag and
a numeric t tag, without a tags and without the marker; the validator reports the missing
marker, not the missing marketplace coordinate. -/
theorem check_order_counterexample :
    (getTagValues unmarkedFewPEvent "p").length < 4 ∧
    validateETagWithMarker unmarkedFewPEvent "match" = false ∧
    ValidateBillboardConfirmationEvent chainLib unmarkedFewPEvent =
      { Valid := false, Message := "Missing 'e' tag with 'match' marker" } ∧
    ValidateBillboardConfirmationEvent chainLib unmarkedFewPEvent ≠
      { Valid := false, Message := "Missing required 'p' tags (marketplace_pubkey, promotion_pubkey, attention_pubkey, billboard_pubkey)" } ∧
    getTagValueByPrefix paymentBareEvent "a" "38188:" = "" ∧
    validateETagWithMarker paymentBareEvent "marketplace_confirmation" = false ∧
    ValidateAttentionPaymentConfirmationEvent chainLib paymentBareEvent =
      { Valid := false, Message := "Missing 'e' tag with 'marketplace_confirmation' marker" } ∧
    ¬ HasPrefix (ValidateAttentionPaymentConfirmationEvent chainLib paymentBareEvent).Message
      "Missing marketplace coordinate 'a' tag" = true := by
  refine ⟨?_, ?_, ?_, ?_, ?_, ?_, ?_, ?_⟩ <;> decide

/-- C30, amended: the confirmations check the marker before the tag cardinalities, and the
Attention Payment Confirmation validator checks it before the coordinates. An Attention
Payment Confirmation event with a well-formed d tag and a numeric t tag that has no a tag
starting with "38188:" gets the missing-marketplace-coordinate message when it carries an e
tag with the "marketplace_confirmation" marker, and the missing-marker message otherwise. A
Billboard Confirmation event that passes the identifier, height and coordinate checks and has
fewer than 4 p tags gets the missing-marker message when the "match" marker is absent, the
missing-e-tags message when the marker is present and there are fewer than 5 e tags, and the
missing-p-tags message when the marker is present and there are at least 5 e tags. -/
theorem confirmation_check_order (L : GoLib) (event : Event) :
    (((∃ id : String, id ≠ "" ∧
      getTagValue event "d" = "org.attnprotocol:attention-payment-confirmation:" ++ id) ∧
      (∃ n, Atoi (getTagValue event "t") = some n) ∧
      (∀ t ∈ event.Tags,
        ¬ (2 ≤ t.length ∧ t.getD 0 "" = "a" ∧ HasPrefix (t.getD 1 "") "38188:" = true))) →
      (validateETagWithMarker event "marketplace_confirmation" = true →
        ValidateAttentionPaymentConfirmationEvent L event =
          { Valid := false, Message := "Missing marketplace coordinate 'a' tag (format: 38188:pubkey:org.attnprotocol:marketplace:id)" }) ∧
      (validateETagWithMarker event "marketplace_confirmation" = false →
        ValidateAttentionPaymentConfirmationEvent L event =
          { Valid := false, Message := "Missing 'e' tag with 'marketplace_confirmation' marker" })) ∧
    (((∃ id : String, id ≠ "" ∧
      getTagValue event "d" = "org.attnprotocol:billboard-confirmation:" ++ id) ∧
      (∃ n, Atoi (getTagValue event "t") = some n) ∧
      validateCoordinateFormat (getTagValueByPrefix event "a" "38188:") 38188 = .ok () ∧
      validateCoordinateFormat (getTagValueByPrefix event "a" "38288:") 38288 = .ok () ∧
      validateCoordinateFormat (getTagValueByPrefix event "a" "38388:") 38388 = .ok () ∧
      validateCoordinateFormat (getTagValueByPrefix event "a" "38488:") 38488 = .ok () ∧
      validateCoordinateFormat (getTagValueByPrefix event "a" "38888:") 38888 = .ok () ∧
      (getTagValues event "p").length < 4) →
      (validateETagWithMarker event "match" = false →
        ValidateBillboardConfirmationEvent L event =
          { Valid := false, Message := "Missing 'e' tag with 'match' marker" }) ∧
      (validateETagWithMarker event "match" = true → (getTagValues event "e").length < 5 →
        ValidateBillboardConfirmationEvent L event =
          { Valid := false, Message := "Missing required 'e' tags (must reference marketplace, billboard, promotion, attention, and match events)" }) ∧
      (validateETagWithMarker event "match" = true → 5 ≤ (getTagValues event "e").length →
        ValidateBillboardConfirmationEvent L event =
          { Valid := false, Message := "Missing required 'p' tags (marketplace_pubkey, promotion_pubkey, attention_pubkey, billboard_pubkey)" })) := by
  refine ⟨?_, ?_⟩
  · rintro ⟨⟨id, hid, hd⟩, ⟨n, hn⟩, hno⟩
    have hw := dTag_ok_of_literal 38988 "attention-payment-confirmation" "org.attnprotocol:attention-payment-confirmation:" id
      (getTagValue event "d") (by decide) (by decide) hid hd
    have h1 := hw.2
    have h2 := hw.1
    have h3 := Atoi_ne_empty _ n hn
    have h4 := Atoi_not_isNone _ n hn
    have hcoord := getTagValueByPrefix_eq_empty_of_no_tag event "a" "38188:" hno
    constructor
    · intro hm
      unfold ValidateAttentionPaymentConfirmationEvent
      simp only []
      rw [if_neg h1]
      rw [h2]; try simp only []
      rw [if_neg h3]
      rw [if_neg h4]
      rw [if_neg (not_not_true_of_eq_true _ hm)]
      rw [if_pos hcoord]
    · intro hm
      unfold ValidateAttentionPaymentConfirmationEvent
      simp only []
      rw [if_neg h1]
      rw [h2]; try simp only []
      rw [if_neg h3]
      rw [if_neg h4]
      rw [if_pos (by rw [hm]; rfl)]
  · rintro ⟨⟨id, hid, hd⟩, ⟨n, hn⟩, hc38188, hc38288, hc38388, hc38488, hc38888, hp⟩
    have hw := dTag_ok_of_literal 38588 "billboard-confirmation" "org.attnprotocol:billboard-confirmation:" id
      (getTagValue event "d") (by decide) (by decide) hid hd
    have h1 := hw.2
    have h2 := hw.1
    have h3 := Atoi_ne_empty _ n hn
    have h4 := Atoi_not_isNone _ n hn
    have h5 := coordinate_ne_empty _ _ hc38188
    have h6 := hc38188
    have h7 := coordinate_ne_empty _ _ hc38288
    have h8 := hc38288
    have h9 := coordinate_ne_empty _ _ hc38388
    have h10 := hc38388
    have h11 := coordinate_ne_empty _ _ hc38488
    have h12 := hc38488
    have h13 := coordinate_ne_empty _ _ hc38888
    have h14 := hc38888
    refine ⟨?_, ?_, ?_⟩
    · intro hm
      unfold ValidateBillboardConfirmationEvent
      simp only []
      rw [if_neg h1]
      rw [h2]; try simp only []
      rw [if_neg h3]
      rw [if_neg h4]
      rw [if_neg h5]
      rw [h6]; try simp only []
      rw [if_neg h7]
      rw [h8]; try simp only []
      rw [if_neg h9]
      rw [h10]; try simp only []
      rw [if_neg h11]
      rw [h12]; try simp only []
      rw [if_neg h13]
      rw [h14]; try simp only []
      rw [if_pos (by rw [hm]; rfl)]
    · intro hm he
      unfold ValidateBillboardConfirmationEvent
      simp only []
      rw [if_neg h1]
      rw [h2]; try simp only []
      rw [if_neg h3]
      rw [if_neg h4]
      rw [if_neg h5]
      rw [h6]; try simp only []
      rw [if_neg h7]
      rw [h8]; try simp only []
      rw [if_neg h9]
      rw [h10]; try simp only []
      rw [if_neg h11]
      rw [h12]; try simp only []
      rw [if_neg h13]
      rw [h14]; try simp only []
      rw [if_neg (not_not_true_of_eq_true _ hm)]
      rw [if_pos he]
    · intro hm he
      unfold ValidateBillboardConfirmationEvent
      simp only []
      rw [if_neg h1]
      rw [h2]; try simp only []
      rw [if_neg h3]
      rw [if_neg h4]
      rw [if_neg h5]
      rw [h6]; try simp only []
      rw [if_neg h7]
      rw [h8]; try simp only []
      rw [if_neg h9]
      rw [h10]; try simp only []
      rw [if_neg h11]
      rw [h12]; try simp only []
      rw [if_neg h13]
      rw [h14]; try simp only []
      rw [if_neg (not_not_true_of_eq_true _ hm)]
      rw [if_neg (Nat.not_lt.2 he)]
      rw [if_pos hp]

/-- Witness for C30, amended: `markedFewPEvent` passes the identifier, height and coordinate
checks of the Billboard Confirmation validator, carries the "match" marker among five e
tags and has three p tags: the missing-p-tags message is reported; and
`paymentNoCoordinateEvent` carries the marker and lacks the marketplace coordinate: the
missing-coordinate message is reported. -/
theorem confirmation_check_order_witness :
    ValidateBillboardConfirmationEvent chainLib markedFewPEvent =
      { Valid := false, Message := "Missing required 'p' tags (marketplace_pubkey, promotion_pubkey, attention_pubkey, billboard_pubkey)" } ∧
    ValidateAttentionPaymentConfirmationEvent chainLib paymentNoCoordinateEvent =
      { Valid := false, Message := "Missing marketplace coordinate 'a' tag (format: 38188:pubkey:org.attnprotocol:marketplace:id)" } :=
  ⟨((confirmation_check_order chainLib markedFewPEvent).2
      ⟨⟨"c1", by decide, by decide⟩, ⟨870500, by decide⟩, by decide, by decide, by decide,
        by decide, by decide, by decide⟩).2.2 (by decide) (by decide),
    ((confirmation_check_order chainLib paymentNoCoordinateEvent).1
      ⟨⟨"c3", by decide, by decide⟩, ⟨870500, by decide⟩, by decide⟩).1 (by decide)⟩

/-- C31: `getTagValues event name` is the list of element 1 of exactly those tags that have
at least 2 elements and element 0 equal to `name`, in tag order: it is the filtered tag list
mapped to element 1, every tag it reads has positions 0 and 1 (no access is out of bounds),
shorter tags contribute nothing, the result is empty when no tag qualifies, and the values
of a concatenated tag list are the values of its parts in the same order. -/
theorem getTagValues_spec (event : Event) (name : String) :
    getTagValues event name
      = (event.Tags.filter (fun t => decide (t.length ≥ 2 ∧ t.getD 0 "" = name))).map
          (fun t => t.getD 1 "") ∧
    (∀ tag ∈ event.Tags.filter (fun t => decide (t.length ≥ 2 ∧ t.getD 0 "" = name)),
      tag[0]? = some name ∧ tag[1]? = some (tag.getD 1 "")) ∧
    (∀ before tag after, event.Tags = before ++ tag :: after → tag.length < 2 →
      ∀ e2 : Event, e2.Tags = before ++ after →
        getTagValues event name = getTagValues e2 name) ∧
    ((∀ tag ∈ event.Tags, ¬ (2 ≤ tag.length ∧ tag[0]? = some name)) →
      getTagValues event name = []) ∧
    (∀ e1 e2 : Event, event.Tags = e1.Tags ++ e2.Tags →
      getTagValues event name = getTagValues e1 name ++ getTagValues e2 name) := by
  refine ⟨getTagValuesIn_eq_filter_map name event.Tags, ?_, ?_, ?_, ?_⟩
  · intro tag htag
    rw [List.mem_filter, decide_eq_true_eq] at htag
    have hb := tag_two_in_bounds tag htag.2.1
    rw [htag.2.2] at hb
    exact hb
  · intro before tag after htags hshort e2 he2
    unfold getTagValues
    rw [htags, he2, getTagValuesIn_append, getTagValuesIn_append]
    congr 1
    rw [getTagValuesIn, if_neg (fun h => absurd h.1 (Nat.not_le.2 hshort))]
  · intro hnone
    unfold getTagValues
    rw [getTagValuesIn_eq_filter_map]
    have hfil : event.Tags.filter (fun t => decide (t.length ≥ 2 ∧ t.getD 0 "" = name)) = [] := by
      rw [List.filter_eq_nil_iff]
      intro tag htag hcon
      rw [decide_eq_true_eq] at hcon
      apply hnone tag htag
      refine ⟨hcon.1, ?_⟩
      rw [(tag_two_in_bounds tag hcon.1).1, hcon.2]
    rw [hfil]
    rfl
  · intro e1 e2 htags
    unfold getTagValues
    rw [htags, getTagValuesIn_append]

/-- C32: `validateETagWithMarker event marker` is true exactly when some tag of the event
has at least 4 elements, element 0 equal to "e" and element 3 equal to the marker; it is
false for the empty tag list and when every e tag has fewer than 4 elements. -/
theorem validateETagWithMarker_spec (event : Event) (marker : String) :
    (validateETagWithMarker event marker = true ↔
      ∃ tag ∈ event.Tags, 4 ≤ tag.length ∧ tag[0]? = some "e" ∧ tag[3]? = some marker) ∧
    (event.Tags = [] → validateETagWithMarker event marker = false) ∧
    ((∀ tag ∈ event.Tags, tag[0]? = some "e" → tag.length < 4) →
      validateETagWithMarker event marker = false) := by
  have hiff : validateETagWithMarker event marker = true ↔
      ∃ tag ∈ event.Tags, 4 ≤ tag.length ∧ tag[0]? = some "e" ∧ tag[3]? = some marker := by
    rw [validateETagWithMarker_iff]
    constructor
    · rintro ⟨tag, hmem, hlen, h0, h3⟩
      have hb := tag_four_in_bounds tag hlen
      rw [h0, h3] at hb
      exact ⟨tag, hmem, hlen, hb.1, hb.2⟩
    · rintro ⟨tag, hmem, hlen, h0, h3⟩
      have hb := tag_four_in_bounds tag hlen
      rw [h0, h3] at hb
      exact ⟨tag, hmem, hlen, (Option.some.inj hb.1).symm, (Option.some.inj hb.2).symm⟩
  refine ⟨hiff, ?_, ?_⟩
  · intro hnil
    apply eq_false_of_not_true
    intro htrue
    obtain ⟨tag, hmem, _⟩ := hiff.1 htrue
    rw [hnil] at hmem
    cases hmem
  · intro hshort
    apply eq_false_of_not_true
    intro htrue
    obtain ⟨tag, hmem, hlen, h0, _⟩ := hiff.1 htrue
    exact absurd hlen (Nat.not_le.2 (hshort tag hmem h0))

/-- C33: `getTagValueByPrefix event name pre` is element 1 of the earliest tag that has at
least 2 elements, element 0 equal to `name` and element 1 starting with `pre`, and the
empty string when there is no such tag; `getTagValue event name` is
`getTagValueByPrefix event name ""`; a non-empty result starts with the prefix. -/
theorem getTagValueByPrefix_spec (event : Event) (name pre : String) :
    (((∀ t ∈ event.Tags,
          ¬ (2 ≤ t.length ∧ t[0]? = some name ∧ ∃ v, t[1]? = some v ∧ HasPrefix v pre = true)) ∧
        getTagValueByPrefix event name pre = "") ∨
      (∃ before v rest after, event.Tags = before ++ (name :: v :: rest) :: after ∧
        (∀ t ∈ before,
          ¬ (2 ≤ t.length ∧ t[0]? = some name ∧ ∃ w, t[1]? = some w ∧ HasPrefix w pre = true)) ∧
        HasPrefix v pre = true ∧ getTagValueByPrefix event name pre = v)) ∧
    getTagValue event name = getTagValueByPrefix event name "" ∧
    (getTagValueByPrefix event name pre ≠ "" →
      HasPrefix (getTagValueByPrefix event name pre) pre = true) := by
  have hconv : ∀ t : List String,
      (2 ≤ t.length ∧ t[0]? = some name ∧ ∃ v, t[1]? = some v ∧ HasPrefix v pre = true) →
      (2 ≤ t.length ∧ t.getD 0 "" = name ∧ HasPrefix (t.getD 1 "") pre = true) := by
    rintro t ⟨hlen, h0, v, h1, hp⟩
    have hb := tag_two_in_bounds t hlen
    rw [h0, h1] at hb
    refine ⟨hlen, (Option.some.inj hb.1).symm, ?_⟩
    rw [← Option.some.inj hb.2]
    exact hp
  refine ⟨?_, ?_, fun h => (getTagValueByPrefix_mem event name pre h).1⟩
  · unfold getTagValueByPrefix
    rcases getTagValueByPrefixIn_spec name pre event.Tags with
      ⟨hno, hres⟩ | ⟨before, v, rest, after, htags, hno, hp, hres⟩
    · exact Or.inl ⟨fun t ht hcon => hno t ht (hconv t hcon), hres⟩
    · exact Or.inr ⟨before, v, rest, after, htags, fun t ht hcon => hno t ht (hconv t hcon),
        hp, hres⟩
  · unfold getTagValue getTagValueByPrefix
    rw [getTagValueByPrefixIn_empty]

/-- C34: the video coordinate of a Promotion is not format-checked. The first a tag of
`bareVideoEvent` that starts with "34236:" has the value "34236:", which has two
colon-separated segments and which `validateCoordinateFormat` refuses for kind 34236; all
other tags and the payload are well-formed, and `ValidatePromotionEvent` accepts the
event. -/
theorem promotion_video_format_unchecked :
    getTagValueByPrefix bareVideoEvent "a" "34236:" = "34236:" ∧
    (Split "34236:" ':').length = 2 ∧
    validateCoordinateFormat "34236:" 34236 =
      .error "coordinate format invalid: expected kind:pubkey:identifier" ∧
    ValidatePromotionEvent chainLib bareVideoEvent =
      { Valid := true, Message := "Valid promotion event" } := by
  refine ⟨?_, ?_, ?_, ?_⟩ <;> decide

/-- C35: `parseHeight` succeeds exactly on a JSON number (any number) and on a string that
parses as a base-10 signed 64-bit integer; it fails on booleans, null, arrays, objects and
strings that do not parse; and a Block event whose payload decodes and has such a height is
never accepted by `ValidateBlockUpdateEvent`, the result being exactly "Block content
'height' must be numeric" when the tag checks pass. -/
theorem parseHeight_spec (L : GoLib) (event : Event) (v : JSONValue) :
    (parseHeight v = .ok () ↔
      (∃ x : Rat, v = JSONValue.number x) ∨
      (∃ s n, v = JSONValue.string s ∧ Atoi s = some n ∧
        -(2 : Int) ^ 63 ≤ n ∧ n ≤ (2 : Int) ^ 63 - 1)) ∧
    (∀ b, parseHeight (JSONValue.bool b) ≠ .ok ()) ∧
    parseHeight JSONValue.null ≠ .ok () ∧
    (∀ xs, parseHeight (JSONValue.array xs) ≠ .ok ()) ∧
    (∀ kvs, parseHeight (JSONValue.object kvs) ≠ .ok ()) ∧
    (∀ s, Atoi s = none → parseHeight (JSONValue.string s) ≠ .ok ()) ∧
    (∀ content, L.Unmarshal event.Content = some content →
      content.lookup "height" = some v → parseHeight v ≠ .ok () →
      (ValidateBlockUpdateEvent L event).Valid = false ∧
      (((∃ id : String, id ≠ "" ∧
          getTagValue event "d" = "org.attnprotocol:block:" ++ id) ∧
        (∃ n, Atoi (getTagValue event "t") = some n) ∧
        1 ≤ (getTagValues event "p").length ∧
        1 ≤ (getTagValues event "r").length) →
        ValidateBlockUpdateEvent L event =
          { Valid := false, Message := "Block content 'height' must be numeric" })) := by
  refine ⟨?_, ?_, ?_, ?_, ?_, ?_, ?_⟩
  · rw [parseHeight_ok_iff]
    constructor
    · rintro (hx | ⟨s, n, hs, hn⟩)
      · exact Or.inl hx
      · exact Or.inr ⟨s, n, hs, hn, Atoi_range s n hn⟩
    · rintro (hx | ⟨s, n, hs, hn, _⟩)
      · exact Or.inl hx
      · exact Or.inr ⟨s, n, hs, hn⟩
  · intro b h
    cases h
  · intro h
    cases h
  · intro xs h
    cases h
  · intro kvs h
    cases h
  · intro s hs h
    rcases (parseHeight_ok_iff _).1 h with ⟨_, hx⟩ | ⟨s2, n, hs2, hn⟩
    · cases hx
    · cases hs2
      rw [hs] at hn
      cases hn
  · intro content hU hH hP
    constructor
    · apply eq_false_of_not_true
      intro hv
      obtain ⟨_, _, _, _, _, _, content2, hU2, height2, hH2, hP2, _⟩ :=
        ValidateBlockUpdateEvent_checks L event hv
      rw [hU] at hU2
      cases hU2
      rw [hH] at hH2
      cases hH2
      exact hP hP2
    · rintro ⟨⟨id, hid, hd⟩, ⟨n, hn⟩, hnp, hnr⟩
      have hw := dTag_ok_of_literal 38088 "block" "org.attnprotocol:block:" id
        (getTagValue event "d") (by decide) (by decide) hid hd
      exact ValidateBlockUpdateEvent_bad_height L event hw.2 hw.1 (Atoi_ne_empty _ n hn) (Atoi_not_isNone _ n hn) (Nat.pos_iff_ne_zero.1 hnp) (Nat.pos_iff_ne_zero.1 hnr)
        content hU v hH hP

/-- Witness for C35: the payload of `boolHeightEvent` has the boolean true as height; the
event passes the tag checks and is rejected with "Block content 'height' must be numeric",
while `stringHeightEvent`, whose height is the string "870500", is accepted. -/
theorem parseHeight_spec_witness :
    boolHeightMap.lookup "height" = some (JSONValue.bool true) ∧
    ValidateBlockUpdateEvent driftLib boolHeightEvent =
      { Valid := false, Message := "Block content 'height' must be numeric" } ∧
    ValidateBlockUpdateEvent driftLib stringHeightEvent =
      { Valid := true, Message := "Valid block event" } :=
  ⟨rfl,
    ((parseHeight_spec driftLib boolHeightEvent (JSONValue.bool true)).2.2.2.2.2.2
      boolHeightMap rfl rfl (fun h => by cases h)).2
      ⟨⟨"870500:00ab", by decide, by decide⟩, ⟨870500, by decide⟩, by decide, by decide⟩,
    by decide⟩

/-- C36: the two Marketplace validators require different payload fields. For an event
whose content decodes: go-core `ValidateMarketplaceEvent` rejects it when the payload lacks
ref_clock_pubkey or any of billboard_count, promotion_count, attention_count, match_count,
whatever else the payload holds; helpers.go `ValidateMarketplaceEvent` rejects it when the
payload lacks ref_node_pubkey, and its result does not depend on ref_clock_pubkey or the four
count fields at all. `nodeFieldEvent` is accepted by helpers.go and rejected by go-core,
`clockFieldEvent` is accepted by go-core and rejected by helpers.go. -/
theorem marketplace_field_drift (L : GoLib) (event : Event) (content : JSONObject)
    (hU : L.Unmarshal event.Content = some content) :
    (∀ f ∈ ["ref_clock_pubkey", "billboard_count", "promotion_count", "attention_count",
        "match_count"],
      content.lookup f = none →
      ∃ r, GoCore.ValidateMarketplaceEvent L event = some r ∧ r.Valid = false) ∧
    (content.lookup "ref_node_pubkey" = none →
      ∃ r, ValidateMarketplaceEvent L event = some r ∧ r.Valid = false) ∧
    (∀ (e2 : Event) (c2 : JSONObject), e2.Tags = event.Tags →
      L.Unmarshal e2.Content = some c2 →
      (∀ f, f ∉ ["ref_clock_pubkey", "billboard_count", "promotion_count", "attention_count",
          "match_count"] → c2.lookup f = content.lookup f) →
      ValidateMarketplaceEvent L e2 = ValidateMarketplaceEvent L event) ∧
    (ValidateMarketplaceEvent driftLib nodeFieldEvent
        = some { Valid := true, Message := "Valid marketplace event" } ∧
      GoCore.ValidateMarketplaceEvent driftLib nodeFieldEvent
        = some { Valid := false, Message := "Content must include ref_clock_pubkey" } ∧
      GoCore.ValidateMarketplaceEvent driftLib clockFieldEvent
        = some { Valid := true, Message := "Valid marketplace event" } ∧
      ValidateMarketplaceEvent driftLib clockFieldEvent
        = some { Valid := false, Message := "Content must include ref_node_pubkey" }) := by
  refine ⟨?_, ?_, ?_, by decide, by decide, by decide, by decide⟩
  · intro f hmem hnone
    obtain ⟨r, hr⟩ := GoCore_ValidateMarketplaceEvent_total L event
    refine ⟨r, hr, ?_⟩
    apply eq_false_of_not_true
    intro hv
    obtain ⟨_, _, _, _, _, _, _, _, _, content2, hU2, hF1, hF2, _⟩ :=
      GoCore_ValidateMarketplaceEvent_checks L event r hr hv
    rw [hU] at hU2
    cases hU2
    have hall1 := (firstMissingField_eq_none_iff _ _).1 hF1
    have hall2 := (firstMissingField_eq_none_iff _ _).1 hF2
    have hpresent : ∃ v, content.lookup f = some v := by
      simp only [List.mem_cons, List.mem_singleton, List.not_mem_nil, or_false] at hmem
      rcases hmem with h | h | h | h | h
      · exact hall1 f (by rw [h]; decide)
      · exact hall2 f (by rw [h]; decide)
      · exact hall2 f (by rw [h]; decide)
      · exact hall2 f (by rw [h]; decide)
      · exact hall2 f (by rw [h]; decide)
    obtain ⟨v, hv2⟩ := hpresent
    rw [hnone] at hv2
    cases hv2
  · intro hnone
    obtain ⟨r, hr⟩ := ValidateMarketplaceEvent_total L event
    refine ⟨r, hr, ?_⟩
    apply eq_false_of_not_true
    intro hv
    obtain ⟨_, _, _, _, _, _, _, _, _, content2, hU2, hF1, _⟩ :=
      ValidateMarketplaceEvent_checks L event r hr hv
    rw [hU] at hU2
    cases hU2
    obtain ⟨v, hv2⟩ := (firstMissingField_eq_none_iff _ _).1 hF1 "ref_node_pubkey" (by decide)
    rw [hnone] at hv2
    cases hv2
  · intro e2 c2 htags hU2 hsame
    have hfm : firstMissingField c2
        ["name", "description", "admin_pubkey", "min_duration", "max_duration", "match_fee_sats",
         "confirmation_fee_sats", "ref_marketplace_pubkey", "ref_marketplace_id",
         "ref_node_pubkey", "ref_block_id"]
        = firstMissingField content
        ["name", "description", "admin_pubkey", "min_duration", "max_duration", "match_fee_sats",
         "confirmation_fee_sats", "ref_marketplace_pubkey", "ref_marketplace_id",
         "ref_node_pubkey", "ref_block_id"] :=
      firstMissingField_congr c2 content _ (fun f hf => hsame f
        (by intro hcon; revert hf; revert hcon; revert f; decide))
    unfold ValidateMarketplaceEvent
    unfold getTagValue getTagValueByPrefix getTagValues
    simp only []
    rw [htags, hU, hU2]
    simp only []
    rw [hfm]
    rw [hsame "min_duration" (by decide), hsame "max_duration" (by decide),
      hsame "match_fee_sats" (by decide), hsame "confirmation_fee_sats" (by decide)]

/-- Witness for C36: the payload of `nodeFieldEvent` decodes and lacks ref_clock_pubkey, so
go-core rejects the event, which helpers.go accepts. -/
theorem marketplace_field_drift_witness :
    driftLib.Unmarshal nodeFieldEvent.Content = some nodeMarketplaceMap ∧
    nodeMarketplaceMap.lookup "ref_clock_pubkey" = none ∧
    (∃ v, nodeMarketplaceMap.lookup "ref_node_pubkey" = some v) ∧
    ∃ r, GoCore.ValidateMarketplaceEvent driftLib nodeFieldEvent = some r ∧ r.Valid = false :=
  ⟨rfl, rfl, ⟨_, rfl⟩,
    (marketplace_field_drift driftLib nodeFieldEvent nodeMarketplaceMap rfl).1
      "ref_clock_pubkey" (by decide) rfl⟩
/-- Counterexample for C37: "38808:cd:org.cityprotocol:block:870500:00ab" has the block
coordinate format documented for go-core Marketplace events, and `validateCoordinateFormat`
as defined in helpers.go refuses it for kind 38808. -/
theorem city_block_coordinate_counterexample :
    validateCoordinateFormat "38808:cd:org.cityprotocol:block:870500:00ab" 38808
      = .error "protocol coordinate must include 'org.attnprotocol:' prefix" ∧
    validateCoordinateFormat "38808:cd:org.cityprotocol:block:870500:00ab" 38808 ≠ .ok () := by
  constructor <;> decide

/-- C37, amended: `validateCoordinateFormat` as defined in helpers.go refuses the block
coordinate format documented for go-core Marketplace events. Kind 38808 lies in the range
38088..38988, for which the function demands "org.attnprotocol" as third segment: every
coordinate `38808:<clock_pubkey>:org.cityprotocol:block:<height>:<hash>` with a colon-free
pubkey is refused for kind 38808 with "protocol coordinate must include 'org.attnprotocol:'
prefix", and the same coordinate written with the namespace `org.attnprotocol` is
accepted. -/
theorem city_block_coordinate_rejected (pk height hash : String) (hpk : ':' ∉ pk.data) :
    validateCoordinateFormat
        ("38808:" ++ pk ++ ":org.cityprotocol:block:" ++ height ++ ":" ++ hash) 38808
      = .error "protocol coordinate must include 'org.attnprotocol:' prefix" ∧
    validateCoordinateFormat
        ("38808:" ++ pk ++ ":org.attnprotocol:block:" ++ height ++ ":" ++ hash) 38808
      = .ok () := by
  constructor
  · have e : "38808:" ++ pk ++ ":org.cityprotocol:block:" ++ height ++ ":" ++ hash
        = "38808" ++ (":" ++ (pk ++ (":" ++ ("org.cityprotocol" ++
            (":" ++ ("block:" ++ height ++ ":" ++ hash)))))) := by
      rw [string_eq_iff_data]
      simp
    have hs : Split ("38808:" ++ pk ++ ":org.cityprotocol:block:" ++ height ++ ":" ++ hash) ':'
        = "38808" :: pk :: "org.cityprotocol" ::
            Split ("block:" ++ height ++ ":" ++ hash) ':' := by
      rw [e, Split_cons _ _ (by decide), Split_cons _ _ hpk, Split_cons _ _ (by decide)]
    apply validateCoordinateFormat_other_namespace
    · decide
    · rw [hs]
      have hpos := Split_length_pos ("block:" ++ height ++ ":" ++ hash)
      simp only [List.length_cons]
      omega
    · rw [hs]
      show Atoi "38808" = some 38808
      decide
    · rw [hs]
      show "org.cityprotocol" ≠ "org.attnprotocol"
      decide
  · have e : "38808:" ++ pk ++ ":org.attnprotocol:block:" ++ height ++ ":" ++ hash
        = "38808" ++ (":" ++ (pk ++ (":" ++ ("org.attnprotocol" ++
            (":" ++ ("block" ++ (":" ++ (height ++ ":" ++ hash)))))))) := by
      rw [string_eq_iff_data]
      simp
    have hs : Split ("38808:" ++ pk ++ ":org.attnprotocol:block:" ++ height ++ ":" ++ hash) ':'
        = "38808" :: pk :: "org.attnprotocol" :: "block" ::
            Split (height ++ ":" ++ hash) ':' := by
      rw [e, Split_cons _ _ (by decide), Split_cons _ _ hpk, Split_cons _ _ (by decide),
        Split_cons _ _ (by decide)]
    apply validateCoordinateFormat_of_segments
    · rw [hs]
      have hpos := Split_length_pos (height ++ ":" ++ hash)
      simp only [List.length_cons]
      omega
    · rw [hs]
      show Atoi "38808" = some 38808
      decide
    · rw [hs]
      rfl
    · rw [hs]
      show "block" ≠ ""
      decide

/-- Witness for C37, amended: with pubkey "cd", height "870500" and hash "00ab" the
documented coordinate is refused and its `org.attnprotocol` variant is accepted. -/
theorem city_block_coordinate_rejected_witness :
    validateCoordinateFormat
        ("38808:" ++ "cd" ++ ":org.cityprotocol:block:" ++ "870500" ++ ":" ++ "00ab") 38808
      = .error "protocol coordinate must include 'org.attnprotocol:' prefix" ∧
    validateCoordinateFormat
        ("38808:" ++ "cd" ++ ":org.attnprotocol:block:" ++ "870500" ++ ":" ++ "00ab") 38808
      = .ok () :=
  city_block_coordinate_rejected "cd" "870500" "00ab" (by decide)

/-- C38: the single-result assertions of the duration comparison never fail. Both
Marketplace validators and `ValidateAttentionEvent` return a result for every event (the
panic outcome `none` is never produced), hence so does `ValidateEvent` for every kind and
go-core `ValidateATTNEvent` on Marketplace events; the reason is that once the two guards
before the comparison have let a payload through, min_duration and max_duration are both
present and are numbers. -/
theorem duration_assertions_never_panic (L : GoLib) (event : Event) :
    (∃ r, ValidateMarketplaceEvent L event = some r) ∧
    (∃ r, GoCore.ValidateMarketplaceEvent L event = some r) ∧
    (∃ r, ValidateAttentionEvent L event = some r) ∧
    (∃ r, ValidateEvent L event = some r) ∧
    (∀ S : GoCore.Siblings, event.Kind = 38188 →
      ∃ r, GoCore.ValidateATTNEvent S L event = some r) ∧
    (∀ content : JSONObject,
      notPositive (asFloat (content.lookup "min_duration")) = false →
      notPositive (asFloat (content.lookup "max_duration")) = false →
      ∃ minDur maxDur : Rat,
        content.lookup "min_duration" = some (JSONValue.number minDur) ∧
        content.lookup "max_duration" = some (JSONValue.number maxDur) ∧
        asFloat (content.lookup "min_duration") = some minDur ∧
        asFloat (content.lookup "max_duration") = some maxDur) := by
  refine ⟨ValidateMarketplaceEvent_total L event, GoCore_ValidateMarketplaceEvent_total L event,
    ValidateAttentionEvent_total L event, ?_, ?_, ?_⟩
  · unfold ValidateEvent
    by_cases h1 : (!mapGet AllowedEventKinds event.Kind) = true
    · rw [if_pos h1]
      exact ⟨_, rfl⟩
    rw [if_neg h1]
    by_cases h2 : (mapGet attnProtocolKinds event.Kind &&
        !(validateOfficialTagsOnly event).Valid) = true
    · rw [if_pos h2]
      exact ⟨_, rfl⟩
    rw [if_neg h2]
    by_cases k1 : event.Kind = 38188
    · rw [if_pos k1]
      exact ValidateMarketplaceEvent_total L event
    rw [if_neg k1]
    by_cases k2 : event.Kind = 38288
    · rw [if_pos k2]
      exact ⟨_, rfl⟩
    rw [if_neg k2]
    by_cases k3 : event.Kind = 38388
    · rw [if_pos k3]
      exact ⟨_, rfl⟩
    rw [if_neg k3]
    by_cases k4 : event.Kind = 38488
    · rw [if_pos k4]
      exact ValidateAttentionEvent_total L event
    rw [if_neg k4]
    by_cases k5 : event.Kind = 38588
    · rw [if_pos k5]
      exact ⟨_, rfl⟩
    rw [if_neg k5]
    by_cases k6 : event.Kind = 38688
    · rw [if_pos k6]
      exact ⟨_, rfl⟩
    rw [if_neg k6]
    by_cases k7 : event.Kind = 38788
    · rw [if_pos k7]
      exact ⟨_, rfl⟩
    rw [if_neg k7]
    by_cases k8 : event.Kind = 38888
    · rw [if_pos k8]
      exact ⟨_, rfl⟩
    rw [if_neg k8]
    by_cases k9 : event.Kind = 38088
    · rw [if_pos k9]
      exact ⟨_, rfl⟩
    rw [if_neg k9]
    by_cases k10 : event.Kind = 38988
    · rw [if_pos k10]
      exact ⟨_, rfl⟩
    rw [if_neg k10]
    exact ⟨_, rfl⟩
  · intro S hk
    unfold GoCore.ValidateATTNEvent
    by_cases h2 : (mapGet GoCore.ATTNProtocolKinds event.Kind &&
        !(GoCore.validateOfficialTagsOnly event).Valid) = true
    · rw [if_pos h2]
      exact ⟨_, rfl⟩
    rw [if_neg h2, if_pos hk]
    exact GoCore_ValidateMarketplaceEvent_total L event
  · intro content hmin hmax
    obtain ⟨x, hx, _⟩ := positive_of_not_notPositive _ (not_true_of_eq_false _ hmin)
    obtain ⟨y, hy, _⟩ := positive_of_not_notPositive _ (not_true_of_eq_false _ hmax)
    refine ⟨x, y, hx, hy, ?_, ?_⟩
    · rw [hx]
      rfl
    · rw [hy]
      rfl

/-- C39: an empty identifier value counts as a missing tag and only the first d tag counts.
For an event whose first tag named d with at least 2 elements has the empty string as
value, `getTagValue event "d"` is empty and every per-kind validator (the ten of helpers.go
and the go-core Marketplace validator) returns its "Missing 'd' tag (...)" message, whatever
tags follow. -/
theorem empty_first_d_tag_rejected (L : GoLib) (event : Event)
    (before : List (List String)) (rest : List String) (after : List (List String))
    (htags : event.Tags = before ++ ("d" :: "" :: rest) :: after)
    (hfirst : ∀ t ∈ before, ¬ (2 ≤ t.length ∧ t[0]? = some "d")) :
    getTagValue event "d" = "" ∧
    ValidateMarketplaceEvent L event =
      some { Valid := false, Message := "Missing 'd' tag (marketplace identifier)" } ∧
    GoCore.ValidateMarketplaceEvent L event =
      some { Valid := false, Message := "Missing 'd' tag (marketplace identifier)" } ∧
    ValidateBillboardEvent L event =
      { Valid := false, Message := "Missing 'd' tag (billboard identifier)" } ∧
    ValidatePromotionEvent L event =
      { Valid := false, Message := "Missing 'd' tag (promotion identifier)" } ∧
    ValidateAttentionEvent L event =
      some { Valid := false, Message := "Missing 'd' tag (attention identifier)" } ∧
    ValidateMatchEvent L event =
      { Valid := false, Message := "Missing 'd' tag (match identifier)" } ∧
    ValidateBillboardConfirmationEvent L event =
      { Valid := false, Message := "Missing 'd' tag (confirmation identifier)" } ∧
    ValidateAttentionConfirmationEvent L event =
      { Valid := false, Message := "Missing 'd' tag (confirmation identifier)" } ∧
    ValidateMarketplaceConfirmationEvent L event =
      { Valid := false, Message := "Missing 'd' tag (confirmation identifier)" } ∧
    ValidateAttentionPaymentConfirmationEvent L event =
      { Valid := false, Message := "Missing 'd' tag (confirmation identifier)" } ∧
    ValidateBlockUpdateEvent L event =
      { Valid := false, Message := "Missing 'd' tag (block identifier)" } := by
  have hd : getTagValue event "d" = "" := by
    unfold getTagValue
    rw [htags]
    exact getTagValueIn_first "d" "" before rest after hfirst
  refine ⟨hd, ?_, ?_, ?_, ?_, ?_, ?_, ?_, ?_, ?_, ?_, ?_⟩
  · unfold ValidateMarketplaceEvent
    simp only []
    rw [if_pos hd]
  · unfold GoCore.ValidateMarketplaceEvent
    simp only []
    rw [if_pos hd]
  · unfold ValidateBillboardEvent
    simp only []
    rw [if_pos hd]
  · unfold ValidatePromotionEvent
    simp only []
    rw [if_pos hd]
  · unfold ValidateAttentionEvent
    simp only []
    rw [if_pos hd]
  · unfold ValidateMatchEvent
    simp only []
    rw [if_pos hd]
  · unfold ValidateBillboardConfirmationEvent
    simp only []
    rw [if_pos hd]
  · unfold ValidateAttentionConfirmationEvent
    simp only []
    rw [if_pos hd]
  · unfold ValidateMarketplaceConfirmationEvent
    simp only []
    rw [if_pos hd]
  · unfold ValidateAttentionPaymentConfirmationEvent
    simp only []
    rw [if_pos hd]
  · unfold ValidateBlockUpdateEvent
    simp only []
    rw [if_pos hd]

/-- Witness for C39: `emptyFirstDEvent` has a d tag of empty value followed by the
well-formed d tag of `promotionEvent` and all its other tags; it is rejected with
"Missing 'd' tag (promotion identifier)", while `promotionEvent` is accepted. -/
theorem empty_first_d_tag_rejected_witness :
    emptyFirstDEvent.Tags = ["d", ""] :: promotionEvent.Tags ∧
    (ValidatePromotionEvent chainLib promotionEvent).Valid = true ∧
    ValidatePromotionEvent chainLib emptyFirstDEvent =
      { Valid := false, Message := "Missing 'd' tag (promotion identifier)" } :=
  ⟨rfl, by decide,
    (empty_first_d_tag_rejected chainLib emptyFirstDEvent [] [] promotionEvent.Tags rfl
      (fun _ h => absurd h (List.not_mem_nil _))).2.2.2.2.1⟩

/-- Counterexample for C40: ":" is a non-empty string, and the coordinate
"38188::org.attnprotocol:::" built from it is rejected by `validateCoordinateFormat` because
its event-type segment is empty; "marketplace:x" is a non-empty string, and the identifier
"org.attnprotocol:marketplace:x:" built from it is accepted by `validateDTagFormat` for kind
38188; and for the non-empty string "foo" the identifier "org.attnprotocol:foo:" is rejected
for its event type, not for an empty identifier. -/
theorem coordinate_event_type_counterexample :
    (":" : String) ≠ "" ∧
    validateCoordinateFormat (fmtInt 38188 ++ "::org.attnprotocol:" ++ ":" ++ ":") 38188
      = .error "protocol coordinate event type is empty" ∧
    ("marketplace:x" : String) ≠ "" ∧
    validateDTagFormat 38188 ("org.attnprotocol:" ++ "marketplace:x" ++ ":") = .ok () ∧
    validateDTagFormat 38188 ("org.attnprotocol:" ++ "foo" ++ ":")
      = .error "d tag event type mismatch: expected 'marketplace', got 'foo'" := by
  refine ⟨?_, ?_, ?_, ?_, ?_⟩ <;> decide

/-- C40, amended: `validateCoordinateFormat` does not require a non-empty pubkey or
identifier and does not compare the event-type segment with the kind. For every integer `k`
from 38088 to 38988 and every non-empty string `t` without a colon, the coordinate
`<k>::org.attnprotocol:<t>:` is accepted by `validateCoordinateFormat` for kind `k`, while
`validateDTagFormat` rejects the identifier `org.attnprotocol:<t>:` for every kind: with
"d tag identifier is empty" when `t` is the event type of the kind, and with the event type
mismatch when the kind has another event type. -/
theorem coordinate_accepts_empty_parts (k : Int) (t : String)
    (hr : 38088 ≤ k ∧ k ≤ 38988) (ht : t ≠ "") (htc : ':' ∉ t.data) :
    validateCoordinateFormat (fmtInt k ++ "::org.attnprotocol:" ++ t ++ ":") k = .ok () ∧
    (∀ k2 : Int, validateDTagFormat k2 ("org.attnprotocol:" ++ t ++ ":") ≠ .ok ()) ∧
    (eventTypeMap.lookup k = some t →
      validateDTagFormat k ("org.attnprotocol:" ++ t ++ ":")
        = .error "d tag identifier is empty") ∧
    (∀ name, eventTypeMap.lookup k = some name → t ≠ name →
      validateDTagFormat k ("org.attnprotocol:" ++ t ++ ":")
        = .error ("d tag event type mismatch: expected '" ++ name ++ "', got '" ++ t ++ "'")) := by
  obtain ⟨hk, hcol⟩ := Atoi_fmtInt_protocol_range k hr
  have hs := Split_bare_coordinate (fmtInt k) t hcol htc
  refine ⟨?_, fun k2 => bare_identifier_rejected k2 t htc, bare_identifier_empty k t,
    fun name hl hne => bare_identifier_mismatch k t name htc hl hne⟩
  apply validateCoordinateFormat_of_segments
  · rw [hs]
    exact Nat.le_refl 5
  · rw [hs]
    exact hk
  · rw [hs]
    rfl
  · rw [hs]
    exact ht

/-- Witness for C40, amended: with kind 38188 and the event type "promotion", the coordinate
"38188::org.attnprotocol:promotion:" is accepted although 38188 is the Marketplace kind,
and the identifier "org.attnprotocol:promotion:" is rejected for kind 38188. -/
theorem coordinate_accepts_empty_parts_witness :
    validateCoordinateFormat (fmtInt 38188 ++ "::org.attnprotocol:" ++ "promotion" ++ ":") 38188
      = .ok () ∧
    validateDTagFormat 38188 ("org.attnprotocol:" ++ "promotion" ++ ":") ≠ .ok () :=
  ⟨(coordinate_accepts_empty_parts 38188 "promotion" (by decide) (by decide) (by decide)).1,
    (coordinate_accepts_empty_parts 38188 "promotion" (by decide) (by decide) (by decide)).2.1
      38188⟩

end Attn
